import Mathlib

/-!
Verification of the lich-ta-rs lunisolar calendar converter.

The Rust source (src/util.rs, src/ngay_ta.rs) is embedded shallowly:
f64 arithmetic is modelled by real numbers, i32 by integers with explicit
saturating truncation where the source casts, and the panic in
`From<f64> for JulianMonthIndex` by an `Option` returning `none`.
-/

namespace LichTa

/-! ## Integer / rational groundwork -/

/-- Truncation toward zero of a real number, as performed by Rust float
to int casts and by `f64::trunc`. -/
noncomputable def rtrunc (x : ℝ) : ℤ := if 0 ≤ x then ⌊x⌋ else ⌈x⌉

/-- Smallest `i32` value. -/
def i32min : ℤ := -2147483648

/-- Largest `i32` value. -/
def i32max : ℤ := 2147483647

/-- Rust `as i32` cast from a float: truncation toward zero with
saturation at the `i32` range endpoints. -/
noncomputable def castI32 (x : ℝ) : ℤ := max i32min (min i32max (rtrunc x))

/-- Truncation toward zero on rationals (exact model of the same cast for
inputs that are exactly representable). -/
def ratTrunc (x : ℚ) : ℤ := if 0 ≤ x then ⌊x⌋ else ⌈x⌉

/-- Rust `as i32` on rationals: truncation toward zero with saturation. -/
def i32SatTrunc (x : ℚ) : ℤ := max i32min (min i32max (ratTrunc x))

/-- Embedding of `impl From<f64> for JulianMonthIndex` from src/util.rs.
The source checks only `value <= i32::MAX` and panics (modelled as `none`)
when the check fails; otherwise it performs the saturating truncating
`as i32` cast.  Inputs are exact rationals standing for finite doubles. -/
def JulianMonthIndex.fromReal (value : ℚ) : Option ℤ :=
  if value ≤ 2147483647 then some (i32SatTrunc value) else none

/-- Rust float remainder `x % y`: `x - y * trunc (x / y)`, sign of the
dividend. -/
noncomputable def rustFmod (x y : ℝ) : ℝ := x - y * ((rtrunc (x / y) : ℤ) : ℝ)

/-- Degrees to radians, as `f64::to_radians`. -/
noncomputable def toRadians (x : ℝ) : ℝ := x * (Real.pi / 180)

/-! ## External date collaborator -/

/-- Modelled from the spec: the external date library converting a valid
Gregorian date to its (integer) Julian day number; standard
Fliegel-Van-Flandern formula with truncating integer division. -/
def jdnOfGregorian (y m d : ℤ) : ℤ :=
  Int.tdiv (1461 * (y + 4800 + Int.tdiv (m - 14) 12)) 4
    + Int.tdiv (367 * (m - 2 - 12 * Int.tdiv (m - 14) 12)) 12
    - Int.tdiv (3 * Int.tdiv (y + 4900 + Int.tdiv (m - 14) 12) 100) 4
    + d - 32075

/-- Modelled from the spec: Julian day number of December 31 of a year,
as obtained in `get_lunar_month_11` from the external date library. -/
def jdnDec31 (y : ℤ) : ℤ := jdnOfGregorian y 12 31

/-- A calendar date as the core sees it: the source only reads
`date.to_julian_day()` and `date.year()` from the external `Date`. -/
structure Date where
  year : ℤ
  julianDay : ℤ

/-- Gregorian date constructor going through the external library model. -/
def mkDate (y m d : ℤ) : Date := ⟨y, jdnOfGregorian y m d⟩

/-- Validity of a `Date` value: its Julian day belongs to its own year. -/
def Date.validG (date : Date) : Prop :=
  jdnDec31 (date.year - 1) < date.julianDay ∧ date.julianDay ≤ jdnDec31 date.year

instance (date : Date) : Decidable date.validG := by
  unfold Date.validG; infer_instance

/-! ## Astronomical kernels (src/util.rs) -/

/-- Embedding of `JulianMonthIndex::from_julian_day`. -/
noncomputable def from_julian_day (jd : ℝ) : ℤ :=
  castI32 ((jd - 2415021.076998695) / 29.530588853)

/-- Julian centuries since J2000.0, the `t` of `sun_longitude_aa98`. -/
noncomputable def slT (jdn : ℝ) : ℝ := (jdn - 2451545.0) / 36525.0

/-- Mean anomaly polynomial of `sun_longitude_aa98` (named so that the
sine arguments of the embedding are stable subterms in proofs). -/
noncomputable def slMeanAnomaly (jdn : ℝ) : ℝ :=
  357.52910 + 35999.05030 * slT jdn - 0.0001559 * (slT jdn * slT jdn)
    - 0.00000048 * slT jdn * (slT jdn * slT jdn)

/-- Mean longitude polynomial of `sun_longitude_aa98`. -/
noncomputable def slMeanLongitude (jdn : ℝ) : ℝ :=
  280.46645 + 36000.76983 * slT jdn + 0.0003032 * (slT jdn * slT jdn)

/-- True solar longitude before reduction: mean longitude plus equation of
the center, from `sun_longitude_aa98` in src/util.rs. -/
noncomputable def trueLongitudeOf (jdn : ℝ) : ℝ :=
  slMeanLongitude jdn
    + ((1.914600 - 0.004817 * slT jdn - 0.000014 * (slT jdn * slT jdn))
          * Real.sin (toRadians (slMeanAnomaly jdn))
        + (0.019993 - 0.000101 * slT jdn) * Real.sin (2 * toRadians (slMeanAnomaly jdn))
        + 0.000290 * Real.sin (3 * toRadians (slMeanAnomaly jdn)))

/-- Embedding of `normalize_longitude`: plain `% 360.0`. -/
noncomputable def normalize_longitude (longitude : ℝ) : ℝ := rustFmod longitude 360

/-- Embedding of `sun_longitude_aa98`. -/
noncomputable def sun_longitude_aa98 (jdn : ℝ) : ℝ :=
  normalize_longitude (trueLongitudeOf jdn)

/-- Embedding of `get_sun_longitude`. -/
noncomputable def get_sun_longitude (jdn timezone : ℝ) : ℝ :=
  sun_longitude_aa98 (jdn - 0.5 - timezone / 24)

/-- Time in Julian centuries from 1900 January 0.5, the `t` of
`new_moon_aa98`. -/
noncomputable def nmT (k : ℤ) : ℝ := (k : ℝ) / 1236.85

/-- Argument of the sine inside the mean-new-moon term of `new_moon_aa98`. -/
noncomputable def nmMeanArg (k : ℤ) : ℝ :=
  166.56 + 132.87 * nmT k - 0.009173 * (nmT k * nmT k)

/-- Sun's mean anomaly of `new_moon_aa98`. -/
noncomputable def nmSunAnomaly (k : ℤ) : ℝ :=
  359.2242 + 29.10535608 * (k : ℝ) - 0.0000333 * (nmT k * nmT k)
    - 0.00000347 * (nmT k * nmT k * nmT k)

/-- Moon's mean anomaly of `new_moon_aa98`. -/
noncomputable def nmMoonAnomaly (k : ℤ) : ℝ :=
  306.0253 + 385.81691806 * (k : ℝ) + 0.0107306 * (nmT k * nmT k)
    + 0.00001236 * (nmT k * nmT k * nmT k)

/-- Moon's argument of latitude of `new_moon_aa98`. -/
noncomputable def nmMoonArgLat (k : ℤ) : ℝ :=
  21.2964 + 390.67050646 * (k : ℝ) - 0.0016528 * (nmT k * nmT k)
    - 0.00000239 * (nmT k * nmT k * nmT k)

/-- Embedding of `new_moon_aa98` (fractional Julian day of new moon number
`k`); the `JulianMonthIndex` argument is its underlying integer, and the
sine arguments are the named polynomials above. -/
noncomputable def new_moon_aa98 (k : ℤ) : ℝ :=
  let mean_new_moon := 2415020.75933 + 29.53058868 * (k : ℝ)
      + 0.0001178 * (nmT k * nmT k)
      - 0.000000155 * (nmT k * nmT k * nmT k)
      + 0.00033 * Real.sin (toRadians (nmMeanArg k))
  let lunar_correction :=
    (0.1734 - 0.000393 * nmT k) * Real.sin (toRadians (nmSunAnomaly k))
      + 0.0021 * Real.sin (2 * toRadians (nmSunAnomaly k))
      - (0.4068 * Real.sin (toRadians (nmMoonAnomaly k))
          + 0.0161 * Real.sin (2 * toRadians (nmMoonAnomaly k)))
      - 0.0004 * Real.sin (3 * toRadians (nmMoonAnomaly k))
      + (0.0104 * Real.sin (2 * toRadians (nmMoonArgLat k))
          - 0.0051 * Real.sin (toRadians (nmSunAnomaly k + nmMoonAnomaly k)))
      - (0.0074 * Real.sin (toRadians (nmSunAnomaly k - nmMoonAnomaly k))
          + 0.0004 * Real.sin (toRadians (2 * nmMoonArgLat k + nmSunAnomaly k)))
      - (0.0004 * Real.sin (toRadians (2 * nmMoonArgLat k - nmSunAnomaly k))
          - 0.0006 * Real.sin (toRadians (2 * nmMoonArgLat k + nmMoonAnomaly k)))
      + (0.0010 * Real.sin (toRadians (2 * nmMoonArgLat k - nmMoonAnomaly k))
          + 0.0005 * Real.sin (toRadians (2 * nmMoonAnomaly k + nmSunAnomaly k)))
  let delta_t :=
    if nmT k < -11 then
      0.001 + 0.000839 * nmT k + 0.0002261 * (nmT k * nmT k)
        - 0.00000845 * (nmT k * nmT k * nmT k)
        - 0.000000081 * nmT k * (nmT k * nmT k * nmT k)
    else
      -0.000278 + 0.000265 * nmT k + 0.000262 * (nmT k * nmT k)
  mean_new_moon + lunar_correction - delta_t

/-- Embedding of `get_new_moon_day`: `(jd + 0.5 + timezone/24).floor()`. -/
noncomputable def get_new_moon_day (k : ℤ) (timezone : ℝ) : ℝ :=
  ((⌊new_moon_aa98 k + 0.5 + timezone / 24⌋ : ℤ) : ℝ)

open Classical in
/-- Embedding of `get_lunar_month_11`. -/
noncomputable def get_lunar_month_11 (year : ℤ) (timezone : ℝ) : ℝ :=
  let julian_day : ℝ := ((jdnDec31 year : ℤ) : ℝ)
  let k := from_julian_day julian_day
  let new_moon_day := get_new_moon_day k timezone
  let sun_longitute : ℝ := ((rtrunc (get_sun_longitude new_moon_day timezone / 30) : ℤ) : ℝ)
  if sun_longitute ≥ 9 then get_new_moon_day (k - 1) timezone else new_moon_day

open Classical in
/-- Loop body of `get_leap_month_offset`, peeled into fuel recursion:
`fuel` many iterations remain, `i` is the current offset, `last` the
previous iteration's solar-longitude segment (`0.0` initially). -/
noncomputable def leapScan (k : ℤ) (timezone : ℝ) : ℕ → ℤ → ℝ → ℤ
  | 0, _, _ => 14
  | fuel + 1, i, last =>
      let day_number := get_new_moon_day (k + i) timezone
      let solar_longitude : ℝ := ((⌊get_sun_longitude day_number timezone / 30⌋ : ℤ) : ℝ)
      if solar_longitude = last then i - 1
      else leapScan k timezone fuel (i + 1) solar_longitude

/-- Embedding of `get_leap_month_offset` (loop `for i in 1..14`). -/
noncomputable def get_leap_month_offset (first_month_11 : ℤ) (timezone : ℝ) : ℤ :=
  leapScan (from_julian_day ((first_month_11 : ℤ) : ℝ)) timezone 13 1 0

/-- Embedding of `calculate_month_between_julian_days`. -/
noncomputable def calculate_month_between_julian_days (julian_day_1 julian_day_2 : ℝ) : ℤ :=
  castI32 ((julian_day_1 - julian_day_2) / 29)

open Classical in
/-- Selection of `month_start` in `convert_date_to_lichta`: new moon
`k + 1` with the caller timezone, recomputed at `k` with the hard-coded
timezone `7.0` when the first value exceeds the input Julian day. -/
noncomputable def monthStartOf (julian_day timezone : ℝ) : ℝ :=
  let julian_month_index := from_julian_day julian_day
  let month_start := get_new_moon_day (julian_month_index + 1) timezone
  if month_start > julian_day then get_new_moon_day julian_month_index 7
  else month_start

open Classical in
/-- Value held by `first_month_11` after the branch in
`convert_date_to_lichta`. -/
noncomputable def firstMonth11Of (year : ℤ) (month_start timezone : ℝ) : ℝ :=
  if get_lunar_month_11 year timezone ≥ month_start then
    get_lunar_month_11 (year - 1) timezone
  else get_lunar_month_11 year timezone

open Classical in
/-- Value held by `last_month_11` after the branch in
`convert_date_to_lichta`. -/
noncomputable def lastMonth11Of (year : ℤ) (month_start timezone : ℝ) : ℝ :=
  if get_lunar_month_11 year timezone ≥ month_start then
    get_lunar_month_11 year timezone
  else get_lunar_month_11 (year + 1) timezone

open Classical in
/-- Embedding of `convert_date_to_lichta`. -/
noncomputable def convert_date_to_lichta (date : Date) (timezone : ℝ) : ℤ × ℤ × ℤ × ℤ :=
  let julian_day : ℝ := ((date.julianDay : ℤ) : ℝ)
  let month_start := monthStartOf julian_day timezone
  let first_month_11 := firstMonth11Of date.year month_start timezone
  let last_month_11 := lastMonth11Of date.year month_start timezone
  let lunar_day := castI32 (julian_day - month_start + 1)
  let month_difference := calculate_month_between_julian_days month_start first_month_11
  let leap_month_index := get_leap_month_offset (castI32 first_month_11) timezone
  let lunar_leap : ℤ :=
    if last_month_11 - first_month_11 > 365 then
      if month_difference ≥ leap_month_index then
        if month_difference = leap_month_index then 1 else 0
      else 0
    else 0
  let lunar_month_raw : ℤ :=
    if last_month_11 - first_month_11 > 365 ∧ month_difference ≥ leap_month_index then
      month_difference + 10
    else month_difference + 11
  let lunar_month := if lunar_month_raw > 12 then lunar_month_raw - 12 else lunar_month_raw
  let lunar_year := if lunar_month ≥ 11 ∧ month_difference < 4 then date.year - 1 else date.year
  (lunar_day, lunar_month, lunar_year, lunar_leap)

/-! ## Output value type (src/ngay_ta.rs) -/

/-- Embedding of the `NgayTa` struct. -/
structure NgayTa where
  day : ℤ
  month : ℤ
  year : ℤ
  isLeapMonth : Bool

/-- Embedding of `NgayTa::new`. -/
def NgayTa.new (day month year : ℤ) (isLeapMonth : Bool) : NgayTa :=
  ⟨day, month, year, isLeapMonth⟩

open Classical in
/-- Embedding of `NgayTa::from_date`: builds the record from the converter
tuple, turning the fourth component into the leap flag via `== 1`. -/
noncomputable def NgayTa.fromDate (date : Date) (timezone : ℝ) : NgayTa :=
  let r := convert_date_to_lichta date timezone
  NgayTa.new r.1 r.2.1 r.2.2.1 (decide (r.2.2.2 = 1))

/-! ## Evaluation lemmas for the integer casts -/

theorem rtrunc_intCast (n : ℤ) : rtrunc ((n : ℤ) : ℝ) = n := by
  unfold rtrunc
  by_cases h : (0 : ℝ) ≤ ((n : ℤ) : ℝ)
  · rw [if_pos h, Int.floor_intCast]
  · rw [if_neg h, Int.ceil_intCast]

theorem castI32_intCast (n : ℤ) (h1 : i32min ≤ n) (h2 : n ≤ i32max) :
    castI32 ((n : ℤ) : ℝ) = n := by
  unfold castI32
  rw [rtrunc_intCast]
  simp only [i32min, i32max] at *
  omega

theorem castI32_eval_pos (x : ℝ) (n : ℤ) (h0 : 0 ≤ n) (h1 : (n : ℝ) ≤ x)
    (h2 : x < (n : ℝ) + 1) (h3 : n ≤ i32max) : castI32 x = n := by
  have hn0 : (0 : ℝ) ≤ (n : ℝ) := by exact_mod_cast h0
  have hx : 0 ≤ x := le_trans hn0 h1
  have hf : ⌊x⌋ = n := Int.floor_eq_iff.mpr ⟨h1, by linarith⟩
  unfold castI32 rtrunc
  rw [if_pos hx, hf]
  simp only [i32min, i32max] at *
  omega

theorem from_julian_day_eval (jd : ℝ) (n : ℤ) (h0 : 0 ≤ n)
    (h1 : (n : ℝ) ≤ (jd - 2415021.076998695) / 29.530588853)
    (h2 : (jd - 2415021.076998695) / 29.530588853 < (n : ℝ) + 1)
    (h3 : n ≤ i32max) : from_julian_day jd = n := by
  unfold from_julian_day
  exact castI32_eval_pos _ n h0 h1 h2 h3

theorem get_new_moon_day_eval (k : ℤ) (tz : ℝ) (n : ℤ)
    (h1 : (n : ℝ) ≤ new_moon_aa98 k + 0.5 + tz / 24)
    (h2 : new_moon_aa98 k + 0.5 + tz / 24 < (n : ℝ) + 1) :
    get_new_moon_day k tz = (n : ℝ) := by
  unfold get_new_moon_day
  have hf : ⌊new_moon_aa98 k + 0.5 + tz / 24⌋ = n :=
    Int.floor_eq_iff.mpr ⟨h1, by linarith⟩
  rw [hf]

theorem get_new_moon_day_ge (k : ℤ) (tz : ℝ) (n : ℤ)
    (h1 : (n : ℝ) ≤ new_moon_aa98 k + 0.5 + tz / 24) :
    (n : ℝ) ≤ get_new_moon_day k tz := by
  unfold get_new_moon_day
  exact_mod_cast Int.le_floor.mpr h1

/-! ## Slack bounds from the sine range -/

theorem coef_sin_bound (c b x : ℝ) (h1 : 0 ≤ c) (h2 : c ≤ b) :
    -b ≤ c * Real.sin x ∧ c * Real.sin x ≤ b := by
  have hs1 := Real.neg_one_le_sin x
  have hs2 := Real.sin_le_one x
  constructor <;> nlinarith

/-- Deterministic two-sided slack estimate for the new-moon series on a
generous month-index range: the full correction (every sine bounded by
one) stays within `0.8` of the linear mean-new-moon term. -/
theorem new_moon_slack (k : ℤ) (hk1 : -10001 ≤ k) (hk2 : k ≤ 10001) :
    2415020.75933 + 29.53058868 * (k : ℝ) - 0.8 ≤ new_moon_aa98 k ∧
      new_moon_aa98 k ≤ 2415020.75933 + 29.53058868 * (k : ℝ) + 0.8 := by
  have hx1 : (-10001 : ℝ) ≤ (k : ℝ) := by exact_mod_cast hk1
  have hx2 : (k : ℝ) ≤ 10001 := by exact_mod_cast hk2
  have ht1 : (-8.09 : ℝ) ≤ nmT k := by
    unfold nmT
    rw [le_div_iff₀ (by norm_num : (0 : ℝ) < 1236.85)]
    nlinarith
  have ht2 : nmT k ≤ 8.09 := by
    unfold nmT
    rw [div_le_iff₀ (by norm_num : (0 : ℝ) < 1236.85)]
    nlinarith
  have hq0 : 0 ≤ nmT k * nmT k := mul_self_nonneg _
  have hq1 : nmT k * nmT k ≤ 65.5 := by nlinarith
  have hc3a : nmT k * nmT k * nmT k ≤ 530 := by nlinarith
  have hc3b : (-530 : ℝ) ≤ nmT k * nmT k * nmT k := by nlinarith
  have hcond : ¬ (nmT k < -11) := not_lt.mpr (by linarith)
  have e1 := Real.neg_one_le_sin (toRadians (nmMeanArg k))
  have e1b := Real.sin_le_one (toRadians (nmMeanArg k))
  have e2 := coef_sin_bound (0.1734 - 0.000393 * nmT k) 0.1766
      (toRadians (nmSunAnomaly k)) (by linarith) (by linarith)
  have e3 := Real.neg_one_le_sin (2 * toRadians (nmSunAnomaly k))
  have e3b := Real.sin_le_one (2 * toRadians (nmSunAnomaly k))
  have e4 := Real.neg_one_le_sin (toRadians (nmMoonAnomaly k))
  have e4b := Real.sin_le_one (toRadians (nmMoonAnomaly k))
  have e5 := Real.neg_one_le_sin (2 * toRadians (nmMoonAnomaly k))
  have e5b := Real.sin_le_one (2 * toRadians (nmMoonAnomaly k))
  have e6 := Real.neg_one_le_sin (3 * toRadians (nmMoonAnomaly k))
  have e6b := Real.sin_le_one (3 * toRadians (nmMoonAnomaly k))
  have e7 := Real.neg_one_le_sin (2 * toRadians (nmMoonArgLat k))
  have e7b := Real.sin_le_one (2 * toRadians (nmMoonArgLat k))
  have e8 := Real.neg_one_le_sin (toRadians (nmSunAnomaly k + nmMoonAnomaly k))
  have e8b := Real.sin_le_one (toRadians (nmSunAnomaly k + nmMoonAnomaly k))
  have e9 := Real.neg_one_le_sin (toRadians (nmSunAnomaly k - nmMoonAnomaly k))
  have e9b := Real.sin_le_one (toRadians (nmSunAnomaly k - nmMoonAnomaly k))
  have e10 := Real.neg_one_le_sin (toRadians (2 * nmMoonArgLat k + nmSunAnomaly k))
  have e10b := Real.sin_le_one (toRadians (2 * nmMoonArgLat k + nmSunAnomaly k))
  have e11 := Real.neg_one_le_sin (toRadians (2 * nmMoonArgLat k - nmSunAnomaly k))
  have e11b := Real.sin_le_one (toRadians (2 * nmMoonArgLat k - nmSunAnomaly k))
  have e12 := Real.neg_one_le_sin (toRadians (2 * nmMoonArgLat k + nmMoonAnomaly k))
  have e12b := Real.sin_le_one (toRadians (2 * nmMoonArgLat k + nmMoonAnomaly k))
  have e13 := Real.neg_one_le_sin (toRadians (2 * nmMoonArgLat k - nmMoonAnomaly k))
  have e13b := Real.sin_le_one (toRadians (2 * nmMoonArgLat k - nmMoonAnomaly k))
  have e14 := Real.neg_one_le_sin (toRadians (2 * nmMoonAnomaly k + nmSunAnomaly k))
  have e14b := Real.sin_le_one (toRadians (2 * nmMoonAnomaly k + nmSunAnomaly k))
  simp only [new_moon_aa98]
  rw [if_neg hcond]
  constructor <;> linarith [e2.1, e2.2]

/-! ## Certified sine evaluation engine -/

theorem sqrt3_bounds : (1.7320508 : ℝ) ≤ Real.sqrt 3 ∧ Real.sqrt 3 ≤ 1.7320509 := by
  have h1 := Real.sq_sqrt (show (0 : ℝ) ≤ 3 by norm_num)
  have h2 := Real.sqrt_nonneg (3 : ℝ)
  constructor <;> nlinarith

theorem two_mul_toRadians (x : ℝ) : 2 * toRadians x = toRadians (2 * x) := by
  unfold toRadians; ring

theorem three_mul_toRadians (x : ℝ) : 3 * toRadians x = toRadians (3 * x) := by
  unfold toRadians; ring

/-- Reduction of a degree argument to the sixth-of-quadrant lattice:
`a = 360 n + 30 m + 180 r` turns `sin` of the radian image of `a` into a
combination of `sin (m π/6)`, `cos (m π/6)` and the small angle `r π`. -/
theorem sin_toRadians_decomp (a m r : ℝ) (n : ℤ)
    (h : a = 360 * (n : ℝ) + 30 * m + 180 * r) :
    Real.sin (toRadians a)
      = Real.sin (m * (Real.pi / 6)) * Real.cos (r * Real.pi)
        + Real.cos (m * (Real.pi / 6)) * Real.sin (r * Real.pi) := by
  have key : toRadians a = (m * (Real.pi / 6) + r * Real.pi) + (n : ℝ) * (2 * Real.pi) := by
    unfold toRadians; rw [h]; ring
  rw [key, Real.sin_add_int_mul_two_pi, Real.sin_add]

theorem sin_lat0 : Real.sin ((0 : ℝ) * (Real.pi / 6)) = 0 := by
  rw [show (0 : ℝ) * (Real.pi / 6) = 0 by ring, Real.sin_zero]

theorem cos_lat0 : Real.cos ((0 : ℝ) * (Real.pi / 6)) = 1 := by
  rw [show (0 : ℝ) * (Real.pi / 6) = 0 by ring, Real.cos_zero]

theorem sin_lat1 : Real.sin ((1 : ℝ) * (Real.pi / 6)) = 1 / 2 := by
  rw [show (1 : ℝ) * (Real.pi / 6) = Real.pi / 6 by ring, Real.sin_pi_div_six]

theorem cos_lat1 : Real.cos ((1 : ℝ) * (Real.pi / 6)) = Real.sqrt 3 / 2 := by
  rw [show (1 : ℝ) * (Real.pi / 6) = Real.pi / 6 by ring, Real.cos_pi_div_six]

theorem sin_lat2 : Real.sin ((2 : ℝ) * (Real.pi / 6)) = Real.sqrt 3 / 2 := by
  rw [show (2 : ℝ) * (Real.pi / 6) = Real.pi / 3 by ring, Real.sin_pi_div_three]

theorem cos_lat2 : Real.cos ((2 : ℝ) * (Real.pi / 6)) = 1 / 2 := by
  rw [show (2 : ℝ) * (Real.pi / 6) = Real.pi / 3 by ring, Real.cos_pi_div_three]

theorem sin_lat3 : Real.sin ((3 : ℝ) * (Real.pi / 6)) = 1 := by
  rw [show (3 : ℝ) * (Real.pi / 6) = Real.pi / 2 by ring, Real.sin_pi_div_two]

theorem cos_lat3 : Real.cos ((3 : ℝ) * (Real.pi / 6)) = 0 := by
  rw [show (3 : ℝ) * (Real.pi / 6) = Real.pi / 2 by ring, Real.cos_pi_div_two]

theorem sin_lat4 : Real.sin ((4 : ℝ) * (Real.pi / 6)) = Real.sqrt 3 / 2 := by
  rw [show (4 : ℝ) * (Real.pi / 6) = Real.pi - Real.pi / 3 by ring, Real.sin_pi_sub,
    Real.sin_pi_div_three]

theorem cos_lat4 : Real.cos ((4 : ℝ) * (Real.pi / 6)) = -(1 / 2) := by
  rw [show (4 : ℝ) * (Real.pi / 6) = Real.pi - Real.pi / 3 by ring, Real.cos_pi_sub,
    Real.cos_pi_div_three]

theorem sin_lat5 : Real.sin ((5 : ℝ) * (Real.pi / 6)) = 1 / 2 := by
  rw [show (5 : ℝ) * (Real.pi / 6) = Real.pi - Real.pi / 6 by ring, Real.sin_pi_sub,
    Real.sin_pi_div_six]

theorem cos_lat5 : Real.cos ((5 : ℝ) * (Real.pi / 6)) = -(Real.sqrt 3 / 2) := by
  rw [show (5 : ℝ) * (Real.pi / 6) = Real.pi - Real.pi / 6 by ring, Real.cos_pi_sub,
    Real.cos_pi_div_six]

theorem sin_lat6 : Real.sin ((6 : ℝ) * (Real.pi / 6)) = 0 := by
  rw [show (6 : ℝ) * (Real.pi / 6) = Real.pi by ring, Real.sin_pi]

theorem cos_lat6 : Real.cos ((6 : ℝ) * (Real.pi / 6)) = -1 := by
  rw [show (6 : ℝ) * (Real.pi / 6) = Real.pi by ring, Real.cos_pi]

theorem sin_lat7 : Real.sin ((7 : ℝ) * (Real.pi / 6)) = -(1 / 2) := by
  rw [show (7 : ℝ) * (Real.pi / 6) = Real.pi - -(Real.pi / 6) by ring, Real.sin_pi_sub,
    Real.sin_neg, Real.sin_pi_div_six]

theorem cos_lat7 : Real.cos ((7 : ℝ) * (Real.pi / 6)) = -(Real.sqrt 3 / 2) := by
  rw [show (7 : ℝ) * (Real.pi / 6) = Real.pi - -(Real.pi / 6) by ring, Real.cos_pi_sub,
    Real.cos_neg, Real.cos_pi_div_six]

theorem sin_lat8 : Real.sin ((8 : ℝ) * (Real.pi / 6)) = -(Real.sqrt 3 / 2) := by
  rw [show (8 : ℝ) * (Real.pi / 6) = Real.pi - -(Real.pi / 3) by ring, Real.sin_pi_sub,
    Real.sin_neg, Real.sin_pi_div_three]

theorem cos_lat8 : Real.cos ((8 : ℝ) * (Real.pi / 6)) = -(1 / 2) := by
  rw [show (8 : ℝ) * (Real.pi / 6) = Real.pi - -(Real.pi / 3) by ring, Real.cos_pi_sub,
    Real.cos_neg, Real.cos_pi_div_three]

theorem sin_lat9 : Real.sin ((9 : ℝ) * (Real.pi / 6)) = -1 := by
  rw [show (9 : ℝ) * (Real.pi / 6) = Real.pi - -(Real.pi / 2) by ring, Real.sin_pi_sub,
    Real.sin_neg, Real.sin_pi_div_two]

theorem cos_lat9 : Real.cos ((9 : ℝ) * (Real.pi / 6)) = 0 := by
  rw [show (9 : ℝ) * (Real.pi / 6) = Real.pi - -(Real.pi / 2) by ring, Real.cos_pi_sub,
    Real.cos_neg, Real.cos_pi_div_two]
  norm_num

theorem sin_lat10 : Real.sin ((10 : ℝ) * (Real.pi / 6)) = -(Real.sqrt 3 / 2) := by
  have h4 := sin_lat4
  rw [show (10 : ℝ) * (Real.pi / 6) = Real.pi - -((4 : ℝ) * (Real.pi / 6)) by ring,
    Real.sin_pi_sub, Real.sin_neg, h4]

theorem cos_lat10 : Real.cos ((10 : ℝ) * (Real.pi / 6)) = 1 / 2 := by
  have h4 := cos_lat4
  rw [show (10 : ℝ) * (Real.pi / 6) = Real.pi - -((4 : ℝ) * (Real.pi / 6)) by ring,
    Real.cos_pi_sub, Real.cos_neg, h4]
  norm_num

theorem sin_lat11 : Real.sin ((11 : ℝ) * (Real.pi / 6)) = -(1 / 2) := by
  have h5 := sin_lat5
  rw [show (11 : ℝ) * (Real.pi / 6) = Real.pi - -((5 : ℝ) * (Real.pi / 6)) by ring,
    Real.sin_pi_sub, Real.sin_neg, h5]

theorem cos_lat11 : Real.cos ((11 : ℝ) * (Real.pi / 6)) = Real.sqrt 3 / 2 := by
  have h5 := cos_lat5
  rw [show (11 : ℝ) * (Real.pi / 6) = Real.pi - -((5 : ℝ) * (Real.pi / 6)) by ring,
    Real.cos_pi_sub, Real.cos_neg, h5]
  norm_num

/-- Cubic Taylor sandwich for the sine of a small angle. -/
theorem sin_small_bounds (u c : ℝ) (h : |u| ≤ c) (hc : c ≤ 0.27) :
    u - u ^ 3 / 6 - c ^ 4 * (5 / 96) ≤ Real.sin u ∧
      Real.sin u ≤ u - u ^ 3 / 6 + c ^ 4 * (5 / 96) := by
  have h1 : |u| ≤ 1 := le_trans h (by linarith)
  have h2 := Real.sin_bound h1
  have h4 : |u| ^ 4 ≤ c ^ 4 := pow_le_pow_left₀ (abs_nonneg u) h 4
  rw [abs_le] at h2
  constructor <;> linarith [h2.1, h2.2]

/-- Quadratic Taylor sandwich for the cosine of a small angle. -/
theorem cos_small_bounds (u c : ℝ) (h : |u| ≤ c) (hc : c ≤ 0.27) :
    1 - u ^ 2 / 2 - c ^ 4 * (5 / 96) ≤ Real.cos u ∧
      Real.cos u ≤ 1 - u ^ 2 / 2 + c ^ 4 * (5 / 96) := by
  have h1 : |u| ≤ 1 := le_trans h (by linarith)
  have h2 := Real.cos_bound h1
  have h4 : |u| ^ 4 ≤ c ^ 4 := pow_le_pow_left₀ (abs_nonneg u) h 4
  rw [abs_le] at h2
  constructor <;> linarith [h2.1, h2.2]

theorem cube_bounds_of_pos (u a b : ℝ) (h1 : a ≤ u) (h2 : u ≤ b) (h0 : 0 ≤ a) :
    a ^ 3 ≤ u ^ 3 ∧ u ^ 3 ≤ b ^ 3 :=
  ⟨pow_le_pow_left₀ h0 h1 3, pow_le_pow_left₀ (le_trans h0 h1) h2 3⟩

theorem cube_bounds_of_neg (u a b : ℝ) (h1 : a ≤ u) (h2 : u ≤ b) (h0 : b ≤ 0) :
    a ^ 3 ≤ u ^ 3 ∧ u ^ 3 ≤ b ^ 3 := by
  have hu0 : u ≤ 0 := le_trans h2 h0
  have c1 := pow_le_pow_left₀ (neg_nonneg.mpr h0) (neg_le_neg h2) 3
  have c2 := pow_le_pow_left₀ (neg_nonneg.mpr hu0) (neg_le_neg h1) 3
  constructor <;> nlinarith [c1, c2]

theorem sq_bounds_of_pos (u a b : ℝ) (h1 : a ≤ u) (h2 : u ≤ b) (h0 : 0 ≤ a) :
    a ^ 2 ≤ u ^ 2 ∧ u ^ 2 ≤ b ^ 2 :=
  ⟨pow_le_pow_left₀ h0 h1 2, pow_le_pow_left₀ (le_trans h0 h1) h2 2⟩

theorem sq_bounds_of_neg (u a b : ℝ) (h1 : a ≤ u) (h2 : u ≤ b) (h0 : b ≤ 0) :
    b ^ 2 ≤ u ^ 2 ∧ u ^ 2 ≤ a ^ 2 := by
  have hu0 : u ≤ 0 := le_trans h2 h0
  have c1 := pow_le_pow_left₀ (neg_nonneg.mpr h0) (neg_le_neg h2) 2
  have c2 := pow_le_pow_left₀ (neg_nonneg.mpr hu0) (neg_le_neg h1) 2
  constructor <;> nlinarith [c1, c2]

theorem sq_le_of_abs (u c : ℝ) (h : |u| ≤ c) : u ^ 2 ≤ c ^ 2 := by
  rw [← sq_abs]
  exact pow_le_pow_left₀ (abs_nonneg u) h 2

theorem cube_bounds_of_abs (u c : ℝ) (h : |u| ≤ c) :
    (-c) ^ 3 ≤ u ^ 3 ∧ u ^ 3 ≤ c ^ 3 := by
  have h2 : |u ^ 3| ≤ c ^ 3 := by
    rw [abs_pow]
    exact pow_le_pow_left₀ (abs_nonneg u) h 3
  rw [abs_le] at h2
  constructor
  · nlinarith [h2.1]
  · exact h2.2


/-! ## Generated certified numeric bounds -/

theorem sinb_Ms_1508 :
    (-0.498470902026 : ℝ) ≤ Real.sin (toRadians (nmSunAnomaly 1508)) ∧ Real.sin (toRadians (nmSunAnomaly 1508)) ≤ (-0.498470901923 : ℝ) := by
  rw [sin_toRadians_decomp (nmSunAnomaly 1508) 11 ((24513960412313 : ℝ) / 43639486664062500) 122
    (by simp only [nmSunAnomaly, nmT]; push_cast; norm_num), sin_lat11, cos_lat11]
  have hp1 := Real.pi_gt_d20
  have hp2 := Real.pi_lt_d20
  have hu1 : (0.00176475215 : ℝ) ≤ ((24513960412313 : ℝ) / 43639486664062500) * Real.pi := by linarith only [hp1, hp2]
  have hu2 : ((24513960412313 : ℝ) / 43639486664062500) * Real.pi ≤ (0.001764752151 : ℝ) := by linarith only [hp1, hp2]
  have habs : |((24513960412313 : ℝ) / 43639486664062500) * Real.pi| ≤ (0.001764752151 : ℝ) := abs_le.mpr ⟨by linarith only [hu1, hu2], by linarith only [hu1, hu2]⟩
  have hsin := sin_small_bounds (((24513960412313 : ℝ) / 43639486664062500) * Real.pi) (0.001764752151 : ℝ) habs (by norm_num)
  have hcos := cos_small_bounds (((24513960412313 : ℝ) / 43639486664062500) * Real.pi) (0.001764752151 : ℝ) habs (by norm_num)
  have hcube := cube_bounds_of_pos (((24513960412313 : ℝ) / 43639486664062500) * Real.pi) (0.00176475215 : ℝ) (0.001764752151 : ℝ) hu1 hu2 (by norm_num)
  have hsqhi : (((24513960412313 : ℝ) / 43639486664062500) * Real.pi) ^ 2 ≤ (0.001764752151 : ℝ) ^ 2 := sq_le_of_abs _ _ habs
  have hsqlo := sq_bounds_of_pos (((24513960412313 : ℝ) / 43639486664062500) * Real.pi) (0.00176475215 : ℝ) (0.001764752151 : ℝ) hu1 hu2 (by norm_num)
  have hS1 : (0.00176475123 : ℝ) ≤ Real.sin (((24513960412313 : ℝ) / 43639486664062500) * Real.pi) := by linarith only [hsin.1, hcube.2, hu1, hu2]
  have hS2 : Real.sin (((24513960412313 : ℝ) / 43639486664062500) * Real.pi) ≤ (0.00176475124 : ℝ) := by linarith only [hsin.2, hcube.1, hu1, hu2]
  have hC1 : (0.99999844282 : ℝ) ≤ Real.cos (((24513960412313 : ℝ) / 43639486664062500) * Real.pi) := by linarith only [hcos.1, hsqhi, hu1, hu2]
  have hC2 : Real.cos (((24513960412313 : ℝ) / 43639486664062500) * Real.pi) ≤ (0.99999844283 : ℝ) := by linarith only [hcos.2, hsqlo.1, hu1, hu2]
  have q1 : Real.sqrt 3 * (Real.sin (((24513960412313 : ℝ) / 43639486664062500) * Real.pi)) ≤ Real.sqrt 3 * (0.00176475124 : ℝ) := mul_le_mul_of_nonneg_left hS2 (Real.sqrt_nonneg 3)
  have q2 : Real.sqrt 3 * (0.00176475124 : ℝ) ≤ (1.7320509 : ℝ) * (0.00176475124 : ℝ) := mul_le_mul_of_nonneg_right sqrt3_bounds.2 (by norm_num)
  have q3 : Real.sqrt 3 * (0.00176475123 : ℝ) ≤ Real.sqrt 3 * (Real.sin (((24513960412313 : ℝ) / 43639486664062500) * Real.pi)) := mul_le_mul_of_nonneg_left hS1 (Real.sqrt_nonneg 3)
  have q4 : (1.7320508 : ℝ) * (0.00176475123 : ℝ) ≤ Real.sqrt 3 * (0.00176475123 : ℝ) := mul_le_mul_of_nonneg_right sqrt3_bounds.1 (by norm_num)
  constructor
  · linarith only [hS1, hS2, hC1, hC2, q1, q2, q3, q4]
  · linarith only [hS1, hS2, hC1, hC2, q1, q2, q3, q4]

theorem sinb_Mm_1508 :
    (-0.03570702418 : ℝ) ≤ Real.sin (toRadians (nmMoonAnomaly 1508)) ∧ Real.sin (toRadians (nmMoonAnomaly 1508)) ≤ (-0.03570685469 : ℝ) := by
  rw [sin_toRadians_decomp (nmMoonAnomaly 1508) 0 ((-15875400903784163 : ℝ) / 1396463573250000000) 1617
    (by simp only [nmMoonAnomaly, nmT]; push_cast; norm_num), sin_lat0, cos_lat0]
  have hp1 := Real.pi_gt_d20
  have hp2 := Real.pi_lt_d20
  have hu1 : (-0.035714531913 : ℝ) ≤ ((-15875400903784163 : ℝ) / 1396463573250000000) * Real.pi := by linarith only [hp1, hp2]
  have hu2 : ((-15875400903784163 : ℝ) / 1396463573250000000) * Real.pi ≤ (-0.035714531912 : ℝ) := by linarith only [hp1, hp2]
  have habs : |((-15875400903784163 : ℝ) / 1396463573250000000) * Real.pi| ≤ (0.035714531913 : ℝ) := abs_le.mpr ⟨by linarith only [hu1, hu2], by linarith only [hu1, hu2]⟩
  have hsin := sin_small_bounds (((-15875400903784163 : ℝ) / 1396463573250000000) * Real.pi) (0.035714531913 : ℝ) habs (by norm_num)
  have hcos := cos_small_bounds (((-15875400903784163 : ℝ) / 1396463573250000000) * Real.pi) (0.035714531913 : ℝ) habs (by norm_num)
  have hcube := cube_bounds_of_neg (((-15875400903784163 : ℝ) / 1396463573250000000) * Real.pi) (-0.035714531913 : ℝ) (-0.035714531912 : ℝ) hu1 hu2 (by norm_num)
  have hsqhi : (((-15875400903784163 : ℝ) / 1396463573250000000) * Real.pi) ^ 2 ≤ (0.035714531913 : ℝ) ^ 2 := sq_le_of_abs _ _ habs
  have hsqlo := sq_bounds_of_neg (((-15875400903784163 : ℝ) / 1396463573250000000) * Real.pi) (-0.035714531913 : ℝ) (-0.035714531912 : ℝ) hu1 hu2 (by norm_num)
  have hS1 : (-0.03570702418 : ℝ) ≤ Real.sin (((-15875400903784163 : ℝ) / 1396463573250000000) * Real.pi) := by linarith only [hsin.1, hcube.2, hu1, hu2]
  have hS2 : Real.sin (((-15875400903784163 : ℝ) / 1396463573250000000) * Real.pi) ≤ (-0.03570685469 : ℝ) := by linarith only [hsin.2, hcube.1, hu1, hu2]
  have hC1 : (0.99936215136 : ℝ) ≤ Real.cos (((-15875400903784163 : ℝ) / 1396463573250000000) * Real.pi) := by linarith only [hcos.1, hsqhi, hu1, hu2]
  have hC2 : Real.cos (((-15875400903784163 : ℝ) / 1396463573250000000) * Real.pi) ≤ (0.99936232085 : ℝ) := by linarith only [hcos.2, hsqlo.1, hu1, hu2]
  constructor
  · linarith only [hS1, hS2, hC1, hC2]
  · linarith only [hS1, hS2, hC1, hC2]

theorem sinb_Ms_1513 :
    (0.90161842052 : ℝ) ≤ Real.sin (toRadians (nmSunAnomaly 1513)) ∧ Real.sin (toRadians (nmSunAnomaly 1513)) ≤ (0.901623294981 : ℝ) := by
  rw [sin_toRadians_decomp (nmSunAnomaly 1513) 4 ((-827259753586809906761 : ℝ) / 34058350087994250000000) 123
    (by simp only [nmSunAnomaly, nmT]; push_cast; norm_num), sin_lat4, cos_lat4]
  have hp1 := Real.pi_gt_d20
  have hp2 := Real.pi_lt_d20
  have hu1 : (-0.076307664869 : ℝ) ≤ ((-827259753586809906761 : ℝ) / 34058350087994250000000) * Real.pi := by linarith only [hp1, hp2]
  have hu2 : ((-827259753586809906761 : ℝ) / 34058350087994250000000) * Real.pi ≤ (-0.076307664868 : ℝ) := by linarith only [hp1, hp2]
  have habs : |((-827259753586809906761 : ℝ) / 34058350087994250000000) * Real.pi| ≤ (0.076307664869 : ℝ) := abs_le.mpr ⟨by linarith only [hu1, hu2], by linarith only [hu1, hu2]⟩
  have hsin := sin_small_bounds (((-827259753586809906761 : ℝ) / 34058350087994250000000) * Real.pi) (0.076307664869 : ℝ) habs (by norm_num)
  have hcos := cos_small_bounds (((-827259753586809906761 : ℝ) / 34058350087994250000000) * Real.pi) (0.076307664869 : ℝ) habs (by norm_num)
  have hcube := cube_bounds_of_neg (((-827259753586809906761 : ℝ) / 34058350087994250000000) * Real.pi) (-0.076307664869 : ℝ) (-0.076307664868 : ℝ) hu1 hu2 (by norm_num)
  have hsqhi : (((-827259753586809906761 : ℝ) / 34058350087994250000000) * Real.pi) ^ 2 ≤ (0.076307664869 : ℝ) ^ 2 := sq_le_of_abs _ _ habs
  have hsqlo := sq_bounds_of_neg (((-827259753586809906761 : ℝ) / 34058350087994250000000) * Real.pi) (-0.076307664869 : ℝ) (-0.076307664868 : ℝ) hu1 hu2 (by norm_num)
  have hS1 : (-0.07623537599 : ℝ) ≤ Real.sin (((-827259753586809906761 : ℝ) / 34058350087994250000000) * Real.pi) := by linarith only [hsin.1, hcube.2, hu1, hu2]
  have hS2 : Real.sin (((-827259753586809906761 : ℝ) / 34058350087994250000000) * Real.pi) ≤ (-0.07623184414 : ℝ) := by linarith only [hsin.2, hcube.1, hu1, hu2]
  have hC1 : (0.99708680421 : ℝ) ≤ Real.cos (((-827259753586809906761 : ℝ) / 34058350087994250000000) * Real.pi) := by linarith only [hcos.1, hsqhi, hu1, hu2]
  have hC2 : Real.cos (((-827259753586809906761 : ℝ) / 34058350087994250000000) * Real.pi) ≤ (0.99709033607 : ℝ) := by linarith only [hcos.2, hsqlo.1, hu1, hu2]
  have q1 : Real.sqrt 3 * (Real.cos (((-827259753586809906761 : ℝ) / 34058350087994250000000) * Real.pi)) ≤ Real.sqrt 3 * (0.99709033607 : ℝ) := mul_le_mul_of_nonneg_left hC2 (Real.sqrt_nonneg 3)
  have q2 : Real.sqrt 3 * (0.99709033607 : ℝ) ≤ (1.7320509 : ℝ) * (0.99709033607 : ℝ) := mul_le_mul_of_nonneg_right sqrt3_bounds.2 (by norm_num)
  have q3 : Real.sqrt 3 * (0.99708680421 : ℝ) ≤ Real.sqrt 3 * (Real.cos (((-827259753586809906761 : ℝ) / 34058350087994250000000) * Real.pi)) := mul_le_mul_of_nonneg_left hC1 (Real.sqrt_nonneg 3)
  have q4 : (1.7320508 : ℝ) * (0.99708680421 : ℝ) ≤ Real.sqrt 3 * (0.99708680421 : ℝ) := mul_le_mul_of_nonneg_right sqrt3_bounds.1 (by norm_num)
  constructor
  · linarith only [hS1, hS2, hC1, hC2, q1, q2, q3, q4]
  · linarith only [hS1, hS2, hC1, hC2, q1, q2, q3, q4]

theorem sinb_Mm_1513 :
    (0.798207640616 : ℝ) ≤ Real.sin (toRadians (nmMoonAnomaly 1513)) ∧ Real.sin (toRadians (nmMoonAnomaly 1513)) ≤ (0.798240093906 : ℝ) := by
  rw [sin_toRadians_decomp (nmMoonAnomaly 1513) 4 ((5327032123218157121167 : ℝ) / 136233400351977000000000) 1622
    (by simp only [nmMoonAnomaly, nmT]; push_cast; norm_num), sin_lat4, cos_lat4]
  have hp1 := Real.pi_gt_d20
  have hp2 := Real.pi_lt_d20
  have hu1 : (0.122843333136 : ℝ) ≤ ((5327032123218157121167 : ℝ) / 136233400351977000000000) * Real.pi := by linarith only [hp1, hp2]
  have hu2 : ((5327032123218157121167 : ℝ) / 136233400351977000000000) * Real.pi ≤ (0.122843333137 : ℝ) := by linarith only [hp1, hp2]
  have habs : |((5327032123218157121167 : ℝ) / 136233400351977000000000) * Real.pi| ≤ (0.122843333137 : ℝ) := abs_le.mpr ⟨by linarith only [hu1, hu2], by linarith only [hu1, hu2]⟩
  have hsin := sin_small_bounds (((5327032123218157121167 : ℝ) / 136233400351977000000000) * Real.pi) (0.122843333137 : ℝ) habs (by norm_num)
  have hcos := cos_small_bounds (((5327032123218157121167 : ℝ) / 136233400351977000000000) * Real.pi) (0.122843333137 : ℝ) habs (by norm_num)
  have hcube := cube_bounds_of_pos (((5327032123218157121167 : ℝ) / 136233400351977000000000) * Real.pi) (0.122843333136 : ℝ) (0.122843333137 : ℝ) hu1 hu2 (by norm_num)
  have hsqhi : (((5327032123218157121167 : ℝ) / 136233400351977000000000) * Real.pi) ^ 2 ≤ (0.122843333137 : ℝ) ^ 2 := sq_le_of_abs _ _ habs
  have hsqlo := sq_bounds_of_pos (((5327032123218157121167 : ℝ) / 136233400351977000000000) * Real.pi) (0.122843333136 : ℝ) (0.122843333137 : ℝ) hu1 hu2 (by norm_num)
  have hS1 : (0.12252251167 : ℝ) ≤ Real.sin (((5327032123218157121167 : ℝ) / 136233400351977000000000) * Real.pi) := by linarith only [hsin.1, hcube.2, hu1, hu2]
  have hS2 : Real.sin (((5327032123218157121167 : ℝ) / 136233400351977000000000) * Real.pi) ≤ (0.1225462328 : ℝ) := by linarith only [hsin.2, hcube.1, hu1, hu2]
  have hC1 : (0.99244289719 : ℝ) ≤ Real.cos (((5327032123218157121167 : ℝ) / 136233400351977000000000) * Real.pi) := by linarith only [hcos.1, hsqhi, hu1, hu2]
  have hC2 : Real.cos (((5327032123218157121167 : ℝ) / 136233400351977000000000) * Real.pi) ≤ (0.99246661832 : ℝ) := by linarith only [hcos.2, hsqlo.1, hu1, hu2]
  have q1 : Real.sqrt 3 * (Real.cos (((5327032123218157121167 : ℝ) / 136233400351977000000000) * Real.pi)) ≤ Real.sqrt 3 * (0.99246661832 : ℝ) := mul_le_mul_of_nonneg_left hC2 (Real.sqrt_nonneg 3)
  have q2 : Real.sqrt 3 * (0.99246661832 : ℝ) ≤ (1.7320509 : ℝ) * (0.99246661832 : ℝ) := mul_le_mul_of_nonneg_right sqrt3_bounds.2 (by norm_num)
  have q3 : Real.sqrt 3 * (0.99244289719 : ℝ) ≤ Real.sqrt 3 * (Real.cos (((5327032123218157121167 : ℝ) / 136233400351977000000000) * Real.pi)) := mul_le_mul_of_nonneg_left hC1 (Real.sqrt_nonneg 3)
  have q4 : (1.7320508 : ℝ) * (0.99244289719 : ℝ) ≤ Real.sqrt 3 * (0.99244289719 : ℝ) := mul_le_mul_of_nonneg_right sqrt3_bounds.1 (by norm_num)
  constructor
  · linarith only [hS1, hS2, hC1, hC2, q1, q2, q3, q4]
  · linarith only [hS1, hS2, hC1, hC2, q1, q2, q3, q4]

theorem sinb_Ms_1520 :
    (-0.651290974206 : ℝ) ≤ Real.sin (toRadians (nmSunAnomaly 1520)) ∧ Real.sin (toRadians (nmSunAnomaly 1520)) ≤ (-0.651122082667 : ℝ) := by
  rw [sin_toRadians_decomp (nmSunAnomaly 1520) 11 ((-100610401450644646247 : ℝ) / 1702917504399712500000) 123
    (by simp only [nmSunAnomaly, nmT]; push_cast; norm_num), sin_lat11, cos_lat11]
  have hp1 := Real.pi_gt_d20
  have hp2 := Real.pi_lt_d20
  have hu1 : (-0.185609048739 : ℝ) ≤ ((-100610401450644646247 : ℝ) / 1702917504399712500000) * Real.pi := by linarith only [hp1, hp2]
  have hu2 : ((-100610401450644646247 : ℝ) / 1702917504399712500000) * Real.pi ≤ (-0.185609048738 : ℝ) := by linarith only [hp1, hp2]
  have habs : |((-100610401450644646247 : ℝ) / 1702917504399712500000) * Real.pi| ≤ (0.185609048739 : ℝ) := abs_le.mpr ⟨by linarith only [hu1, hu2], by linarith only [hu1, hu2]⟩
  have hsin := sin_small_bounds (((-100610401450644646247 : ℝ) / 1702917504399712500000) * Real.pi) (0.185609048739 : ℝ) habs (by norm_num)
  have hcos := cos_small_bounds (((-100610401450644646247 : ℝ) / 1702917504399712500000) * Real.pi) (0.185609048739 : ℝ) habs (by norm_num)
  have hcube := cube_bounds_of_neg (((-100610401450644646247 : ℝ) / 1702917504399712500000) * Real.pi) (-0.185609048739 : ℝ) (-0.185609048738 : ℝ) hu1 hu2 (by norm_num)
  have hsqhi : (((-100610401450644646247 : ℝ) / 1702917504399712500000) * Real.pi) ^ 2 ≤ (0.185609048739 : ℝ) ^ 2 := sq_le_of_abs _ _ habs
  have hsqlo := sq_bounds_of_neg (((-100610401450644646247 : ℝ) / 1702917504399712500000) * Real.pi) (-0.185609048739 : ℝ) (-0.185609048738 : ℝ) hu1 hu2 (by norm_num)
  have hS1 : (-0.18460513642 : ℝ) ≤ Real.sin (((-100610401450644646247 : ℝ) / 1702917504399712500000) * Real.pi) := by linarith only [hsin.1, hcube.2, hu1, hu2]
  have hS2 : Real.sin (((-100610401450644646247 : ℝ) / 1702917504399712500000) * Real.pi) ≤ (-0.18448150599 : ℝ) := by linarith only [hsin.2, hcube.1, hu1, hu2]
  have hC1 : (0.9827128253 : ℝ) ≤ Real.cos (((-100610401450644646247 : ℝ) / 1702917504399712500000) * Real.pi) := by linarith only [hcos.1, hsqhi, hu1, hu2]
  have hC2 : Real.cos (((-100610401450644646247 : ℝ) / 1702917504399712500000) * Real.pi) ≤ (0.98283645573 : ℝ) := by linarith only [hcos.2, hsqlo.1, hu1, hu2]
  have q1 : Real.sqrt 3 * (Real.sin (((-100610401450644646247 : ℝ) / 1702917504399712500000) * Real.pi)) ≤ Real.sqrt 3 * (-0.18448150599 : ℝ) := mul_le_mul_of_nonneg_left hS2 (Real.sqrt_nonneg 3)
  have q2 : Real.sqrt 3 * (-0.18448150599 : ℝ) ≤ (1.7320508 : ℝ) * (-0.18448150599 : ℝ) := mul_le_mul_of_nonpos_right sqrt3_bounds.1 (by norm_num)
  have q3 : Real.sqrt 3 * (-0.18460513642 : ℝ) ≤ Real.sqrt 3 * (Real.sin (((-100610401450644646247 : ℝ) / 1702917504399712500000) * Real.pi)) := mul_le_mul_of_nonneg_left hS1 (Real.sqrt_nonneg 3)
  have q4 : (1.7320509 : ℝ) * (-0.18460513642 : ℝ) ≤ Real.sqrt 3 * (-0.18460513642 : ℝ) := mul_le_mul_of_nonpos_right sqrt3_bounds.2 (by norm_num)
  constructor
  · linarith only [hS1, hS2, hC1, hC2, q1, q2, q3, q4]
  · linarith only [hS1, hS2, hC1, hC2, q1, q2, q3, q4]

theorem sinb_Mm_1520 :
    (-0.790627005239 : ℝ) ≤ Real.sin (toRadians (nmMoonAnomaly 1520)) ∧ Real.sin (toRadians (nmMoonAnomaly 1520)) ≤ (-0.790579151294 : ℝ) := by
  rw [sin_toRadians_decomp (nmMoonAnomaly 1520) 10 ((146772192705475571267 : ℝ) / 3405835008799425000000) 1629
    (by simp only [nmMoonAnomaly, nmT]; push_cast; norm_num), sin_lat10, cos_lat10]
  have hp1 := Real.pi_gt_d20
  have hp2 := Real.pi_lt_d20
  have hu1 : (0.135384844293 : ℝ) ≤ ((146772192705475571267 : ℝ) / 3405835008799425000000) * Real.pi := by linarith only [hp1, hp2]
  have hu2 : ((146772192705475571267 : ℝ) / 3405835008799425000000) * Real.pi ≤ (0.135384844294 : ℝ) := by linarith only [hp1, hp2]
  have habs : |((146772192705475571267 : ℝ) / 3405835008799425000000) * Real.pi| ≤ (0.135384844294 : ℝ) := abs_le.mpr ⟨by linarith only [hu1, hu2], by linarith only [hu1, hu2]⟩
  have hsin := sin_small_bounds (((146772192705475571267 : ℝ) / 3405835008799425000000) * Real.pi) (0.135384844294 : ℝ) habs (by norm_num)
  have hcos := cos_small_bounds (((146772192705475571267 : ℝ) / 3405835008799425000000) * Real.pi) (0.135384844294 : ℝ) habs (by norm_num)
  have hcube := cube_bounds_of_pos (((146772192705475571267 : ℝ) / 3405835008799425000000) * Real.pi) (0.135384844293 : ℝ) (0.135384844294 : ℝ) hu1 hu2 (by norm_num)
  have hsqhi : (((146772192705475571267 : ℝ) / 3405835008799425000000) * Real.pi) ^ 2 ≤ (0.135384844294 : ℝ) ^ 2 := sq_le_of_abs _ _ habs
  have hsqlo := sq_bounds_of_pos (((146772192705475571267 : ℝ) / 3405835008799425000000) * Real.pi) (0.135384844293 : ℝ) (0.135384844294 : ℝ) hu1 hu2 (by norm_num)
  have hS1 : (0.13495376727 : ℝ) ≤ Real.sin (((146772192705475571267 : ℝ) / 3405835008799425000000) * Real.pi) := by linarith only [hsin.1, hcube.2, hu1, hu2]
  have hS2 : Real.sin (((146772192705475571267 : ℝ) / 3405835008799425000000) * Real.pi) ≤ (0.13498876252 : ℝ) := by linarith only [hsin.2, hcube.1, hu1, hu2]
  have hC1 : (0.99081797434 : ℝ) ≤ Real.cos (((146772192705475571267 : ℝ) / 3405835008799425000000) * Real.pi) := by linarith only [hcos.1, hsqhi, hu1, hu2]
  have hC2 : Real.cos (((146772192705475571267 : ℝ) / 3405835008799425000000) * Real.pi) ≤ (0.99085296959 : ℝ) := by linarith only [hcos.2, hsqlo.1, hu1, hu2]
  have q1 : Real.sqrt 3 * (Real.cos (((146772192705475571267 : ℝ) / 3405835008799425000000) * Real.pi)) ≤ Real.sqrt 3 * (0.99085296959 : ℝ) := mul_le_mul_of_nonneg_left hC2 (Real.sqrt_nonneg 3)
  have q2 : Real.sqrt 3 * (0.99085296959 : ℝ) ≤ (1.7320509 : ℝ) * (0.99085296959 : ℝ) := mul_le_mul_of_nonneg_right sqrt3_bounds.2 (by norm_num)
  have q3 : Real.sqrt 3 * (0.99081797434 : ℝ) ≤ Real.sqrt 3 * (Real.cos (((146772192705475571267 : ℝ) / 3405835008799425000000) * Real.pi)) := mul_le_mul_of_nonneg_left hC1 (Real.sqrt_nonneg 3)
  have q4 : (1.7320508 : ℝ) * (0.99081797434 : ℝ) ≤ Real.sqrt 3 * (0.99081797434 : ℝ) := mul_le_mul_of_nonneg_right sqrt3_bounds.1 (by norm_num)
  constructor
  · linarith only [hS1, hS2, hC1, hC2, q1, q2, q3, q4]
  · linarith only [hS1, hS2, hC1, hC2, q1, q2, q3, q4]

theorem sinb_Ms_1521 :
    (-0.19995096952 : ℝ) ≤ Real.sin (toRadians (nmSunAnomaly 1521)) ∧ Real.sin (toRadians (nmSunAnomaly 1521)) ≤ (-0.19978018682 : ℝ) := by
  rw [sin_toRadians_decomp (nmSunAnomaly 1521) 0 ((-242387372679928168393 : ℝ) / 3784261120888250000000) 124
    (by simp only [nmSunAnomaly, nmT]; push_cast; norm_num), sin_lat0, cos_lat0]
  have hp1 := Real.pi_gt_d20
  have hp2 := Real.pi_lt_d20
  have hu1 : (-0.201223532153 : ℝ) ≤ ((-242387372679928168393 : ℝ) / 3784261120888250000000) * Real.pi := by linarith only [hp1, hp2]
  have hu2 : ((-242387372679928168393 : ℝ) / 3784261120888250000000) * Real.pi ≤ (-0.201223532152 : ℝ) := by linarith only [hp1, hp2]
  have habs : |((-242387372679928168393 : ℝ) / 3784261120888250000000) * Real.pi| ≤ (0.201223532153 : ℝ) := abs_le.mpr ⟨by linarith only [hu1, hu2], by linarith only [hu1, hu2]⟩
  have hsin := sin_small_bounds (((-242387372679928168393 : ℝ) / 3784261120888250000000) * Real.pi) (0.201223532153 : ℝ) habs (by norm_num)
  have hcos := cos_small_bounds (((-242387372679928168393 : ℝ) / 3784261120888250000000) * Real.pi) (0.201223532153 : ℝ) habs (by norm_num)
  have hcube := cube_bounds_of_neg (((-242387372679928168393 : ℝ) / 3784261120888250000000) * Real.pi) (-0.201223532153 : ℝ) (-0.201223532152 : ℝ) hu1 hu2 (by norm_num)
  have hsqhi : (((-242387372679928168393 : ℝ) / 3784261120888250000000) * Real.pi) ^ 2 ≤ (0.201223532153 : ℝ) ^ 2 := sq_le_of_abs _ _ habs
  have hsqlo := sq_bounds_of_neg (((-242387372679928168393 : ℝ) / 3784261120888250000000) * Real.pi) (-0.201223532153 : ℝ) (-0.201223532152 : ℝ) hu1 hu2 (by norm_num)
  have hS1 : (-0.19995096952 : ℝ) ≤ Real.sin (((-242387372679928168393 : ℝ) / 3784261120888250000000) * Real.pi) := by linarith only [hsin.1, hcube.2, hu1, hu2]
  have hS2 : Real.sin (((-242387372679928168393 : ℝ) / 3784261120888250000000) * Real.pi) ≤ (-0.19978018682 : ℝ) := by linarith only [hsin.2, hcube.1, hu1, hu2]
  have hC1 : (0.97966915371 : ℝ) ≤ Real.cos (((-242387372679928168393 : ℝ) / 3784261120888250000000) * Real.pi) := by linarith only [hcos.1, hsqhi, hu1, hu2]
  have hC2 : Real.cos (((-242387372679928168393 : ℝ) / 3784261120888250000000) * Real.pi) ≤ (0.9798399364 : ℝ) := by linarith only [hcos.2, hsqlo.1, hu1, hu2]
  constructor
  · linarith only [hS1, hS2, hC1, hC2]
  · linarith only [hS1, hS2, hC1, hC2]

theorem sinb_Mm_1521 :
    (-0.445043619523 : ℝ) ≤ Real.sin (toRadians (nmMoonAnomaly 1521)) ∧ Real.sin (toRadians (nmMoonAnomaly 1521)) ≤ (-0.445041462242 : ℝ) := by
  rw [sin_toRadians_decomp (nmMoonAnomaly 1521) 11 ((2704929016537336972039 : ℝ) / 136233400351977000000000) 1630
    (by simp only [nmMoonAnomaly, nmT]; push_cast; norm_num), sin_lat11, cos_lat11]
  have hp1 := Real.pi_gt_d20
  have hp2 := Real.pi_lt_d20
  have hu1 : (0.062376664642 : ℝ) ≤ ((2704929016537336972039 : ℝ) / 136233400351977000000000) * Real.pi := by linarith only [hp1, hp2]
  have hu2 : ((2704929016537336972039 : ℝ) / 136233400351977000000000) * Real.pi ≤ (0.062376664643 : ℝ) := by linarith only [hp1, hp2]
  have habs : |((2704929016537336972039 : ℝ) / 136233400351977000000000) * Real.pi| ≤ (0.062376664643 : ℝ) := abs_le.mpr ⟨by linarith only [hu1, hu2], by linarith only [hu1, hu2]⟩
  have hsin := sin_small_bounds (((2704929016537336972039 : ℝ) / 136233400351977000000000) * Real.pi) (0.062376664643 : ℝ) habs (by norm_num)
  have hcos := cos_small_bounds (((2704929016537336972039 : ℝ) / 136233400351977000000000) * Real.pi) (0.062376664643 : ℝ) habs (by norm_num)
  have hcube := cube_bounds_of_pos (((2704929016537336972039 : ℝ) / 136233400351977000000000) * Real.pi) (0.062376664642 : ℝ) (0.062376664643 : ℝ) hu1 hu2 (by norm_num)
  have hsqhi : (((2704929016537336972039 : ℝ) / 136233400351977000000000) * Real.pi) ^ 2 ≤ (0.062376664643 : ℝ) ^ 2 := sq_le_of_abs _ _ habs
  have hsqlo := sq_bounds_of_pos (((2704929016537336972039 : ℝ) / 136233400351977000000000) * Real.pi) (0.062376664642 : ℝ) (0.062376664643 : ℝ) hu1 hu2 (by norm_num)
  have hS1 : (0.06233542647 : ℝ) ≤ Real.sin (((2704929016537336972039 : ℝ) / 136233400351977000000000) * Real.pi) := by linarith only [hsin.1, hcube.2, hu1, hu2]
  have hS2 : Real.sin (((2704929016537336972039 : ℝ) / 136233400351977000000000) * Real.pi) ≤ (0.06233700343 : ℝ) := by linarith only [hsin.2, hcube.1, hu1, hu2]
  have hC1 : (0.99805378738 : ℝ) ≤ Real.cos (((2704929016537336972039 : ℝ) / 136233400351977000000000) * Real.pi) := by linarith only [hcos.1, hsqhi, hu1, hu2]
  have hC2 : Real.cos (((2704929016537336972039 : ℝ) / 136233400351977000000000) * Real.pi) ≤ (0.99805536433 : ℝ) := by linarith only [hcos.2, hsqlo.1, hu1, hu2]
  have q1 : Real.sqrt 3 * (Real.sin (((2704929016537336972039 : ℝ) / 136233400351977000000000) * Real.pi)) ≤ Real.sqrt 3 * (0.06233700343 : ℝ) := mul_le_mul_of_nonneg_left hS2 (Real.sqrt_nonneg 3)
  have q2 : Real.sqrt 3 * (0.06233700343 : ℝ) ≤ (1.7320509 : ℝ) * (0.06233700343 : ℝ) := mul_le_mul_of_nonneg_right sqrt3_bounds.2 (by norm_num)
  have q3 : Real.sqrt 3 * (0.06233542647 : ℝ) ≤ Real.sqrt 3 * (Real.sin (((2704929016537336972039 : ℝ) / 136233400351977000000000) * Real.pi)) := mul_le_mul_of_nonneg_left hS1 (Real.sqrt_nonneg 3)
  have q4 : (1.7320508 : ℝ) * (0.06233542647 : ℝ) ≤ Real.sqrt 3 * (0.06233542647 : ℝ) := mul_le_mul_of_nonneg_right sqrt3_bounds.1 (by norm_num)
  constructor
  · linarith only [hS1, hS2, hC1, hC2, q1, q2, q3, q4]
  · linarith only [hS1, hS2, hC1, hC2, q1, q2, q3, q4]

theorem sinb_Ms_1522 :
    (0.301772375503 : ℝ) ≤ Real.sin (toRadians (nmSunAnomaly 1522)) ∧ Real.sin (toRadians (nmSunAnomaly 1522)) ≤ (0.302086964923 : ℝ) := by
  rw [sin_toRadians_decomp (nmSunAnomaly 1522) 1 ((-1175382339618609124567 : ℝ) / 17029175043997125000000) 124
    (by simp only [nmSunAnomaly, nmT]; push_cast; norm_num), sin_lat1, cos_lat1]
  have hp1 := Real.pi_gt_d20
  have hp2 := Real.pi_lt_d20
  have hu1 : (-0.216838015569 : ℝ) ≤ ((-1175382339618609124567 : ℝ) / 17029175043997125000000) * Real.pi := by linarith only [hp1, hp2]
  have hu2 : ((-1175382339618609124567 : ℝ) / 17029175043997125000000) * Real.pi ≤ (-0.216838015568 : ℝ) := by linarith only [hp1, hp2]
  have habs : |((-1175382339618609124567 : ℝ) / 17029175043997125000000) * Real.pi| ≤ (0.216838015569 : ℝ) := abs_le.mpr ⟨by linarith only [hu1, hu2], by linarith only [hu1, hu2]⟩
  have hsin := sin_small_bounds (((-1175382339618609124567 : ℝ) / 17029175043997125000000) * Real.pi) (0.216838015569 : ℝ) habs (by norm_num)
  have hcos := cos_small_bounds (((-1175382339618609124567 : ℝ) / 17029175043997125000000) * Real.pi) (0.216838015569 : ℝ) habs (by norm_num)
  have hcube := cube_bounds_of_neg (((-1175382339618609124567 : ℝ) / 17029175043997125000000) * Real.pi) (-0.216838015569 : ℝ) (-0.216838015568 : ℝ) hu1 hu2 (by norm_num)
  have hsqhi : (((-1175382339618609124567 : ℝ) / 17029175043997125000000) * Real.pi) ^ 2 ≤ (0.216838015569 : ℝ) ^ 2 := sq_le_of_abs _ _ habs
  have hsqlo := sq_bounds_of_neg (((-1175382339618609124567 : ℝ) / 17029175043997125000000) * Real.pi) (-0.216838015569 : ℝ) (-0.216838015568 : ℝ) hu1 hu2 (by norm_num)
  have hS1 : (-0.21525391818 : ℝ) ≤ Real.sin (((-1175382339618609124567 : ℝ) / 17029175043997125000000) * Real.pi) := by linarith only [hsin.1, hcube.2, hu1, hu2]
  have hS2 : Real.sin (((-1175382339618609124567 : ℝ) / 17029175043997125000000) * Real.pi) ≤ (-0.21502363062 : ℝ) := by linarith only [hsin.2, hcube.1, hu1, hu2]
  have hC1 : (0.97637549372 : ℝ) ≤ Real.cos (((-1175382339618609124567 : ℝ) / 17029175043997125000000) * Real.pi) := by linarith only [hcos.1, hsqhi, hu1, hu2]
  have hC2 : Real.cos (((-1175382339618609124567 : ℝ) / 17029175043997125000000) * Real.pi) ≤ (0.97660578128 : ℝ) := by linarith only [hcos.2, hsqlo.1, hu1, hu2]
  have q1 : Real.sqrt 3 * (Real.sin (((-1175382339618609124567 : ℝ) / 17029175043997125000000) * Real.pi)) ≤ Real.sqrt 3 * (-0.21502363062 : ℝ) := mul_le_mul_of_nonneg_left hS2 (Real.sqrt_nonneg 3)
  have q2 : Real.sqrt 3 * (-0.21502363062 : ℝ) ≤ (1.7320508 : ℝ) * (-0.21502363062 : ℝ) := mul_le_mul_of_nonpos_right sqrt3_bounds.1 (by norm_num)
  have q3 : Real.sqrt 3 * (-0.21525391818 : ℝ) ≤ Real.sqrt 3 * (Real.sin (((-1175382339618609124567 : ℝ) / 17029175043997125000000) * Real.pi)) := mul_le_mul_of_nonneg_left hS1 (Real.sqrt_nonneg 3)
  have q4 : (1.7320509 : ℝ) * (-0.21525391818 : ℝ) ≤ Real.sqrt 3 * (-0.21525391818 : ℝ) := mul_le_mul_of_nonpos_right sqrt3_bounds.2 (by norm_num)
  constructor
  · linarith only [hS1, hS2, hC1, hC2, q1, q2, q3, q4]
  · linarith only [hS1, hS2, hC1, hC2, q1, q2, q3, q4]

theorem sinb_Mm_1522 :
    (-0.01063131515 : ℝ) ≤ Real.sin (toRadians (nmMoonAnomaly 1522)) ∧ Real.sin (toRadians (nmMoonAnomaly 1522)) ≤ (-0.01063131381 : ℝ) := by
  rw [sin_toRadians_decomp (nmMoonAnomaly 1522) 0 ((-230514832240757937301 : ℝ) / 68116700175988500000000) 1632
    (by simp only [nmMoonAnomaly, nmT]; push_cast; norm_num), sin_lat0, cos_lat0]
  have hp1 := Real.pi_gt_d20
  have hp2 := Real.pi_lt_d20
  have hu1 : (-0.010631514763 : ℝ) ≤ ((-230514832240757937301 : ℝ) / 68116700175988500000000) * Real.pi := by linarith only [hp1, hp2]
  have hu2 : ((-230514832240757937301 : ℝ) / 68116700175988500000000) * Real.pi ≤ (-0.010631514762 : ℝ) := by linarith only [hp1, hp2]
  have habs : |((-230514832240757937301 : ℝ) / 68116700175988500000000) * Real.pi| ≤ (0.010631514763 : ℝ) := abs_le.mpr ⟨by linarith only [hu1, hu2], by linarith only [hu1, hu2]⟩
  have hsin := sin_small_bounds (((-230514832240757937301 : ℝ) / 68116700175988500000000) * Real.pi) (0.010631514763 : ℝ) habs (by norm_num)
  have hcos := cos_small_bounds (((-230514832240757937301 : ℝ) / 68116700175988500000000) * Real.pi) (0.010631514763 : ℝ) habs (by norm_num)
  have hcube := cube_bounds_of_neg (((-230514832240757937301 : ℝ) / 68116700175988500000000) * Real.pi) (-0.010631514763 : ℝ) (-0.010631514762 : ℝ) hu1 hu2 (by norm_num)
  have hsqhi : (((-230514832240757937301 : ℝ) / 68116700175988500000000) * Real.pi) ^ 2 ≤ (0.010631514763 : ℝ) ^ 2 := sq_le_of_abs _ _ habs
  have hsqlo := sq_bounds_of_neg (((-230514832240757937301 : ℝ) / 68116700175988500000000) * Real.pi) (-0.010631514763 : ℝ) (-0.010631514762 : ℝ) hu1 hu2 (by norm_num)
  have hS1 : (-0.01063131515 : ℝ) ≤ Real.sin (((-230514832240757937301 : ℝ) / 68116700175988500000000) * Real.pi) := by linarith only [hsin.1, hcube.2, hu1, hu2]
  have hS2 : Real.sin (((-230514832240757937301 : ℝ) / 68116700175988500000000) * Real.pi) ≤ (-0.01063131381 : ℝ) := by linarith only [hsin.2, hcube.1, hu1, hu2]
  have hC1 : (0.99994348478 : ℝ) ≤ Real.cos (((-230514832240757937301 : ℝ) / 68116700175988500000000) * Real.pi) := by linarith only [hcos.1, hsqhi, hu1, hu2]
  have hC2 : Real.cos (((-230514832240757937301 : ℝ) / 68116700175988500000000) * Real.pi) ≤ (0.99994348612 : ℝ) := by linarith only [hcos.2, hsqlo.1, hu1, hu2]
  constructor
  · linarith only [hS1, hS2, hC1, hC2]
  · linarith only [hS1, hS2, hC1, hC2]

theorem sinb_Ms_1523 :
    (0.72724064147 : ℝ) ≤ Real.sin (toRadians (nmSunAnomaly 1523)) ∧ Real.sin (toRadians (nmSunAnomaly 1523)) ≤ (0.727656145552 : ℝ) := by
  rw [sin_toRadians_decomp (nmSunAnomaly 1523) 2 ((-2520043004366489207731 : ℝ) / 34058350087994250000000) 124
    (by simp only [nmSunAnomaly, nmT]; push_cast; norm_num), sin_lat2, cos_lat2]
  have hp1 := Real.pi_gt_d20
  have hp2 := Real.pi_lt_d20
  have hu1 : (-0.232452498985 : ℝ) ≤ ((-2520043004366489207731 : ℝ) / 34058350087994250000000) * Real.pi := by linarith only [hp1, hp2]
  have hu2 : ((-2520043004366489207731 : ℝ) / 34058350087994250000000) * Real.pi ≤ (-0.232452498984 : ℝ) := by linarith only [hp1, hp2]
  have habs : |((-2520043004366489207731 : ℝ) / 34058350087994250000000) * Real.pi| ≤ (0.232452498985 : ℝ) := abs_le.mpr ⟨by linarith only [hu1, hu2], by linarith only [hu1, hu2]⟩
  have hsin := sin_small_bounds (((-2520043004366489207731 : ℝ) / 34058350087994250000000) * Real.pi) (0.232452498985 : ℝ) habs (by norm_num)
  have hcos := cos_small_bounds (((-2520043004366489207731 : ℝ) / 34058350087994250000000) * Real.pi) (0.232452498985 : ℝ) habs (by norm_num)
  have hcube := cube_bounds_of_neg (((-2520043004366489207731 : ℝ) / 34058350087994250000000) * Real.pi) (-0.232452498985 : ℝ) (-0.232452498984 : ℝ) hu1 hu2 (by norm_num)
  have hsqhi : (((-2520043004366489207731 : ℝ) / 34058350087994250000000) * Real.pi) ^ 2 ≤ (0.232452498985 : ℝ) ^ 2 := sq_le_of_abs _ _ habs
  have hsqlo := sq_bounds_of_neg (((-2520043004366489207731 : ℝ) / 34058350087994250000000) * Real.pi) (-0.232452498985 : ℝ) (-0.232452498984 : ℝ) hu1 hu2 (by norm_num)
  have hS1 : (-0.23051117014 : ℝ) ≤ Real.sin (((-2520043004366489207731 : ℝ) / 34058350087994250000000) * Real.pi) := by linarith only [hsin.1, hcube.2, hu1, hu2]
  have hS2 : Real.sin (((-2520043004366489207731 : ℝ) / 34058350087994250000000) * Real.pi) ≤ (-0.23020703566 : ℝ) := by linarith only [hsin.2, hcube.1, hu1, hu2]
  have hC1 : (0.97283085062 : ℝ) ≤ Real.cos (((-2520043004366489207731 : ℝ) / 34058350087994250000000) * Real.pi) := by linarith only [hcos.1, hsqhi, hu1, hu2]
  have hC2 : Real.cos (((-2520043004366489207731 : ℝ) / 34058350087994250000000) * Real.pi) ≤ (0.9731349851 : ℝ) := by linarith only [hcos.2, hsqlo.1, hu1, hu2]
  have q1 : Real.sqrt 3 * (Real.cos (((-2520043004366489207731 : ℝ) / 34058350087994250000000) * Real.pi)) ≤ Real.sqrt 3 * (0.9731349851 : ℝ) := mul_le_mul_of_nonneg_left hC2 (Real.sqrt_nonneg 3)
  have q2 : Real.sqrt 3 * (0.9731349851 : ℝ) ≤ (1.7320509 : ℝ) * (0.9731349851 : ℝ) := mul_le_mul_of_nonneg_right sqrt3_bounds.2 (by norm_num)
  have q3 : Real.sqrt 3 * (0.97283085062 : ℝ) ≤ Real.sqrt 3 * (Real.cos (((-2520043004366489207731 : ℝ) / 34058350087994250000000) * Real.pi)) := mul_le_mul_of_nonneg_left hC1 (Real.sqrt_nonneg 3)
  have q4 : (1.7320508 : ℝ) * (0.97283085062 : ℝ) ≤ Real.sqrt 3 * (0.97283085062 : ℝ) := mul_le_mul_of_nonneg_right sqrt3_bounds.1 (by norm_num)
  constructor
  · linarith only [hS1, hS2, hC1, hC2, q1, q2, q3, q4]
  · linarith only [hS1, hS2, hC1, hC2, q1, q2, q3, q4]

theorem sinb_Mm_1523 :
    (0.425897968312 : ℝ) ≤ Real.sin (toRadians (nmMoonAnomaly 1523)) ∧ Real.sin (toRadians (nmMoonAnomaly 1523)) ≤ (0.42590493616 : ℝ) := by
  rw [sin_toRadians_decomp (nmMoonAnomaly 1523) 1 ((-3626988334837506025243 : ℝ) / 136233400351977000000000) 1633
    (by simp only [nmMoonAnomaly, nmT]; push_cast; norm_num), sin_lat1, cos_lat1]
  have hp1 := Real.pi_gt_d20
  have hp2 := Real.pi_lt_d20
  have hu1 : (-0.083639693922 : ℝ) ≤ ((-3626988334837506025243 : ℝ) / 136233400351977000000000) * Real.pi := by linarith only [hp1, hp2]
  have hu2 : ((-3626988334837506025243 : ℝ) / 136233400351977000000000) * Real.pi ≤ (-0.083639693921 : ℝ) := by linarith only [hp1, hp2]
  have habs : |((-3626988334837506025243 : ℝ) / 136233400351977000000000) * Real.pi| ≤ (0.083639693922 : ℝ) := abs_le.mpr ⟨by linarith only [hu1, hu2], by linarith only [hu1, hu2]⟩
  have hsin := sin_small_bounds (((-3626988334837506025243 : ℝ) / 136233400351977000000000) * Real.pi) (0.083639693922 : ℝ) habs (by norm_num)
  have hcos := cos_small_bounds (((-3626988334837506025243 : ℝ) / 136233400351977000000000) * Real.pi) (0.083639693922 : ℝ) habs (by norm_num)
  have hcube := cube_bounds_of_neg (((-3626988334837506025243 : ℝ) / 136233400351977000000000) * Real.pi) (-0.083639693922 : ℝ) (-0.083639693921 : ℝ) hu1 hu2 (by norm_num)
  have hsqhi : (((-3626988334837506025243 : ℝ) / 136233400351977000000000) * Real.pi) ^ 2 ≤ (0.083639693922 : ℝ) ^ 2 := sq_le_of_abs _ _ habs
  have hsqlo := sq_bounds_of_neg (((-3626988334837506025243 : ℝ) / 136233400351977000000000) * Real.pi) (-0.083639693922 : ℝ) (-0.083639693921 : ℝ) hu1 hu2 (by norm_num)
  have hS1 : (-0.08354472452 : ℝ) ≤ Real.sin (((-3626988334837506025243 : ℝ) / 136233400351977000000000) * Real.pi) := by linarith only [hsin.1, hcube.2, hu1, hu2]
  have hS2 : Real.sin (((-3626988334837506025243 : ℝ) / 136233400351977000000000) * Real.pi) ≤ (-0.08353962676 : ℝ) := by linarith only [hsin.2, hcube.1, hu1, hu2]
  have hC1 : (0.99649965192 : ℝ) ≤ Real.cos (((-3626988334837506025243 : ℝ) / 136233400351977000000000) * Real.pi) := by linarith only [hcos.1, hsqhi, hu1, hu2]
  have hC2 : Real.cos (((-3626988334837506025243 : ℝ) / 136233400351977000000000) * Real.pi) ≤ (0.99650474968 : ℝ) := by linarith only [hcos.2, hsqlo.1, hu1, hu2]
  have q1 : Real.sqrt 3 * (Real.sin (((-3626988334837506025243 : ℝ) / 136233400351977000000000) * Real.pi)) ≤ Real.sqrt 3 * (-0.08353962676 : ℝ) := mul_le_mul_of_nonneg_left hS2 (Real.sqrt_nonneg 3)
  have q2 : Real.sqrt 3 * (-0.08353962676 : ℝ) ≤ (1.7320508 : ℝ) * (-0.08353962676 : ℝ) := mul_le_mul_of_nonpos_right sqrt3_bounds.1 (by norm_num)
  have q3 : Real.sqrt 3 * (-0.08354472452 : ℝ) ≤ Real.sqrt 3 * (Real.sin (((-3626988334837506025243 : ℝ) / 136233400351977000000000) * Real.pi)) := mul_le_mul_of_nonneg_left hS1 (Real.sqrt_nonneg 3)
  have q4 : (1.7320509 : ℝ) * (-0.08354472452 : ℝ) ≤ Real.sqrt 3 * (-0.08354472452 : ℝ) := mul_le_mul_of_nonpos_right sqrt3_bounds.2 (by norm_num)
  constructor
  · linarith only [hS1, hS2, hC1, hC2, q1, q2, q3, q4]
  · linarith only [hS1, hS2, hC1, hC2, q1, q2, q3, q4]

theorem sinb_Ms_1524 :
    (0.96903415537 : ℝ) ≤ Real.sin (toRadians (nmSunAnomaly 1524)) ∧ Real.sin (toRadians (nmSunAnomaly 1524)) ≤ (0.96942861688 : ℝ) := by
  rw [sin_toRadians_decomp (nmSunAnomaly 1524) 3 ((-18675842566022003287 : ℝ) / 236516320055515625000) 124
    (by simp only [nmSunAnomaly, nmT]; push_cast; norm_num), sin_lat3, cos_lat3]
  have hp1 := Real.pi_gt_d20
  have hp2 := Real.pi_lt_d20
  have hu1 : (-0.248066982403 : ℝ) ≤ ((-18675842566022003287 : ℝ) / 236516320055515625000) * Real.pi := by linarith only [hp1, hp2]
  have hu2 : ((-18675842566022003287 : ℝ) / 236516320055515625000) * Real.pi ≤ (-0.248066982402 : ℝ) := by linarith only [hp1, hp2]
  have habs : |((-18675842566022003287 : ℝ) / 236516320055515625000) * Real.pi| ≤ (0.248066982403 : ℝ) := abs_le.mpr ⟨by linarith only [hu1, hu2], by linarith only [hu1, hu2]⟩
  have hsin := sin_small_bounds (((-18675842566022003287 : ℝ) / 236516320055515625000) * Real.pi) (0.248066982403 : ℝ) habs (by norm_num)
  have hcos := cos_small_bounds (((-18675842566022003287 : ℝ) / 236516320055515625000) * Real.pi) (0.248066982403 : ℝ) habs (by norm_num)
  have hcube := cube_bounds_of_neg (((-18675842566022003287 : ℝ) / 236516320055515625000) * Real.pi) (-0.248066982403 : ℝ) (-0.248066982402 : ℝ) hu1 hu2 (by norm_num)
  have hsqhi : (((-18675842566022003287 : ℝ) / 236516320055515625000) * Real.pi) ^ 2 ≤ (0.248066982403 : ℝ) ^ 2 := sq_le_of_abs _ _ habs
  have hsqlo := sq_bounds_of_neg (((-18675842566022003287 : ℝ) / 236516320055515625000) * Real.pi) (-0.248066982403 : ℝ) (-0.248066982402 : ℝ) hu1 hu2 (by norm_num)
  have hS1 : (-0.24571998743 : ℝ) ≤ Real.sin (((-18675842566022003287 : ℝ) / 236516320055515625000) * Real.pi) := by linarith only [hsin.1, hcube.2, hu1, hu2]
  have hS2 : Real.sin (((-18675842566022003287 : ℝ) / 236516320055515625000) * Real.pi) ≤ (-0.24532552591 : ℝ) := by linarith only [hsin.2, hcube.1, hu1, hu2]
  have hC1 : (0.96903415537 : ℝ) ≤ Real.cos (((-18675842566022003287 : ℝ) / 236516320055515625000) * Real.pi) := by linarith only [hcos.1, hsqhi, hu1, hu2]
  have hC2 : Real.cos (((-18675842566022003287 : ℝ) / 236516320055515625000) * Real.pi) ≤ (0.96942861688 : ℝ) := by linarith only [hcos.2, hsqlo.1, hu1, hu2]
  constructor
  · linarith only [hS1, hS2, hC1, hC2]
  · linarith only [hS1, hS2, hC1, hC2]

theorem sinb_Mm_1524 :
    (0.77735344261 : ℝ) ≤ Real.sin (toRadians (nmMoonAnomaly 1524)) ∧ Real.sin (toRadians (nmMoonAnomaly 1524)) ≤ (0.777439173216 : ℝ) := by
  rw [sin_toRadians_decomp (nmMoonAnomaly 1524) 2 ((-1698236748632650953971 : ℝ) / 34058350087994250000000) 1634
    (by simp only [nmMoonAnomaly, nmT]; push_cast; norm_num), sin_lat2, cos_lat2]
  have hp1 := Real.pi_gt_d20
  have hp2 := Real.pi_lt_d20
  have hu1 : (-0.156647872836 : ℝ) ≤ ((-1698236748632650953971 : ℝ) / 34058350087994250000000) * Real.pi := by linarith only [hp1, hp2]
  have hu2 : ((-1698236748632650953971 : ℝ) / 34058350087994250000000) * Real.pi ≤ (-0.156647872835 : ℝ) := by linarith only [hp1, hp2]
  have habs : |((-1698236748632650953971 : ℝ) / 34058350087994250000000) * Real.pi| ≤ (0.156647872836 : ℝ) := abs_le.mpr ⟨by linarith only [hu1, hu2], by linarith only [hu1, hu2]⟩
  have hsin := sin_small_bounds (((-1698236748632650953971 : ℝ) / 34058350087994250000000) * Real.pi) (0.156647872836 : ℝ) habs (by norm_num)
  have hcos := cos_small_bounds (((-1698236748632650953971 : ℝ) / 34058350087994250000000) * Real.pi) (0.156647872836 : ℝ) habs (by norm_num)
  have hcube := cube_bounds_of_neg (((-1698236748632650953971 : ℝ) / 34058350087994250000000) * Real.pi) (-0.156647872836 : ℝ) (-0.156647872835 : ℝ) hu1 hu2 (by norm_num)
  have hsqhi : (((-1698236748632650953971 : ℝ) / 34058350087994250000000) * Real.pi) ^ 2 ≤ (0.156647872836 : ℝ) ^ 2 := sq_le_of_abs _ _ habs
  have hsqlo := sq_bounds_of_neg (((-1698236748632650953971 : ℝ) / 34058350087994250000000) * Real.pi) (-0.156647872836 : ℝ) (-0.156647872835 : ℝ) hu1 hu2 (by norm_num)
  have hS1 : (-0.15603858224 : ℝ) ≤ Real.sin (((-1698236748632650953971 : ℝ) / 34058350087994250000000) * Real.pi) := by linarith only [hsin.1, hcube.2, hu1, hu2]
  have hS2 : Real.sin (((-1698236748632650953971 : ℝ) / 34058350087994250000000) * Real.pi) ≤ (-0.15597585923 : ℝ) := by linarith only [hsin.2, hcube.1, hu1, hu2]
  have hC1 : (0.98769936047 : ℝ) ≤ Real.cos (((-1698236748632650953971 : ℝ) / 34058350087994250000000) * Real.pi) := by linarith only [hcos.1, hsqhi, hu1, hu2]
  have hC2 : Real.cos (((-1698236748632650953971 : ℝ) / 34058350087994250000000) * Real.pi) ≤ (0.98776208347 : ℝ) := by linarith only [hcos.2, hsqlo.1, hu1, hu2]
  have q1 : Real.sqrt 3 * (Real.cos (((-1698236748632650953971 : ℝ) / 34058350087994250000000) * Real.pi)) ≤ Real.sqrt 3 * (0.98776208347 : ℝ) := mul_le_mul_of_nonneg_left hC2 (Real.sqrt_nonneg 3)
  have q2 : Real.sqrt 3 * (0.98776208347 : ℝ) ≤ (1.7320509 : ℝ) * (0.98776208347 : ℝ) := mul_le_mul_of_nonneg_right sqrt3_bounds.2 (by norm_num)
  have q3 : Real.sqrt 3 * (0.98769936047 : ℝ) ≤ Real.sqrt 3 * (Real.cos (((-1698236748632650953971 : ℝ) / 34058350087994250000000) * Real.pi)) := mul_le_mul_of_nonneg_left hC1 (Real.sqrt_nonneg 3)
  have q4 : (1.7320508 : ℝ) * (0.98769936047 : ℝ) ≤ Real.sqrt 3 * (0.98769936047 : ℝ) := mul_le_mul_of_nonneg_right sqrt3_bounds.1 (by norm_num)
  constructor
  · linarith only [hS1, hS2, hC1, hC2, q1, q2, q3, q4]
  · linarith only [hS1, hS2, hC1, hC2, q1, q2, q3, q4]

theorem sinb_2Ms_1524 :
    (0.476029145683 : ℝ) ≤ Real.sin (2 * toRadians (nmSunAnomaly 1524)) ∧ Real.sin (2 * toRadians (nmSunAnomaly 1524)) ≤ (0.476029228035 : ℝ) := by
  rw [two_mul_toRadians (nmSunAnomaly 1524)]
  rw [sin_toRadians_decomp (2 * (nmSunAnomaly 1524)) 5 ((3101552315812896389 : ℝ) / 354774480083273437500) 248
    (by simp only [nmSunAnomaly, nmT]; push_cast; norm_num), sin_lat5, cos_lat5]
  have hp1 := Real.pi_gt_d20
  have hp2 := Real.pi_lt_d20
  have hu1 : (0.027464810794 : ℝ) ≤ ((3101552315812896389 : ℝ) / 354774480083273437500) * Real.pi := by linarith only [hp1, hp2]
  have hu2 : ((3101552315812896389 : ℝ) / 354774480083273437500) * Real.pi ≤ (0.027464810795 : ℝ) := by linarith only [hp1, hp2]
  have habs : |((3101552315812896389 : ℝ) / 354774480083273437500) * Real.pi| ≤ (0.027464810795 : ℝ) := abs_le.mpr ⟨by linarith only [hu1, hu2], by linarith only [hu1, hu2]⟩
  have hsin := sin_small_bounds (((3101552315812896389 : ℝ) / 354774480083273437500) * Real.pi) (0.027464810795 : ℝ) habs (by norm_num)
  have hcos := cos_small_bounds (((3101552315812896389 : ℝ) / 354774480083273437500) * Real.pi) (0.027464810795 : ℝ) habs (by norm_num)
  have hcube := cube_bounds_of_pos (((3101552315812896389 : ℝ) / 354774480083273437500) * Real.pi) (0.027464810794 : ℝ) (0.027464810795 : ℝ) hu1 hu2 (by norm_num)
  have hsqhi : (((3101552315812896389 : ℝ) / 354774480083273437500) * Real.pi) ^ 2 ≤ (0.027464810795 : ℝ) ^ 2 := sq_le_of_abs _ _ habs
  have hsqlo := sq_bounds_of_pos (((3101552315812896389 : ℝ) / 354774480083273437500) * Real.pi) (0.027464810794 : ℝ) (0.027464810795 : ℝ) hu1 hu2 (by norm_num)
  have hS1 : (0.0274613283 : ℝ) ≤ Real.sin (((3101552315812896389 : ℝ) / 354774480083273437500) * Real.pi) := by linarith only [hsin.1, hcube.2, hu1, hu2]
  have hS2 : Real.sin (((3101552315812896389 : ℝ) / 354774480083273437500) * Real.pi) ≤ (0.02746138758 : ℝ) := by linarith only [hsin.2, hcube.1, hu1, hu2]
  have hC1 : (0.99962281244 : ℝ) ≤ Real.cos (((3101552315812896389 : ℝ) / 354774480083273437500) * Real.pi) := by linarith only [hcos.1, hsqhi, hu1, hu2]
  have hC2 : Real.cos (((3101552315812896389 : ℝ) / 354774480083273437500) * Real.pi) ≤ (0.99962287172 : ℝ) := by linarith only [hcos.2, hsqlo.1, hu1, hu2]
  have q1 : Real.sqrt 3 * (Real.sin (((3101552315812896389 : ℝ) / 354774480083273437500) * Real.pi)) ≤ Real.sqrt 3 * (0.02746138758 : ℝ) := mul_le_mul_of_nonneg_left hS2 (Real.sqrt_nonneg 3)
  have q2 : Real.sqrt 3 * (0.02746138758 : ℝ) ≤ (1.7320509 : ℝ) * (0.02746138758 : ℝ) := mul_le_mul_of_nonneg_right sqrt3_bounds.2 (by norm_num)
  have q3 : Real.sqrt 3 * (0.0274613283 : ℝ) ≤ Real.sqrt 3 * (Real.sin (((3101552315812896389 : ℝ) / 354774480083273437500) * Real.pi)) := mul_le_mul_of_nonneg_left hS1 (Real.sqrt_nonneg 3)
  have q4 : (1.7320508 : ℝ) * (0.0274613283 : ℝ) ≤ Real.sqrt 3 * (0.0274613283 : ℝ) := mul_le_mul_of_nonneg_right sqrt3_bounds.1 (by norm_num)
  constructor
  · linarith only [hS1, hS2, hC1, hC2, q1, q2, q3, q4]
  · linarith only [hS1, hS2, hC1, hC2, q1, q2, q3, q4]

theorem sinb_2Mm_1524 :
    (0.97778443968 : ℝ) ≤ Real.sin (2 * toRadians (nmMoonAnomaly 1524)) ∧ Real.sin (2 * toRadians (nmMoonAnomaly 1524)) ≤ (0.97798819592 : ℝ) := by
  rw [two_mul_toRadians (nmMoonAnomaly 1524)]
  rw [sin_toRadians_decomp (2 * (nmMoonAnomaly 1524)) 3 ((1139959092033536546029 : ℝ) / 17029175043997125000000) 3268
    (by simp only [nmMoonAnomaly, nmT]; push_cast; norm_num), sin_lat3, cos_lat3]
  have hp1 := Real.pi_gt_d20
  have hp2 := Real.pi_lt_d20
  have hu1 : (0.210303029927 : ℝ) ≤ ((1139959092033536546029 : ℝ) / 17029175043997125000000) * Real.pi := by linarith only [hp1, hp2]
  have hu2 : ((1139959092033536546029 : ℝ) / 17029175043997125000000) * Real.pi ≤ (0.210303029928 : ℝ) := by linarith only [hp1, hp2]
  have habs : |((1139959092033536546029 : ℝ) / 17029175043997125000000) * Real.pi| ≤ (0.210303029928 : ℝ) := abs_le.mpr ⟨by linarith only [hu1, hu2], by linarith only [hu1, hu2]⟩
  have hsin := sin_small_bounds (((1139959092033536546029 : ℝ) / 17029175043997125000000) * Real.pi) (0.210303029928 : ℝ) habs (by norm_num)
  have hcos := cos_small_bounds (((1139959092033536546029 : ℝ) / 17029175043997125000000) * Real.pi) (0.210303029928 : ℝ) habs (by norm_num)
  have hcube := cube_bounds_of_pos (((1139959092033536546029 : ℝ) / 17029175043997125000000) * Real.pi) (0.210303029927 : ℝ) (0.210303029928 : ℝ) hu1 hu2 (by norm_num)
  have hsqhi : (((1139959092033536546029 : ℝ) / 17029175043997125000000) * Real.pi) ^ 2 ≤ (0.210303029928 : ℝ) ^ 2 := sq_le_of_abs _ _ habs
  have hsqlo := sq_bounds_of_pos (((1139959092033536546029 : ℝ) / 17029175043997125000000) * Real.pi) (0.210303029927 : ℝ) (0.210303029928 : ℝ) hu1 hu2 (by norm_num)
  have hS1 : (0.20865096035 : ℝ) ≤ Real.sin (((1139959092033536546029 : ℝ) / 17029175043997125000000) * Real.pi) := by linarith only [hsin.1, hcube.2, hu1, hu2]
  have hS2 : Real.sin (((1139959092033536546029 : ℝ) / 17029175043997125000000) * Real.pi) ≤ (0.20885471659 : ℝ) := by linarith only [hsin.2, hcube.1, hu1, hu2]
  have hC1 : (0.97778443968 : ℝ) ≤ Real.cos (((1139959092033536546029 : ℝ) / 17029175043997125000000) * Real.pi) := by linarith only [hcos.1, hsqhi, hu1, hu2]
  have hC2 : Real.cos (((1139959092033536546029 : ℝ) / 17029175043997125000000) * Real.pi) ≤ (0.97798819592 : ℝ) := by linarith only [hcos.2, hsqlo.1, hu1, hu2]
  constructor
  · linarith only [hS1, hS2, hC1, hC2]
  · linarith only [hS1, hS2, hC1, hC2]

theorem sinb_2F_1524 :
    (-0.959959010705 : ℝ) ≤ Real.sin (2 * toRadians (nmMoonArgLat 1524)) ∧ Real.sin (2 * toRadians (nmMoonArgLat 1524)) ≤ (-0.959492666296 : ℝ) := by
  rw [two_mul_toRadians (nmMoonArgLat 1524)]
  rw [sin_toRadians_decomp (2 * (nmMoonArgLat 1524)) 10 ((-432305712485150810387 : ℝ) / 5676391681332375000000) 3307
    (by simp only [nmMoonArgLat, nmT]; push_cast; norm_num), sin_lat10, cos_lat10]
  have hp1 := Real.pi_gt_d20
  have hp2 := Real.pi_lt_d20
  have hu1 : (-0.239259115067 : ℝ) ≤ ((-432305712485150810387 : ℝ) / 5676391681332375000000) * Real.pi := by linarith only [hp1, hp2]
  have hu2 : ((-432305712485150810387 : ℝ) / 5676391681332375000000) * Real.pi ≤ (-0.239259115066 : ℝ) := by linarith only [hp1, hp2]
  have habs : |((-432305712485150810387 : ℝ) / 5676391681332375000000) * Real.pi| ≤ (0.239259115067 : ℝ) := abs_le.mpr ⟨by linarith only [hu1, hu2], by linarith only [hu1, hu2]⟩
  have hsin := sin_small_bounds (((-432305712485150810387 : ℝ) / 5676391681332375000000) * Real.pi) (0.239259115067 : ℝ) habs (by norm_num)
  have hcos := cos_small_bounds (((-432305712485150810387 : ℝ) / 5676391681332375000000) * Real.pi) (0.239259115067 : ℝ) habs (by norm_num)
  have hcube := cube_bounds_of_neg (((-432305712485150810387 : ℝ) / 5676391681332375000000) * Real.pi) (-0.239259115067 : ℝ) (-0.239259115066 : ℝ) hu1 hu2 (by norm_num)
  have hsqhi : (((-432305712485150810387 : ℝ) / 5676391681332375000000) * Real.pi) ^ 2 ≤ (0.239259115067 : ℝ) ^ 2 := sq_le_of_abs _ _ habs
  have hsqlo := sq_bounds_of_neg (((-432305712485150810387 : ℝ) / 5676391681332375000000) * Real.pi) (-0.239259115067 : ℝ) (-0.239259115066 : ℝ) hu1 hu2 (by norm_num)
  have hS1 : (-0.23714706287 : ℝ) ≤ Real.sin (((-432305712485150810387 : ℝ) / 5676391681332375000000) * Real.pi) := by linarith only [hsin.1, hcube.2, hu1, hu2]
  have hS2 : Real.sin (((-432305712485150810387 : ℝ) / 5676391681332375000000) * Real.pi) ≤ (-0.23680571063 : ℝ) := by linarith only [hsin.2, hcube.1, hu1, hu2]
  have hC1 : (0.97120686181 : ℝ) ≤ Real.cos (((-432305712485150810387 : ℝ) / 5676391681332375000000) * Real.pi) := by linarith only [hcos.1, hsqhi, hu1, hu2]
  have hC2 : Real.cos (((-432305712485150810387 : ℝ) / 5676391681332375000000) * Real.pi) ≤ (0.97154821405 : ℝ) := by linarith only [hcos.2, hsqlo.1, hu1, hu2]
  have q1 : Real.sqrt 3 * (Real.cos (((-432305712485150810387 : ℝ) / 5676391681332375000000) * Real.pi)) ≤ Real.sqrt 3 * (0.97154821405 : ℝ) := mul_le_mul_of_nonneg_left hC2 (Real.sqrt_nonneg 3)
  have q2 : Real.sqrt 3 * (0.97154821405 : ℝ) ≤ (1.7320509 : ℝ) * (0.97154821405 : ℝ) := mul_le_mul_of_nonneg_right sqrt3_bounds.2 (by norm_num)
  have q3 : Real.sqrt 3 * (0.97120686181 : ℝ) ≤ Real.sqrt 3 * (Real.cos (((-432305712485150810387 : ℝ) / 5676391681332375000000) * Real.pi)) := mul_le_mul_of_nonneg_left hC1 (Real.sqrt_nonneg 3)
  have q4 : (1.7320508 : ℝ) * (0.97120686181 : ℝ) ≤ Real.sqrt 3 * (0.97120686181 : ℝ) := mul_le_mul_of_nonneg_right sqrt3_bounds.1 (by norm_num)
  constructor
  · linarith only [hS1, hS2, hC1, hC2, q1, q2, q3, q4]
  · linarith only [hS1, hS2, hC1, hC2, q1, q2, q3, q4]

theorem sinb_MspMm_1524 :
    (0.800589311486 : ℝ) ≤ Real.sin (toRadians (nmSunAnomaly 1524 + nmMoonAnomaly 1524)) ∧ Real.sin (toRadians (nmSunAnomaly 1524 + nmMoonAnomaly 1524)) ≤ (0.800617784817 : ℝ) := by
  rw [sin_toRadians_decomp (nmSunAnomaly 1524 + nmMoonAnomaly 1524) 4 ((1288833603192555572701 : ℝ) / 34058350087994250000000) 1758
    (by simp only [nmSunAnomaly, nmMoonAnomaly, nmT]; push_cast; norm_num), sin_lat4, cos_lat4]
  have hp1 := Real.pi_gt_d20
  have hp2 := Real.pi_lt_d20
  have hu1 : (0.118883920361 : ℝ) ≤ ((1288833603192555572701 : ℝ) / 34058350087994250000000) * Real.pi := by linarith only [hp1, hp2]
  have hu2 : ((1288833603192555572701 : ℝ) / 34058350087994250000000) * Real.pi ≤ (0.118883920362 : ℝ) := by linarith only [hp1, hp2]
  have habs : |((1288833603192555572701 : ℝ) / 34058350087994250000000) * Real.pi| ≤ (0.118883920362 : ℝ) := abs_le.mpr ⟨by linarith only [hu1, hu2], by linarith only [hu1, hu2]⟩
  have hsin := sin_small_bounds (((1288833603192555572701 : ℝ) / 34058350087994250000000) * Real.pi) (0.118883920362 : ℝ) habs (by norm_num)
  have hcos := cos_small_bounds (((1288833603192555572701 : ℝ) / 34058350087994250000000) * Real.pi) (0.118883920362 : ℝ) habs (by norm_num)
  have hcube := cube_bounds_of_pos (((1288833603192555572701 : ℝ) / 34058350087994250000000) * Real.pi) (0.118883920361 : ℝ) (0.118883920362 : ℝ) hu1 hu2 (by norm_num)
  have hsqhi : (((1288833603192555572701 : ℝ) / 34058350087994250000000) * Real.pi) ^ 2 ≤ (0.118883920362 : ℝ) ^ 2 := sq_le_of_abs _ _ habs
  have hsqlo := sq_bounds_of_pos (((1288833603192555572701 : ℝ) / 34058350087994250000000) * Real.pi) (0.118883920361 : ℝ) (0.118883920362 : ℝ) hu1 hu2 (by norm_num)
  have hS1 : (0.11859347784 : ℝ) ≤ Real.sin (((1288833603192555572701 : ℝ) / 34058350087994250000000) * Real.pi) := by linarith only [hsin.1, hcube.2, hu1, hu2]
  have hS2 : Real.sin (((1288833603192555572701 : ℝ) / 34058350087994250000000) * Real.pi) ≤ (0.11861428542 : ℝ) := by linarith only [hsin.2, hcube.1, hu1, hu2]
  have hC1 : (0.99292290295 : ℝ) ≤ Real.cos (((1288833603192555572701 : ℝ) / 34058350087994250000000) * Real.pi) := by linarith only [hcos.1, hsqhi, hu1, hu2]
  have hC2 : Real.cos (((1288833603192555572701 : ℝ) / 34058350087994250000000) * Real.pi) ≤ (0.99294371053 : ℝ) := by linarith only [hcos.2, hsqlo.1, hu1, hu2]
  have q1 : Real.sqrt 3 * (Real.cos (((1288833603192555572701 : ℝ) / 34058350087994250000000) * Real.pi)) ≤ Real.sqrt 3 * (0.99294371053 : ℝ) := mul_le_mul_of_nonneg_left hC2 (Real.sqrt_nonneg 3)
  have q2 : Real.sqrt 3 * (0.99294371053 : ℝ) ≤ (1.7320509 : ℝ) * (0.99294371053 : ℝ) := mul_le_mul_of_nonneg_right sqrt3_bounds.2 (by norm_num)
  have q3 : Real.sqrt 3 * (0.99292290295 : ℝ) ≤ Real.sqrt 3 * (Real.cos (((1288833603192555572701 : ℝ) / 34058350087994250000000) * Real.pi)) := mul_le_mul_of_nonneg_left hC1 (Real.sqrt_nonneg 3)
  have q4 : (1.7320508 : ℝ) * (0.99292290295 : ℝ) ≤ Real.sqrt 3 * (0.99292290295 : ℝ) := mul_le_mul_of_nonneg_right sqrt3_bounds.1 (by norm_num)
  constructor
  · linarith only [hS1, hS2, hC1, hC2, q1, q2, q3, q4]
  · linarith only [hS1, hS2, hC1, hC2, q1, q2, q3, q4]

theorem sinb_MsmMm_1524 :
    (0.418844670054 : ℝ) ≤ Real.sin (toRadians (nmSunAnomaly 1524 - nmMoonAnomaly 1524)) ∧ Real.sin (toRadians (nmSunAnomaly 1524 - nmMoonAnomaly 1524)) ≤ (0.418854613466 : ℝ) := by
  rw [sin_toRadians_decomp (nmSunAnomaly 1524 - nmMoonAnomaly 1524) 1 ((-991084580874517519357 : ℝ) / 34058350087994250000000) (-1510)
    (by simp only [nmSunAnomaly, nmMoonAnomaly, nmT]; push_cast; norm_num), sin_lat1, cos_lat1]
  have hp1 := Real.pi_gt_d20
  have hp2 := Real.pi_lt_d20
  have hu1 : (-0.091419109567 : ℝ) ≤ ((-991084580874517519357 : ℝ) / 34058350087994250000000) * Real.pi := by linarith only [hp1, hp2]
  have hu2 : ((-991084580874517519357 : ℝ) / 34058350087994250000000) * Real.pi ≤ (-0.091419109566 : ℝ) := by linarith only [hp1, hp2]
  have habs : |((-991084580874517519357 : ℝ) / 34058350087994250000000) * Real.pi| ≤ (0.091419109567 : ℝ) := abs_le.mpr ⟨by linarith only [hu1, hu2], by linarith only [hu1, hu2]⟩
  have hsin := sin_small_bounds (((-991084580874517519357 : ℝ) / 34058350087994250000000) * Real.pi) (0.091419109567 : ℝ) habs (by norm_num)
  have hcos := cos_small_bounds (((-991084580874517519357 : ℝ) / 34058350087994250000000) * Real.pi) (0.091419109567 : ℝ) habs (by norm_num)
  have hcube := cube_bounds_of_neg (((-991084580874517519357 : ℝ) / 34058350087994250000000) * Real.pi) (-0.091419109567 : ℝ) (-0.091419109566 : ℝ) hu1 hu2 (by norm_num)
  have hsqhi : (((-991084580874517519357 : ℝ) / 34058350087994250000000) * Real.pi) ^ 2 ≤ (0.091419109567 : ℝ) ^ 2 := sq_le_of_abs _ _ habs
  have hsqlo := sq_bounds_of_neg (((-991084580874517519357 : ℝ) / 34058350087994250000000) * Real.pi) (-0.091419109567 : ℝ) (-0.091419109566 : ℝ) hu1 hu2 (by norm_num)
  have hS1 : (-0.09129540894 : ℝ) ≤ Real.sin (((-991084580874517519357 : ℝ) / 34058350087994250000000) * Real.pi) := by linarith only [hsin.1, hcube.2, hu1, hu2]
  have hS2 : Real.sin (((-991084580874517519357 : ℝ) / 34058350087994250000000) * Real.pi) ≤ (-0.0912881332 : ℝ) := by linarith only [hsin.2, hcube.1, hu1, hu2]
  have hC1 : (0.99581763533 : ℝ) ≤ Real.cos (((-991084580874517519357 : ℝ) / 34058350087994250000000) * Real.pi) := by linarith only [hcos.1, hsqhi, hu1, hu2]
  have hC2 : Real.cos (((-991084580874517519357 : ℝ) / 34058350087994250000000) * Real.pi) ≤ (0.99582491107 : ℝ) := by linarith only [hcos.2, hsqlo.1, hu1, hu2]
  have q1 : Real.sqrt 3 * (Real.sin (((-991084580874517519357 : ℝ) / 34058350087994250000000) * Real.pi)) ≤ Real.sqrt 3 * (-0.0912881332 : ℝ) := mul_le_mul_of_nonneg_left hS2 (Real.sqrt_nonneg 3)
  have q2 : Real.sqrt 3 * (-0.0912881332 : ℝ) ≤ (1.7320508 : ℝ) * (-0.0912881332 : ℝ) := mul_le_mul_of_nonpos_right sqrt3_bounds.1 (by norm_num)
  have q3 : Real.sqrt 3 * (-0.09129540894 : ℝ) ≤ Real.sqrt 3 * (Real.sin (((-991084580874517519357 : ℝ) / 34058350087994250000000) * Real.pi)) := mul_le_mul_of_nonneg_left hS1 (Real.sqrt_nonneg 3)
  have q4 : (1.7320509 : ℝ) * (-0.09129540894 : ℝ) ≤ Real.sqrt 3 * (-0.09129540894 : ℝ) := mul_le_mul_of_nonpos_right sqrt3_bounds.2 (by norm_num)
  constructor
  · linarith only [hS1, hS2, hC1, hC2, q1, q2, q3, q4]
  · linarith only [hS1, hS2, hC1, hC2, q1, q2, q3, q4]

theorem sinb_Ms_1533 :
    (-0.378907743004 : ℝ) ≤ Real.sin (toRadians (nmSunAnomaly 1533)) ∧ Real.sin (toRadians (nmSunAnomaly 1533)) ≤ (-0.378860471097 : ℝ) := by
  rw [sin_toRadians_decomp (nmSunAnomaly 1533) 11 ((487855141681791930433 : ℝ) / 11352783362664750000000) 124
    (by simp only [nmSunAnomaly, nmT]; push_cast; norm_num), sin_lat11, cos_lat11]
  have hp1 := Real.pi_gt_d20
  have hp2 := Real.pi_lt_d20
  have hu1 : (0.135001442391 : ℝ) ≤ ((487855141681791930433 : ℝ) / 11352783362664750000000) * Real.pi := by linarith only [hp1, hp2]
  have hu2 : ((487855141681791930433 : ℝ) / 11352783362664750000000) * Real.pi ≤ (0.135001442392 : ℝ) := by linarith only [hp1, hp2]
  have habs : |((487855141681791930433 : ℝ) / 11352783362664750000000) * Real.pi| ≤ (0.135001442392 : ℝ) := abs_le.mpr ⟨by linarith only [hu1, hu2], by linarith only [hu1, hu2]⟩
  have hsin := sin_small_bounds (((487855141681791930433 : ℝ) / 11352783362664750000000) * Real.pi) (0.135001442392 : ℝ) habs (by norm_num)
  have hcos := cos_small_bounds (((487855141681791930433 : ℝ) / 11352783362664750000000) * Real.pi) (0.135001442392 : ℝ) habs (by norm_num)
  have hcube := cube_bounds_of_pos (((487855141681791930433 : ℝ) / 11352783362664750000000) * Real.pi) (0.135001442391 : ℝ) (0.135001442392 : ℝ) hu1 hu2 (by norm_num)
  have hsqhi : (((487855141681791930433 : ℝ) / 11352783362664750000000) * Real.pi) ^ 2 ≤ (0.135001442392 : ℝ) ^ 2 := sq_le_of_abs _ _ habs
  have hsqlo := sq_bounds_of_pos (((487855141681791930433 : ℝ) / 11352783362664750000000) * Real.pi) (0.135001442391 : ℝ) (0.135001442392 : ℝ) hu1 hu2 (by norm_num)
  have hS1 : (0.13457406649 : ℝ) ≤ Real.sin (((487855141681791930433 : ℝ) / 11352783362664750000000) * Real.pi) := by linarith only [hsin.1, hcube.2, hu1, hu2]
  have hS2 : Real.sin (((487855141681791930433 : ℝ) / 11352783362664750000000) * Real.pi) ≤ (0.134608667 : ℝ) := by linarith only [hsin.2, hcube.1, hu1, hu2]
  have hC1 : (0.99087000502 : ℝ) ≤ Real.cos (((487855141681791930433 : ℝ) / 11352783362664750000000) * Real.pi) := by linarith only [hcos.1, hsqhi, hu1, hu2]
  have hC2 : Real.cos (((487855141681791930433 : ℝ) / 11352783362664750000000) * Real.pi) ≤ (0.99090460553 : ℝ) := by linarith only [hcos.2, hsqlo.1, hu1, hu2]
  have q1 : Real.sqrt 3 * (Real.sin (((487855141681791930433 : ℝ) / 11352783362664750000000) * Real.pi)) ≤ Real.sqrt 3 * (0.134608667 : ℝ) := mul_le_mul_of_nonneg_left hS2 (Real.sqrt_nonneg 3)
  have q2 : Real.sqrt 3 * (0.134608667 : ℝ) ≤ (1.7320509 : ℝ) * (0.134608667 : ℝ) := mul_le_mul_of_nonneg_right sqrt3_bounds.2 (by norm_num)
  have q3 : Real.sqrt 3 * (0.13457406649 : ℝ) ≤ Real.sqrt 3 * (Real.sin (((487855141681791930433 : ℝ) / 11352783362664750000000) * Real.pi)) := mul_le_mul_of_nonneg_left hS1 (Real.sqrt_nonneg 3)
  have q4 : (1.7320508 : ℝ) * (0.13457406649 : ℝ) ≤ Real.sqrt 3 * (0.13457406649 : ℝ) := mul_le_mul_of_nonneg_right sqrt3_bounds.1 (by norm_num)
  constructor
  · linarith only [hS1, hS2, hC1, hC2, q1, q2, q3, q4]
  · linarith only [hS1, hS2, hC1, hC2, q1, q2, q3, q4]

theorem sinb_Mm_1533 :
    (-0.97289922365 : ℝ) ≤ Real.sin (toRadians (nmMoonAnomaly 1533)) ∧ Real.sin (toRadians (nmMoonAnomaly 1533)) ≤ (-0.97258969679 : ℝ) := by
  rw [sin_toRadians_decomp (nmMoonAnomaly 1533) 9 ((10124558998725566828347 : ℝ) / 136233400351977000000000) 1643
    (by simp only [nmMoonAnomaly, nmT]; push_cast; norm_num), sin_lat9, cos_lat9]
  have hp1 := Real.pi_gt_d20
  have hp2 := Real.pi_lt_d20
  have hu1 : (0.233476079207 : ℝ) ≤ ((10124558998725566828347 : ℝ) / 136233400351977000000000) * Real.pi := by linarith only [hp1, hp2]
  have hu2 : ((10124558998725566828347 : ℝ) / 136233400351977000000000) * Real.pi ≤ (0.233476079208 : ℝ) := by linarith only [hp1, hp2]
  have habs : |((10124558998725566828347 : ℝ) / 136233400351977000000000) * Real.pi| ≤ (0.233476079208 : ℝ) := abs_le.mpr ⟨by linarith only [hu1, hu2], by linarith only [hu1, hu2]⟩
  have hsin := sin_small_bounds (((10124558998725566828347 : ℝ) / 136233400351977000000000) * Real.pi) (0.233476079208 : ℝ) habs (by norm_num)
  have hcos := cos_small_bounds (((10124558998725566828347 : ℝ) / 136233400351977000000000) * Real.pi) (0.233476079208 : ℝ) habs (by norm_num)
  have hcube := cube_bounds_of_pos (((10124558998725566828347 : ℝ) / 136233400351977000000000) * Real.pi) (0.233476079207 : ℝ) (0.233476079208 : ℝ) hu1 hu2 (by norm_num)
  have hsqhi : (((10124558998725566828347 : ℝ) / 136233400351977000000000) * Real.pi) ^ 2 ≤ (0.233476079208 : ℝ) ^ 2 := sq_le_of_abs _ _ habs
  have hsqlo := sq_bounds_of_pos (((10124558998725566828347 : ℝ) / 136233400351977000000000) * Real.pi) (0.233476079207 : ℝ) (0.233476079208 : ℝ) hu1 hu2 (by norm_num)
  have hS1 : (0.23120014359 : ℝ) ≤ Real.sin (((10124558998725566828347 : ℝ) / 136233400351977000000000) * Real.pi) := by linarith only [hsin.1, hcube.2, hu1, hu2]
  have hS2 : Real.sin (((10124558998725566828347 : ℝ) / 136233400351977000000000) * Real.pi) ≤ (0.23150967045 : ℝ) := by linarith only [hsin.2, hcube.1, hu1, hu2]
  have hC1 : (0.97258969679 : ℝ) ≤ Real.cos (((10124558998725566828347 : ℝ) / 136233400351977000000000) * Real.pi) := by linarith only [hcos.1, hsqhi, hu1, hu2]
  have hC2 : Real.cos (((10124558998725566828347 : ℝ) / 136233400351977000000000) * Real.pi) ≤ (0.97289922365 : ℝ) := by linarith only [hcos.2, hsqlo.1, hu1, hu2]
  constructor
  · linarith only [hS1, hS2, hC1, hC2]
  · linarith only [hS1, hS2, hC1, hC2]

theorem sinb_Ms_1538 :
    (0.836172158365 : ℝ) ≤ Real.sin (toRadians (nmSunAnomaly 1538)) ∧ Real.sin (toRadians (nmSunAnomaly 1538)) ≤ (0.836173702894 : ℝ) := by
  rw [sin_toRadians_decomp (nmSunAnomaly 1538) 4 ((308586899328329326657 : ℝ) / 17029175043997125000000) 125
    (by simp only [nmSunAnomaly, nmT]; push_cast; norm_num), sin_lat4, cos_lat4]
  have hp1 := Real.pi_gt_d20
  have hp2 := Real.pi_lt_d20
  have hu1 : (0.056929025241 : ℝ) ≤ ((308586899328329326657 : ℝ) / 17029175043997125000000) * Real.pi := by linarith only [hp1, hp2]
  have hu2 : ((308586899328329326657 : ℝ) / 17029175043997125000000) * Real.pi ≤ (0.056929025242 : ℝ) := by linarith only [hp1, hp2]
  have habs : |((308586899328329326657 : ℝ) / 17029175043997125000000) * Real.pi| ≤ (0.056929025242 : ℝ) := abs_le.mpr ⟨by linarith only [hu1, hu2], by linarith only [hu1, hu2]⟩
  have hsin := sin_small_bounds (((308586899328329326657 : ℝ) / 17029175043997125000000) * Real.pi) (0.056929025242 : ℝ) habs (by norm_num)
  have hcos := cos_small_bounds (((308586899328329326657 : ℝ) / 17029175043997125000000) * Real.pi) (0.056929025242 : ℝ) habs (by norm_num)
  have hcube := cube_bounds_of_pos (((308586899328329326657 : ℝ) / 17029175043997125000000) * Real.pi) (0.056929025241 : ℝ) (0.056929025242 : ℝ) hu1 hu2 (by norm_num)
  have hsqhi : (((308586899328329326657 : ℝ) / 17029175043997125000000) * Real.pi) ^ 2 ≤ (0.056929025242 : ℝ) ^ 2 := sq_le_of_abs _ _ habs
  have hsqlo := sq_bounds_of_pos (((308586899328329326657 : ℝ) / 17029175043997125000000) * Real.pi) (0.056929025241 : ℝ) (0.056929025242 : ℝ) hu1 hu2 (by norm_num)
  have hS1 : (0.05689772783 : ℝ) ≤ Real.sin (((308586899328329326657 : ℝ) / 17029175043997125000000) * Real.pi) := by linarith only [hsin.1, hcube.2, hu1, hu2]
  have hS2 : Real.sin (((308586899328329326657 : ℝ) / 17029175043997125000000) * Real.pi) ≤ (0.05689882196 : ℝ) := by linarith only [hsin.2, hcube.1, hu1, hu2]
  have hC1 : (0.99837899598 : ℝ) ≤ Real.cos (((308586899328329326657 : ℝ) / 17029175043997125000000) * Real.pi) := by linarith only [hcos.1, hsqhi, hu1, hu2]
  have hC2 : Real.cos (((308586899328329326657 : ℝ) / 17029175043997125000000) * Real.pi) ≤ (0.99838009011 : ℝ) := by linarith only [hcos.2, hsqlo.1, hu1, hu2]
  have q1 : Real.sqrt 3 * (Real.cos (((308586899328329326657 : ℝ) / 17029175043997125000000) * Real.pi)) ≤ Real.sqrt 3 * (0.99838009011 : ℝ) := mul_le_mul_of_nonneg_left hC2 (Real.sqrt_nonneg 3)
  have q2 : Real.sqrt 3 * (0.99838009011 : ℝ) ≤ (1.7320509 : ℝ) * (0.99838009011 : ℝ) := mul_le_mul_of_nonneg_right sqrt3_bounds.2 (by norm_num)
  have q3 : Real.sqrt 3 * (0.99837899598 : ℝ) ≤ Real.sqrt 3 * (Real.cos (((308586899328329326657 : ℝ) / 17029175043997125000000) * Real.pi)) := mul_le_mul_of_nonneg_left hC1 (Real.sqrt_nonneg 3)
  have q4 : (1.7320508 : ℝ) * (0.99837899598 : ℝ) ≤ Real.sqrt 3 * (0.99837899598 : ℝ) := mul_le_mul_of_nonneg_right sqrt3_bounds.1 (by norm_num)
  constructor
  · linarith only [hS1, hS2, hC1, hC2, q1, q2, q3, q4]
  · linarith only [hS1, hS2, hC1, hC2, q1, q2, q3, q4]

theorem sinb_Mm_1538 :
    (0.792916312359 : ℝ) ≤ Real.sin (toRadians (nmMoonAnomaly 1538)) ∧ Real.sin (toRadians (nmMoonAnomaly 1538)) ≤ (0.792958994984 : ℝ) := by
  rw [sin_toRadians_decomp (nmMoonAnomaly 1538) 2 ((-2852616829977331622429 : ℝ) / 68116700175988500000000) 1649
    (by simp only [nmMoonAnomaly, nmT]; push_cast; norm_num), sin_lat2, cos_lat2]
  have hp1 := Real.pi_gt_d20
  have hp2 := Real.pi_lt_d20
  have hu1 : (-0.131564800606 : ℝ) ≤ ((-2852616829977331622429 : ℝ) / 68116700175988500000000) * Real.pi := by linarith only [hp1, hp2]
  have hu2 : ((-2852616829977331622429 : ℝ) / 68116700175988500000000) * Real.pi ≤ (-0.131564800605 : ℝ) := by linarith only [hp1, hp2]
  have habs : |((-2852616829977331622429 : ℝ) / 68116700175988500000000) * Real.pi| ≤ (0.131564800606 : ℝ) := abs_le.mpr ⟨by linarith only [hu1, hu2], by linarith only [hu1, hu2]⟩
  have hsin := sin_small_bounds (((-2852616829977331622429 : ℝ) / 68116700175988500000000) * Real.pi) (0.131564800606 : ℝ) habs (by norm_num)
  have hcos := cos_small_bounds (((-2852616829977331622429 : ℝ) / 68116700175988500000000) * Real.pi) (0.131564800606 : ℝ) habs (by norm_num)
  have hcube := cube_bounds_of_neg (((-2852616829977331622429 : ℝ) / 68116700175988500000000) * Real.pi) (-0.131564800606 : ℝ) (-0.131564800605 : ℝ) hu1 hu2 (by norm_num)
  have hsqhi : (((-2852616829977331622429 : ℝ) / 68116700175988500000000) * Real.pi) ^ 2 ≤ (0.131564800606 : ℝ) ^ 2 := sq_le_of_abs _ _ habs
  have hsqlo := sq_bounds_of_neg (((-2852616829977331622429 : ℝ) / 68116700175988500000000) * Real.pi) (-0.131564800606 : ℝ) (-0.131564800605 : ℝ) hu1 hu2 (by norm_num)
  have hS1 : (-0.13120085636 : ℝ) ≤ Real.sin (((-2852616829977331622429 : ℝ) / 68116700175988500000000) * Real.pi) := by linarith only [hsin.1, hcube.2, hu1, hu2]
  have hS2 : Real.sin (((-2852616829977331622429 : ℝ) / 68116700175988500000000) * Real.pi) ≤ (-0.13116964679 : ℝ) := by linarith only [hsin.2, hcube.1, hu1, hu2]
  have hC1 : (0.99132974684 : ℝ) ≤ Real.cos (((-2852616829977331622429 : ℝ) / 68116700175988500000000) * Real.pi) := by linarith only [hcos.1, hsqhi, hu1, hu2]
  have hC2 : Real.cos (((-2852616829977331622429 : ℝ) / 68116700175988500000000) * Real.pi) ≤ (0.9913609564 : ℝ) := by linarith only [hcos.2, hsqlo.1, hu1, hu2]
  have q1 : Real.sqrt 3 * (Real.cos (((-2852616829977331622429 : ℝ) / 68116700175988500000000) * Real.pi)) ≤ Real.sqrt 3 * (0.9913609564 : ℝ) := mul_le_mul_of_nonneg_left hC2 (Real.sqrt_nonneg 3)
  have q2 : Real.sqrt 3 * (0.9913609564 : ℝ) ≤ (1.7320509 : ℝ) * (0.9913609564 : ℝ) := mul_le_mul_of_nonneg_right sqrt3_bounds.2 (by norm_num)
  have q3 : Real.sqrt 3 * (0.99132974684 : ℝ) ≤ Real.sqrt 3 * (Real.cos (((-2852616829977331622429 : ℝ) / 68116700175988500000000) * Real.pi)) := mul_le_mul_of_nonneg_left hC1 (Real.sqrt_nonneg 3)
  have q4 : (1.7320508 : ℝ) * (0.99132974684 : ℝ) ≤ Real.sqrt 3 * (0.99132974684 : ℝ) := mul_le_mul_of_nonneg_right sqrt3_bounds.1 (by norm_num)
  constructor
  · linarith only [hS1, hS2, hC1, hC2, q1, q2, q3, q4]
  · linarith only [hS1, hS2, hC1, hC2, q1, q2, q3, q4]

theorem sinb_Ms_1545 :
    (-0.544649880758 : ℝ) ≤ Real.sin (toRadians (nmSunAnomaly 1545)) ∧ Real.sin (toRadians (nmSunAnomaly 1545)) ≤ (-0.5446488076 : ℝ) := by
  rw [sin_toRadians_decomp (nmSunAnomaly 1545) 11 ((-37851631917870945991 : ℝ) / 2270556672532950000000) 125
    (by simp only [nmSunAnomaly, nmT]; push_cast; norm_num), sin_lat11, cos_lat11]
  have hp1 := Real.pi_gt_d20
  have hp2 := Real.pi_lt_d20
  have hu1 : (-0.052372358814 : ℝ) ≤ ((-37851631917870945991 : ℝ) / 2270556672532950000000) * Real.pi := by linarith only [hp1, hp2]
  have hu2 : ((-37851631917870945991 : ℝ) / 2270556672532950000000) * Real.pi ≤ (-0.052372358813 : ℝ) := by linarith only [hp1, hp2]
  have habs : |((-37851631917870945991 : ℝ) / 2270556672532950000000) * Real.pi| ≤ (0.052372358814 : ℝ) := abs_le.mpr ⟨by linarith only [hu1, hu2], by linarith only [hu1, hu2]⟩
  have hsin := sin_small_bounds (((-37851631917870945991 : ℝ) / 2270556672532950000000) * Real.pi) (0.052372358814 : ℝ) habs (by norm_num)
  have hcos := cos_small_bounds (((-37851631917870945991 : ℝ) / 2270556672532950000000) * Real.pi) (0.052372358814 : ℝ) habs (by norm_num)
  have hcube := cube_bounds_of_neg (((-37851631917870945991 : ℝ) / 2270556672532950000000) * Real.pi) (-0.052372358814 : ℝ) (-0.052372358813 : ℝ) hu1 hu2 (by norm_num)
  have hsqhi : (((-37851631917870945991 : ℝ) / 2270556672532950000000) * Real.pi) ^ 2 ≤ (0.052372358814 : ℝ) ^ 2 := sq_le_of_abs _ _ habs
  have hsqlo := sq_bounds_of_neg (((-37851631917870945991 : ℝ) / 2270556672532950000000) * Real.pi) (-0.052372358814 : ℝ) (-0.052372358813 : ℝ) hu1 hu2 (by norm_num)
  have hS1 : (-0.05234880895 : ℝ) ≤ Real.sin (((-37851631917870945991 : ℝ) / 2270556672532950000000) * Real.pi) := by linarith only [hsin.1, hcube.2, hu1, hu2]
  have hS2 : Real.sin (((-37851631917870945991 : ℝ) / 2270556672532950000000) * Real.pi) ≤ (-0.05234802526 : ℝ) := by linarith only [hsin.2, hcube.1, hu1, hu2]
  have hC1 : (0.99862817617 : ℝ) ≤ Real.cos (((-37851631917870945991 : ℝ) / 2270556672532950000000) * Real.pi) := by linarith only [hcos.1, hsqhi, hu1, hu2]
  have hC2 : Real.cos (((-37851631917870945991 : ℝ) / 2270556672532950000000) * Real.pi) ≤ (0.99862895986 : ℝ) := by linarith only [hcos.2, hsqlo.1, hu1, hu2]
  have q1 : Real.sqrt 3 * (Real.sin (((-37851631917870945991 : ℝ) / 2270556672532950000000) * Real.pi)) ≤ Real.sqrt 3 * (-0.05234802526 : ℝ) := mul_le_mul_of_nonneg_left hS2 (Real.sqrt_nonneg 3)
  have q2 : Real.sqrt 3 * (-0.05234802526 : ℝ) ≤ (1.7320508 : ℝ) * (-0.05234802526 : ℝ) := mul_le_mul_of_nonpos_right sqrt3_bounds.1 (by norm_num)
  have q3 : Real.sqrt 3 * (-0.05234880895 : ℝ) ≤ Real.sqrt 3 * (Real.sin (((-37851631917870945991 : ℝ) / 2270556672532950000000) * Real.pi)) := mul_le_mul_of_nonneg_left hS1 (Real.sqrt_nonneg 3)
  have q4 : (1.7320509 : ℝ) * (-0.05234880895 : ℝ) ≤ Real.sqrt 3 * (-0.05234880895 : ℝ) := mul_le_mul_of_nonpos_right sqrt3_bounds.2 (by norm_num)
  constructor
  · linarith only [hS1, hS2, hC1, hC2, q1, q2, q3, q4]
  · linarith only [hS1, hS2, hC1, hC2, q1, q2, q3, q4]

theorem sinb_Mm_1545 :
    (-0.800534328462 : ℝ) ≤ Real.sin (toRadians (nmMoonAnomaly 1545)) ∧ Real.sin (toRadians (nmMoonAnomaly 1545)) ≤ (-0.800505721657 : ℝ) := by
  rw [sin_toRadians_decomp (nmMoonAnomaly 1545) 8 ((-1032275241783297463069 : ℝ) / 27246680070395400000000) 1656
    (by simp only [nmMoonAnomaly, nmT]; push_cast; norm_num), sin_lat8, cos_lat8]
  have hp1 := Real.pi_gt_d20
  have hp2 := Real.pi_lt_d20
  have hu1 : (-0.119023246418 : ℝ) ≤ ((-1032275241783297463069 : ℝ) / 27246680070395400000000) * Real.pi := by linarith only [hp1, hp2]
  have hu2 : ((-1032275241783297463069 : ℝ) / 27246680070395400000000) * Real.pi ≤ (-0.119023246417 : ℝ) := by linarith only [hp1, hp2]
  have habs : |((-1032275241783297463069 : ℝ) / 27246680070395400000000) * Real.pi| ≤ (0.119023246418 : ℝ) := abs_le.mpr ⟨by linarith only [hu1, hu2], by linarith only [hu1, hu2]⟩
  have hsin := sin_small_bounds (((-1032275241783297463069 : ℝ) / 27246680070395400000000) * Real.pi) (0.119023246418 : ℝ) habs (by norm_num)
  have hcos := cos_small_bounds (((-1032275241783297463069 : ℝ) / 27246680070395400000000) * Real.pi) (0.119023246418 : ℝ) habs (by norm_num)
  have hcube := cube_bounds_of_neg (((-1032275241783297463069 : ℝ) / 27246680070395400000000) * Real.pi) (-0.119023246418 : ℝ) (-0.119023246417 : ℝ) hu1 hu2 (by norm_num)
  have hsqhi : (((-1032275241783297463069 : ℝ) / 27246680070395400000000) * Real.pi) ^ 2 ≤ (0.119023246418 : ℝ) ^ 2 := sq_le_of_abs _ _ habs
  have hsqlo := sq_bounds_of_neg (((-1032275241783297463069 : ℝ) / 27246680070395400000000) * Real.pi) (-0.119023246418 : ℝ) (-0.119023246417 : ℝ) hu1 hu2 (by norm_num)
  have hS1 : (-0.1187526746 : ℝ) ≤ Real.sin (((-1032275241783297463069 : ℝ) / 27246680070395400000000) * Real.pi) := by linarith only [hsin.1, hcube.2, hu1, hu2]
  have hS2 : Real.sin (((-1032275241783297463069 : ℝ) / 27246680070395400000000) * Real.pi) ≤ (-0.11873176931 : ℝ) := by linarith only [hsin.2, hcube.1, hu1, hu2]
  have hC1 : (0.99290628076 : ℝ) ≤ Real.cos (((-1032275241783297463069 : ℝ) / 27246680070395400000000) * Real.pi) := by linarith only [hcos.1, hsqhi, hu1, hu2]
  have hC2 : Real.cos (((-1032275241783297463069 : ℝ) / 27246680070395400000000) * Real.pi) ≤ (0.99292718605 : ℝ) := by linarith only [hcos.2, hsqlo.1, hu1, hu2]
  have q1 : Real.sqrt 3 * (Real.cos (((-1032275241783297463069 : ℝ) / 27246680070395400000000) * Real.pi)) ≤ Real.sqrt 3 * (0.99292718605 : ℝ) := mul_le_mul_of_nonneg_left hC2 (Real.sqrt_nonneg 3)
  have q2 : Real.sqrt 3 * (0.99292718605 : ℝ) ≤ (1.7320509 : ℝ) * (0.99292718605 : ℝ) := mul_le_mul_of_nonneg_right sqrt3_bounds.2 (by norm_num)
  have q3 : Real.sqrt 3 * (0.99290628076 : ℝ) ≤ Real.sqrt 3 * (Real.cos (((-1032275241783297463069 : ℝ) / 27246680070395400000000) * Real.pi)) := mul_le_mul_of_nonneg_left hC1 (Real.sqrt_nonneg 3)
  have q4 : (1.7320508 : ℝ) * (0.99290628076 : ℝ) ≤ Real.sqrt 3 * (0.99290628076 : ℝ) := mul_le_mul_of_nonneg_right sqrt3_bounds.1 (by norm_num)
  constructor
  · linarith only [hS1, hS2, hC1, hC2, q1, q2, q3, q4]
  · linarith only [hS1, hS2, hC1, hC2, q1, q2, q3, q4]

theorem sinb_Ms_1546 :
    (-0.06793558009 : ℝ) ≤ Real.sin (toRadians (nmSunAnomaly 1546)) ∧ Real.sin (toRadians (nmSunAnomaly 1546)) ≤ (-0.06793335458 : ℝ) := by
  rw [sin_toRadians_decomp (nmSunAnomaly 1546) 0 ((-368526402080126477731 : ℝ) / 17029175043997125000000) 126
    (by simp only [nmSunAnomaly, nmT]; push_cast; norm_num), sin_lat0, cos_lat0]
  have hp1 := Real.pi_gt_d20
  have hp2 := Real.pi_lt_d20
  have hu1 : (-0.067986842254 : ℝ) ≤ ((-368526402080126477731 : ℝ) / 17029175043997125000000) * Real.pi := by linarith only [hp1, hp2]
  have hu2 : ((-368526402080126477731 : ℝ) / 17029175043997125000000) * Real.pi ≤ (-0.067986842253 : ℝ) := by linarith only [hp1, hp2]
  have habs : |((-368526402080126477731 : ℝ) / 17029175043997125000000) * Real.pi| ≤ (0.067986842254 : ℝ) := abs_le.mpr ⟨by linarith only [hu1, hu2], by linarith only [hu1, hu2]⟩
  have hsin := sin_small_bounds (((-368526402080126477731 : ℝ) / 17029175043997125000000) * Real.pi) (0.067986842254 : ℝ) habs (by norm_num)
  have hcos := cos_small_bounds (((-368526402080126477731 : ℝ) / 17029175043997125000000) * Real.pi) (0.067986842254 : ℝ) habs (by norm_num)
  have hcube := cube_bounds_of_neg (((-368526402080126477731 : ℝ) / 17029175043997125000000) * Real.pi) (-0.067986842254 : ℝ) (-0.067986842253 : ℝ) hu1 hu2 (by norm_num)
  have hsqhi : (((-368526402080126477731 : ℝ) / 17029175043997125000000) * Real.pi) ^ 2 ≤ (0.067986842254 : ℝ) ^ 2 := sq_le_of_abs _ _ habs
  have hsqlo := sq_bounds_of_neg (((-368526402080126477731 : ℝ) / 17029175043997125000000) * Real.pi) (-0.067986842254 : ℝ) (-0.067986842253 : ℝ) hu1 hu2 (by norm_num)
  have hS1 : (-0.06793558009 : ℝ) ≤ Real.sin (((-368526402080126477731 : ℝ) / 17029175043997125000000) * Real.pi) := by linarith only [hsin.1, hcube.2, hu1, hu2]
  have hS2 : Real.sin (((-368526402080126477731 : ℝ) / 17029175043997125000000) * Real.pi) ≤ (-0.06793335458 : ℝ) := by linarith only [hsin.2, hcube.1, hu1, hu2]
  have hC1 : (0.99768778188 : ℝ) ≤ Real.cos (((-368526402080126477731 : ℝ) / 17029175043997125000000) * Real.pi) := by linarith only [hcos.1, hsqhi, hu1, hu2]
  have hC2 : Real.cos (((-368526402080126477731 : ℝ) / 17029175043997125000000) * Real.pi) ≤ (0.9976900074 : ℝ) := by linarith only [hcos.2, hsqlo.1, hu1, hu2]
  constructor
  · linarith only [hS1, hS2, hC1, hC2]
  · linarith only [hS1, hS2, hC1, hC2]

theorem sinb_Mm_1546 :
    (-0.98163279211 : ℝ) ≤ Real.sin (toRadians (nmMoonAnomaly 1546)) ∧ Real.sin (toRadians (nmMoonAnomaly 1546)) ≤ (-0.98149114165 : ℝ) := by
  rw [sin_toRadians_decomp (nmMoonAnomaly 1546) 9 ((-4163667317009224096993 : ℝ) / 68116700175988500000000) 1657
    (by simp only [nmMoonAnomaly, nmT]; push_cast; norm_num), sin_lat9, cos_lat9]
  have hp1 := Real.pi_gt_d20
  have hp2 := Real.pi_lt_d20
  have hu1 : (-0.192031419921 : ℝ) ≤ ((-4163667317009224096993 : ℝ) / 68116700175988500000000) * Real.pi := by linarith only [hp1, hp2]
  have hu2 : ((-4163667317009224096993 : ℝ) / 68116700175988500000000) * Real.pi ≤ (-0.19203141992 : ℝ) := by linarith only [hp1, hp2]
  have habs : |((-4163667317009224096993 : ℝ) / 68116700175988500000000) * Real.pi| ≤ (0.192031419921 : ℝ) := abs_le.mpr ⟨by linarith only [hu1, hu2], by linarith only [hu1, hu2]⟩
  have hsin := sin_small_bounds (((-4163667317009224096993 : ℝ) / 68116700175988500000000) * Real.pi) (0.192031419921 : ℝ) habs (by norm_num)
  have hcos := cos_small_bounds (((-4163667317009224096993 : ℝ) / 68116700175988500000000) * Real.pi) (0.192031419921 : ℝ) habs (by norm_num)
  have hcube := cube_bounds_of_neg (((-4163667317009224096993 : ℝ) / 68116700175988500000000) * Real.pi) (-0.192031419921 : ℝ) (-0.19203141992 : ℝ) hu1 hu2 (by norm_num)
  have hsqhi : (((-4163667317009224096993 : ℝ) / 68116700175988500000000) * Real.pi) ^ 2 ≤ (0.192031419921 : ℝ) ^ 2 := sq_le_of_abs _ _ habs
  have hsqlo := sq_bounds_of_neg (((-4163667317009224096993 : ℝ) / 68116700175988500000000) * Real.pi) (-0.192031419921 : ℝ) (-0.19203141992 : ℝ) hu1 hu2 (by norm_num)
  have hS1 : (-0.19092201792 : ℝ) ≤ Real.sin (((-4163667317009224096993 : ℝ) / 68116700175988500000000) * Real.pi) := by linarith only [hsin.1, hcube.2, hu1, hu2]
  have hS2 : Real.sin (((-4163667317009224096993 : ℝ) / 68116700175988500000000) * Real.pi) ≤ (-0.19078036747 : ℝ) := by linarith only [hsin.2, hcube.1, hu1, hu2]
  have hC1 : (0.98149114165 : ℝ) ≤ Real.cos (((-4163667317009224096993 : ℝ) / 68116700175988500000000) * Real.pi) := by linarith only [hcos.1, hsqhi, hu1, hu2]
  have hC2 : Real.cos (((-4163667317009224096993 : ℝ) / 68116700175988500000000) * Real.pi) ≤ (0.98163279211 : ℝ) := by linarith only [hcos.2, hsqlo.1, hu1, hu2]
  constructor
  · linarith only [hS1, hS2, hC1, hC2]
  · linarith only [hS1, hS2, hC1, hC2]

theorem sinb_sl_2459937 :
    (-0.2096093801 : ℝ) ≤ Real.sin (toRadians (slMeanAnomaly ((2459937 : ℝ) - 0.5 - 7 / 24))) ∧ Real.sin (toRadians (slMeanAnomaly ((2459937 : ℝ) - 0.5 - 7 / 24))) ≤ (-0.2094026223 : ℝ) := by
  rw [sin_toRadians_decomp (slMeanAnomaly ((2459937 : ℝ) - 0.5 - 7 / 24)) 0 ((-4242863684045282340368561 : ℝ) / 63150337415250000000000000) 24
    (by simp only [slMeanAnomaly, slT]; push_cast; norm_num), sin_lat0, cos_lat0]
  have hp1 := Real.pi_gt_d20
  have hp2 := Real.pi_lt_d20
  have hu1 : (-0.211073288372 : ℝ) ≤ ((-4242863684045282340368561 : ℝ) / 63150337415250000000000000) * Real.pi := by linarith only [hp1, hp2]
  have hu2 : ((-4242863684045282340368561 : ℝ) / 63150337415250000000000000) * Real.pi ≤ (-0.211073288371 : ℝ) := by linarith only [hp1, hp2]
  have habs : |((-4242863684045282340368561 : ℝ) / 63150337415250000000000000) * Real.pi| ≤ (0.211073288372 : ℝ) := abs_le.mpr ⟨by linarith only [hu1, hu2], by linarith only [hu1, hu2]⟩
  have hsin := sin_small_bounds (((-4242863684045282340368561 : ℝ) / 63150337415250000000000000) * Real.pi) (0.211073288372 : ℝ) habs (by norm_num)
  have hcos := cos_small_bounds (((-4242863684045282340368561 : ℝ) / 63150337415250000000000000) * Real.pi) (0.211073288372 : ℝ) habs (by norm_num)
  have hcube := cube_bounds_of_neg (((-4242863684045282340368561 : ℝ) / 63150337415250000000000000) * Real.pi) (-0.211073288372 : ℝ) (-0.211073288371 : ℝ) hu1 hu2 (by norm_num)
  have hsqhi : (((-4242863684045282340368561 : ℝ) / 63150337415250000000000000) * Real.pi) ^ 2 ≤ (0.211073288372 : ℝ) ^ 2 := sq_le_of_abs _ _ habs
  have hsqlo := sq_bounds_of_neg (((-4242863684045282340368561 : ℝ) / 63150337415250000000000000) * Real.pi) (-0.211073288372 : ℝ) (-0.211073288371 : ℝ) hu1 hu2 (by norm_num)
  have hS1 : (-0.2096093801 : ℝ) ≤ Real.sin (((-4242863684045282340368561 : ℝ) / 63150337415250000000000000) * Real.pi) := by linarith only [hsin.1, hcube.2, hu1, hu2]
  have hS2 : Real.sin (((-4242863684045282340368561 : ℝ) / 63150337415250000000000000) * Real.pi) ≤ (-0.2094026223 : ℝ) := by linarith only [hsin.2, hcube.1, hu1, hu2]
  have hC1 : (0.97762065457 : ℝ) ≤ Real.cos (((-4242863684045282340368561 : ℝ) / 63150337415250000000000000) * Real.pi) := by linarith only [hcos.1, hsqhi, hu1, hu2]
  have hC2 : Real.cos (((-4242863684045282340368561 : ℝ) / 63150337415250000000000000) * Real.pi) ≤ (0.97782741237 : ℝ) := by linarith only [hcos.2, hsqlo.1, hu1, hu2]
  constructor
  · linarith only [hS1, hS2, hC1, hC2]
  · linarith only [hS1, hS2, hC1, hC2]

theorem sinb_sl_2459967 :
    (0.300073219557 : ℝ) ≤ Real.sin (toRadians (slMeanAnomaly ((2459967 : ℝ) - 0.5 - 7 / 24))) ∧ Real.sin (toRadians (slMeanAnomaly ((2459967 : ℝ) - 0.5 - 7 / 24))) ≤ (0.300398236283 : ℝ) := by
  rw [sin_toRadians_decomp (slMeanAnomaly ((2459967 : ℝ) - 0.5 - 7 / 24)) 1 ((-4394421546490968599352101 : ℝ) / 63150337415250000000000000) 24
    (by simp only [slMeanAnomaly, slT]; push_cast; norm_num), sin_lat1, cos_lat1]
  have hp1 := Real.pi_gt_d20
  have hp2 := Real.pi_lt_d20
  have hu1 : (-0.218612964116 : ℝ) ≤ ((-4394421546490968599352101 : ℝ) / 63150337415250000000000000) * Real.pi := by linarith only [hp1, hp2]
  have hu2 : ((-4394421546490968599352101 : ℝ) / 63150337415250000000000000) * Real.pi ≤ (-0.218612964115 : ℝ) := by linarith only [hp1, hp2]
  have habs : |((-4394421546490968599352101 : ℝ) / 63150337415250000000000000) * Real.pi| ≤ (0.218612964116 : ℝ) := abs_le.mpr ⟨by linarith only [hu1, hu2], by linarith only [hu1, hu2]⟩
  have hsin := sin_small_bounds (((-4394421546490968599352101 : ℝ) / 63150337415250000000000000) * Real.pi) (0.218612964116 : ℝ) habs (by norm_num)
  have hcos := cos_small_bounds (((-4394421546490968599352101 : ℝ) / 63150337415250000000000000) * Real.pi) (0.218612964116 : ℝ) habs (by norm_num)
  have hcube := cube_bounds_of_neg (((-4394421546490968599352101 : ℝ) / 63150337415250000000000000) * Real.pi) (-0.218612964116 : ℝ) (-0.218612964115 : ℝ) hu1 hu2 (by norm_num)
  have hsqhi : (((-4394421546490968599352101 : ℝ) / 63150337415250000000000000) * Real.pi) ^ 2 ≤ (0.218612964116 : ℝ) ^ 2 := sq_le_of_abs _ _ habs
  have hsqlo := sq_bounds_of_neg (((-4394421546490968599352101 : ℝ) / 63150337415250000000000000) * Real.pi) (-0.218612964116 : ℝ) (-0.218612964115 : ℝ) hu1 hu2 (by norm_num)
  have hS1 : (-0.21699061294 : ℝ) ≤ Real.sin (((-4394421546490968599352101 : ℝ) / 63150337415250000000000000) * Real.pi) := by linarith only [hsin.1, hcube.2, hu1, hu2]
  have hS2 : Real.sin (((-4394421546490968599352101 : ℝ) / 63150337415250000000000000) * Real.pi) ≤ (-0.21675269213 : ℝ) := by linarith only [hsin.2, hcube.1, hu1, hu2]
  have hC1 : (0.97598522555 : ℝ) ≤ Real.cos (((-4394421546490968599352101 : ℝ) / 63150337415250000000000000) * Real.pi) := by linarith only [hcos.1, hsqhi, hu1, hu2]
  have hC2 : Real.cos (((-4394421546490968599352101 : ℝ) / 63150337415250000000000000) * Real.pi) ≤ (0.97622314637 : ℝ) := by linarith only [hcos.2, hsqlo.1, hu1, hu2]
  have q1 : Real.sqrt 3 * (Real.sin (((-4394421546490968599352101 : ℝ) / 63150337415250000000000000) * Real.pi)) ≤ Real.sqrt 3 * (-0.21675269213 : ℝ) := mul_le_mul_of_nonneg_left hS2 (Real.sqrt_nonneg 3)
  have q2 : Real.sqrt 3 * (-0.21675269213 : ℝ) ≤ (1.7320508 : ℝ) * (-0.21675269213 : ℝ) := mul_le_mul_of_nonpos_right sqrt3_bounds.1 (by norm_num)
  have q3 : Real.sqrt 3 * (-0.21699061294 : ℝ) ≤ Real.sqrt 3 * (Real.sin (((-4394421546490968599352101 : ℝ) / 63150337415250000000000000) * Real.pi)) := mul_le_mul_of_nonneg_left hS1 (Real.sqrt_nonneg 3)
  have q4 : (1.7320509 : ℝ) * (-0.21699061294 : ℝ) ≤ Real.sqrt 3 * (-0.21699061294 : ℝ) := mul_le_mul_of_nonpos_right sqrt3_bounds.2 (by norm_num)
  constructor
  · linarith only [hS1, hS2, hC1, hC2, q1, q2, q3, q4]
  · linarith only [hS1, hS2, hC1, hC2, q1, q2, q3, q4]

theorem sinb_sl_2459996 :
    (0.719655906813 : ℝ) ≤ Real.sin (toRadians (slMeanAnomaly ((2459996 : ℝ) - 0.5 - 7 / 24))) ∧ Real.sin (toRadians (slMeanAnomaly ((2459996 : ℝ) - 0.5 - 7 / 24))) ≤ (0.720155007418 : ℝ) := by
  rw [sin_toRadians_decomp (slMeanAnomaly ((2459996 : ℝ) - 0.5 - 7 / 24)) 2 ((-39134101504970106188239 : ℝ) / 505202699322000000000000) 24
    (by simp only [slMeanAnomaly, slT]; push_cast; norm_num), sin_lat2, cos_lat2]
  have hp1 := Real.pi_gt_d20
  have hp2 := Real.pi_lt_d20
  have hu1 : (-0.243354609859 : ℝ) ≤ ((-39134101504970106188239 : ℝ) / 505202699322000000000000) * Real.pi := by linarith only [hp1, hp2]
  have hu2 : ((-39134101504970106188239 : ℝ) / 505202699322000000000000) * Real.pi ≤ (-0.243354609858 : ℝ) := by linarith only [hp1, hp2]
  have habs : |((-39134101504970106188239 : ℝ) / 505202699322000000000000) * Real.pi| ≤ (0.243354609859 : ℝ) := abs_le.mpr ⟨by linarith only [hu1, hu2], by linarith only [hu1, hu2]⟩
  have hsin := sin_small_bounds (((-39134101504970106188239 : ℝ) / 505202699322000000000000) * Real.pi) (0.243354609859 : ℝ) habs (by norm_num)
  have hcos := cos_small_bounds (((-39134101504970106188239 : ℝ) / 505202699322000000000000) * Real.pi) (0.243354609859 : ℝ) habs (by norm_num)
  have hcube := cube_bounds_of_neg (((-39134101504970106188239 : ℝ) / 505202699322000000000000) * Real.pi) (-0.243354609859 : ℝ) (-0.243354609858 : ℝ) hu1 hu2 (by norm_num)
  have hsqhi : (((-39134101504970106188239 : ℝ) / 505202699322000000000000) * Real.pi) ^ 2 ≤ (0.243354609859 : ℝ) ^ 2 := sq_le_of_abs _ _ habs
  have hsqlo := sq_bounds_of_neg (((-39134101504970106188239 : ℝ) / 505202699322000000000000) * Real.pi) (-0.243354609859 : ℝ) (-0.243354609858 : ℝ) hu1 hu2 (by norm_num)
  have hS1 : (-0.24113530613 : ℝ) ≤ Real.sin (((-39134101504970106188239 : ℝ) / 505202699322000000000000) * Real.pi) := by linarith only [hsin.1, hcube.2, hu1, hu2]
  have hS2 : Real.sin (((-39134101504970106188239 : ℝ) / 505202699322000000000000) * Real.pi) ≤ (-0.24076997466 : ℝ) := by linarith only [hsin.2, hcube.1, hu1, hu2]
  have hC1 : (0.97020660119 : ℝ) ≤ Real.cos (((-39134101504970106188239 : ℝ) / 505202699322000000000000) * Real.pi) := by linarith only [hcos.1, hsqhi, hu1, hu2]
  have hC2 : Real.cos (((-39134101504970106188239 : ℝ) / 505202699322000000000000) * Real.pi) ≤ (0.97057193267 : ℝ) := by linarith only [hcos.2, hsqlo.1, hu1, hu2]
  have q1 : Real.sqrt 3 * (Real.cos (((-39134101504970106188239 : ℝ) / 505202699322000000000000) * Real.pi)) ≤ Real.sqrt 3 * (0.97057193267 : ℝ) := mul_le_mul_of_nonneg_left hC2 (Real.sqrt_nonneg 3)
  have q2 : Real.sqrt 3 * (0.97057193267 : ℝ) ≤ (1.7320509 : ℝ) * (0.97057193267 : ℝ) := mul_le_mul_of_nonneg_right sqrt3_bounds.2 (by norm_num)
  have q3 : Real.sqrt 3 * (0.97020660119 : ℝ) ≤ Real.sqrt 3 * (Real.cos (((-39134101504970106188239 : ℝ) / 505202699322000000000000) * Real.pi)) := mul_le_mul_of_nonneg_left hC1 (Real.sqrt_nonneg 3)
  have q4 : (1.7320508 : ℝ) * (0.97020660119 : ℝ) ≤ Real.sqrt 3 * (0.97020660119 : ℝ) := mul_le_mul_of_nonneg_right sqrt3_bounds.1 (by norm_num)
  constructor
  · linarith only [hS1, hS2, hC1, hC2, q1, q2, q3, q4]
  · linarith only [hS1, hS2, hC1, hC2, q1, q2, q3, q4]

theorem sinb_sl_2460025 :
    (0.963815752278 : ℝ) ≤ Real.sin (toRadians (slMeanAnomaly ((2460025 : ℝ) - 0.5 - 7 / 24))) ∧ Real.sin (toRadians (slMeanAnomaly ((2460025 : ℝ) - 0.5 - 7 / 24))) ≤ (0.964422213379 : ℝ) := by
  rw [sin_toRadians_decomp (slMeanAnomaly ((2460025 : ℝ) - 0.5 - 7 / 24)) 2 ((5135952406054335074388031 : ℝ) / 63150337415250000000000000) 24
    (by simp only [slMeanAnomaly, slT]; push_cast; norm_num), sin_lat2, cos_lat2]
  have hp1 := Real.pi_gt_d20
  have hp2 := Real.pi_lt_d20
  have hu1 : (0.255502519993 : ℝ) ≤ ((5135952406054335074388031 : ℝ) / 63150337415250000000000000) * Real.pi := by linarith only [hp1, hp2]
  have hu2 : ((5135952406054335074388031 : ℝ) / 63150337415250000000000000) * Real.pi ≤ (0.255502519994 : ℝ) := by linarith only [hp1, hp2]
  have habs : |((5135952406054335074388031 : ℝ) / 63150337415250000000000000) * Real.pi| ≤ (0.255502519994 : ℝ) := abs_le.mpr ⟨by linarith only [hu1, hu2], by linarith only [hu1, hu2]⟩
  have hsin := sin_small_bounds (((5135952406054335074388031 : ℝ) / 63150337415250000000000000) * Real.pi) (0.255502519994 : ℝ) habs (by norm_num)
  have hcos := cos_small_bounds (((5135952406054335074388031 : ℝ) / 63150337415250000000000000) * Real.pi) (0.255502519994 : ℝ) habs (by norm_num)
  have hcube := cube_bounds_of_pos (((5135952406054335074388031 : ℝ) / 63150337415250000000000000) * Real.pi) (0.255502519993 : ℝ) (0.255502519994 : ℝ) hu1 hu2 (by norm_num)
  have hsqhi : (((5135952406054335074388031 : ℝ) / 63150337415250000000000000) * Real.pi) ^ 2 ≤ (0.255502519994 : ℝ) ^ 2 := sq_le_of_abs _ _ habs
  have hsqlo := sq_bounds_of_pos (((5135952406054335074388031 : ℝ) / 63150337415250000000000000) * Real.pi) (0.255502519993 : ℝ) (0.255502519994 : ℝ) hu1 hu2 (by norm_num)
  have hS1 : (0.25250062463 : ℝ) ≤ Real.sin (((5135952406054335074388031 : ℝ) / 63150337415250000000000000) * Real.pi) := by linarith only [hsin.1, hcube.2, hu1, hu2]
  have hS2 : Real.sin (((5135952406054335074388031 : ℝ) / 63150337415250000000000000) * Real.pi) ≤ (0.25294454956 : ℝ) := by linarith only [hsin.2, hcube.1, hu1, hu2]
  have hC1 : (0.96713726868 : ℝ) ≤ Real.cos (((5135952406054335074388031 : ℝ) / 63150337415250000000000000) * Real.pi) := by linarith only [hcos.1, hsqhi, hu1, hu2]
  have hC2 : Real.cos (((5135952406054335074388031 : ℝ) / 63150337415250000000000000) * Real.pi) ≤ (0.9675811936 : ℝ) := by linarith only [hcos.2, hsqlo.1, hu1, hu2]
  have q1 : Real.sqrt 3 * (Real.cos (((5135952406054335074388031 : ℝ) / 63150337415250000000000000) * Real.pi)) ≤ Real.sqrt 3 * (0.9675811936 : ℝ) := mul_le_mul_of_nonneg_left hC2 (Real.sqrt_nonneg 3)
  have q2 : Real.sqrt 3 * (0.9675811936 : ℝ) ≤ (1.7320509 : ℝ) * (0.9675811936 : ℝ) := mul_le_mul_of_nonneg_right sqrt3_bounds.2 (by norm_num)
  have q3 : Real.sqrt 3 * (0.96713726868 : ℝ) ≤ Real.sqrt 3 * (Real.cos (((5135952406054335074388031 : ℝ) / 63150337415250000000000000) * Real.pi)) := mul_le_mul_of_nonneg_left hC1 (Real.sqrt_nonneg 3)
  have q4 : (1.7320508 : ℝ) * (0.96713726868 : ℝ) ≤ Real.sqrt 3 * (0.96713726868 : ℝ) := mul_le_mul_of_nonneg_right sqrt3_bounds.1 (by norm_num)
  constructor
  · linarith only [hS1, hS2, hC1, hC2, q1, q2, q3, q4]
  · linarith only [hS1, hS2, hC1, hC2, q1, q2, q3, q4]

theorem nmb_1508 : (2459552.770399248 : ℝ) ≤ new_moon_aa98 1508 ∧ new_moon_aa98 1508 ≤ (2459552.859859318 : ℝ) := by
  have hb_Ms := sinb_Ms_1508
  have hb_Mm := sinb_Mm_1508
  have s1 := Real.neg_one_le_sin (toRadians (nmMeanArg 1508))
  have s1b := Real.sin_le_one (toRadians (nmMeanArg 1508))
  have s2 := Real.neg_one_le_sin (2 * toRadians (nmSunAnomaly 1508))
  have s2b := Real.sin_le_one (2 * toRadians (nmSunAnomaly 1508))
  have s3 := Real.neg_one_le_sin (2 * toRadians (nmMoonAnomaly 1508))
  have s3b := Real.sin_le_one (2 * toRadians (nmMoonAnomaly 1508))
  have s4 := Real.neg_one_le_sin (3 * toRadians (nmMoonAnomaly 1508))
  have s4b := Real.sin_le_one (3 * toRadians (nmMoonAnomaly 1508))
  have s5 := Real.neg_one_le_sin (2 * toRadians (nmMoonArgLat 1508))
  have s5b := Real.sin_le_one (2 * toRadians (nmMoonArgLat 1508))
  have s6 := Real.neg_one_le_sin (toRadians (nmSunAnomaly 1508 + nmMoonAnomaly 1508))
  have s6b := Real.sin_le_one (toRadians (nmSunAnomaly 1508 + nmMoonAnomaly 1508))
  have s7 := Real.neg_one_le_sin (toRadians (nmSunAnomaly 1508 - nmMoonAnomaly 1508))
  have s7b := Real.sin_le_one (toRadians (nmSunAnomaly 1508 - nmMoonAnomaly 1508))
  have s8 := Real.neg_one_le_sin (toRadians (2 * nmMoonArgLat 1508 + nmSunAnomaly 1508))
  have s8b := Real.sin_le_one (toRadians (2 * nmMoonArgLat 1508 + nmSunAnomaly 1508))
  have s9 := Real.neg_one_le_sin (toRadians (2 * nmMoonArgLat 1508 - nmSunAnomaly 1508))
  have s9b := Real.sin_le_one (toRadians (2 * nmMoonArgLat 1508 - nmSunAnomaly 1508))
  have s10 := Real.neg_one_le_sin (toRadians (2 * nmMoonArgLat 1508 + nmMoonAnomaly 1508))
  have s10b := Real.sin_le_one (toRadians (2 * nmMoonArgLat 1508 + nmMoonAnomaly 1508))
  have s11 := Real.neg_one_le_sin (toRadians (2 * nmMoonArgLat 1508 - nmMoonAnomaly 1508))
  have s11b := Real.sin_le_one (toRadians (2 * nmMoonArgLat 1508 - nmMoonAnomaly 1508))
  have s12 := Real.neg_one_le_sin (toRadians (2 * nmMoonAnomaly 1508 + nmSunAnomaly 1508))
  have s12b := Real.sin_le_one (toRadians (2 * nmMoonAnomaly 1508 + nmSunAnomaly 1508))
  have ht : nmT 1508 = ((1040 : ℝ) / 853) := by unfold nmT; push_cast; norm_num
  simp only [new_moon_aa98]
  rw [ht, if_neg (show ¬ (((1040 : ℝ) / 853) < (-11 : ℝ)) by norm_num)]
  constructor
  · linarith only [hb_Ms.1, hb_Ms.2, hb_Mm.1, hb_Mm.2, s1, s1b, s2, s2b, s3, s3b, s4, s4b, s5, s5b, s6, s6b, s7, s7b, s8, s8b, s9, s9b, s10, s10b, s11, s11b, s12, s12b]
  · linarith only [hb_Ms.1, hb_Ms.2, hb_Mm.1, hb_Mm.2, s1, s1b, s2, s2b, s3, s3b, s4, s4b, s5, s5b, s6, s6b, s7, s7b, s8, s8b, s9, s9b, s10, s10b, s11, s11b, s12, s12b]

theorem nmb_1513 : (2459700.326193726 : ℝ) ≤ new_moon_aa98 1513 ∧ new_moon_aa98 1513 ≤ (2459700.415667772 : ℝ) := by
  have hb_Ms := sinb_Ms_1513
  have hb_Mm := sinb_Mm_1513
  have s1 := Real.neg_one_le_sin (toRadians (nmMeanArg 1513))
  have s1b := Real.sin_le_one (toRadians (nmMeanArg 1513))
  have s2 := Real.neg_one_le_sin (2 * toRadians (nmSunAnomaly 1513))
  have s2b := Real.sin_le_one (2 * toRadians (nmSunAnomaly 1513))
  have s3 := Real.neg_one_le_sin (2 * toRadians (nmMoonAnomaly 1513))
  have s3b := Real.sin_le_one (2 * toRadians (nmMoonAnomaly 1513))
  have s4 := Real.neg_one_le_sin (3 * toRadians (nmMoonAnomaly 1513))
  have s4b := Real.sin_le_one (3 * toRadians (nmMoonAnomaly 1513))
  have s5 := Real.neg_one_le_sin (2 * toRadians (nmMoonArgLat 1513))
  have s5b := Real.sin_le_one (2 * toRadians (nmMoonArgLat 1513))
  have s6 := Real.neg_one_le_sin (toRadians (nmSunAnomaly 1513 + nmMoonAnomaly 1513))
  have s6b := Real.sin_le_one (toRadians (nmSunAnomaly 1513 + nmMoonAnomaly 1513))
  have s7 := Real.neg_one_le_sin (toRadians (nmSunAnomaly 1513 - nmMoonAnomaly 1513))
  have s7b := Real.sin_le_one (toRadians (nmSunAnomaly 1513 - nmMoonAnomaly 1513))
  have s8 := Real.neg_one_le_sin (toRadians (2 * nmMoonArgLat 1513 + nmSunAnomaly 1513))
  have s8b := Real.sin_le_one (toRadians (2 * nmMoonArgLat 1513 + nmSunAnomaly 1513))
  have s9 := Real.neg_one_le_sin (toRadians (2 * nmMoonArgLat 1513 - nmSunAnomaly 1513))
  have s9b := Real.sin_le_one (toRadians (2 * nmMoonArgLat 1513 - nmSunAnomaly 1513))
  have s10 := Real.neg_one_le_sin (toRadians (2 * nmMoonArgLat 1513 + nmMoonAnomaly 1513))
  have s10b := Real.sin_le_one (toRadians (2 * nmMoonArgLat 1513 + nmMoonAnomaly 1513))
  have s11 := Real.neg_one_le_sin (toRadians (2 * nmMoonArgLat 1513 - nmMoonAnomaly 1513))
  have s11b := Real.sin_le_one (toRadians (2 * nmMoonArgLat 1513 - nmMoonAnomaly 1513))
  have s12 := Real.neg_one_le_sin (toRadians (2 * nmMoonAnomaly 1513 + nmSunAnomaly 1513))
  have s12b := Real.sin_le_one (toRadians (2 * nmMoonAnomaly 1513 + nmSunAnomaly 1513))
  have ht : nmT 1513 = ((30260 : ℝ) / 24737) := by unfold nmT; push_cast; norm_num
  simp only [new_moon_aa98]
  rw [ht, if_neg (show ¬ (((30260 : ℝ) / 24737) < (-11 : ℝ)) by norm_num)]
  constructor
  · linarith only [hb_Ms.1, hb_Ms.2, hb_Mm.1, hb_Mm.2, s1, s1b, s2, s2b, s3, s3b, s4, s4b, s5, s5b, s6, s6b, s7, s7b, s8, s8b, s9, s9b, s10, s10b, s11, s11b, s12, s12b]
  · linarith only [hb_Ms.1, hb_Ms.2, hb_Mm.1, hb_Mm.2, s1, s1b, s2, s2b, s3, s3b, s4, s4b, s5, s5b, s6, s6b, s7, s7b, s8, s8b, s9, s9b, s10, s10b, s11, s11b, s12, s12b]

theorem nmb_1520 : (2459907.418116163 : ℝ) ≤ new_moon_aa98 1520 ∧ new_moon_aa98 1520 ≤ (2459907.507624835 : ℝ) := by
  have hb_Ms := sinb_Ms_1520
  have hb_Mm := sinb_Mm_1520
  have s1 := Real.neg_one_le_sin (toRadians (nmMeanArg 1520))
  have s1b := Real.sin_le_one (toRadians (nmMeanArg 1520))
  have s2 := Real.neg_one_le_sin (2 * toRadians (nmSunAnomaly 1520))
  have s2b := Real.sin_le_one (2 * toRadians (nmSunAnomaly 1520))
  have s3 := Real.neg_one_le_sin (2 * toRadians (nmMoonAnomaly 1520))
  have s3b := Real.sin_le_one (2 * toRadians (nmMoonAnomaly 1520))
  have s4 := Real.neg_one_le_sin (3 * toRadians (nmMoonAnomaly 1520))
  have s4b := Real.sin_le_one (3 * toRadians (nmMoonAnomaly 1520))
  have s5 := Real.neg_one_le_sin (2 * toRadians (nmMoonArgLat 1520))
  have s5b := Real.sin_le_one (2 * toRadians (nmMoonArgLat 1520))
  have s6 := Real.neg_one_le_sin (toRadians (nmSunAnomaly 1520 + nmMoonAnomaly 1520))
  have s6b := Real.sin_le_one (toRadians (nmSunAnomaly 1520 + nmMoonAnomaly 1520))
  have s7 := Real.neg_one_le_sin (toRadians (nmSunAnomaly 1520 - nmMoonAnomaly 1520))
  have s7b := Real.sin_le_one (toRadians (nmSunAnomaly 1520 - nmMoonAnomaly 1520))
  have s8 := Real.neg_one_le_sin (toRadians (2 * nmMoonArgLat 1520 + nmSunAnomaly 1520))
  have s8b := Real.sin_le_one (toRadians (2 * nmMoonArgLat 1520 + nmSunAnomaly 1520))
  have s9 := Real.neg_one_le_sin (toRadians (2 * nmMoonArgLat 1520 - nmSunAnomaly 1520))
  have s9b := Real.sin_le_one (toRadians (2 * nmMoonArgLat 1520 - nmSunAnomaly 1520))
  have s10 := Real.neg_one_le_sin (toRadians (2 * nmMoonArgLat 1520 + nmMoonAnomaly 1520))
  have s10b := Real.sin_le_one (toRadians (2 * nmMoonArgLat 1520 + nmMoonAnomaly 1520))
  have s11 := Real.neg_one_le_sin (toRadians (2 * nmMoonArgLat 1520 - nmMoonAnomaly 1520))
  have s11b := Real.sin_le_one (toRadians (2 * nmMoonArgLat 1520 - nmMoonAnomaly 1520))
  have s12 := Real.neg_one_le_sin (toRadians (2 * nmMoonAnomaly 1520 + nmSunAnomaly 1520))
  have s12b := Real.sin_le_one (toRadians (2 * nmMoonAnomaly 1520 + nmSunAnomaly 1520))
  have ht : nmT 1520 = ((30400 : ℝ) / 24737) := by unfold nmT; push_cast; norm_num
  simp only [new_moon_aa98]
  rw [ht, if_neg (show ¬ (((30400 : ℝ) / 24737) < (-11 : ℝ)) by norm_num)]
  constructor
  · linarith only [hb_Ms.1, hb_Ms.2, hb_Mm.1, hb_Mm.2, s1, s1b, s2, s2b, s3, s3b, s4, s4b, s5, s5b, s6, s6b, s7, s7b, s8, s8b, s9, s9b, s10, s10b, s11, s11b, s12, s12b]
  · linarith only [hb_Ms.1, hb_Ms.2, hb_Mm.1, hb_Mm.2, s1, s1b, s2, s2b, s3, s3b, s4, s4b, s5, s5b, s6, s6b, s7, s7b, s8, s8b, s9, s9b, s10, s10b, s11, s11b, s12, s12b]

theorem nmb_1521 : (2459936.886184046 : ℝ) ≤ new_moon_aa98 1521 ∧ new_moon_aa98 1521 ≤ (2459936.975674456 : ℝ) := by
  have hb_Ms := sinb_Ms_1521
  have hb_Mm := sinb_Mm_1521
  have s1 := Real.neg_one_le_sin (toRadians (nmMeanArg 1521))
  have s1b := Real.sin_le_one (toRadians (nmMeanArg 1521))
  have s2 := Real.neg_one_le_sin (2 * toRadians (nmSunAnomaly 1521))
  have s2b := Real.sin_le_one (2 * toRadians (nmSunAnomaly 1521))
  have s3 := Real.neg_one_le_sin (2 * toRadians (nmMoonAnomaly 1521))
  have s3b := Real.sin_le_one (2 * toRadians (nmMoonAnomaly 1521))
  have s4 := Real.neg_one_le_sin (3 * toRadians (nmMoonAnomaly 1521))
  have s4b := Real.sin_le_one (3 * toRadians (nmMoonAnomaly 1521))
  have s5 := Real.neg_one_le_sin (2 * toRadians (nmMoonArgLat 1521))
  have s5b := Real.sin_le_one (2 * toRadians (nmMoonArgLat 1521))
  have s6 := Real.neg_one_le_sin (toRadians (nmSunAnomaly 1521 + nmMoonAnomaly 1521))
  have s6b := Real.sin_le_one (toRadians (nmSunAnomaly 1521 + nmMoonAnomaly 1521))
  have s7 := Real.neg_one_le_sin (toRadians (nmSunAnomaly 1521 - nmMoonAnomaly 1521))
  have s7b := Real.sin_le_one (toRadians (nmSunAnomaly 1521 - nmMoonAnomaly 1521))
  have s8 := Real.neg_one_le_sin (toRadians (2 * nmMoonArgLat 1521 + nmSunAnomaly 1521))
  have s8b := Real.sin_le_one (toRadians (2 * nmMoonArgLat 1521 + nmSunAnomaly 1521))
  have s9 := Real.neg_one_le_sin (toRadians (2 * nmMoonArgLat 1521 - nmSunAnomaly 1521))
  have s9b := Real.sin_le_one (toRadians (2 * nmMoonArgLat 1521 - nmSunAnomaly 1521))
  have s10 := Real.neg_one_le_sin (toRadians (2 * nmMoonArgLat 1521 + nmMoonAnomaly 1521))
  have s10b := Real.sin_le_one (toRadians (2 * nmMoonArgLat 1521 + nmMoonAnomaly 1521))
  have s11 := Real.neg_one_le_sin (toRadians (2 * nmMoonArgLat 1521 - nmMoonAnomaly 1521))
  have s11b := Real.sin_le_one (toRadians (2 * nmMoonArgLat 1521 - nmMoonAnomaly 1521))
  have s12 := Real.neg_one_le_sin (toRadians (2 * nmMoonAnomaly 1521 + nmSunAnomaly 1521))
  have s12b := Real.sin_le_one (toRadians (2 * nmMoonAnomaly 1521 + nmSunAnomaly 1521))
  have ht : nmT 1521 = ((30420 : ℝ) / 24737) := by unfold nmT; push_cast; norm_num
  simp only [new_moon_aa98]
  rw [ht, if_neg (show ¬ (((30420 : ℝ) / 24737) < (-11 : ℝ)) by norm_num)]
  constructor
  · linarith only [hb_Ms.1, hb_Ms.2, hb_Mm.1, hb_Mm.2, s1, s1b, s2, s2b, s3, s3b, s4, s4b, s5, s5b, s6, s6b, s7, s7b, s8, s8b, s9, s9b, s10, s10b, s11, s11b, s12, s12b]
  · linarith only [hb_Ms.1, hb_Ms.2, hb_Mm.1, hb_Mm.2, s1, s1b, s2, s2b, s3, s3b, s4, s4b, s5, s5b, s6, s6b, s7, s7b, s8, s8b, s9, s9b, s10, s10b, s11, s11b, s12, s12b]

theorem nmb_1522 : (2459966.326810432 : ℝ) ≤ new_moon_aa98 1522 ∧ new_moon_aa98 1522 ≤ (2459966.416324832 : ℝ) := by
  have hb_Ms := sinb_Ms_1522
  have hb_Mm := sinb_Mm_1522
  have s1 := Real.neg_one_le_sin (toRadians (nmMeanArg 1522))
  have s1b := Real.sin_le_one (toRadians (nmMeanArg 1522))
  have s2 := Real.neg_one_le_sin (2 * toRadians (nmSunAnomaly 1522))
  have s2b := Real.sin_le_one (2 * toRadians (nmSunAnomaly 1522))
  have s3 := Real.neg_one_le_sin (2 * toRadians (nmMoonAnomaly 1522))
  have s3b := Real.sin_le_one (2 * toRadians (nmMoonAnomaly 1522))
  have s4 := Real.neg_one_le_sin (3 * toRadians (nmMoonAnomaly 1522))
  have s4b := Real.sin_le_one (3 * toRadians (nmMoonAnomaly 1522))
  have s5 := Real.neg_one_le_sin (2 * toRadians (nmMoonArgLat 1522))
  have s5b := Real.sin_le_one (2 * toRadians (nmMoonArgLat 1522))
  have s6 := Real.neg_one_le_sin (toRadians (nmSunAnomaly 1522 + nmMoonAnomaly 1522))
  have s6b := Real.sin_le_one (toRadians (nmSunAnomaly 1522 + nmMoonAnomaly 1522))
  have s7 := Real.neg_one_le_sin (toRadians (nmSunAnomaly 1522 - nmMoonAnomaly 1522))
  have s7b := Real.sin_le_one (toRadians (nmSunAnomaly 1522 - nmMoonAnomaly 1522))
  have s8 := Real.neg_one_le_sin (toRadians (2 * nmMoonArgLat 1522 + nmSunAnomaly 1522))
  have s8b := Real.sin_le_one (toRadians (2 * nmMoonArgLat 1522 + nmSunAnomaly 1522))
  have s9 := Real.neg_one_le_sin (toRadians (2 * nmMoonArgLat 1522 - nmSunAnomaly 1522))
  have s9b := Real.sin_le_one (toRadians (2 * nmMoonArgLat 1522 - nmSunAnomaly 1522))
  have s10 := Real.neg_one_le_sin (toRadians (2 * nmMoonArgLat 1522 + nmMoonAnomaly 1522))
  have s10b := Real.sin_le_one (toRadians (2 * nmMoonArgLat 1522 + nmMoonAnomaly 1522))
  have s11 := Real.neg_one_le_sin (toRadians (2 * nmMoonArgLat 1522 - nmMoonAnomaly 1522))
  have s11b := Real.sin_le_one (toRadians (2 * nmMoonArgLat 1522 - nmMoonAnomaly 1522))
  have s12 := Real.neg_one_le_sin (toRadians (2 * nmMoonAnomaly 1522 + nmSunAnomaly 1522))
  have s12b := Real.sin_le_one (toRadians (2 * nmMoonAnomaly 1522 + nmSunAnomaly 1522))
  have ht : nmT 1522 = ((30440 : ℝ) / 24737) := by unfold nmT; push_cast; norm_num
  simp only [new_moon_aa98]
  rw [ht, if_neg (show ¬ (((30440 : ℝ) / 24737) < (-11 : ℝ)) by norm_num)]
  constructor
  · linarith only [hb_Ms.1, hb_Ms.2, hb_Mm.1, hb_Mm.2, s1, s1b, s2, s2b, s3, s3b, s4, s4b, s5, s5b, s6, s6b, s7, s7b, s8, s8b, s9, s9b, s10, s10b, s11, s11b, s12, s12b]
  · linarith only [hb_Ms.1, hb_Ms.2, hb_Mm.1, hb_Mm.2, s1, s1b, s2, s2b, s3, s3b, s4, s4b, s5, s5b, s6, s6b, s7, s7b, s8, s8b, s9, s9b, s10, s10b, s11, s11b, s12, s12b]

theorem nmb_1523 : (2459995.753385872 : ℝ) ≤ new_moon_aa98 1523 ∧ new_moon_aa98 1523 ≤ (2459995.842920555 : ℝ) := by
  have hb_Ms := sinb_Ms_1523
  have hb_Mm := sinb_Mm_1523
  have s1 := Real.neg_one_le_sin (toRadians (nmMeanArg 1523))
  have s1b := Real.sin_le_one (toRadians (nmMeanArg 1523))
  have s2 := Real.neg_one_le_sin (2 * toRadians (nmSunAnomaly 1523))
  have s2b := Real.sin_le_one (2 * toRadians (nmSunAnomaly 1523))
  have s3 := Real.neg_one_le_sin (2 * toRadians (nmMoonAnomaly 1523))
  have s3b := Real.sin_le_one (2 * toRadians (nmMoonAnomaly 1523))
  have s4 := Real.neg_one_le_sin (3 * toRadians (nmMoonAnomaly 1523))
  have s4b := Real.sin_le_one (3 * toRadians (nmMoonAnomaly 1523))
  have s5 := Real.neg_one_le_sin (2 * toRadians (nmMoonArgLat 1523))
  have s5b := Real.sin_le_one (2 * toRadians (nmMoonArgLat 1523))
  have s6 := Real.neg_one_le_sin (toRadians (nmSunAnomaly 1523 + nmMoonAnomaly 1523))
  have s6b := Real.sin_le_one (toRadians (nmSunAnomaly 1523 + nmMoonAnomaly 1523))
  have s7 := Real.neg_one_le_sin (toRadians (nmSunAnomaly 1523 - nmMoonAnomaly 1523))
  have s7b := Real.sin_le_one (toRadians (nmSunAnomaly 1523 - nmMoonAnomaly 1523))
  have s8 := Real.neg_one_le_sin (toRadians (2 * nmMoonArgLat 1523 + nmSunAnomaly 1523))
  have s8b := Real.sin_le_one (toRadians (2 * nmMoonArgLat 1523 + nmSunAnomaly 1523))
  have s9 := Real.neg_one_le_sin (toRadians (2 * nmMoonArgLat 1523 - nmSunAnomaly 1523))
  have s9b := Real.sin_le_one (toRadians (2 * nmMoonArgLat 1523 - nmSunAnomaly 1523))
  have s10 := Real.neg_one_le_sin (toRadians (2 * nmMoonArgLat 1523 + nmMoonAnomaly 1523))
  have s10b := Real.sin_le_one (toRadians (2 * nmMoonArgLat 1523 + nmMoonAnomaly 1523))
  have s11 := Real.neg_one_le_sin (toRadians (2 * nmMoonArgLat 1523 - nmMoonAnomaly 1523))
  have s11b := Real.sin_le_one (toRadians (2 * nmMoonArgLat 1523 - nmMoonAnomaly 1523))
  have s12 := Real.neg_one_le_sin (toRadians (2 * nmMoonAnomaly 1523 + nmSunAnomaly 1523))
  have s12b := Real.sin_le_one (toRadians (2 * nmMoonAnomaly 1523 + nmSunAnomaly 1523))
  have ht : nmT 1523 = ((30460 : ℝ) / 24737) := by unfold nmT; push_cast; norm_num
  simp only [new_moon_aa98]
  rw [ht, if_neg (show ¬ (((30460 : ℝ) / 24737) < (-11 : ℝ)) by norm_num)]
  constructor
  · linarith only [hb_Ms.1, hb_Ms.2, hb_Mm.1, hb_Mm.2, s1, s1b, s2, s2b, s3, s3b, s4, s4b, s5, s5b, s6, s6b, s7, s7b, s8, s8b, s9, s9b, s10, s10b, s11, s11b, s12, s12b]
  · linarith only [hb_Ms.1, hb_Ms.2, hb_Mm.1, hb_Mm.2, s1, s1b, s2, s2b, s3, s3b, s4, s4b, s5, s5b, s6, s6b, s7, s7b, s8, s8b, s9, s9b, s10, s10b, s11, s11b, s12, s12b]

theorem nmb_1524 : (2460025.191967403 : ℝ) ≤ new_moon_aa98 1524 ∧ new_moon_aa98 1524 ≤ (2460025.199338838 : ℝ) := by
  have hb_Ms := sinb_Ms_1524
  have hb_Mm := sinb_Mm_1524
  have hb_2Ms := sinb_2Ms_1524
  have hb_2Mm := sinb_2Mm_1524
  have hb_2F := sinb_2F_1524
  have hb_MspMm := sinb_MspMm_1524
  have hb_MsmMm := sinb_MsmMm_1524
  have s1 := Real.neg_one_le_sin (toRadians (nmMeanArg 1524))
  have s1b := Real.sin_le_one (toRadians (nmMeanArg 1524))
  have s2 := Real.neg_one_le_sin (3 * toRadians (nmMoonAnomaly 1524))
  have s2b := Real.sin_le_one (3 * toRadians (nmMoonAnomaly 1524))
  have s3 := Real.neg_one_le_sin (toRadians (2 * nmMoonArgLat 1524 + nmSunAnomaly 1524))
  have s3b := Real.sin_le_one (toRadians (2 * nmMoonArgLat 1524 + nmSunAnomaly 1524))
  have s4 := Real.neg_one_le_sin (toRadians (2 * nmMoonArgLat 1524 - nmSunAnomaly 1524))
  have s4b := Real.sin_le_one (toRadians (2 * nmMoonArgLat 1524 - nmSunAnomaly 1524))
  have s5 := Real.neg_one_le_sin (toRadians (2 * nmMoonArgLat 1524 + nmMoonAnomaly 1524))
  have s5b := Real.sin_le_one (toRadians (2 * nmMoonArgLat 1524 + nmMoonAnomaly 1524))
  have s6 := Real.neg_one_le_sin (toRadians (2 * nmMoonArgLat 1524 - nmMoonAnomaly 1524))
  have s6b := Real.sin_le_one (toRadians (2 * nmMoonArgLat 1524 - nmMoonAnomaly 1524))
  have s7 := Real.neg_one_le_sin (toRadians (2 * nmMoonAnomaly 1524 + nmSunAnomaly 1524))
  have s7b := Real.sin_le_one (toRadians (2 * nmMoonAnomaly 1524 + nmSunAnomaly 1524))
  have ht : nmT 1524 = ((30480 : ℝ) / 24737) := by unfold nmT; push_cast; norm_num
  simp only [new_moon_aa98]
  rw [ht, if_neg (show ¬ (((30480 : ℝ) / 24737) < (-11 : ℝ)) by norm_num)]
  constructor
  · linarith only [hb_Ms.1, hb_Ms.2, hb_Mm.1, hb_Mm.2, hb_2Ms.1, hb_2Ms.2, hb_2Mm.1, hb_2Mm.2, hb_2F.1, hb_2F.2, hb_MspMm.1, hb_MspMm.2, hb_MsmMm.1, hb_MsmMm.2, s1, s1b, s2, s2b, s3, s3b, s4, s4b, s5, s5b, s6, s6b, s7, s7b]
  · linarith only [hb_Ms.1, hb_Ms.2, hb_Mm.1, hb_Mm.2, hb_2Ms.1, hb_2Ms.2, hb_2Mm.1, hb_2Mm.2, hb_2F.1, hb_2F.2, hb_MspMm.1, hb_MspMm.2, hb_MsmMm.1, hb_MsmMm.2, s1, s1b, s2, s2b, s3, s3b, s4, s4b, s5, s5b, s6, s6b, s7, s7b]

theorem nmb_1533 : (2460291.436905624 : ℝ) ≤ new_moon_aa98 1533 ∧ new_moon_aa98 1533 ≤ (2460291.526499714 : ℝ) := by
  have hb_Ms := sinb_Ms_1533
  have hb_Mm := sinb_Mm_1533
  have s1 := Real.neg_one_le_sin (toRadians (nmMeanArg 1533))
  have s1b := Real.sin_le_one (toRadians (nmMeanArg 1533))
  have s2 := Real.neg_one_le_sin (2 * toRadians (nmSunAnomaly 1533))
  have s2b := Real.sin_le_one (2 * toRadians (nmSunAnomaly 1533))
  have s3 := Real.neg_one_le_sin (2 * toRadians (nmMoonAnomaly 1533))
  have s3b := Real.sin_le_one (2 * toRadians (nmMoonAnomaly 1533))
  have s4 := Real.neg_one_le_sin (3 * toRadians (nmMoonAnomaly 1533))
  have s4b := Real.sin_le_one (3 * toRadians (nmMoonAnomaly 1533))
  have s5 := Real.neg_one_le_sin (2 * toRadians (nmMoonArgLat 1533))
  have s5b := Real.sin_le_one (2 * toRadians (nmMoonArgLat 1533))
  have s6 := Real.neg_one_le_sin (toRadians (nmSunAnomaly 1533 + nmMoonAnomaly 1533))
  have s6b := Real.sin_le_one (toRadians (nmSunAnomaly 1533 + nmMoonAnomaly 1533))
  have s7 := Real.neg_one_le_sin (toRadians (nmSunAnomaly 1533 - nmMoonAnomaly 1533))
  have s7b := Real.sin_le_one (toRadians (nmSunAnomaly 1533 - nmMoonAnomaly 1533))
  have s8 := Real.neg_one_le_sin (toRadians (2 * nmMoonArgLat 1533 + nmSunAnomaly 1533))
  have s8b := Real.sin_le_one (toRadians (2 * nmMoonArgLat 1533 + nmSunAnomaly 1533))
  have s9 := Real.neg_one_le_sin (toRadians (2 * nmMoonArgLat 1533 - nmSunAnomaly 1533))
  have s9b := Real.sin_le_one (toRadians (2 * nmMoonArgLat 1533 - nmSunAnomaly 1533))
  have s10 := Real.neg_one_le_sin (toRadians (2 * nmMoonArgLat 1533 + nmMoonAnomaly 1533))
  have s10b := Real.sin_le_one (toRadians (2 * nmMoonArgLat 1533 + nmMoonAnomaly 1533))
  have s11 := Real.neg_one_le_sin (toRadians (2 * nmMoonArgLat 1533 - nmMoonAnomaly 1533))
  have s11b := Real.sin_le_one (toRadians (2 * nmMoonArgLat 1533 - nmMoonAnomaly 1533))
  have s12 := Real.neg_one_le_sin (toRadians (2 * nmMoonAnomaly 1533 + nmSunAnomaly 1533))
  have s12b := Real.sin_le_one (toRadians (2 * nmMoonAnomaly 1533 + nmSunAnomaly 1533))
  have ht : nmT 1533 = ((30660 : ℝ) / 24737) := by unfold nmT; push_cast; norm_num
  simp only [new_moon_aa98]
  rw [ht, if_neg (show ¬ (((30660 : ℝ) / 24737) < (-11 : ℝ)) by norm_num)]
  constructor
  · linarith only [hb_Ms.1, hb_Ms.2, hb_Mm.1, hb_Mm.2, s1, s1b, s2, s2b, s3, s3b, s4, s4b, s5, s5b, s6, s6b, s7, s7b, s8, s8b, s9, s9b, s10, s10b, s11, s11b, s12, s12b]
  · linarith only [hb_Ms.1, hb_Ms.2, hb_Mm.1, hb_Mm.2, s1, s1b, s2, s2b, s3, s3b, s4, s4b, s5, s5b, s6, s6b, s7, s7b, s8, s8b, s9, s9b, s10, s10b, s11, s11b, s12, s12b]

theorem nmb_1538 : (2460438.581722956 : ℝ) ≤ new_moon_aa98 1538 ∧ new_moon_aa98 1538 ≤ (2460438.671200587 : ℝ) := by
  have hb_Ms := sinb_Ms_1538
  have hb_Mm := sinb_Mm_1538
  have s1 := Real.neg_one_le_sin (toRadians (nmMeanArg 1538))
  have s1b := Real.sin_le_one (toRadians (nmMeanArg 1538))
  have s2 := Real.neg_one_le_sin (2 * toRadians (nmSunAnomaly 1538))
  have s2b := Real.sin_le_one (2 * toRadians (nmSunAnomaly 1538))
  have s3 := Real.neg_one_le_sin (2 * toRadians (nmMoonAnomaly 1538))
  have s3b := Real.sin_le_one (2 * toRadians (nmMoonAnomaly 1538))
  have s4 := Real.neg_one_le_sin (3 * toRadians (nmMoonAnomaly 1538))
  have s4b := Real.sin_le_one (3 * toRadians (nmMoonAnomaly 1538))
  have s5 := Real.neg_one_le_sin (2 * toRadians (nmMoonArgLat 1538))
  have s5b := Real.sin_le_one (2 * toRadians (nmMoonArgLat 1538))
  have s6 := Real.neg_one_le_sin (toRadians (nmSunAnomaly 1538 + nmMoonAnomaly 1538))
  have s6b := Real.sin_le_one (toRadians (nmSunAnomaly 1538 + nmMoonAnomaly 1538))
  have s7 := Real.neg_one_le_sin (toRadians (nmSunAnomaly 1538 - nmMoonAnomaly 1538))
  have s7b := Real.sin_le_one (toRadians (nmSunAnomaly 1538 - nmMoonAnomaly 1538))
  have s8 := Real.neg_one_le_sin (toRadians (2 * nmMoonArgLat 1538 + nmSunAnomaly 1538))
  have s8b := Real.sin_le_one (toRadians (2 * nmMoonArgLat 1538 + nmSunAnomaly 1538))
  have s9 := Real.neg_one_le_sin (toRadians (2 * nmMoonArgLat 1538 - nmSunAnomaly 1538))
  have s9b := Real.sin_le_one (toRadians (2 * nmMoonArgLat 1538 - nmSunAnomaly 1538))
  have s10 := Real.neg_one_le_sin (toRadians (2 * nmMoonArgLat 1538 + nmMoonAnomaly 1538))
  have s10b := Real.sin_le_one (toRadians (2 * nmMoonArgLat 1538 + nmMoonAnomaly 1538))
  have s11 := Real.neg_one_le_sin (toRadians (2 * nmMoonArgLat 1538 - nmMoonAnomaly 1538))
  have s11b := Real.sin_le_one (toRadians (2 * nmMoonArgLat 1538 - nmMoonAnomaly 1538))
  have s12 := Real.neg_one_le_sin (toRadians (2 * nmMoonAnomaly 1538 + nmSunAnomaly 1538))
  have s12b := Real.sin_le_one (toRadians (2 * nmMoonAnomaly 1538 + nmSunAnomaly 1538))
  have ht : nmT 1538 = ((30760 : ℝ) / 24737) := by unfold nmT; push_cast; norm_num
  simp only [new_moon_aa98]
  rw [ht, if_neg (show ¬ (((30760 : ℝ) / 24737) < (-11 : ℝ)) by norm_num)]
  constructor
  · linarith only [hb_Ms.1, hb_Ms.2, hb_Mm.1, hb_Mm.2, s1, s1b, s2, s2b, s3, s3b, s4, s4b, s5, s5b, s6, s6b, s7, s7b, s8, s8b, s9, s9b, s10, s10b, s11, s11b, s12, s12b]
  · linarith only [hb_Ms.1, hb_Ms.2, hb_Mm.1, hb_Mm.2, s1, s1b, s2, s2b, s3, s3b, s4, s4b, s5, s5b, s6, s6b, s7, s7b, s8, s8b, s9, s9b, s10, s10b, s11, s11b, s12, s12b]

theorem nmb_1545 : (2460645.705303086 : ℝ) ≤ new_moon_aa98 1545 ∧ new_moon_aa98 1545 ≤ (2460645.79477491 : ℝ) := by
  have hb_Ms := sinb_Ms_1545
  have hb_Mm := sinb_Mm_1545
  have s1 := Real.neg_one_le_sin (toRadians (nmMeanArg 1545))
  have s1b := Real.sin_le_one (toRadians (nmMeanArg 1545))
  have s2 := Real.neg_one_le_sin (2 * toRadians (nmSunAnomaly 1545))
  have s2b := Real.sin_le_one (2 * toRadians (nmSunAnomaly 1545))
  have s3 := Real.neg_one_le_sin (2 * toRadians (nmMoonAnomaly 1545))
  have s3b := Real.sin_le_one (2 * toRadians (nmMoonAnomaly 1545))
  have s4 := Real.neg_one_le_sin (3 * toRadians (nmMoonAnomaly 1545))
  have s4b := Real.sin_le_one (3 * toRadians (nmMoonAnomaly 1545))
  have s5 := Real.neg_one_le_sin (2 * toRadians (nmMoonArgLat 1545))
  have s5b := Real.sin_le_one (2 * toRadians (nmMoonArgLat 1545))
  have s6 := Real.neg_one_le_sin (toRadians (nmSunAnomaly 1545 + nmMoonAnomaly 1545))
  have s6b := Real.sin_le_one (toRadians (nmSunAnomaly 1545 + nmMoonAnomaly 1545))
  have s7 := Real.neg_one_le_sin (toRadians (nmSunAnomaly 1545 - nmMoonAnomaly 1545))
  have s7b := Real.sin_le_one (toRadians (nmSunAnomaly 1545 - nmMoonAnomaly 1545))
  have s8 := Real.neg_one_le_sin (toRadians (2 * nmMoonArgLat 1545 + nmSunAnomaly 1545))
  have s8b := Real.sin_le_one (toRadians (2 * nmMoonArgLat 1545 + nmSunAnomaly 1545))
  have s9 := Real.neg_one_le_sin (toRadians (2 * nmMoonArgLat 1545 - nmSunAnomaly 1545))
  have s9b := Real.sin_le_one (toRadians (2 * nmMoonArgLat 1545 - nmSunAnomaly 1545))
  have s10 := Real.neg_one_le_sin (toRadians (2 * nmMoonArgLat 1545 + nmMoonAnomaly 1545))
  have s10b := Real.sin_le_one (toRadians (2 * nmMoonArgLat 1545 + nmMoonAnomaly 1545))
  have s11 := Real.neg_one_le_sin (toRadians (2 * nmMoonArgLat 1545 - nmMoonAnomaly 1545))
  have s11b := Real.sin_le_one (toRadians (2 * nmMoonArgLat 1545 - nmMoonAnomaly 1545))
  have s12 := Real.neg_one_le_sin (toRadians (2 * nmMoonAnomaly 1545 + nmSunAnomaly 1545))
  have s12b := Real.sin_le_one (toRadians (2 * nmMoonAnomaly 1545 + nmSunAnomaly 1545))
  have ht : nmT 1545 = ((30900 : ℝ) / 24737) := by unfold nmT; push_cast; norm_num
  simp only [new_moon_aa98]
  rw [ht, if_neg (show ¬ (((30900 : ℝ) / 24737) < (-11 : ℝ)) by norm_num)]
  constructor
  · linarith only [hb_Ms.1, hb_Ms.2, hb_Mm.1, hb_Mm.2, s1, s1b, s2, s2b, s3, s3b, s4, s4b, s5, s5b, s6, s6b, s7, s7b, s8, s8b, s9, s9b, s10, s10b, s11, s11b, s12, s12b]
  · linarith only [hb_Ms.1, hb_Ms.2, hb_Mm.1, hb_Mm.2, s1, s1b, s2, s2b, s3, s3b, s4, s4b, s5, s5b, s6, s6b, s7, s7b, s8, s8b, s9, s9b, s10, s10b, s11, s11b, s12, s12b]

theorem nmb_1546 : (2460675.391944385 : ℝ) ≤ new_moon_aa98 1546 ∧ new_moon_aa98 1546 ≤ (2460675.481462394 : ℝ) := by
  have hb_Ms := sinb_Ms_1546
  have hb_Mm := sinb_Mm_1546
  have s1 := Real.neg_one_le_sin (toRadians (nmMeanArg 1546))
  have s1b := Real.sin_le_one (toRadians (nmMeanArg 1546))
  have s2 := Real.neg_one_le_sin (2 * toRadians (nmSunAnomaly 1546))
  have s2b := Real.sin_le_one (2 * toRadians (nmSunAnomaly 1546))
  have s3 := Real.neg_one_le_sin (2 * toRadians (nmMoonAnomaly 1546))
  have s3b := Real.sin_le_one (2 * toRadians (nmMoonAnomaly 1546))
  have s4 := Real.neg_one_le_sin (3 * toRadians (nmMoonAnomaly 1546))
  have s4b := Real.sin_le_one (3 * toRadians (nmMoonAnomaly 1546))
  have s5 := Real.neg_one_le_sin (2 * toRadians (nmMoonArgLat 1546))
  have s5b := Real.sin_le_one (2 * toRadians (nmMoonArgLat 1546))
  have s6 := Real.neg_one_le_sin (toRadians (nmSunAnomaly 1546 + nmMoonAnomaly 1546))
  have s6b := Real.sin_le_one (toRadians (nmSunAnomaly 1546 + nmMoonAnomaly 1546))
  have s7 := Real.neg_one_le_sin (toRadians (nmSunAnomaly 1546 - nmMoonAnomaly 1546))
  have s7b := Real.sin_le_one (toRadians (nmSunAnomaly 1546 - nmMoonAnomaly 1546))
  have s8 := Real.neg_one_le_sin (toRadians (2 * nmMoonArgLat 1546 + nmSunAnomaly 1546))
  have s8b := Real.sin_le_one (toRadians (2 * nmMoonArgLat 1546 + nmSunAnomaly 1546))
  have s9 := Real.neg_one_le_sin (toRadians (2 * nmMoonArgLat 1546 - nmSunAnomaly 1546))
  have s9b := Real.sin_le_one (toRadians (2 * nmMoonArgLat 1546 - nmSunAnomaly 1546))
  have s10 := Real.neg_one_le_sin (toRadians (2 * nmMoonArgLat 1546 + nmMoonAnomaly 1546))
  have s10b := Real.sin_le_one (toRadians (2 * nmMoonArgLat 1546 + nmMoonAnomaly 1546))
  have s11 := Real.neg_one_le_sin (toRadians (2 * nmMoonArgLat 1546 - nmMoonAnomaly 1546))
  have s11b := Real.sin_le_one (toRadians (2 * nmMoonArgLat 1546 - nmMoonAnomaly 1546))
  have s12 := Real.neg_one_le_sin (toRadians (2 * nmMoonAnomaly 1546 + nmSunAnomaly 1546))
  have s12b := Real.sin_le_one (toRadians (2 * nmMoonAnomaly 1546 + nmSunAnomaly 1546))
  have ht : nmT 1546 = ((30920 : ℝ) / 24737) := by unfold nmT; push_cast; norm_num
  simp only [new_moon_aa98]
  rw [ht, if_neg (show ¬ (((30920 : ℝ) / 24737) < (-11 : ℝ)) by norm_num)]
  constructor
  · linarith only [hb_Ms.1, hb_Ms.2, hb_Mm.1, hb_Mm.2, s1, s1b, s2, s2b, s3, s3b, s4, s4b, s5, s5b, s6, s6b, s7, s7b, s8, s8b, s9, s9b, s10, s10b, s11, s11b, s12, s12b]
  · linarith only [hb_Ms.1, hb_Ms.2, hb_Mm.1, hb_Mm.2, s1, s1b, s2, s2b, s3, s3b, s4, s4b, s5, s5b, s6, s6b, s7, s7b, s8, s8b, s9, s9b, s10, s10b, s11, s11b, s12, s12b]

theorem gnmd_1508_7 : get_new_moon_day 1508 7 = 2459553 := by
  have h := nmb_1508
  have he := get_new_moon_day_eval 1508 7 2459553 (by push_cast; linarith only [h.1])
    (by push_cast; linarith only [h.2])
  exact_mod_cast he

theorem gnmd_1513_7 : get_new_moon_day 1513 7 = 2459701 := by
  have h := nmb_1513
  have he := get_new_moon_day_eval 1513 7 2459701 (by push_cast; linarith only [h.1])
    (by push_cast; linarith only [h.2])
  exact_mod_cast he

theorem gnmd_1520_7 : get_new_moon_day 1520 7 = 2459908 := by
  have h := nmb_1520
  have he := get_new_moon_day_eval 1520 7 2459908 (by push_cast; linarith only [h.1])
    (by push_cast; linarith only [h.2])
  exact_mod_cast he

theorem gnmd_1521_7 : get_new_moon_day 1521 7 = 2459937 := by
  have h := nmb_1521
  have he := get_new_moon_day_eval 1521 7 2459937 (by push_cast; linarith only [h.1])
    (by push_cast; linarith only [h.2])
  exact_mod_cast he

theorem gnmd_1522_7 : get_new_moon_day 1522 7 = 2459967 := by
  have h := nmb_1522
  have he := get_new_moon_day_eval 1522 7 2459967 (by push_cast; linarith only [h.1])
    (by push_cast; linarith only [h.2])
  exact_mod_cast he

theorem gnmd_1523_7 : get_new_moon_day 1523 7 = 2459996 := by
  have h := nmb_1523
  have he := get_new_moon_day_eval 1523 7 2459996 (by push_cast; linarith only [h.1])
    (by push_cast; linarith only [h.2])
  exact_mod_cast he

theorem gnmd_1524_7 : get_new_moon_day 1524 7 = 2460025 := by
  have h := nmb_1524
  have he := get_new_moon_day_eval 1524 7 2460025 (by push_cast; linarith only [h.1])
    (by push_cast; linarith only [h.2])
  exact_mod_cast he

theorem gnmd_1533_7 : get_new_moon_day 1533 7 = 2460292 := by
  have h := nmb_1533
  have he := get_new_moon_day_eval 1533 7 2460292 (by push_cast; linarith only [h.1])
    (by push_cast; linarith only [h.2])
  exact_mod_cast he

theorem gnmd_1538_7 : get_new_moon_day 1538 7 = 2460439 := by
  have h := nmb_1538
  have he := get_new_moon_day_eval 1538 7 2460439 (by push_cast; linarith only [h.1])
    (by push_cast; linarith only [h.2])
  exact_mod_cast he

theorem gnmd_1545_7 : get_new_moon_day 1545 7 = 2460646 := by
  have h := nmb_1545
  have he := get_new_moon_day_eval 1545 7 2460646 (by push_cast; linarith only [h.1])
    (by push_cast; linarith only [h.2])
  exact_mod_cast he

theorem gnmd_1546_7 : get_new_moon_day 1546 7 = 2460676 := by
  have h := nmb_1546
  have he := get_new_moon_day_eval 1546 7 2460676 (by push_cast; linarith only [h.1])
    (by push_cast; linarith only [h.2])
  exact_mod_cast he

theorem tlb_2459553 : (8170.81641643 : ℝ) ≤ trueLongitudeOf ((2459553 : ℝ) - 0.5 - 7 / 24) ∧ trueLongitudeOf ((2459553 : ℝ) - 0.5 - 7 / 24) ≤ (8174.684024784 : ℝ) := by
  have s1 := Real.neg_one_le_sin (toRadians (slMeanAnomaly ((2459553 : ℝ) - 0.5 - 7 / 24)))
  have s1b := Real.sin_le_one (toRadians (slMeanAnomaly ((2459553 : ℝ) - 0.5 - 7 / 24)))
  have s2 := Real.neg_one_le_sin (2 * toRadians (slMeanAnomaly ((2459553 : ℝ) - 0.5 - 7 / 24)))
  have s2b := Real.sin_le_one (2 * toRadians (slMeanAnomaly ((2459553 : ℝ) - 0.5 - 7 / 24)))
  have s3 := Real.neg_one_le_sin (3 * toRadians (slMeanAnomaly ((2459553 : ℝ) - 0.5 - 7 / 24)))
  have s3b := Real.sin_le_one (3 * toRadians (slMeanAnomaly ((2459553 : ℝ) - 0.5 - 7 / 24)))
  have ht : slT ((2459553 : ℝ) - 0.5 - 7 / 24) = ((192173 : ℝ) / 876600) := by unfold slT; norm_num
  simp only [trueLongitudeOf, slMeanLongitude]
  rw [ht]
  constructor
  · linarith only [s1, s1b, s2, s2b, s3, s3b]
  · linarith only [s1, s1b, s2, s2b, s3, s3b]

theorem tlb_2459937 : (8550.817462545 : ℝ) ≤ trueLongitudeOf ((2459937 : ℝ) - 0.5 - 7 / 24) ∧ trueLongitudeOf ((2459937 : ℝ) - 0.5 - 7 / 24) ≤ (8550.858377768 : ℝ) := by
  have hbM := sinb_sl_2459937
  have s2 := Real.neg_one_le_sin (2 * toRadians (slMeanAnomaly ((2459937 : ℝ) - 0.5 - 7 / 24)))
  have s2b := Real.sin_le_one (2 * toRadians (slMeanAnomaly ((2459937 : ℝ) - 0.5 - 7 / 24)))
  have s3 := Real.neg_one_le_sin (3 * toRadians (slMeanAnomaly ((2459937 : ℝ) - 0.5 - 7 / 24)))
  have s3b := Real.sin_le_one (3 * toRadians (slMeanAnomaly ((2459937 : ℝ) - 0.5 - 7 / 24)))
  have ht : slT ((2459937 : ℝ) - 0.5 - 7 / 24) = ((201389 : ℝ) / 876600) := by unfold slT; norm_num
  simp only [trueLongitudeOf, slMeanLongitude]
  rw [ht]
  constructor
  · linarith only [hbM.1, hbM.2, s2, s2b, s3, s3b]
  · linarith only [hbM.1, hbM.2, s2, s2b, s3, s3b]

theorem tlb_2459967 : (8581.362156246 : ℝ) ≤ trueLongitudeOf ((2459967 : ℝ) - 0.5 - 7 / 24) ∧ trueLongitudeOf ((2459967 : ℝ) - 0.5 - 7 / 24) ≤ (8581.40329759 : ℝ) := by
  have hbM := sinb_sl_2459967
  have s2 := Real.neg_one_le_sin (2 * toRadians (slMeanAnomaly ((2459967 : ℝ) - 0.5 - 7 / 24)))
  have s2b := Real.sin_le_one (2 * toRadians (slMeanAnomaly ((2459967 : ℝ) - 0.5 - 7 / 24)))
  have s3 := Real.neg_one_le_sin (3 * toRadians (slMeanAnomaly ((2459967 : ℝ) - 0.5 - 7 / 24)))
  have s3b := Real.sin_le_one (3 * toRadians (slMeanAnomaly ((2459967 : ℝ) - 0.5 - 7 / 24)))
  have ht : slT ((2459967 : ℝ) - 0.5 - 7 / 24) = ((202109 : ℝ) / 876600) := by unfold slT; norm_num
  simp only [trueLongitudeOf, slMeanLongitude]
  rw [ht]
  constructor
  · linarith only [hbM.1, hbM.2, s2, s2b, s3, s3b]
  · linarith only [hbM.1, hbM.2, s2, s2b, s3, s3b]

theorem tlb_2459996 : (8610.748793835 : ℝ) ≤ trueLongitudeOf ((2459996 : ℝ) - 0.5 - 7 / 24) ∧ trueLongitudeOf ((2459996 : ℝ) - 0.5 - 7 / 24) ≤ (8610.790268124 : ℝ) := by
  have hbM := sinb_sl_2459996
  have s2 := Real.neg_one_le_sin (2 * toRadians (slMeanAnomaly ((2459996 : ℝ) - 0.5 - 7 / 24)))
  have s2b := Real.sin_le_one (2 * toRadians (slMeanAnomaly ((2459996 : ℝ) - 0.5 - 7 / 24)))
  have s3 := Real.neg_one_le_sin (3 * toRadians (slMeanAnomaly ((2459996 : ℝ) - 0.5 - 7 / 24)))
  have s3b := Real.sin_le_one (3 * toRadians (slMeanAnomaly ((2459996 : ℝ) - 0.5 - 7 / 24)))
  have ht : slT ((2459996 : ℝ) - 0.5 - 7 / 24) = ((40561 : ℝ) / 175320) := by unfold slT; norm_num
  simp only [trueLongitudeOf, slMeanLongitude]
  rw [ht]
  constructor
  · linarith only [hbM.1, hbM.2, s2, s2b, s3, s3b]
  · linarith only [hbM.1, hbM.2, s2, s2b, s3, s3b]

theorem tlb_2460025 : (8639.799759938 : ℝ) ≤ trueLongitudeOf ((2460025 : ℝ) - 0.5 - 7 / 24) ∧ trueLongitudeOf ((2460025 : ℝ) - 0.5 - 7 / 24) ≤ (8639.841439497 : ℝ) := by
  have hbM := sinb_sl_2460025
  have s2 := Real.neg_one_le_sin (2 * toRadians (slMeanAnomaly ((2460025 : ℝ) - 0.5 - 7 / 24)))
  have s2b := Real.sin_le_one (2 * toRadians (slMeanAnomaly ((2460025 : ℝ) - 0.5 - 7 / 24)))
  have s3 := Real.neg_one_le_sin (3 * toRadians (slMeanAnomaly ((2460025 : ℝ) - 0.5 - 7 / 24)))
  have s3b := Real.sin_le_one (3 * toRadians (slMeanAnomaly ((2460025 : ℝ) - 0.5 - 7 / 24)))
  have ht : slT ((2460025 : ℝ) - 0.5 - 7 / 24) = ((203501 : ℝ) / 876600) := by unfold slT; norm_num
  simp only [trueLongitudeOf, slMeanLongitude]
  rw [ht]
  constructor
  · linarith only [hbM.1, hbM.2, s2, s2b, s3, s3b]
  · linarith only [hbM.1, hbM.2, s2, s2b, s3, s3b]

theorem tlb_2460292 : (8899.20991804 : ℝ) ≤ trueLongitudeOf ((2460292 : ℝ) - 0.5 - 7 / 24) ∧ trueLongitudeOf ((2460292 : ℝ) - 0.5 - 7 / 24) ≤ (8903.077327125 : ℝ) := by
  have s1 := Real.neg_one_le_sin (toRadians (slMeanAnomaly ((2460292 : ℝ) - 0.5 - 7 / 24)))
  have s1b := Real.sin_le_one (toRadians (slMeanAnomaly ((2460292 : ℝ) - 0.5 - 7 / 24)))
  have s2 := Real.neg_one_le_sin (2 * toRadians (slMeanAnomaly ((2460292 : ℝ) - 0.5 - 7 / 24)))
  have s2b := Real.sin_le_one (2 * toRadians (slMeanAnomaly ((2460292 : ℝ) - 0.5 - 7 / 24)))
  have s3 := Real.neg_one_le_sin (3 * toRadians (slMeanAnomaly ((2460292 : ℝ) - 0.5 - 7 / 24)))
  have s3b := Real.sin_le_one (3 * toRadians (slMeanAnomaly ((2460292 : ℝ) - 0.5 - 7 / 24)))
  have ht : slT ((2460292 : ℝ) - 0.5 - 7 / 24) = ((209909 : ℝ) / 876600) := by unfold slT; norm_num
  simp only [trueLongitudeOf, slMeanLongitude]
  rw [ht]
  constructor
  · linarith only [s1, s1b, s2, s2b, s3, s3b]
  · linarith only [s1, s1b, s2, s2b, s3, s3b]

theorem tlb_2460676 : (9277.69855768 : ℝ) ≤ trueLongitudeOf ((2460676 : ℝ) - 0.5 - 7 / 24) ∧ trueLongitudeOf ((2460676 : ℝ) - 0.5 - 7 / 24) ≤ (9281.565863211 : ℝ) := by
  have s1 := Real.neg_one_le_sin (toRadians (slMeanAnomaly ((2460676 : ℝ) - 0.5 - 7 / 24)))
  have s1b := Real.sin_le_one (toRadians (slMeanAnomaly ((2460676 : ℝ) - 0.5 - 7 / 24)))
  have s2 := Real.neg_one_le_sin (2 * toRadians (slMeanAnomaly ((2460676 : ℝ) - 0.5 - 7 / 24)))
  have s2b := Real.sin_le_one (2 * toRadians (slMeanAnomaly ((2460676 : ℝ) - 0.5 - 7 / 24)))
  have s3 := Real.neg_one_le_sin (3 * toRadians (slMeanAnomaly ((2460676 : ℝ) - 0.5 - 7 / 24)))
  have s3b := Real.sin_le_one (3 * toRadians (slMeanAnomaly ((2460676 : ℝ) - 0.5 - 7 / 24)))
  have ht : slT ((2460676 : ℝ) - 0.5 - 7 / 24) = ((8765 : ℝ) / 35064) := by unfold slT; norm_num
  simp only [trueLongitudeOf, slMeanLongitude]
  rw [ht]
  constructor
  · linarith only [s1, s1b, s2, s2b, s3, s3b]
  · linarith only [s1, s1b, s2, s2b, s3, s3b]

theorem segf_2459937 : (⌊get_sun_longitude (2459937 : ℝ) 7 / 30⌋ : ℤ) = 9 := by
  have hL := tlb_2459937
  unfold get_sun_longitude sun_longitude_aa98 normalize_longitude rustFmod
  have hrt : rtrunc (trueLongitudeOf ((2459937 : ℝ) - 0.5 - 7 / 24) / 360) = 23 := by
    unfold rtrunc
    rw [if_pos (show (0 : ℝ) ≤ trueLongitudeOf ((2459937 : ℝ) - 0.5 - 7 / 24) / 360 by linarith only [hL.1])]
    exact Int.floor_eq_iff.mpr ⟨by push_cast; linarith only [hL.1], by push_cast; linarith only [hL.2]⟩
  rw [hrt]
  exact Int.floor_eq_iff.mpr ⟨by push_cast; linarith only [hL.1], by push_cast; linarith only [hL.2]⟩

theorem segf_2459967 : (⌊get_sun_longitude (2459967 : ℝ) 7 / 30⌋ : ℤ) = 10 := by
  have hL := tlb_2459967
  unfold get_sun_longitude sun_longitude_aa98 normalize_longitude rustFmod
  have hrt : rtrunc (trueLongitudeOf ((2459967 : ℝ) - 0.5 - 7 / 24) / 360) = 23 := by
    unfold rtrunc
    rw [if_pos (show (0 : ℝ) ≤ trueLongitudeOf ((2459967 : ℝ) - 0.5 - 7 / 24) / 360 by linarith only [hL.1])]
    exact Int.floor_eq_iff.mpr ⟨by push_cast; linarith only [hL.1], by push_cast; linarith only [hL.2]⟩
  rw [hrt]
  exact Int.floor_eq_iff.mpr ⟨by push_cast; linarith only [hL.1], by push_cast; linarith only [hL.2]⟩

theorem segf_2459996 : (⌊get_sun_longitude (2459996 : ℝ) 7 / 30⌋ : ℤ) = 11 := by
  have hL := tlb_2459996
  unfold get_sun_longitude sun_longitude_aa98 normalize_longitude rustFmod
  have hrt : rtrunc (trueLongitudeOf ((2459996 : ℝ) - 0.5 - 7 / 24) / 360) = 23 := by
    unfold rtrunc
    rw [if_pos (show (0 : ℝ) ≤ trueLongitudeOf ((2459996 : ℝ) - 0.5 - 7 / 24) / 360 by linarith only [hL.1])]
    exact Int.floor_eq_iff.mpr ⟨by push_cast; linarith only [hL.1], by push_cast; linarith only [hL.2]⟩
  rw [hrt]
  exact Int.floor_eq_iff.mpr ⟨by push_cast; linarith only [hL.1], by push_cast; linarith only [hL.2]⟩

theorem segf_2460025 : (⌊get_sun_longitude (2460025 : ℝ) 7 / 30⌋ : ℤ) = 11 := by
  have hL := tlb_2460025
  unfold get_sun_longitude sun_longitude_aa98 normalize_longitude rustFmod
  have hrt : rtrunc (trueLongitudeOf ((2460025 : ℝ) - 0.5 - 7 / 24) / 360) = 23 := by
    unfold rtrunc
    rw [if_pos (show (0 : ℝ) ≤ trueLongitudeOf ((2460025 : ℝ) - 0.5 - 7 / 24) / 360 by linarith only [hL.1])]
    exact Int.floor_eq_iff.mpr ⟨by push_cast; linarith only [hL.1], by push_cast; linarith only [hL.2]⟩
  rw [hrt]
  exact Int.floor_eq_iff.mpr ⟨by push_cast; linarith only [hL.1], by push_cast; linarith only [hL.2]⟩

theorem segr_2459553 : rtrunc (get_sun_longitude (2459553 : ℝ) 7 / 30) = 8 := by
  have hL := tlb_2459553
  unfold get_sun_longitude sun_longitude_aa98 normalize_longitude rustFmod
  have hrt : rtrunc (trueLongitudeOf ((2459553 : ℝ) - 0.5 - 7 / 24) / 360) = 22 := by
    unfold rtrunc
    rw [if_pos (show (0 : ℝ) ≤ trueLongitudeOf ((2459553 : ℝ) - 0.5 - 7 / 24) / 360 by linarith only [hL.1])]
    exact Int.floor_eq_iff.mpr ⟨by push_cast; linarith only [hL.1], by push_cast; linarith only [hL.2]⟩
  rw [hrt]
  unfold rtrunc
  rw [if_pos (show (0 : ℝ) ≤ (trueLongitudeOf ((2459553 : ℝ) - 0.5 - 7 / 24) - 360 * ((22 : ℤ) : ℝ)) / 30 by push_cast; linarith only [hL.1])]
  exact Int.floor_eq_iff.mpr ⟨by push_cast; linarith only [hL.1], by push_cast; linarith only [hL.2]⟩

theorem segr_2459937 : rtrunc (get_sun_longitude (2459937 : ℝ) 7 / 30) = 9 := by
  have hL := tlb_2459937
  unfold get_sun_longitude sun_longitude_aa98 normalize_longitude rustFmod
  have hrt : rtrunc (trueLongitudeOf ((2459937 : ℝ) - 0.5 - 7 / 24) / 360) = 23 := by
    unfold rtrunc
    rw [if_pos (show (0 : ℝ) ≤ trueLongitudeOf ((2459937 : ℝ) - 0.5 - 7 / 24) / 360 by linarith only [hL.1])]
    exact Int.floor_eq_iff.mpr ⟨by push_cast; linarith only [hL.1], by push_cast; linarith only [hL.2]⟩
  rw [hrt]
  unfold rtrunc
  rw [if_pos (show (0 : ℝ) ≤ (trueLongitudeOf ((2459937 : ℝ) - 0.5 - 7 / 24) - 360 * ((23 : ℤ) : ℝ)) / 30 by push_cast; linarith only [hL.1])]
  exact Int.floor_eq_iff.mpr ⟨by push_cast; linarith only [hL.1], by push_cast; linarith only [hL.2]⟩

theorem segr_2460292 : rtrunc (get_sun_longitude (2460292 : ℝ) 7 / 30) = 8 := by
  have hL := tlb_2460292
  unfold get_sun_longitude sun_longitude_aa98 normalize_longitude rustFmod
  have hrt : rtrunc (trueLongitudeOf ((2460292 : ℝ) - 0.5 - 7 / 24) / 360) = 24 := by
    unfold rtrunc
    rw [if_pos (show (0 : ℝ) ≤ trueLongitudeOf ((2460292 : ℝ) - 0.5 - 7 / 24) / 360 by linarith only [hL.1])]
    exact Int.floor_eq_iff.mpr ⟨by push_cast; linarith only [hL.1], by push_cast; linarith only [hL.2]⟩
  rw [hrt]
  unfold rtrunc
  rw [if_pos (show (0 : ℝ) ≤ (trueLongitudeOf ((2460292 : ℝ) - 0.5 - 7 / 24) - 360 * ((24 : ℤ) : ℝ)) / 30 by push_cast; linarith only [hL.1])]
  exact Int.floor_eq_iff.mpr ⟨by push_cast; linarith only [hL.1], by push_cast; linarith only [hL.2]⟩

theorem segr_2460676 : rtrunc (get_sun_longitude (2460676 : ℝ) 7 / 30) = 9 := by
  have hL := tlb_2460676
  unfold get_sun_longitude sun_longitude_aa98 normalize_longitude rustFmod
  have hrt : rtrunc (trueLongitudeOf ((2460676 : ℝ) - 0.5 - 7 / 24) / 360) = 25 := by
    unfold rtrunc
    rw [if_pos (show (0 : ℝ) ≤ trueLongitudeOf ((2460676 : ℝ) - 0.5 - 7 / 24) / 360 by linarith only [hL.1])]
    exact Int.floor_eq_iff.mpr ⟨by push_cast; linarith only [hL.1], by push_cast; linarith only [hL.2]⟩
  rw [hrt]
  unfold rtrunc
  rw [if_pos (show (0 : ℝ) ≤ (trueLongitudeOf ((2460676 : ℝ) - 0.5 - 7 / 24) - 360 * ((25 : ℤ) : ℝ)) / 30 by push_cast; linarith only [hL.1])]
  exact Int.floor_eq_iff.mpr ⟨by push_cast; linarith only [hL.1], by push_cast; linarith only [hL.2]⟩

theorem fjd_2459580 : from_julian_day (2459580 : ℝ) = 1508 := by
  exact from_julian_day_eval (2459580 : ℝ) 1508 (by norm_num) (by push_cast; norm_num)
    (by push_cast; norm_num) (by norm_num [i32max])

theorem fjd_2459724 : from_julian_day (2459724 : ℝ) = 1513 := by
  exact from_julian_day_eval (2459724 : ℝ) 1513 (by norm_num) (by push_cast; norm_num)
    (by push_cast; norm_num) (by norm_num [i32max])

theorem fjd_2459908 : from_julian_day (2459908 : ℝ) = 1520 := by
  exact from_julian_day_eval (2459908 : ℝ) 1520 (by norm_num) (by push_cast; norm_num)
    (by push_cast; norm_num) (by norm_num [i32max])

theorem fjd_2459945 : from_julian_day (2459945 : ℝ) = 1521 := by
  exact from_julian_day_eval (2459945 : ℝ) 1521 (by norm_num) (by push_cast; norm_num)
    (by push_cast; norm_num) (by norm_num [i32max])

theorem fjd_2460310 : from_julian_day (2460310 : ℝ) = 1533 := by
  exact from_julian_day_eval (2460310 : ℝ) 1533 (by norm_num) (by push_cast; norm_num)
    (by push_cast; norm_num) (by norm_num [i32max])

theorem fjd_2460455 : from_julian_day (2460455 : ℝ) = 1538 := by
  exact from_julian_day_eval (2460455 : ℝ) 1538 (by norm_num) (by push_cast; norm_num)
    (by push_cast; norm_num) (by norm_num [i32max])

theorem fjd_2460676 : from_julian_day (2460676 : ℝ) = 1546 := by
  exact from_julian_day_eval (2460676 : ℝ) 1546 (by norm_num) (by push_cast; norm_num)
    (by push_cast; norm_num) (by norm_num [i32max])

/-! ## Month-11 boundaries at timezone 7 -/

theorem month11_2021_7 : get_lunar_month_11 2021 7 = 2459553 := by
  have hj : jdnDec31 2021 = 2459580 := by decide
  simp only [get_lunar_month_11]
  rw [hj]
  push_cast
  rw [fjd_2459580, gnmd_1508_7, segr_2459553]
  rw [if_neg (show ¬ ((((8 : ℤ)) : ℝ) ≥ 9) by push_cast; norm_num)]

theorem month11_2022_7 : get_lunar_month_11 2022 7 = 2459908 := by
  have hj : jdnDec31 2022 = 2459945 := by decide
  simp only [get_lunar_month_11]
  rw [hj]
  push_cast
  rw [fjd_2459945, gnmd_1521_7, segr_2459937]
  rw [if_pos (show (((9 : ℤ)) : ℝ) ≥ 9 by push_cast; norm_num)]
  rw [show (1521 : ℤ) - 1 = 1520 by norm_num]
  exact gnmd_1520_7

theorem month11_2023_7 : get_lunar_month_11 2023 7 = 2460292 := by
  have hj : jdnDec31 2023 = 2460310 := by decide
  simp only [get_lunar_month_11]
  rw [hj]
  push_cast
  rw [fjd_2460310, gnmd_1533_7, segr_2460292]
  rw [if_neg (show ¬ ((((8 : ℤ)) : ℝ) ≥ 9) by push_cast; norm_num)]

theorem month11_2024_7 : get_lunar_month_11 2024 7 = 2460646 := by
  have hj : jdnDec31 2024 = 2460676 := by decide
  simp only [get_lunar_month_11]
  rw [hj]
  push_cast
  rw [fjd_2460676, gnmd_1546_7, segr_2460676]
  rw [if_pos (show (((9 : ℤ)) : ℝ) ≥ 9 by push_cast; norm_num)]
  rw [show (1546 : ℤ) - 1 = 1545 by norm_num]
  exact gnmd_1545_7

/-! ## Leap-month scan at the 2022 boundary -/

theorem leapScan_succ (k : ℤ) (timezone : ℝ) (fuel : ℕ) (i : ℤ) (last : ℝ) :
    leapScan k timezone (fuel + 1) i last =
      if ((⌊get_sun_longitude (get_new_moon_day (k + i) timezone) timezone / 30⌋ : ℤ) : ℝ)
          = last then i - 1
      else leapScan k timezone fuel (i + 1)
        ((⌊get_sun_longitude (get_new_moon_day (k + i) timezone) timezone / 30⌋ : ℤ) : ℝ) :=
  rfl

theorem leap_2459908 : get_leap_month_offset 2459908 7 = 3 := by
  simp only [get_leap_month_offset]
  push_cast
  rw [fjd_2459908]
  rw [show (13 : ℕ) = 12 + 1 by norm_num, leapScan_succ,
    show (1520 : ℤ) + 1 = 1521 by norm_num, gnmd_1521_7, segf_2459937]
  rw [if_neg (show ¬ ((((9 : ℤ)) : ℝ) = 0) by push_cast; norm_num)]
  rw [show (12 : ℕ) = 11 + 1 by norm_num, leapScan_succ,
    show (1 : ℤ) + 1 = 2 by norm_num,
    show (1520 : ℤ) + 2 = 1522 by norm_num, gnmd_1522_7, segf_2459967]
  rw [if_neg (show ¬ ((((10 : ℤ)) : ℝ) = (((9 : ℤ)) : ℝ)) by push_cast; norm_num)]
  rw [show (11 : ℕ) = 10 + 1 by norm_num, leapScan_succ,
    show (2 : ℤ) + 1 = 3 by norm_num,
    show (1520 : ℤ) + 3 = 1523 by norm_num, gnmd_1523_7, segf_2459996]
  rw [if_neg (show ¬ ((((11 : ℤ)) : ℝ) = (((10 : ℤ)) : ℝ)) by push_cast; norm_num)]
  rw [show (10 : ℕ) = 9 + 1 by norm_num, leapScan_succ,
    show (3 : ℤ) + 1 = 4 by norm_num,
    show (1520 : ℤ) + 4 = 1524 by norm_num, gnmd_1524_7, segf_2460025]
  rw [if_pos rfl]
  norm_num

/-! ## Converter evaluations at the two test dates -/

theorem ms_2460455_7 : monthStartOf (2460455 : ℝ) 7 = 2460439 := by
  simp only [monthStartOf]
  rw [fjd_2460455, show (1538 : ℤ) + 1 = 1539 by norm_num]
  have h39 := get_new_moon_day_ge 1539 7 2460468
    (by push_cast; linarith only [(new_moon_slack 1539 (by norm_num) (by norm_num)).1])
  rw [if_pos (show get_new_moon_day 1539 7 > (2460455 : ℝ) by push_cast at h39; linarith only [h39])]
  exact gnmd_1538_7

theorem ms_2459724_7 : monthStartOf (2459724 : ℝ) 7 = 2459701 := by
  simp only [monthStartOf]
  rw [fjd_2459724, show (1513 : ℤ) + 1 = 1514 by norm_num]
  have h14 := get_new_moon_day_ge 1514 7 2459730
    (by push_cast; linarith only [(new_moon_slack 1514 (by norm_num) (by norm_num)).1])
  rw [if_pos (show get_new_moon_day 1514 7 > (2459724 : ℝ) by push_cast at h14; linarith only [h14])]
  exact gnmd_1513_7

/-- Evaluation scheme for the converter in the twelve-month case: once the
month start, the two month-11 boundaries, the lunar day and the month
difference are known and the year has no thirteenth month, the output
tuple is determined. -/
theorem convert_eval (date : Date) (tz : ℝ) (jd : ℤ) (ms fm lm : ℝ) (md ld : ℤ)
    (hjd : date.julianDay = jd)
    (hms : monthStartOf ((jd : ℤ) : ℝ) tz = ms)
    (hfm : firstMonth11Of date.year ms tz = fm)
    (hlm : lastMonth11Of date.year ms tz = lm)
    (hld : castI32 (((jd : ℤ) : ℝ) - ms + 1) = ld)
    (hmd : calculate_month_between_julian_days ms fm = md)
    (hno13 : ¬ (lm - fm > 365)) :
    convert_date_to_lichta date tz =
      (ld, if md + 11 > 12 then md + 11 - 12 else md + 11,
        if (if md + 11 > 12 then md + 11 - 12 else md + 11) ≥ 11 ∧ md < 4 then date.year - 1
          else date.year, 0) := by
  simp only [convert_date_to_lichta]
  rw [hjd, hms, hfm, hlm, hld, hmd]
  rw [if_neg hno13, if_neg (show ¬ (lm - fm > 365 ∧ md ≥ get_leap_month_offset (castI32 fm) tz)
    from fun h => hno13 h.1)]

theorem convert_2024_05_24 : convert_date_to_lichta (mkDate 2024 5 24) 7 = (17, 4, 2024, 0) := by
  have hD : mkDate 2024 5 24 = ⟨2024, 2460455⟩ := by
    unfold mkDate
    rw [show jdnOfGregorian 2024 5 24 = 2460455 by decide]
  have hfm : firstMonth11Of 2024 (2460439 : ℝ) 7 = 2460292 := by
    simp only [firstMonth11Of]
    rw [month11_2024_7, if_pos (show (2460646 : ℝ) ≥ 2460439 by norm_num),
      show (2024 : ℤ) - 1 = 2023 by norm_num]
    exact month11_2023_7
  have hlm : lastMonth11Of 2024 (2460439 : ℝ) 7 = 2460646 := by
    simp only [lastMonth11Of]
    rw [month11_2024_7, if_pos (show (2460646 : ℝ) ≥ 2460439 by norm_num)]
  have hmd : calculate_month_between_julian_days (2460439 : ℝ) (2460292 : ℝ) = 5 := by
    simp only [calculate_month_between_julian_days]
    exact castI32_eval_pos _ 5 (by norm_num) (by push_cast; norm_num)
      (by push_cast; norm_num) (by norm_num [i32max])
  rw [hD, convert_eval ⟨2024, 2460455⟩ 7 2460455 2460439 2460292 2460646 5 17 rfl
    (by push_cast; exact ms_2460455_7) hfm hlm
    (castI32_eval_pos _ 17 (by norm_num) (by push_cast; norm_num)
      (by push_cast; norm_num) (by norm_num [i32max]))
    hmd (by norm_num)]
  norm_num

theorem convert_2022_05_24 : convert_date_to_lichta (mkDate 2022 5 24) 7 = (24, 4, 2022, 0) := by
  have hD : mkDate 2022 5 24 = ⟨2022, 2459724⟩ := by
    unfold mkDate
    rw [show jdnOfGregorian 2022 5 24 = 2459724 by decide]
  have hfm : firstMonth11Of 2022 (2459701 : ℝ) 7 = 2459553 := by
    simp only [firstMonth11Of]
    rw [month11_2022_7, if_pos (show (2459908 : ℝ) ≥ 2459701 by norm_num),
      show (2022 : ℤ) - 1 = 2021 by norm_num]
    exact month11_2021_7
  have hlm : lastMonth11Of 2022 (2459701 : ℝ) 7 = 2459908 := by
    simp only [lastMonth11Of]
    rw [month11_2022_7, if_pos (show (2459908 : ℝ) ≥ 2459701 by norm_num)]
  have hmd : calculate_month_between_julian_days (2459701 : ℝ) (2459553 : ℝ) = 5 := by
    simp only [calculate_month_between_julian_days]
    exact castI32_eval_pos _ 5 (by norm_num) (by push_cast; norm_num)
      (by push_cast; norm_num) (by norm_num [i32max])
  rw [hD, convert_eval ⟨2022, 2459724⟩ 7 2459724 2459701 2459553 2459908 5 24 rfl
    (by push_cast; exact ms_2459724_7) hfm hlm
    (castI32_eval_pos _ 24 (by norm_num) (by push_cast; norm_num)
      (by push_cast; norm_num) (by norm_num [i32max]))
    hmd (by norm_num)]
  norm_num

/-! ## New-moon ordering violated far from the epoch -/

theorem nm_far_decreasing :
    new_moon_aa98 (-1999999999) ≤ new_moon_aa98 (-2000000000) := by
  have s1 := Real.neg_one_le_sin (toRadians (nmMeanArg (-2000000000)))
  have s1b := Real.sin_le_one (toRadians (nmMeanArg (-2000000000)))
  have s2 := Real.neg_one_le_sin (toRadians (nmSunAnomaly (-2000000000)))
  have s2b := Real.sin_le_one (toRadians (nmSunAnomaly (-2000000000)))
  have s3 := Real.neg_one_le_sin (2 * toRadians (nmSunAnomaly (-2000000000)))
  have s3b := Real.sin_le_one (2 * toRadians (nmSunAnomaly (-2000000000)))
  have s4 := Real.neg_one_le_sin (toRadians (nmMoonAnomaly (-2000000000)))
  have s4b := Real.sin_le_one (toRadians (nmMoonAnomaly (-2000000000)))
  have s5 := Real.neg_one_le_sin (2 * toRadians (nmMoonAnomaly (-2000000000)))
  have s5b := Real.sin_le_one (2 * toRadians (nmMoonAnomaly (-2000000000)))
  have s6 := Real.neg_one_le_sin (3 * toRadians (nmMoonAnomaly (-2000000000)))
  have s6b := Real.sin_le_one (3 * toRadians (nmMoonAnomaly (-2000000000)))
  have s7 := Real.neg_one_le_sin (2 * toRadians (nmMoonArgLat (-2000000000)))
  have s7b := Real.sin_le_one (2 * toRadians (nmMoonArgLat (-2000000000)))
  have s8 := Real.neg_one_le_sin (toRadians (nmSunAnomaly (-2000000000) + nmMoonAnomaly (-2000000000)))
  have s8b := Real.sin_le_one (toRadians (nmSunAnomaly (-2000000000) + nmMoonAnomaly (-2000000000)))
  have s9 := Real.neg_one_le_sin (toRadians (nmSunAnomaly (-2000000000) - nmMoonAnomaly (-2000000000)))
  have s9b := Real.sin_le_one (toRadians (nmSunAnomaly (-2000000000) - nmMoonAnomaly (-2000000000)))
  have s10 := Real.neg_one_le_sin (toRadians (2 * nmMoonArgLat (-2000000000) + nmSunAnomaly (-2000000000)))
  have s10b := Real.sin_le_one (toRadians (2 * nmMoonArgLat (-2000000000) + nmSunAnomaly (-2000000000)))
  have s11 := Real.neg_one_le_sin (toRadians (2 * nmMoonArgLat (-2000000000) - nmSunAnomaly (-2000000000)))
  have s11b := Real.sin_le_one (toRadians (2 * nmMoonArgLat (-2000000000) - nmSunAnomaly (-2000000000)))
  have s12 := Real.neg_one_le_sin (toRadians (2 * nmMoonArgLat (-2000000000) + nmMoonAnomaly (-2000000000)))
  have s12b := Real.sin_le_one (toRadians (2 * nmMoonArgLat (-2000000000) + nmMoonAnomaly (-2000000000)))
  have s13 := Real.neg_one_le_sin (toRadians (2 * nmMoonArgLat (-2000000000) - nmMoonAnomaly (-2000000000)))
  have s13b := Real.sin_le_one (toRadians (2 * nmMoonArgLat (-2000000000) - nmMoonAnomaly (-2000000000)))
  have s14 := Real.neg_one_le_sin (toRadians (2 * nmMoonAnomaly (-2000000000) + nmSunAnomaly (-2000000000)))
  have s14b := Real.sin_le_one (toRadians (2 * nmMoonAnomaly (-2000000000) + nmSunAnomaly (-2000000000)))
  have s15 := Real.neg_one_le_sin (toRadians (nmMeanArg (-1999999999)))
  have s15b := Real.sin_le_one (toRadians (nmMeanArg (-1999999999)))
  have s16 := Real.neg_one_le_sin (toRadians (nmSunAnomaly (-1999999999)))
  have s16b := Real.sin_le_one (toRadians (nmSunAnomaly (-1999999999)))
  have s17 := Real.neg_one_le_sin (2 * toRadians (nmSunAnomaly (-1999999999)))
  have s17b := Real.sin_le_one (2 * toRadians (nmSunAnomaly (-1999999999)))
  have s18 := Real.neg_one_le_sin (toRadians (nmMoonAnomaly (-1999999999)))
  have s18b := Real.sin_le_one (toRadians (nmMoonAnomaly (-1999999999)))
  have s19 := Real.neg_one_le_sin (2 * toRadians (nmMoonAnomaly (-1999999999)))
  have s19b := Real.sin_le_one (2 * toRadians (nmMoonAnomaly (-1999999999)))
  have s20 := Real.neg_one_le_sin (3 * toRadians (nmMoonAnomaly (-1999999999)))
  have s20b := Real.sin_le_one (3 * toRadians (nmMoonAnomaly (-1999999999)))
  have s21 := Real.neg_one_le_sin (2 * toRadians (nmMoonArgLat (-1999999999)))
  have s21b := Real.sin_le_one (2 * toRadians (nmMoonArgLat (-1999999999)))
  have s22 := Real.neg_one_le_sin (toRadians (nmSunAnomaly (-1999999999) + nmMoonAnomaly (-1999999999)))
  have s22b := Real.sin_le_one (toRadians (nmSunAnomaly (-1999999999) + nmMoonAnomaly (-1999999999)))
  have s23 := Real.neg_one_le_sin (toRadians (nmSunAnomaly (-1999999999) - nmMoonAnomaly (-1999999999)))
  have s23b := Real.sin_le_one (toRadians (nmSunAnomaly (-1999999999) - nmMoonAnomaly (-1999999999)))
  have s24 := Real.neg_one_le_sin (toRadians (2 * nmMoonArgLat (-1999999999) + nmSunAnomaly (-1999999999)))
  have s24b := Real.sin_le_one (toRadians (2 * nmMoonArgLat (-1999999999) + nmSunAnomaly (-1999999999)))
  have s25 := Real.neg_one_le_sin (toRadians (2 * nmMoonArgLat (-1999999999) - nmSunAnomaly (-1999999999)))
  have s25b := Real.sin_le_one (toRadians (2 * nmMoonArgLat (-1999999999) - nmSunAnomaly (-1999999999)))
  have s26 := Real.neg_one_le_sin (toRadians (2 * nmMoonArgLat (-1999999999) + nmMoonAnomaly (-1999999999)))
  have s26b := Real.sin_le_one (toRadians (2 * nmMoonArgLat (-1999999999) + nmMoonAnomaly (-1999999999)))
  have s27 := Real.neg_one_le_sin (toRadians (2 * nmMoonArgLat (-1999999999) - nmMoonAnomaly (-1999999999)))
  have s27b := Real.sin_le_one (toRadians (2 * nmMoonArgLat (-1999999999) - nmMoonAnomaly (-1999999999)))
  have s28 := Real.neg_one_le_sin (toRadians (2 * nmMoonAnomaly (-1999999999) + nmSunAnomaly (-1999999999)))
  have s28b := Real.sin_le_one (toRadians (2 * nmMoonAnomaly (-1999999999) + nmSunAnomaly (-1999999999)))
  have ht0 : nmT (-2000000000) = ((-40000000000 : ℝ) / 24737) := by
    unfold nmT; push_cast; norm_num
  have ht1 : nmT (-1999999999) = ((-39999999980 : ℝ) / 24737) := by
    unfold nmT; push_cast; norm_num
  simp only [new_moon_aa98]
  rw [ht0, ht1]
  rw [if_pos (show ((-40000000000 : ℝ) / 24737) < -11 by norm_num),
    if_pos (show ((-39999999980 : ℝ) / 24737) < -11 by norm_num)]
  linarith only [s1, s1b, s2, s2b, s3, s3b, s4, s4b, s5, s5b, s6, s6b, s7, s7b, s8, s8b, s9, s9b, s10, s10b, s11, s11b, s12, s12b, s13, s13b, s14, s14b, s15, s15b, s16, s16b, s17, s17b, s18, s18b, s19, s19b, s20, s20b, s21, s21b, s22, s22b, s23, s23b, s24, s24b, s25, s25b, s26, s26b, s27, s27b, s28, s28b]

/-! ## Claim C3: new-moon day ordering -/

/-- LichTaC3counter: the claim that successive new-moon calendar days
strictly advance for every integer month index fails at the in-range
index `-2000000000` (timezone 7), where the far extrapolation of the
series makes the day sequence decrease. -/
theorem LichTaC3counter :
    ¬ (∀ (k : ℤ) (tz : ℝ), get_new_moon_day (k + 1) tz > get_new_moon_day k tz) := by
  intro h
  have h2 := h (-2000000000) 7
  rw [show (-2000000000 : ℤ) + 1 = -1999999999 by norm_num] at h2
  have hle : get_new_moon_day (-1999999999) 7 ≤ get_new_moon_day (-2000000000) 7 := by
    unfold get_new_moon_day
    have hf := Int.floor_le_floor (α := ℝ)
      (show new_moon_aa98 (-1999999999) + 0.5 + 7 / 24 ≤
          new_moon_aa98 (-2000000000) + 0.5 + 7 / 24 by
        linarith only [nm_far_decreasing])
    exact_mod_cast hf
  linarith only [h2, hle]

/-- LichTaC3: successive new-moon calendar days strictly advance for
month indices in the generous practical range `[-10000, 10000]`
(covering every date between 1900 and 2100), for every timezone. -/
theorem LichTaC3 (k : ℤ) (tz : ℝ) (h1 : -10000 ≤ k) (h2 : k ≤ 10000) :
    get_new_moon_day (k + 1) tz > get_new_moon_day k tz := by
  have ha := new_moon_slack k (by omega) (by omega)
  have hb := new_moon_slack (k + 1) (by omega) (by omega)
  have key : new_moon_aa98 k + 1 ≤ new_moon_aa98 (k + 1) := by
    push_cast at hb
    linarith only [ha.2, hb.1]
  unfold get_new_moon_day
  have h4 : (⌊new_moon_aa98 k + 0.5 + tz / 24⌋ : ℝ) ≤ new_moon_aa98 k + 0.5 + tz / 24 :=
    Int.floor_le _
  have h3 : ⌊new_moon_aa98 k + 0.5 + tz / 24⌋ + 1 ≤ ⌊new_moon_aa98 (k + 1) + 0.5 + tz / 24⌋ := by
    apply Int.le_floor.mpr
    push_cast
    linarith only [h4, key]
  exact_mod_cast Int.lt_iff_add_one_le.mpr h3

/-- LichTaC3witness: the amended monotonicity applied at index 0,
timezone 0. -/
theorem LichTaC3witness : get_new_moon_day (0 + 1) 0 > get_new_moon_day 0 0 :=
  LichTaC3 0 0 (by norm_num) (by norm_num)

/-! ## Claim C4: conversion from a real month index -/

/-- LichTaC4counter: the claim that `From<f64>` fails whenever the
magnitude exceeds the `i32` range is false: at `-2147483649` the
conversion does not fail, it saturates. -/
theorem LichTaC4counter :
    ¬ (∀ x : ℚ,
        (JulianMonthIndex.fromReal x = none ↔ (2147483647 < x ∨ x < -2147483648)) ∧
        (-2147483648 ≤ x → x ≤ 2147483647 →
          JulianMonthIndex.fromReal x = some (ratTrunc x))) := by
  intro h
  have h2 := (h (-2147483649)).1.mpr (Or.inr (by norm_num))
  have h3 : JulianMonthIndex.fromReal (-2147483649 : ℚ) = some (-2147483648) := by decide
  rw [h3] at h2
  exact Option.noConfusion h2

/-- LichTaC4: conversion of a real number to a `JulianMonthIndex` fails
exactly when the value exceeds `i32::MAX`; in-range values truncate
toward zero and values below `i32::MIN` saturate to `i32::MIN`. -/
theorem LichTaC4 (x : ℚ) :
    (JulianMonthIndex.fromReal x = none ↔ 2147483647 < x) ∧
    (-2147483648 ≤ x → x ≤ 2147483647 → JulianMonthIndex.fromReal x = some (ratTrunc x)) ∧
    (x < -2147483648 → JulianMonthIndex.fromReal x = some (-2147483648)) := by
  unfold JulianMonthIndex.fromReal
  by_cases hx : x ≤ 2147483647
  · rw [if_pos hx]
    refine ⟨⟨fun h => Option.noConfusion h, fun h => absurd hx (not_le.mpr h)⟩, ?_, ?_⟩
    · intro hlo _
      unfold i32SatTrunc i32min i32max
      have hb : -2147483648 ≤ ratTrunc x ∧ ratTrunc x ≤ 2147483647 := by
        unfold ratTrunc
        by_cases h0 : (0 : ℚ) ≤ x
        · rw [if_pos h0]
          constructor
          · have := Int.floor_nonneg.mpr h0
            omega
          · have : (⌊x⌋ : ℤ) ≤ ⌊(2147483647 : ℚ)⌋ := Int.floor_le_floor hx
            simpa using this
        · rw [if_neg h0]
          push_neg at h0
          constructor
          · have : (⌈(-2147483648 : ℚ)⌉ : ℤ) ≤ ⌈x⌉ := Int.ceil_le_ceil hlo
            simpa using this
          · have : ⌈x⌉ ≤ ⌈(0 : ℚ)⌉ := Int.ceil_le_ceil (le_of_lt h0)
            simp at this
            omega
      congr 1
      omega
    · intro hlt
      unfold i32SatTrunc ratTrunc i32min i32max
      rw [if_neg (show ¬ ((0 : ℚ) ≤ x) by push_neg; linarith)]
      have hc : ⌈x⌉ ≤ -2147483648 := by
        have : (⌈x⌉ : ℤ) ≤ ⌈(-2147483648 : ℚ)⌉ := Int.ceil_le_ceil (le_of_lt hlt)
        simpa using this
      congr 1
      omega
  · rw [if_neg hx]
    push_neg at hx
    exact ⟨⟨fun _ => hx, fun _ => rfl⟩, fun _ h2 => absurd hx (not_lt.mpr h2),
      fun hlt => absurd (lt_trans hlt (by norm_num)) (not_lt.mpr (le_of_lt hx))⟩

/-- LichTaC4witness: the amended conversion behaviour applied below the
range and inside the range. -/
theorem LichTaC4witness :
    JulianMonthIndex.fromReal (-3000000000 : ℚ) = some (-2147483648) :=
  (LichTaC4 (-3000000000)).2.2 (by norm_num)

/-! ## Claim C5: the longitude reduction -/

theorem continuous_trueLongitudeOf : Continuous trueLongitudeOf := by
  unfold trueLongitudeOf slMeanLongitude slMeanAnomaly slT toRadians
  fun_prop

theorem tl_at_2415020_le : trueLongitudeOf (2415020 : ℝ) ≤ -35718 := by
  have s1 := Real.neg_one_le_sin (toRadians (slMeanAnomaly (2415020 : ℝ)))
  have s1b := Real.sin_le_one (toRadians (slMeanAnomaly (2415020 : ℝ)))
  have s2 := Real.neg_one_le_sin (2 * toRadians (slMeanAnomaly (2415020 : ℝ)))
  have s2b := Real.sin_le_one (2 * toRadians (slMeanAnomaly (2415020 : ℝ)))
  have s3 := Real.neg_one_le_sin (3 * toRadians (slMeanAnomaly (2415020 : ℝ)))
  have s3b := Real.sin_le_one (3 * toRadians (slMeanAnomaly (2415020 : ℝ)))
  have ht : slT (2415020 : ℝ) = -1 := by unfold slT; norm_num
  simp only [trueLongitudeOf, slMeanLongitude]
  rw [ht]
  linarith only [s1, s1b, s2, s2b, s3, s3b]

theorem tl_at_2451545_ge : (-720 : ℝ) ≤ trueLongitudeOf (2451545 : ℝ) := by
  have s1 := Real.neg_one_le_sin (toRadians (slMeanAnomaly (2451545 : ℝ)))
  have s1b := Real.sin_le_one (toRadians (slMeanAnomaly (2451545 : ℝ)))
  have s2 := Real.neg_one_le_sin (2 * toRadians (slMeanAnomaly (2451545 : ℝ)))
  have s2b := Real.sin_le_one (2 * toRadians (slMeanAnomaly (2451545 : ℝ)))
  have s3 := Real.neg_one_le_sin (3 * toRadians (slMeanAnomaly (2451545 : ℝ)))
  have s3b := Real.sin_le_one (3 * toRadians (slMeanAnomaly (2451545 : ℝ)))
  have ht : slT (2451545 : ℝ) = 0 := by unfold slT; norm_num
  simp only [trueLongitudeOf, slMeanLongitude]
  rw [ht]
  linarith only [s1, s1b, s2, s2b, s3, s3b]

theorem exists_tl_eq_neg720 :
    ∃ x ∈ Set.Icc (2415020 : ℝ) 2451545, trueLongitudeOf x = -720 := by
  have hsub := intermediate_value_Icc (show (2415020 : ℝ) ≤ 2451545 by norm_num)
    continuous_trueLongitudeOf.continuousOn
  have hmem : (-720 : ℝ) ∈ Set.Icc (trueLongitudeOf 2415020) (trueLongitudeOf 2451545) :=
    ⟨by linarith only [tl_at_2415020_le], by linarith only [tl_at_2451545_ge]⟩
  obtain ⟨x, hx, hfx⟩ := hsub hmem
  exact ⟨x, hx, hfx⟩

/-- LichTaC5counter: the reduced longitude is not always negative when
the pre-reduction true longitude is negative: at a point where the true
longitude equals `-720` the reduction returns `0`. -/
theorem LichTaC5counter :
    ¬ ((∀ jdn tz : ℝ,
          get_sun_longitude jdn tz = rustFmod (trueLongitudeOf (jdn - 0.5 - tz / 24)) 360) ∧
       (∀ jdn tz : ℝ,
          trueLongitudeOf (jdn - 0.5 - tz / 24) < 0 → get_sun_longitude jdn tz < 0)) := by
  rintro ⟨hA, hB⟩
  obtain ⟨x, -, hfx⟩ := exists_tl_eq_neg720
  have harg : x + 0.5 - 0.5 - (0 : ℝ) / 24 = x := by ring
  have h1 := hA (x + 0.5) 0
  have h2 := hB (x + 0.5) 0
  rw [harg, hfx] at h1 h2
  have h3 : rustFmod (-720 : ℝ) 360 = 0 := by
    unfold rustFmod rtrunc
    rw [show (-720 : ℝ) / 360 = ((-2 : ℤ) : ℝ) by push_cast; norm_num]
    rw [if_neg (show ¬ ((0 : ℝ) ≤ ((-2 : ℤ) : ℝ)) by push_cast; norm_num), Int.ceil_intCast]
    push_cast
    ring
  rw [h3] at h1
  have h4 := h2 (by norm_num)
  rw [h1] at h4
  exact absurd h4 (by norm_num)

/-- LichTaC5: the solar longitude is the true longitude reduced by the
real modulo-360 with the sign of the dividend, and it is nonpositive
whenever the pre-reduction value is negative. -/
theorem LichTaC5 :
    (∀ jdn tz : ℝ,
        get_sun_longitude jdn tz = rustFmod (trueLongitudeOf (jdn - 0.5 - tz / 24)) 360) ∧
    (∀ jdn tz : ℝ,
        trueLongitudeOf (jdn - 0.5 - tz / 24) < 0 → get_sun_longitude jdn tz ≤ 0) := by
  constructor
  · intro jdn tz
    rfl
  · intro jdn tz h
    unfold get_sun_longitude sun_longitude_aa98 normalize_longitude rustFmod rtrunc
    rw [if_neg (show ¬ ((0 : ℝ) ≤ trueLongitudeOf (jdn - 0.5 - tz / 24) / 360) by
      push_neg
      exact div_neg_of_neg_of_pos h (by norm_num))]
    have hce := Int.le_ceil (trueLongitudeOf (jdn - 0.5 - tz / 24) / 360)
    linarith only [hce]

/-- LichTaC5witness: the nonpositivity applied at a concrete day where
the true longitude is negative. -/
theorem LichTaC5witness : get_sun_longitude ((2415020 : ℝ) + 0.5) 0 ≤ 0 := by
  apply LichTaC5.2 ((2415020 : ℝ) + 0.5) 0
  rw [show (2415020 : ℝ) + 0.5 - 0.5 - (0 : ℝ) / 24 = 2415020 by ring]
  linarith only [tl_at_2415020_le]

/-! ## Claim C6: the month-start fallback -/

open Classical in
/-- LichTaC6: the converter's month start is the new moon of index
`k + 1` at the caller timezone, recomputed at index `k` with the
hard-coded timezone 7 exactly when the first value exceeds the input
Julian day. -/
theorem LichTaC6 (julian_day timezone : ℝ) :
    monthStartOf julian_day timezone =
      if get_new_moon_day (from_julian_day julian_day + 1) timezone > julian_day
      then get_new_moon_day (from_julian_day julian_day) 7
      else get_new_moon_day (from_julian_day julian_day + 1) timezone := rfl

/-! ## Claim C7: the month-11 locator -/

open Classical in
/-- LichTaC7: the month-11 locator takes the new-moon day at the index
derived from December 31, switches to index `k - 1` exactly when the
truncated thirtieth of the solar longitude is at least 9, and returns
`2460646` for year 2024 at timezone 7. -/
theorem LichTaC7 :
    (∀ (year : ℤ) (timezone : ℝ),
      get_lunar_month_11 year timezone =
        if ((rtrunc (get_sun_longitude
              (get_new_moon_day (from_julian_day ((jdnDec31 year : ℤ) : ℝ)) timezone)
              timezone / 30) : ℤ) : ℝ) ≥ 9
        then get_new_moon_day (from_julian_day ((jdnDec31 year : ℤ) : ℝ) - 1) timezone
        else get_new_moon_day (from_julian_day ((jdnDec31 year : ℤ) : ℝ)) timezone) ∧
    get_lunar_month_11 2024 7 = 2460646 :=
  ⟨fun _ _ => rfl, month11_2024_7⟩

/-! ## Claim C10: the output record -/

/-- LichTaC10: the converter's fourth component is zero or one, and
`NgayTa::from_date` copies the first three components and sets the leap
flag exactly when the fourth component is one. -/
theorem LichTaC10 (date : Date) (timezone : ℝ) :
    ((convert_date_to_lichta date timezone).2.2.2 = 0 ∨
      (convert_date_to_lichta date timezone).2.2.2 = 1) ∧
    (NgayTa.fromDate date timezone).day = (convert_date_to_lichta date timezone).1 ∧
    (NgayTa.fromDate date timezone).month = (convert_date_to_lichta date timezone).2.1 ∧
    (NgayTa.fromDate date timezone).year = (convert_date_to_lichta date timezone).2.2.1 ∧
    ((NgayTa.fromDate date timezone).isLeapMonth = true ↔
      (convert_date_to_lichta date timezone).2.2.2 = 1) := by
  refine ⟨?_, rfl, rfl, rfl, ?_⟩
  · simp only [convert_date_to_lichta]
    split_ifs <;> simp
  · simp only [NgayTa.fromDate, NgayTa.new]
    exact decide_eq_true_iff

/-! ## Claim C8: the leap-month scan -/

/-- Solar-longitude segment examined at offset `i` of the leap-month
scan (the `solar_longitude` of iteration `i`). -/
noncomputable def segOf (k : ℤ) (tz : ℝ) (i : ℤ) : ℝ :=
  ((⌊get_sun_longitude (get_new_moon_day (k + i) tz) tz / 30⌋ : ℤ) : ℝ)

/-- Value held by `last_solar_longitude` when iteration `i` of the
leap-month scan starts: `0` for the first iteration, the previous
segment afterwards. -/
noncomputable def prevOf (k : ℤ) (tz : ℝ) (i : ℤ) : ℝ :=
  if i = 1 then 0 else segOf k tz (i - 1)

theorem leapScan_no_match (k : ℤ) (tz : ℝ) :
    ∀ (fuel : ℕ) (i : ℤ) (last : ℝ), 1 ≤ i → i + fuel = 14 → last = prevOf k tz i →
      (∀ j : ℤ, i ≤ j → j ≤ 13 → segOf k tz j ≠ prevOf k tz j) →
      leapScan k tz fuel i last = 14 := by
  intro fuel
  induction fuel with
  | zero => intro i last _ _ _ _; rfl
  | succ n ih =>
    intro i last h1 h2 hlast hno
    rw [leapScan_succ,
      show ((⌊get_sun_longitude (get_new_moon_day (k + i) tz) tz / 30⌋ : ℤ) : ℝ)
        = segOf k tz i from rfl]
    rw [if_neg (show ¬ (segOf k tz i = last) by rw [hlast]; exact hno i le_rfl (by omega))]
    refine ih (i + 1) (segOf k tz i) (by omega) (by omega) ?_ (fun j hj1 hj2 => hno j (by omega) hj2)
    unfold prevOf
    rw [if_neg (show ¬ (i + 1 = 1) by omega), show i + 1 - 1 = i by omega]

theorem leapScan_first_match (k : ℤ) (tz : ℝ) :
    ∀ (fuel : ℕ) (i : ℤ) (last : ℝ) (m : ℤ), 1 ≤ i → i + fuel = 14 → last = prevOf k tz i →
      i ≤ m → m ≤ 13 → segOf k tz m = prevOf k tz m →
      (∀ j : ℤ, i ≤ j → j < m → segOf k tz j ≠ prevOf k tz j) →
      leapScan k tz fuel i last = m - 1 := by
  intro fuel
  induction fuel with
  | zero => intro i last m _ h2 _ hm1 hm2 _ _; omega
  | succ n ih =>
    intro i last m h1 h2 hlast hm1 hm2 hmatch hno
    rw [leapScan_succ,
      show ((⌊get_sun_longitude (get_new_moon_day (k + i) tz) tz / 30⌋ : ℤ) : ℝ)
        = segOf k tz i from rfl]
    by_cases he : i = m
    · rw [if_pos (show segOf k tz i = last by rw [hlast, he]; exact hmatch ▸ (he ▸ rfl))]
      omega
    · have hlt : i < m := lt_of_le_of_ne hm1 he
      rw [if_neg (show ¬ (segOf k tz i = last) by rw [hlast]; exact hno i le_rfl hlt)]
      refine ih (i + 1) (segOf k tz i) m (by omega) (by omega) ?_ (by omega) hm2 hmatch
        (fun j hj1 hj2 => hno j (by omega) hj2)
      unfold prevOf
      rw [if_neg (show ¬ (i + 1 = 1) by omega), show i + 1 - 1 = i by omega]

/-- LichTaC8: the leap-month detector returns `i - 1` at the first
offset `i` in `1..13` whose solar-longitude segment repeats the
previous one (initialised to `0`), returns the sentinel `14` when no
offset matches, and returns `3` for the year-2022 month-11 boundary at
timezone 7. -/
theorem LichTaC8 :
    (∀ (a11 : ℤ) (tz : ℝ),
      ((∀ j : ℤ, 1 ≤ j → j ≤ 13 →
          segOf (from_julian_day ((a11 : ℤ) : ℝ)) tz j
            ≠ prevOf (from_julian_day ((a11 : ℤ) : ℝ)) tz j) →
        get_leap_month_offset a11 tz = 14) ∧
      (∀ m : ℤ, 1 ≤ m → m ≤ 13 →
        segOf (from_julian_day ((a11 : ℤ) : ℝ)) tz m
          = prevOf (from_julian_day ((a11 : ℤ) : ℝ)) tz m →
        (∀ j : ℤ, 1 ≤ j → j < m →
          segOf (from_julian_day ((a11 : ℤ) : ℝ)) tz j
            ≠ prevOf (from_julian_day ((a11 : ℤ) : ℝ)) tz j) →
        get_leap_month_offset a11 tz = m - 1)) ∧
    get_leap_month_offset (castI32 (get_lunar_month_11 2022 7)) 7 = 3 := by
  refine ⟨fun a11 tz => ⟨?_, ?_⟩, ?_⟩
  · intro hno
    unfold get_leap_month_offset
    exact leapScan_no_match _ tz 13 1 0 (by norm_num) (by norm_num)
      (by unfold prevOf; rw [if_pos rfl]) hno
  · intro m h1 h2 hmatch hno
    unfold get_leap_month_offset
    exact leapScan_first_match _ tz 13 1 0 m (by norm_num) (by norm_num)
      (by unfold prevOf; rw [if_pos rfl]) h1 h2 hmatch hno
  · rw [month11_2022_7,
      show castI32 (2459908 : ℝ) = 2459908 from castI32_eval_pos _ 2459908 (by norm_num)
        (by push_cast; norm_num) (by push_cast; norm_num) (by norm_num [i32max])]
    exact leap_2459908

/-- LichTaC8witness: the first-match rule applied at the 2022 boundary,
where the match happens at offset 4. -/
theorem LichTaC8witness : get_leap_month_offset 2459908 7 = 4 - 1 := by
  have hk : from_julian_day ((2459908 : ℤ) : ℝ) = 1520 := by push_cast; exact fjd_2459908
  refine (LichTaC8.1 2459908 7).2 4 (by norm_num) (by norm_num) ?_ ?_
  · rw [hk]
    unfold prevOf
    rw [if_neg (by norm_num)]
    unfold segOf
    rw [show (1520 : ℤ) + 4 = 1524 by norm_num, show (4 : ℤ) - 1 = 3 by norm_num,
      show (1520 : ℤ) + 3 = 1523 by norm_num, gnmd_1524_7, gnmd_1523_7,
      segf_2460025, segf_2459996]
  · intro j hj1 hj2
    rw [hk]
    interval_cases j
    · unfold segOf prevOf
      rw [if_pos rfl, show (1520 : ℤ) + 1 = 1521 by norm_num, gnmd_1521_7, segf_2459937]
      push_cast
      norm_num
    · simp only [segOf, prevOf]
      rw [if_neg (by norm_num)]
      norm_num [gnmd_1522_7, gnmd_1521_7, segf_2459967, segf_2459937]
    · simp only [segOf, prevOf]
      rw [if_neg (by norm_num)]
      norm_num [gnmd_1523_7, gnmd_1522_7, segf_2459996, segf_2459967]

/-! ## Projections of the converter output -/

theorem convert_fst (date : Date) (tz : ℝ) :
    (convert_date_to_lichta date tz).1
      = castI32 (((date.julianDay : ℤ) : ℝ)
          - monthStartOf ((date.julianDay : ℤ) : ℝ) tz + 1) := rfl

theorem convert_snd (date : Date) (tz : ℝ) (ms fm lm : ℝ) (md li : ℤ)
    (hms : monthStartOf ((date.julianDay : ℤ) : ℝ) tz = ms)
    (hfm : firstMonth11Of date.year ms tz = fm)
    (hlm : lastMonth11Of date.year ms tz = lm)
    (hmd : calculate_month_between_julian_days ms fm = md)
    (hli : get_leap_month_offset (castI32 fm) tz = li) :
    (convert_date_to_lichta date tz).2.1 =
      if (if lm - fm > 365 ∧ md ≥ li then md + 10 else md + 11) > 12
      then (if lm - fm > 365 ∧ md ≥ li then md + 10 else md + 11) - 12
      else (if lm - fm > 365 ∧ md ≥ li then md + 10 else md + 11) := by
  subst hms hfm hlm hmd hli
  rfl

theorem monthStartOf_int (jd tz : ℝ) : ∃ m : ℤ, monthStartOf jd tz = ((m : ℤ) : ℝ) := by
  simp only [monthStartOf, get_new_moon_day]
  split_ifs
  · exact ⟨_, rfl⟩
  · exact ⟨_, rfl⟩

/-! ## Certified trigonometric foundation -/

theorem abs_sin_le_abs_self (x : ℝ) : |Real.sin x| ≤ |x| := by
  rcases lt_trichotomy x 0 with h | h | h
  · rw [show x = -(-x) by ring, Real.sin_neg, abs_neg, abs_neg]
    have hx : 0 < -x := by linarith
    rw [abs_of_nonneg hx.le]
    rw [abs_le]
    constructor
    · rcases le_or_lt (-x) Real.pi with hp | hp
      · have := Real.sin_nonneg_of_nonneg_of_le_pi hx.le hp
        linarith
      · have := Real.neg_one_le_sin (-x)
        have hpi := Real.pi_gt_three
        linarith
    · exact (Real.sin_lt hx).le
  · simp [h]
  · rw [abs_of_nonneg h.le, abs_le]
    constructor
    · rcases le_or_lt x Real.pi with hp | hp
      · have := Real.sin_nonneg_of_nonneg_of_le_pi h.le hp
        linarith
      · have := Real.neg_one_le_sin x
        have hpi := Real.pi_gt_three
        linarith
    · exact (Real.sin_lt h).le

theorem sin_lip (a b : ℝ) : |Real.sin a - Real.sin b| ≤ |a - b| := by
  rw [Real.sin_sub_sin]
  have h1 : |2 * Real.sin ((a - b) / 2) * Real.cos ((a + b) / 2)|
      = 2 * |Real.sin ((a - b) / 2)| * |Real.cos ((a + b) / 2)| := by
    rw [abs_mul, abs_mul]
    norm_num
  rw [h1]
  have h2 : |Real.sin ((a - b) / 2)| ≤ |(a - b) / 2| := abs_sin_le_abs_self _
  have h3 : |Real.cos ((a + b) / 2)| ≤ 1 := Real.abs_cos_le_one _
  have h4 : 0 ≤ |Real.sin ((a - b) / 2)| := abs_nonneg _
  calc 2 * |Real.sin ((a - b) / 2)| * |Real.cos ((a + b) / 2)|
      ≤ 2 * |(a - b) / 2| * 1 := by
        apply mul_le_mul _ h3 (abs_nonneg _) (by positivity)
        apply mul_le_mul_of_nonneg_left h2 (by norm_num)
    _ = |a - b| := by rw [abs_div, abs_two]; ring

theorem sqrt3_tight :
    (1.732050807568877 : ℝ) ≤ Real.sqrt 3 ∧ Real.sqrt 3 ≤ 1.732050807568878 := by
  have h1 := Real.sq_sqrt (show (0 : ℝ) ≤ 3 by norm_num)
  have h2 := Real.sqrt_nonneg (3 : ℝ)
  constructor <;> nlinarith

theorem sin_key (x : ℝ) :
    Complex.sin x - ((x - x ^ 3 / 6 + x ^ 5 / 120 - x ^ 7 / 5040 : ℝ) : ℂ)
      = ((Complex.exp (-x * Complex.I) - ∑ m ∈ Finset.range 9, (-x * Complex.I) ^ m / m.factorial) -
         (Complex.exp (x * Complex.I) - ∑ m ∈ Finset.range 9, (x * Complex.I) ^ m / m.factorial)) * Complex.I / 2 := by
  rw [Complex.sin]
  simp only [Finset.sum_range_succ, Finset.range_zero, Finset.sum_empty, Nat.factorial, pow_succ, pow_zero,
    Nat.cast_one, Nat.cast_mul, Nat.cast_ofNat, Nat.cast_succ]
  push_cast
  apply Complex.ext <;> simp [div_eq_mul_inv, Complex.normSq] <;> ring

theorem cos_key (x : ℝ) :
    Complex.cos x - ((1 - x ^ 2 / 2 + x ^ 4 / 24 - x ^ 6 / 720 + x ^ 8 / 40320 : ℝ) : ℂ)
      = ((Complex.exp (x * Complex.I) - ∑ m ∈ Finset.range 9, (x * Complex.I) ^ m / m.factorial) +
         (Complex.exp (-x * Complex.I) - ∑ m ∈ Finset.range 9, (-x * Complex.I) ^ m / m.factorial)) / 2 := by
  rw [Complex.cos]
  simp only [Finset.sum_range_succ, Finset.range_zero, Finset.sum_empty, Nat.factorial, pow_succ, pow_zero,
    Nat.cast_one, Nat.cast_mul, Nat.cast_ofNat, Nat.cast_succ]
  push_cast
  apply Complex.ext <;> simp [div_eq_mul_inv, Complex.normSq] <;> ring

theorem sin_bound9 {x : ℝ} (hx : |x| ≤ 1) :
    |Real.sin x - (x - x ^ 3 / 6 + x ^ 5 / 120 - x ^ 7 / 5040)| ≤ |x| ^ 9 * (10 / 3265920) := by
  have e0 : |Real.sin x - (x - x ^ 3 / 6 + x ^ 5 / 120 - x ^ 7 / 5040)|
      = Complex.abs (Complex.sin x - ((x - x ^ 3 / 6 + x ^ 5 / 120 - x ^ 7 / 5040 : ℝ) : ℂ)) := by
    rw [← Complex.abs_ofReal]
    push_cast
    norm_num
  rw [e0, sin_key]
  have e1 : Complex.abs (((Complex.exp (-x * Complex.I) - ∑ m ∈ Finset.range 9, (-x * Complex.I) ^ m / m.factorial) -
      (Complex.exp (x * Complex.I) - ∑ m ∈ Finset.range 9, (x * Complex.I) ^ m / m.factorial)) * Complex.I / 2)
      = Complex.abs ((Complex.exp (-x * Complex.I) - ∑ m ∈ Finset.range 9, (-x * Complex.I) ^ m / m.factorial) -
        (Complex.exp (x * Complex.I) - ∑ m ∈ Finset.range 9, (x * Complex.I) ^ m / m.factorial)) / 2 := by
    rw [map_div₀, map_mul, Complex.abs_I, mul_one, Complex.abs_two]
  rw [e1]
  have e2 : Complex.abs ((Complex.exp (-x * Complex.I) - ∑ m ∈ Finset.range 9, (-x * Complex.I) ^ m / m.factorial) -
      (Complex.exp (x * Complex.I) - ∑ m ∈ Finset.range 9, (x * Complex.I) ^ m / m.factorial))
      ≤ Complex.abs (Complex.exp (-x * Complex.I) - ∑ m ∈ Finset.range 9, (-x * Complex.I) ^ m / m.factorial)
        + Complex.abs (Complex.exp (x * Complex.I) - ∑ m ∈ Finset.range 9, (x * Complex.I) ^ m / m.factorial) := by
    calc Complex.abs ((Complex.exp (-x * Complex.I) - ∑ m ∈ Finset.range 9, (-x * Complex.I) ^ m / m.factorial) -
        (Complex.exp (x * Complex.I) - ∑ m ∈ Finset.range 9, (x * Complex.I) ^ m / m.factorial))
        = Complex.abs ((Complex.exp (-x * Complex.I) - ∑ m ∈ Finset.range 9, (-x * Complex.I) ^ m / m.factorial) +
          -(Complex.exp (x * Complex.I) - ∑ m ∈ Finset.range 9, (x * Complex.I) ^ m / m.factorial)) := by
          rw [sub_eq_add_neg]
      _ ≤ Complex.abs (Complex.exp (-x * Complex.I) - ∑ m ∈ Finset.range 9, (-x * Complex.I) ^ m / m.factorial)
          + Complex.abs (-(Complex.exp (x * Complex.I) - ∑ m ∈ Finset.range 9, (x * Complex.I) ^ m / m.factorial)) :=
          Complex.abs.add_le _ _
      _ = Complex.abs (Complex.exp (-x * Complex.I) - ∑ m ∈ Finset.range 9, (-x * Complex.I) ^ m / m.factorial)
          + Complex.abs (Complex.exp (x * Complex.I) - ∑ m ∈ Finset.range 9, (x * Complex.I) ^ m / m.factorial) := by
          rw [Complex.abs.map_neg]
  have hxa : Complex.abs (-x * Complex.I) ≤ 1 := by simpa using hx
  have hxb : Complex.abs ((x : ℂ) * Complex.I) ≤ 1 := by simpa using hx
  have b1 := Complex.exp_bound hxa (by norm_num : 0 < 9)
  have b2 := Complex.exp_bound hxb (by norm_num : 0 < 9)
  have c1 : Complex.abs (-x * Complex.I) = |x| := by simp
  have c2 : Complex.abs ((x : ℂ) * Complex.I) = |x| := by simp
  rw [c1] at b1
  rw [c2] at b2
  norm_num [Nat.factorial] at b1 b2
  simp only [neg_mul] at e2 b1 b2 ⊢
  linarith only [e2, b1, b2]

theorem cos_bound9 {x : ℝ} (hx : |x| ≤ 1) :
    |Real.cos x - (1 - x ^ 2 / 2 + x ^ 4 / 24 - x ^ 6 / 720 + x ^ 8 / 40320)|
      ≤ |x| ^ 9 * (10 / 3265920) := by
  have e0 : |Real.cos x - (1 - x ^ 2 / 2 + x ^ 4 / 24 - x ^ 6 / 720 + x ^ 8 / 40320)|
      = Complex.abs (Complex.cos x
          - ((1 - x ^ 2 / 2 + x ^ 4 / 24 - x ^ 6 / 720 + x ^ 8 / 40320 : ℝ) : ℂ)) := by
    rw [← Complex.abs_ofReal]
    push_cast
    norm_num
  rw [e0, cos_key]
  have e1 : Complex.abs (((Complex.exp ((x : ℂ) * Complex.I) - ∑ m ∈ Finset.range 9, ((x : ℂ) * Complex.I) ^ m / m.factorial) +
      (Complex.exp (-x * Complex.I) - ∑ m ∈ Finset.range 9, (-x * Complex.I) ^ m / m.factorial)) / 2)
      = Complex.abs ((Complex.exp ((x : ℂ) * Complex.I) - ∑ m ∈ Finset.range 9, ((x : ℂ) * Complex.I) ^ m / m.factorial) +
        (Complex.exp (-x * Complex.I) - ∑ m ∈ Finset.range 9, (-x * Complex.I) ^ m / m.factorial)) / 2 := by
    rw [map_div₀, Complex.abs_two]
  rw [e1]
  have e2 := Complex.abs.add_le
    (Complex.exp ((x : ℂ) * Complex.I) - ∑ m ∈ Finset.range 9, ((x : ℂ) * Complex.I) ^ m / m.factorial)
    (Complex.exp (-x * Complex.I) - ∑ m ∈ Finset.range 9, (-x * Complex.I) ^ m / m.factorial)
  have hxa : Complex.abs (-x * Complex.I) ≤ 1 := by simpa using hx
  have hxb : Complex.abs ((x : ℂ) * Complex.I) ≤ 1 := by simpa using hx
  have b1 := Complex.exp_bound hxa (by norm_num : 0 < 9)
  have b2 := Complex.exp_bound hxb (by norm_num : 0 < 9)
  have c1 : Complex.abs (-x * Complex.I) = |x| := by simp
  have c2 : Complex.abs ((x : ℂ) * Complex.I) = |x| := by simp
  rw [c1] at b1
  rw [c2] at b2
  norm_num [Nat.factorial] at b1 b2
  simp only [neg_mul] at e2 b1 b2 ⊢
  linarith only [e2, b1, b2]


theorem pow_bounds_odd (u a b : ℝ) (h1 : a ≤ u) (h2 : u ≤ b) :
    a ^ 3 ≤ u ^ 3 ∧ u ^ 3 ≤ b ^ 3 ∧ a ^ 5 ≤ u ^ 5 ∧ u ^ 5 ≤ b ^ 5 ∧
      a ^ 7 ≤ u ^ 7 ∧ u ^ 7 ≤ b ^ 7 := by
  have m3 := (Odd.strictMono_pow (R := ℝ) (by decide : Odd 3)).monotone
  have m5 := (Odd.strictMono_pow (R := ℝ) (by decide : Odd 5)).monotone
  have m7 := (Odd.strictMono_pow (R := ℝ) (by decide : Odd 7)).monotone
  exact ⟨m3 h1, m3 h2, m5 h1, m5 h2, m7 h1, m7 h2⟩

theorem pow_even_upper (u c : ℝ) (h : |u| ≤ c) :
    u ^ 2 ≤ c ^ 2 ∧ u ^ 4 ≤ c ^ 4 ∧ u ^ 6 ≤ c ^ 6 ∧ u ^ 8 ≤ c ^ 8 := by
  refine ⟨?_, ?_, ?_, ?_⟩ <;>
    · rw [← Even.pow_abs (by decide) u]
      exact pow_le_pow_left₀ (abs_nonneg u) h _

theorem pow_even_lower_pos (u a : ℝ) (h1 : a ≤ u) (h0 : 0 ≤ a) :
    a ^ 2 ≤ u ^ 2 ∧ a ^ 4 ≤ u ^ 4 ∧ a ^ 6 ≤ u ^ 6 ∧ a ^ 8 ≤ u ^ 8 :=
  ⟨pow_le_pow_left₀ h0 h1 2, pow_le_pow_left₀ h0 h1 4,
   pow_le_pow_left₀ h0 h1 6, pow_le_pow_left₀ h0 h1 8⟩

theorem pow_even_lower_neg (u b : ℝ) (h2 : u ≤ b) (hb : b ≤ 0) :
    b ^ 2 ≤ u ^ 2 ∧ b ^ 4 ≤ u ^ 4 ∧ b ^ 6 ≤ u ^ 6 ∧ b ^ 8 ≤ u ^ 8 := by
  have h0 : (0 : ℝ) ≤ -b := by linarith
  have h1 : -b ≤ -u := by linarith
  refine ⟨?_, ?_, ?_, ?_⟩ <;>
    · rw [← Even.neg_pow (by decide) b, ← Even.neg_pow (by decide) u]
      exact pow_le_pow_left₀ h0 h1 _

theorem sin_small9 (u c E : ℝ) (h : |u| ≤ c) (hc : c ≤ 0.27)
    (hE : c ^ 9 * (10 / 3265920) ≤ E) :
    u - u ^ 3 / 6 + u ^ 5 / 120 - u ^ 7 / 5040 - E ≤ Real.sin u ∧
      Real.sin u ≤ u - u ^ 3 / 6 + u ^ 5 / 120 - u ^ 7 / 5040 + E := by
  have h1 : |u| ≤ 1 := le_trans h (by linarith)
  have h2 := sin_bound9 h1
  have h9 : |u| ^ 9 ≤ c ^ 9 := pow_le_pow_left₀ (abs_nonneg u) h 9
  rw [abs_le] at h2
  constructor <;> linarith [h2.1, h2.2, h9, hE]

theorem cos_small9 (u c E : ℝ) (h : |u| ≤ c) (hc : c ≤ 0.27)
    (hE : c ^ 9 * (10 / 3265920) ≤ E) :
    1 - u ^ 2 / 2 + u ^ 4 / 24 - u ^ 6 / 720 + u ^ 8 / 40320 - E ≤ Real.cos u ∧
      Real.cos u ≤ 1 - u ^ 2 / 2 + u ^ 4 / 24 - u ^ 6 / 720 + u ^ 8 / 40320 + E := by
  have h1 : |u| ≤ 1 := le_trans h (by linarith)
  have h2 := cos_bound9 h1
  have h9 : |u| ^ 9 ≤ c ^ 9 := pow_le_pow_left₀ (abs_nonneg u) h 9
  rw [abs_le] at h2
  constructor <;> linarith [h2.1, h2.2, h9, hE]

theorem jdnDec31_window (y : ℤ) (h1 : 1899 ≤ y) (h2 : y ≤ 2100) :
    2415020 ≤ jdnDec31 y ∧ jdnDec31 y ≤ 2488434 := by
  unfold jdnDec31 jdnOfGregorian
  simp only [show Int.tdiv (12 - 14) 12 = 0 by decide, add_zero, mul_zero, sub_zero]
  rw [show Int.tdiv (367 * (12 - 2)) 12 = 305 by decide]
  rw [Int.tdiv_eq_ediv (show (0 : ℤ) ≤ 1461 * (y + 4800) by omega) (by norm_num)]
  rw [Int.tdiv_eq_ediv (show (0 : ℤ) ≤ y + 4900 by omega) (by norm_num)]
  rw [Int.tdiv_eq_ediv (show (0 : ℤ) ≤ 3 * ((y + 4900) / 100) by omega) (by norm_num)]
  omega

set_option maxHeartbeats 3200000 in
theorem nm_spacing (k : ℤ) (h1 : -10000 ≤ k) (h2 : k ≤ 10000) :
    |new_moon_aa98 (k + 1) - new_moon_aa98 k - 29.53058868| ≤ 0.318 := by
  have hk1 : (-10000 : ℝ) ≤ (k : ℝ) := by exact_mod_cast h1
  have hk2 : ((k : ℝ)) ≤ 10000 := by exact_mod_cast h2
  have hksq : ((k : ℝ)) ^ 2 ≤ 100000000 := by nlinarith [hk1, hk2]
  have hksq0 : (0 : ℝ) ≤ ((k : ℝ)) ^ 2 := sq_nonneg _
  have hp1 := Real.pi_gt_d20
  have hp2 := Real.pi_lt_d20
  have dq : nmT (k + 1) * nmT (k + 1) - nmT k * nmT k = (2 * (k : ℝ) + 1) * (1529797.9225 : ℝ)⁻¹ := by
    unfold nmT; push_cast; ring
  have dc : nmT (k + 1) * nmT (k + 1) * nmT (k + 1) - nmT k * nmT k * nmT k = (3 * (k : ℝ) ^ 2 + 3 * (k : ℝ) + 1) * (1892130560.444125 : ℝ)⁻¹ := by
    unfold nmT; push_cast; ring
  have dT : nmT (k + 1) - nmT k = (1236.85 : ℝ)⁻¹ := by unfold nmT; push_cast; ring
  have dMs : |nmSunAnomaly (k + 1) - nmSunAnomaly k - (29.10535608 : ℝ)| ≤ (0.000001 : ℝ) := by
    have e : nmSunAnomaly (k + 1) - nmSunAnomaly k - (29.10535608 : ℝ)
        = (-0.0000333 : ℝ) * ((2 * (k : ℝ) + 1) * (1529797.9225 : ℝ)⁻¹) + (-0.00000347 : ℝ) * ((3 * (k : ℝ) ^ 2 + 3 * (k : ℝ) + 1) * (1892130560.444125 : ℝ)⁻¹) := by
      unfold nmSunAnomaly nmT; push_cast; ring
    rw [e, abs_le]
    constructor <;> linarith only [hk1, hk2, hksq, hksq0]
  have dMsl := abs_le.mp dMs
  have dMm : |nmMoonAnomaly (k + 1) - nmMoonAnomaly k - (385.81691806 : ℝ)| ≤ (0.0002 : ℝ) := by
    have e : nmMoonAnomaly (k + 1) - nmMoonAnomaly k - (385.81691806 : ℝ)
        = (0.0107306 : ℝ) * ((2 * (k : ℝ) + 1) * (1529797.9225 : ℝ)⁻¹) + (0.00001236 : ℝ) * ((3 * (k : ℝ) ^ 2 + 3 * (k : ℝ) + 1) * (1892130560.444125 : ℝ)⁻¹) := by
      unfold nmMoonAnomaly nmT; push_cast; ring
    rw [e, abs_le]
    constructor <;> linarith only [hk1, hk2, hksq, hksq0]
  have dMml := abs_le.mp dMm
  have dF : |nmMoonArgLat (k + 1) - nmMoonArgLat k - (390.67050646 : ℝ)| ≤ (0.0001 : ℝ) := by
    have e : nmMoonArgLat (k + 1) - nmMoonArgLat k - (390.67050646 : ℝ)
        = (-0.0016528 : ℝ) * ((2 * (k : ℝ) + 1) * (1529797.9225 : ℝ)⁻¹) + (-0.00000239 : ℝ) * ((3 * (k : ℝ) ^ 2 + 3 * (k : ℝ) + 1) * (1892130560.444125 : ℝ)⁻¹) := by
      unfold nmMoonArgLat nmT; push_cast; ring
    rw [e, abs_le]
    constructor <;> linarith only [hk1, hk2, hksq, hksq0]
  have dFl := abs_le.mp dF
  have s2Ms : |Real.sin (2 * toRadians (nmSunAnomaly (k + 1))) - Real.sin (2 * toRadians (nmSunAnomaly k))| ≤ (1.01596863 : ℝ) := by
    rw [two_mul_toRadians (nmSunAnomaly (k + 1)), two_mul_toRadians (nmSunAnomaly k)]
    rw [← Real.sin_sub_int_mul_two_pi (toRadians (2 * nmSunAnomaly (k + 1))) 0]
    refine le_trans (sin_lip _ _) ?_
    have e : toRadians (2 * nmSunAnomaly (k + 1)) - ((0 : ℤ) : ℝ) * (2 * Real.pi) - toRadians (2 * nmSunAnomaly k)
        = ((2 * nmSunAnomaly (k + 1)) - (2 * nmSunAnomaly k) - 0) * (Real.pi / 180) := by
      unfold toRadians; push_cast; ring
    rw [e]
    have hD1 : (58.21071016 : ℝ) ≤ (2 * nmSunAnomaly (k + 1)) - (2 * nmSunAnomaly k) - 0 := by linarith only [dMsl.1, dMsl.2, dMml.1, dMml.2, dFl.1, dFl.2]
    have hD2 : (2 * nmSunAnomaly (k + 1)) - (2 * nmSunAnomaly k) - 0 ≤ (58.21071416 : ℝ) := by linarith only [dMsl.1, dMsl.2, dMml.1, dMml.2, dFl.1, dFl.2]
    have hP0 : (0 : ℝ) ≤ Real.pi / 180 := by positivity
    have hP2 : Real.pi / 180 ≤ 0.0174532926 := by
      rw [div_le_iff₀ (by norm_num : (0 : ℝ) < 180)]
      linarith only [hp2]
    rw [abs_le]
    constructor
    · have m1 : 0 ≤ ((2 * nmSunAnomaly (k + 1)) - (2 * nmSunAnomaly k) - 0) * (Real.pi / 180) :=
        mul_nonneg (by linarith only [hD1]) hP0
      linarith only [m1]
    · calc ((2 * nmSunAnomaly (k + 1)) - (2 * nmSunAnomaly k) - 0) * (Real.pi / 180)
          ≤ (58.21071416 : ℝ) * (Real.pi / 180) := mul_le_mul_of_nonneg_right hD2 hP0
        _ ≤ (58.21071416 : ℝ) * 0.0174532926 := mul_le_mul_of_nonneg_left hP2 (by norm_num)
        _ ≤ (1.01596863 : ℝ) := by norm_num
  have s2Msl := abs_le.mp s2Ms
  have sMm : |Real.sin (toRadians (nmMoonAnomaly (k + 1))) - Real.sin (toRadians (nmMoonAnomaly k))| ≤ (0.45059372 : ℝ) := by
    rw [← Real.sin_sub_int_mul_two_pi (toRadians (nmMoonAnomaly (k + 1))) 1]
    refine le_trans (sin_lip _ _) ?_
    have e : toRadians (nmMoonAnomaly (k + 1)) - ((1 : ℤ) : ℝ) * (2 * Real.pi) - toRadians (nmMoonAnomaly k)
        = ((nmMoonAnomaly (k + 1)) - (nmMoonAnomaly k) - 360) * (Real.pi / 180) := by
      unfold toRadians; push_cast; ring
    rw [e]
    have hD1 : (25.81671806 : ℝ) ≤ (nmMoonAnomaly (k + 1)) - (nmMoonAnomaly k) - 360 := by linarith only [dMsl.1, dMsl.2, dMml.1, dMml.2, dFl.1, dFl.2]
    have hD2 : (nmMoonAnomaly (k + 1)) - (nmMoonAnomaly k) - 360 ≤ (25.81711806 : ℝ) := by linarith only [dMsl.1, dMsl.2, dMml.1, dMml.2, dFl.1, dFl.2]
    have hP0 : (0 : ℝ) ≤ Real.pi / 180 := by positivity
    have hP2 : Real.pi / 180 ≤ 0.0174532926 := by
      rw [div_le_iff₀ (by norm_num : (0 : ℝ) < 180)]
      linarith only [hp2]
    rw [abs_le]
    constructor
    · have m1 : 0 ≤ ((nmMoonAnomaly (k + 1)) - (nmMoonAnomaly k) - 360) * (Real.pi / 180) :=
        mul_nonneg (by linarith only [hD1]) hP0
      linarith only [m1]
    · calc ((nmMoonAnomaly (k + 1)) - (nmMoonAnomaly k) - 360) * (Real.pi / 180)
          ≤ (25.81711806 : ℝ) * (Real.pi / 180) := mul_le_mul_of_nonneg_right hD2 hP0
        _ ≤ (25.81711806 : ℝ) * 0.0174532926 := mul_le_mul_of_nonneg_left hP2 (by norm_num)
        _ ≤ (0.45059372 : ℝ) := by norm_num
  have sMml := abs_le.mp sMm
  have s2Mm : |Real.sin (2 * toRadians (nmMoonAnomaly (k + 1))) - Real.sin (2 * toRadians (nmMoonAnomaly k))| ≤ (0.90118744 : ℝ) := by
    rw [two_mul_toRadians (nmMoonAnomaly (k + 1)), two_mul_toRadians (nmMoonAnomaly k)]
    rw [← Real.sin_sub_int_mul_two_pi (toRadians (2 * nmMoonAnomaly (k + 1))) 2]
    refine le_trans (sin_lip _ _) ?_
    have e : toRadians (2 * nmMoonAnomaly (k + 1)) - ((2 : ℤ) : ℝ) * (2 * Real.pi) - toRadians (2 * nmMoonAnomaly k)
        = ((2 * nmMoonAnomaly (k + 1)) - (2 * nmMoonAnomaly k) - 720) * (Real.pi / 180) := by
      unfold toRadians; push_cast; ring
    rw [e]
    have hD1 : (51.63343612 : ℝ) ≤ (2 * nmMoonAnomaly (k + 1)) - (2 * nmMoonAnomaly k) - 720 := by linarith only [dMsl.1, dMsl.2, dMml.1, dMml.2, dFl.1, dFl.2]
    have hD2 : (2 * nmMoonAnomaly (k + 1)) - (2 * nmMoonAnomaly k) - 720 ≤ (51.63423612 : ℝ) := by linarith only [dMsl.1, dMsl.2, dMml.1, dMml.2, dFl.1, dFl.2]
    have hP0 : (0 : ℝ) ≤ Real.pi / 180 := by positivity
    have hP2 : Real.pi / 180 ≤ 0.0174532926 := by
      rw [div_le_iff₀ (by norm_num : (0 : ℝ) < 180)]
      linarith only [hp2]
    rw [abs_le]
    constructor
    · have m1 : 0 ≤ ((2 * nmMoonAnomaly (k + 1)) - (2 * nmMoonAnomaly k) - 720) * (Real.pi / 180) :=
        mul_nonneg (by linarith only [hD1]) hP0
      linarith only [m1]
    · calc ((2 * nmMoonAnomaly (k + 1)) - (2 * nmMoonAnomaly k) - 720) * (Real.pi / 180)
          ≤ (51.63423612 : ℝ) * (Real.pi / 180) := mul_le_mul_of_nonneg_right hD2 hP0
        _ ≤ (51.63423612 : ℝ) * 0.0174532926 := mul_le_mul_of_nonneg_left hP2 (by norm_num)
        _ ≤ (0.90118744 : ℝ) := by norm_num
  have s2Mml := abs_le.mp s2Mm
  have s3Mm : |Real.sin (3 * toRadians (nmMoonAnomaly (k + 1))) - Real.sin (3 * toRadians (nmMoonAnomaly k))| ≤ (1.35178115 : ℝ) := by
    rw [three_mul_toRadians (nmMoonAnomaly (k + 1)), three_mul_toRadians (nmMoonAnomaly k)]
    rw [← Real.sin_sub_int_mul_two_pi (toRadians (3 * nmMoonAnomaly (k + 1))) 3]
    refine le_trans (sin_lip _ _) ?_
    have e : toRadians (3 * nmMoonAnomaly (k + 1)) - ((3 : ℤ) : ℝ) * (2 * Real.pi) - toRadians (3 * nmMoonAnomaly k)
        = ((3 * nmMoonAnomaly (k + 1)) - (3 * nmMoonAnomaly k) - 1080) * (Real.pi / 180) := by
      unfold toRadians; push_cast; ring
    rw [e]
    have hD1 : (77.45015418 : ℝ) ≤ (3 * nmMoonAnomaly (k + 1)) - (3 * nmMoonAnomaly k) - 1080 := by linarith only [dMsl.1, dMsl.2, dMml.1, dMml.2, dFl.1, dFl.2]
    have hD2 : (3 * nmMoonAnomaly (k + 1)) - (3 * nmMoonAnomaly k) - 1080 ≤ (77.45135418 : ℝ) := by linarith only [dMsl.1, dMsl.2, dMml.1, dMml.2, dFl.1, dFl.2]
    have hP0 : (0 : ℝ) ≤ Real.pi / 180 := by positivity
    have hP2 : Real.pi / 180 ≤ 0.0174532926 := by
      rw [div_le_iff₀ (by norm_num : (0 : ℝ) < 180)]
      linarith only [hp2]
    rw [abs_le]
    constructor
    · have m1 : 0 ≤ ((3 * nmMoonAnomaly (k + 1)) - (3 * nmMoonAnomaly k) - 1080) * (Real.pi / 180) :=
        mul_nonneg (by linarith only [hD1]) hP0
      linarith only [m1]
    · calc ((3 * nmMoonAnomaly (k + 1)) - (3 * nmMoonAnomaly k) - 1080) * (Real.pi / 180)
          ≤ (77.45135418 : ℝ) * (Real.pi / 180) := mul_le_mul_of_nonneg_right hD2 hP0
        _ ≤ (77.45135418 : ℝ) * 0.0174532926 := mul_le_mul_of_nonneg_left hP2 (by norm_num)
        _ ≤ (1.35178115 : ℝ) := by norm_num
  have s3Mml := abs_le.mp s3Mm
  have s2F : |Real.sin (2 * toRadians (nmMoonArgLat (k + 1))) - Real.sin (2 * toRadians (nmMoonArgLat k))| ≤ (1.07060614 : ℝ) := by
    rw [two_mul_toRadians (nmMoonArgLat (k + 1)), two_mul_toRadians (nmMoonArgLat k)]
    rw [← Real.sin_sub_int_mul_two_pi (toRadians (2 * nmMoonArgLat (k + 1))) 2]
    refine le_trans (sin_lip _ _) ?_
    have e : toRadians (2 * nmMoonArgLat (k + 1)) - ((2 : ℤ) : ℝ) * (2 * Real.pi) - toRadians (2 * nmMoonArgLat k)
        = ((2 * nmMoonArgLat (k + 1)) - (2 * nmMoonArgLat k) - 720) * (Real.pi / 180) := by
      unfold toRadians; push_cast; ring
    rw [e]
    have hD1 : (61.34081292 : ℝ) ≤ (2 * nmMoonArgLat (k + 1)) - (2 * nmMoonArgLat k) - 720 := by linarith only [dMsl.1, dMsl.2, dMml.1, dMml.2, dFl.1, dFl.2]
    have hD2 : (2 * nmMoonArgLat (k + 1)) - (2 * nmMoonArgLat k) - 720 ≤ (61.34121292 : ℝ) := by linarith only [dMsl.1, dMsl.2, dMml.1, dMml.2, dFl.1, dFl.2]
    have hP0 : (0 : ℝ) ≤ Real.pi / 180 := by positivity
    have hP2 : Real.pi / 180 ≤ 0.0174532926 := by
      rw [div_le_iff₀ (by norm_num : (0 : ℝ) < 180)]
      linarith only [hp2]
    rw [abs_le]
    constructor
    · have m1 : 0 ≤ ((2 * nmMoonArgLat (k + 1)) - (2 * nmMoonArgLat k) - 720) * (Real.pi / 180) :=
        mul_nonneg (by linarith only [hD1]) hP0
      linarith only [m1]
    · calc ((2 * nmMoonArgLat (k + 1)) - (2 * nmMoonArgLat k) - 720) * (Real.pi / 180)
          ≤ (61.34121292 : ℝ) * (Real.pi / 180) := mul_le_mul_of_nonneg_right hD2 hP0
        _ ≤ (61.34121292 : ℝ) * 0.0174532926 := mul_le_mul_of_nonneg_left hP2 (by norm_num)
        _ ≤ (1.07060614 : ℝ) := by norm_num
  have s2Fl := abs_le.mp s2F
  have sMspMm : |Real.sin (toRadians (nmSunAnomaly (k + 1) + nmMoonAnomaly (k + 1))) - Real.sin (toRadians (nmSunAnomaly k + nmMoonAnomaly k))| ≤ (0.95857803 : ℝ) := by
    rw [← Real.sin_sub_int_mul_two_pi (toRadians (nmSunAnomaly (k + 1) + nmMoonAnomaly (k + 1))) 1]
    refine le_trans (sin_lip _ _) ?_
    have e : toRadians (nmSunAnomaly (k + 1) + nmMoonAnomaly (k + 1)) - ((1 : ℤ) : ℝ) * (2 * Real.pi) - toRadians (nmSunAnomaly k + nmMoonAnomaly k)
        = ((nmSunAnomaly (k + 1) + nmMoonAnomaly (k + 1)) - (nmSunAnomaly k + nmMoonAnomaly k) - 360) * (Real.pi / 180) := by
      unfold toRadians; push_cast; ring
    rw [e]
    have hD1 : (54.92207314 : ℝ) ≤ (nmSunAnomaly (k + 1) + nmMoonAnomaly (k + 1)) - (nmSunAnomaly k + nmMoonAnomaly k) - 360 := by linarith only [dMsl.1, dMsl.2, dMml.1, dMml.2, dFl.1, dFl.2]
    have hD2 : (nmSunAnomaly (k + 1) + nmMoonAnomaly (k + 1)) - (nmSunAnomaly k + nmMoonAnomaly k) - 360 ≤ (54.92247514 : ℝ) := by linarith only [dMsl.1, dMsl.2, dMml.1, dMml.2, dFl.1, dFl.2]
    have hP0 : (0 : ℝ) ≤ Real.pi / 180 := by positivity
    have hP2 : Real.pi / 180 ≤ 0.0174532926 := by
      rw [div_le_iff₀ (by norm_num : (0 : ℝ) < 180)]
      linarith only [hp2]
    rw [abs_le]
    constructor
    · have m1 : 0 ≤ ((nmSunAnomaly (k + 1) + nmMoonAnomaly (k + 1)) - (nmSunAnomaly k + nmMoonAnomaly k) - 360) * (Real.pi / 180) :=
        mul_nonneg (by linarith only [hD1]) hP0
      linarith only [m1]
    · calc ((nmSunAnomaly (k + 1) + nmMoonAnomaly (k + 1)) - (nmSunAnomaly k + nmMoonAnomaly k) - 360) * (Real.pi / 180)
          ≤ (54.92247514 : ℝ) * (Real.pi / 180) := mul_le_mul_of_nonneg_right hD2 hP0
        _ ≤ (54.92247514 : ℝ) * 0.0174532926 := mul_le_mul_of_nonneg_left hP2 (by norm_num)
        _ ≤ (0.95857803 : ℝ) := by norm_num
  have sMspMml := abs_le.mp sMspMm
  have sMsmMm : |Real.sin (toRadians (nmSunAnomaly (k + 1) - nmMoonAnomaly (k + 1))) - Real.sin (toRadians (nmSunAnomaly k - nmMoonAnomaly k))| ≤ (0.05739758 : ℝ) := by
    rw [← Real.sin_sub_int_mul_two_pi (toRadians (nmSunAnomaly (k + 1) - nmMoonAnomaly (k + 1))) (-1)]
    refine le_trans (sin_lip _ _) ?_
    have e : toRadians (nmSunAnomaly (k + 1) - nmMoonAnomaly (k + 1)) - ((-1 : ℤ) : ℝ) * (2 * Real.pi) - toRadians (nmSunAnomaly k - nmMoonAnomaly k)
        = ((nmSunAnomaly (k + 1) - nmMoonAnomaly (k + 1)) - (nmSunAnomaly k - nmMoonAnomaly k) - -360) * (Real.pi / 180) := by
      unfold toRadians; push_cast; ring
    rw [e]
    have hD1 : (3.28823702 : ℝ) ≤ (nmSunAnomaly (k + 1) - nmMoonAnomaly (k + 1)) - (nmSunAnomaly k - nmMoonAnomaly k) - -360 := by linarith only [dMsl.1, dMsl.2, dMml.1, dMml.2, dFl.1, dFl.2]
    have hD2 : (nmSunAnomaly (k + 1) - nmMoonAnomaly (k + 1)) - (nmSunAnomaly k - nmMoonAnomaly k) - -360 ≤ (3.28863902 : ℝ) := by linarith only [dMsl.1, dMsl.2, dMml.1, dMml.2, dFl.1, dFl.2]
    have hP0 : (0 : ℝ) ≤ Real.pi / 180 := by positivity
    have hP2 : Real.pi / 180 ≤ 0.0174532926 := by
      rw [div_le_iff₀ (by norm_num : (0 : ℝ) < 180)]
      linarith only [hp2]
    rw [abs_le]
    constructor
    · have m1 : 0 ≤ ((nmSunAnomaly (k + 1) - nmMoonAnomaly (k + 1)) - (nmSunAnomaly k - nmMoonAnomaly k) - -360) * (Real.pi / 180) :=
        mul_nonneg (by linarith only [hD1]) hP0
      linarith only [m1]
    · calc ((nmSunAnomaly (k + 1) - nmMoonAnomaly (k + 1)) - (nmSunAnomaly k - nmMoonAnomaly k) - -360) * (Real.pi / 180)
          ≤ (3.28863902 : ℝ) * (Real.pi / 180) := mul_le_mul_of_nonneg_right hD2 hP0
        _ ≤ (3.28863902 : ℝ) * 0.0174532926 := mul_le_mul_of_nonneg_left hP2 (by norm_num)
        _ ≤ (0.05739758 : ℝ) := by norm_num
  have sMsmMml := abs_le.mp sMsmMm
  have s2FpMs : |Real.sin (toRadians (2 * nmMoonArgLat (k + 1) + nmSunAnomaly (k + 1))) - Real.sin (toRadians (2 * nmMoonArgLat k + nmSunAnomaly k))| ≤ (1.57859046 : ℝ) := by
    rw [← Real.sin_sub_int_mul_two_pi (toRadians (2 * nmMoonArgLat (k + 1) + nmSunAnomaly (k + 1))) 2]
    refine le_trans (sin_lip _ _) ?_
    have e : toRadians (2 * nmMoonArgLat (k + 1) + nmSunAnomaly (k + 1)) - ((2 : ℤ) : ℝ) * (2 * Real.pi) - toRadians (2 * nmMoonArgLat k + nmSunAnomaly k)
        = ((2 * nmMoonArgLat (k + 1) + nmSunAnomaly (k + 1)) - (2 * nmMoonArgLat k + nmSunAnomaly k) - 720) * (Real.pi / 180) := by
      unfold toRadians; push_cast; ring
    rw [e]
    have hD1 : (90.446168 : ℝ) ≤ (2 * nmMoonArgLat (k + 1) + nmSunAnomaly (k + 1)) - (2 * nmMoonArgLat k + nmSunAnomaly k) - 720 := by linarith only [dMsl.1, dMsl.2, dMml.1, dMml.2, dFl.1, dFl.2]
    have hD2 : (2 * nmMoonArgLat (k + 1) + nmSunAnomaly (k + 1)) - (2 * nmMoonArgLat k + nmSunAnomaly k) - 720 ≤ (90.44657 : ℝ) := by linarith only [dMsl.1, dMsl.2, dMml.1, dMml.2, dFl.1, dFl.2]
    have hP0 : (0 : ℝ) ≤ Real.pi / 180 := by positivity
    have hP2 : Real.pi / 180 ≤ 0.0174532926 := by
      rw [div_le_iff₀ (by norm_num : (0 : ℝ) < 180)]
      linarith only [hp2]
    rw [abs_le]
    constructor
    · have m1 : 0 ≤ ((2 * nmMoonArgLat (k + 1) + nmSunAnomaly (k + 1)) - (2 * nmMoonArgLat k + nmSunAnomaly k) - 720) * (Real.pi / 180) :=
        mul_nonneg (by linarith only [hD1]) hP0
      linarith only [m1]
    · calc ((2 * nmMoonArgLat (k + 1) + nmSunAnomaly (k + 1)) - (2 * nmMoonArgLat k + nmSunAnomaly k) - 720) * (Real.pi / 180)
          ≤ (90.44657 : ℝ) * (Real.pi / 180) := mul_le_mul_of_nonneg_right hD2 hP0
        _ ≤ (90.44657 : ℝ) * 0.0174532926 := mul_le_mul_of_nonneg_left hP2 (by norm_num)
        _ ≤ (1.57859046 : ℝ) := by norm_num
  have s2FpMsl := abs_le.mp s2FpMs
  have s2FmMs : |Real.sin (toRadians (2 * nmMoonArgLat (k + 1) - nmSunAnomaly (k + 1))) - Real.sin (toRadians (2 * nmMoonArgLat k - nmSunAnomaly k))| ≤ (0.56262186 : ℝ) := by
    rw [← Real.sin_sub_int_mul_two_pi (toRadians (2 * nmMoonArgLat (k + 1) - nmSunAnomaly (k + 1))) 2]
    refine le_trans (sin_lip _ _) ?_
    have e : toRadians (2 * nmMoonArgLat (k + 1) - nmSunAnomaly (k + 1)) - ((2 : ℤ) : ℝ) * (2 * Real.pi) - toRadians (2 * nmMoonArgLat k - nmSunAnomaly k)
        = ((2 * nmMoonArgLat (k + 1) - nmSunAnomaly (k + 1)) - (2 * nmMoonArgLat k - nmSunAnomaly k) - 720) * (Real.pi / 180) := by
      unfold toRadians; push_cast; ring
    rw [e]
    have hD1 : (32.23545584 : ℝ) ≤ (2 * nmMoonArgLat (k + 1) - nmSunAnomaly (k + 1)) - (2 * nmMoonArgLat k - nmSunAnomaly k) - 720 := by linarith only [dMsl.1, dMsl.2, dMml.1, dMml.2, dFl.1, dFl.2]
    have hD2 : (2 * nmMoonArgLat (k + 1) - nmSunAnomaly (k + 1)) - (2 * nmMoonArgLat k - nmSunAnomaly k) - 720 ≤ (32.23585784 : ℝ) := by linarith only [dMsl.1, dMsl.2, dMml.1, dMml.2, dFl.1, dFl.2]
    have hP0 : (0 : ℝ) ≤ Real.pi / 180 := by positivity
    have hP2 : Real.pi / 180 ≤ 0.0174532926 := by
      rw [div_le_iff₀ (by norm_num : (0 : ℝ) < 180)]
      linarith only [hp2]
    rw [abs_le]
    constructor
    · have m1 : 0 ≤ ((2 * nmMoonArgLat (k + 1) - nmSunAnomaly (k + 1)) - (2 * nmMoonArgLat k - nmSunAnomaly k) - 720) * (Real.pi / 180) :=
        mul_nonneg (by linarith only [hD1]) hP0
      linarith only [m1]
    · calc ((2 * nmMoonArgLat (k + 1) - nmSunAnomaly (k + 1)) - (2 * nmMoonArgLat k - nmSunAnomaly k) - 720) * (Real.pi / 180)
          ≤ (32.23585784 : ℝ) * (Real.pi / 180) := mul_le_mul_of_nonneg_right hD2 hP0
        _ ≤ (32.23585784 : ℝ) * 0.0174532926 := mul_le_mul_of_nonneg_left hP2 (by norm_num)
        _ ≤ (0.56262186 : ℝ) := by norm_num
  have s2FmMsl := abs_le.mp s2FmMs
  have s2FpMm : |Real.sin (toRadians (2 * nmMoonArgLat (k + 1) + nmMoonAnomaly (k + 1))) - Real.sin (toRadians (2 * nmMoonArgLat k + nmMoonAnomaly k))| ≤ (1.52119986 : ℝ) := by
    rw [← Real.sin_sub_int_mul_two_pi (toRadians (2 * nmMoonArgLat (k + 1) + nmMoonAnomaly (k + 1))) 3]
    refine le_trans (sin_lip _ _) ?_
    have e : toRadians (2 * nmMoonArgLat (k + 1) + nmMoonAnomaly (k + 1)) - ((3 : ℤ) : ℝ) * (2 * Real.pi) - toRadians (2 * nmMoonArgLat k + nmMoonAnomaly k)
        = ((2 * nmMoonArgLat (k + 1) + nmMoonAnomaly (k + 1)) - (2 * nmMoonArgLat k + nmMoonAnomaly k) - 1080) * (Real.pi / 180) := by
      unfold toRadians; push_cast; ring
    rw [e]
    have hD1 : (87.15753098 : ℝ) ≤ (2 * nmMoonArgLat (k + 1) + nmMoonAnomaly (k + 1)) - (2 * nmMoonArgLat k + nmMoonAnomaly k) - 1080 := by linarith only [dMsl.1, dMsl.2, dMml.1, dMml.2, dFl.1, dFl.2]
    have hD2 : (2 * nmMoonArgLat (k + 1) + nmMoonAnomaly (k + 1)) - (2 * nmMoonArgLat k + nmMoonAnomaly k) - 1080 ≤ (87.15833098 : ℝ) := by linarith only [dMsl.1, dMsl.2, dMml.1, dMml.2, dFl.1, dFl.2]
    have hP0 : (0 : ℝ) ≤ Real.pi / 180 := by positivity
    have hP2 : Real.pi / 180 ≤ 0.0174532926 := by
      rw [div_le_iff₀ (by norm_num : (0 : ℝ) < 180)]
      linarith only [hp2]
    rw [abs_le]
    constructor
    · have m1 : 0 ≤ ((2 * nmMoonArgLat (k + 1) + nmMoonAnomaly (k + 1)) - (2 * nmMoonArgLat k + nmMoonAnomaly k) - 1080) * (Real.pi / 180) :=
        mul_nonneg (by linarith only [hD1]) hP0
      linarith only [m1]
    · calc ((2 * nmMoonArgLat (k + 1) + nmMoonAnomaly (k + 1)) - (2 * nmMoonArgLat k + nmMoonAnomaly k) - 1080) * (Real.pi / 180)
          ≤ (87.15833098 : ℝ) * (Real.pi / 180) := mul_le_mul_of_nonneg_right hD2 hP0
        _ ≤ (87.15833098 : ℝ) * 0.0174532926 := mul_le_mul_of_nonneg_left hP2 (by norm_num)
        _ ≤ (1.52119986 : ℝ) := by norm_num
  have s2FpMml := abs_le.mp s2FpMm
  have s2FmMm : |Real.sin (toRadians (2 * nmMoonArgLat (k + 1) - nmMoonAnomaly (k + 1))) - Real.sin (toRadians (2 * nmMoonArgLat k - nmMoonAnomaly k))| ≤ (0.62001941 : ℝ) := by
    rw [← Real.sin_sub_int_mul_two_pi (toRadians (2 * nmMoonArgLat (k + 1) - nmMoonAnomaly (k + 1))) 1]
    refine le_trans (sin_lip _ _) ?_
    have e : toRadians (2 * nmMoonArgLat (k + 1) - nmMoonAnomaly (k + 1)) - ((1 : ℤ) : ℝ) * (2 * Real.pi) - toRadians (2 * nmMoonArgLat k - nmMoonAnomaly k)
        = ((2 * nmMoonArgLat (k + 1) - nmMoonAnomaly (k + 1)) - (2 * nmMoonArgLat k - nmMoonAnomaly k) - 360) * (Real.pi / 180) := by
      unfold toRadians; push_cast; ring
    rw [e]
    have hD1 : (35.52369486 : ℝ) ≤ (2 * nmMoonArgLat (k + 1) - nmMoonAnomaly (k + 1)) - (2 * nmMoonArgLat k - nmMoonAnomaly k) - 360 := by linarith only [dMsl.1, dMsl.2, dMml.1, dMml.2, dFl.1, dFl.2]
    have hD2 : (2 * nmMoonArgLat (k + 1) - nmMoonAnomaly (k + 1)) - (2 * nmMoonArgLat k - nmMoonAnomaly k) - 360 ≤ (35.52449486 : ℝ) := by linarith only [dMsl.1, dMsl.2, dMml.1, dMml.2, dFl.1, dFl.2]
    have hP0 : (0 : ℝ) ≤ Real.pi / 180 := by positivity
    have hP2 : Real.pi / 180 ≤ 0.0174532926 := by
      rw [div_le_iff₀ (by norm_num : (0 : ℝ) < 180)]
      linarith only [hp2]
    rw [abs_le]
    constructor
    · have m1 : 0 ≤ ((2 * nmMoonArgLat (k + 1) - nmMoonAnomaly (k + 1)) - (2 * nmMoonArgLat k - nmMoonAnomaly k) - 360) * (Real.pi / 180) :=
        mul_nonneg (by linarith only [hD1]) hP0
      linarith only [m1]
    · calc ((2 * nmMoonArgLat (k + 1) - nmMoonAnomaly (k + 1)) - (2 * nmMoonArgLat k - nmMoonAnomaly k) - 360) * (Real.pi / 180)
          ≤ (35.52449486 : ℝ) * (Real.pi / 180) := mul_le_mul_of_nonneg_right hD2 hP0
        _ ≤ (35.52449486 : ℝ) * 0.0174532926 := mul_le_mul_of_nonneg_left hP2 (by norm_num)
        _ ≤ (0.62001941 : ℝ) := by norm_num
  have s2FmMml := abs_le.mp s2FmMm
  have s2MmpMs : |Real.sin (toRadians (2 * nmMoonAnomaly (k + 1) + nmSunAnomaly (k + 1))) - Real.sin (toRadians (2 * nmMoonAnomaly k + nmSunAnomaly k))| ≤ (1.40917175 : ℝ) := by
    rw [← Real.sin_sub_int_mul_two_pi (toRadians (2 * nmMoonAnomaly (k + 1) + nmSunAnomaly (k + 1))) 2]
    refine le_trans (sin_lip _ _) ?_
    have e : toRadians (2 * nmMoonAnomaly (k + 1) + nmSunAnomaly (k + 1)) - ((2 : ℤ) : ℝ) * (2 * Real.pi) - toRadians (2 * nmMoonAnomaly k + nmSunAnomaly k)
        = ((2 * nmMoonAnomaly (k + 1) + nmSunAnomaly (k + 1)) - (2 * nmMoonAnomaly k + nmSunAnomaly k) - 720) * (Real.pi / 180) := by
      unfold toRadians; push_cast; ring
    rw [e]
    have hD1 : (80.7387912 : ℝ) ≤ (2 * nmMoonAnomaly (k + 1) + nmSunAnomaly (k + 1)) - (2 * nmMoonAnomaly k + nmSunAnomaly k) - 720 := by linarith only [dMsl.1, dMsl.2, dMml.1, dMml.2, dFl.1, dFl.2]
    have hD2 : (2 * nmMoonAnomaly (k + 1) + nmSunAnomaly (k + 1)) - (2 * nmMoonAnomaly k + nmSunAnomaly k) - 720 ≤ (80.7395932 : ℝ) := by linarith only [dMsl.1, dMsl.2, dMml.1, dMml.2, dFl.1, dFl.2]
    have hP0 : (0 : ℝ) ≤ Real.pi / 180 := by positivity
    have hP2 : Real.pi / 180 ≤ 0.0174532926 := by
      rw [div_le_iff₀ (by norm_num : (0 : ℝ) < 180)]
      linarith only [hp2]
    rw [abs_le]
    constructor
    · have m1 : 0 ≤ ((2 * nmMoonAnomaly (k + 1) + nmSunAnomaly (k + 1)) - (2 * nmMoonAnomaly k + nmSunAnomaly k) - 720) * (Real.pi / 180) :=
        mul_nonneg (by linarith only [hD1]) hP0
      linarith only [m1]
    · calc ((2 * nmMoonAnomaly (k + 1) + nmSunAnomaly (k + 1)) - (2 * nmMoonAnomaly k + nmSunAnomaly k) - 720) * (Real.pi / 180)
          ≤ (80.7395932 : ℝ) * (Real.pi / 180) := mul_le_mul_of_nonneg_right hD2 hP0
        _ ≤ (80.7395932 : ℝ) * 0.0174532926 := mul_le_mul_of_nonneg_left hP2 (by norm_num)
        _ ≤ (1.40917175 : ℝ) := by norm_num
  have s2MmpMsl := abs_le.mp s2MmpMs
  have sMs : |Real.sin (toRadians (nmSunAnomaly (k + 1))) - Real.sin (toRadians (nmSunAnomaly k))| ≤ (0.50798432 : ℝ) := by
    rw [← Real.sin_sub_int_mul_two_pi (toRadians (nmSunAnomaly (k + 1))) 0]
    refine le_trans (sin_lip _ _) ?_
    have e : toRadians (nmSunAnomaly (k + 1)) - ((0 : ℤ) : ℝ) * (2 * Real.pi) - toRadians (nmSunAnomaly k)
        = ((nmSunAnomaly (k + 1)) - (nmSunAnomaly k) - 0) * (Real.pi / 180) := by
      unfold toRadians; push_cast; ring
    rw [e]
    have hD1 : (29.10535508 : ℝ) ≤ (nmSunAnomaly (k + 1)) - (nmSunAnomaly k) - 0 := by linarith only [dMsl.1, dMsl.2, dMml.1, dMml.2, dFl.1, dFl.2]
    have hD2 : (nmSunAnomaly (k + 1)) - (nmSunAnomaly k) - 0 ≤ (29.10535708 : ℝ) := by linarith only [dMsl.1, dMsl.2, dMml.1, dMml.2, dFl.1, dFl.2]
    have hP0 : (0 : ℝ) ≤ Real.pi / 180 := by positivity
    have hP2 : Real.pi / 180 ≤ 0.0174532926 := by
      rw [div_le_iff₀ (by norm_num : (0 : ℝ) < 180)]
      linarith only [hp2]
    rw [abs_le]
    constructor
    · have m1 : 0 ≤ ((nmSunAnomaly (k + 1)) - (nmSunAnomaly k) - 0) * (Real.pi / 180) :=
        mul_nonneg (by linarith only [hD1]) hP0
      linarith only [m1]
    · calc ((nmSunAnomaly (k + 1)) - (nmSunAnomaly k) - 0) * (Real.pi / 180)
          ≤ (29.10535708 : ℝ) * (Real.pi / 180) := mul_le_mul_of_nonneg_right hD2 hP0
        _ ≤ (29.10535708 : ℝ) * 0.0174532926 := mul_le_mul_of_nonneg_left hP2 (by norm_num)
        _ ≤ (0.50798432 : ℝ) := by norm_num
  have hT1 : |nmT (k + 1)| ≤ 8.0862 := by
    unfold nmT; rw [abs_le]; push_cast
    constructor <;> (rw [div_eq_mul_inv]; linarith only [hk1, hk2])
  have hT1l := abs_le.mp hT1
  have hc1 : |0.1734 - 0.000393 * nmT (k + 1)| ≤ 0.1766 := by
    rw [abs_le]
    constructor <;> linarith only [hT1l.1, hT1l.2]
  have hs0 : |Real.sin (toRadians (nmSunAnomaly k))| ≤ 1 := Real.abs_sin_le_one _
  have cMs : |(0.1734 - 0.000393 * nmT (k + 1)) * (Real.sin (toRadians (nmSunAnomaly (k + 1))))
      - (0.1734 - 0.000393 * nmT k) * (Real.sin (toRadians (nmSunAnomaly k)))| ≤ (0.0897105 : ℝ) := by
    have sp : (0.1734 - 0.000393 * nmT (k + 1)) * (Real.sin (toRadians (nmSunAnomaly (k + 1))))
        - (0.1734 - 0.000393 * nmT k) * (Real.sin (toRadians (nmSunAnomaly k)))
        = (0.1734 - 0.000393 * nmT (k + 1)) * ((Real.sin (toRadians (nmSunAnomaly (k + 1)))) - (Real.sin (toRadians (nmSunAnomaly k))))
          + (-0.000393) * (nmT (k + 1) - nmT k) * (Real.sin (toRadians (nmSunAnomaly k))) := by ring
    rw [sp]
    refine le_trans (abs_add _ _) ?_
    have t1 : |(0.1734 - 0.000393 * nmT (k + 1)) * ((Real.sin (toRadians (nmSunAnomaly (k + 1)))) - (Real.sin (toRadians (nmSunAnomaly k))))| ≤ 0.1766 * (0.50798432 : ℝ) := by
      rw [abs_mul]
      exact mul_le_mul hc1 sMs (abs_nonneg _) (by norm_num)
    have t2 : |(-0.000393) * (nmT (k + 1) - nmT k) * (Real.sin (toRadians (nmSunAnomaly k)))| ≤ 0.00000032 := by
      rw [abs_mul, abs_mul, dT]
      have t3 : |(-0.000393 : ℝ)| * |(1236.85 : ℝ)⁻¹| * |Real.sin (toRadians (nmSunAnomaly k))|
          ≤ |(-0.000393 : ℝ)| * |(1236.85 : ℝ)⁻¹| * 1 :=
        mul_le_mul_of_nonneg_left hs0 (by positivity)
      refine le_trans t3 ?_
      rw [abs_of_nonpos (by norm_num : (-0.000393 : ℝ) ≤ 0), abs_of_nonneg (by norm_num : (0 : ℝ) ≤ (1236.85 : ℝ)⁻¹)]
      norm_num
    linarith only [t1, t2]
  have cMsl := abs_le.mp cMs
  have m1a := Real.neg_one_le_sin (toRadians (nmMeanArg (k + 1)))
  have m1b := Real.sin_le_one (toRadians (nmMeanArg (k + 1)))
  have m0a := Real.neg_one_le_sin (toRadians (nmMeanArg k))
  have m0b := Real.sin_le_one (toRadians (nmMeanArg k))
  have hTa : ¬ (nmT (k + 1) < -11) := not_lt.mpr (by unfold nmT; push_cast; rw [div_eq_mul_inv]; linarith only [hk1])
  have hTb : ¬ (nmT k < -11) := not_lt.mpr (by unfold nmT; rw [div_eq_mul_inv]; linarith only [hk1])
  simp only [new_moon_aa98]
  rw [if_neg hTa, if_neg hTb]
  push_cast
  rw [abs_le]
  constructor
  · linarith only [s2Msl.1, s2Msl.2, sMml.1, sMml.2, s2Mml.1, s2Mml.2, s3Mml.1, s3Mml.2, s2Fl.1, s2Fl.2, sMspMml.1, sMspMml.2, sMsmMml.1, sMsmMml.2, s2FpMsl.1, s2FpMsl.2, s2FmMsl.1, s2FmMsl.2, s2FpMml.1, s2FpMml.2, s2FmMml.1, s2FmMml.2, s2MmpMsl.1, s2MmpMsl.2, cMsl.1, cMsl.2, m1a, m1b, m0a, m0b, dq, dc, dT, hk1, hk2, hksq, hksq0]
  · linarith only [s2Msl.1, s2Msl.2, sMml.1, sMml.2, s2Mml.1, s2Mml.2, s3Mml.1, s3Mml.2, s2Fl.1, s2Fl.2, sMspMml.1, sMspMml.2, sMsmMml.1, sMsmMml.2, s2FpMsl.1, s2FpMsl.2, s2FmMsl.1, s2FmMsl.2, s2FpMml.1, s2FpMml.2, s2FmMml.1, s2FmMml.2, s2MmpMsl.1, s2MmpMsl.2, cMsl.1, cMsl.2, m1a, m1b, m0a, m0b, dq, dc, dT, hk1, hk2, hksq, hksq0]

set_option maxHeartbeats 1000000 in
theorem sinp_mean_1533p :
    (-0.48129240935552 : ℝ) ≤ Real.sin (toRadians (nmMeanArg 1533)) ∧ Real.sin (toRadians (nmMeanArg 1533)) ≤ (-0.48129240935549 : ℝ) := by
  rw [sin_toRadians_decomp (nmMeanArg 1533) 11 ((209098665967 : ℝ) / 30595958450000) 0
    (by simp only [nmMeanArg, nmT]; push_cast; norm_num), sin_lat11, cos_lat11]
  have hp1 := Real.pi_gt_d20
  have hp2 := Real.pi_lt_d20
  have hu1 : (0.02147024856079 : ℝ) ≤ ((209098665967 : ℝ) / 30595958450000) * Real.pi := by linarith only [hp1, hp2]
  have hu2 : ((209098665967 : ℝ) / 30595958450000) * Real.pi ≤ (0.0214702485608 : ℝ) := by linarith only [hp1, hp2]
  have habs : |((209098665967 : ℝ) / 30595958450000) * Real.pi| ≤ (0.0214702485608 : ℝ) := abs_le.mpr ⟨by linarith only [hu1, hu2], by linarith only [hu1, hu2]⟩
  have hsin := sin_small9 (((209098665967 : ℝ) / 30595958450000) * Real.pi) (0.0214702485608 : ℝ) (0.0000000000000000000029684389 : ℝ) habs (by norm_num) (by norm_num)
  have hodd := pow_bounds_odd (((209098665967 : ℝ) / 30595958450000) * Real.pi) (0.02147024856079 : ℝ) (0.0214702485608 : ℝ) hu1 hu2
  have hS5a : (0.02146859906976 : ℝ) ≤ Real.sin (((209098665967 : ℝ) / 30595958450000) * Real.pi) := by
    linarith only [hsin.1, hodd.1, hodd.2.1, hodd.2.2.1, hodd.2.2.2.1, hodd.2.2.2.2.1, hodd.2.2.2.2.2, hu1, hu2]
  have hS5b : Real.sin (((209098665967 : ℝ) / 30595958450000) * Real.pi) ≤ (0.02146859906978 : ℝ) := by
    linarith only [hsin.2, hodd.1, hodd.2.1, hodd.2.2.1, hodd.2.2.2.1, hodd.2.2.2.2.1, hodd.2.2.2.2.2, hu1, hu2]
  have hcos := cos_small9 (((209098665967 : ℝ) / 30595958450000) * Real.pi) (0.0214702485608 : ℝ) (0.0000000000000000000029684389 : ℝ) habs (by norm_num) (by norm_num)
  have heup := pow_even_upper (((209098665967 : ℝ) / 30595958450000) * Real.pi) (0.0214702485608 : ℝ) habs
  have helo := pow_even_lower_pos (((209098665967 : ℝ) / 30595958450000) * Real.pi) (0.02147024856079 : ℝ) hu1 (by norm_num)
  have hC5a : (0.99976952306718 : ℝ) ≤ Real.cos (((209098665967 : ℝ) / 30595958450000) * Real.pi) := by
    linarith only [hcos.1, heup.1, heup.2.1, heup.2.2.1, heup.2.2.2, helo.1, helo.2.1, helo.2.2.1, helo.2.2.2, hu1, hu2]
  have hC5b : Real.cos (((209098665967 : ℝ) / 30595958450000) * Real.pi) ≤ (0.99976952306719 : ℝ) := by
    linarith only [hcos.2, heup.1, heup.2.1, heup.2.2.1, heup.2.2.2, helo.1, helo.2.1, helo.2.2.1, helo.2.2.2, hu1, hu2]
  have p1 : Real.sqrt 3 * (Real.sin (((209098665967 : ℝ) / 30595958450000) * Real.pi)) ≤ Real.sqrt 3 * (0.02146859906978 : ℝ) := mul_le_mul_of_nonneg_left hS5b (Real.sqrt_nonneg 3)
  have p2 : Real.sqrt 3 * (0.02146859906978 : ℝ) ≤ (1.732050807568878 : ℝ) * (0.02146859906978 : ℝ) := mul_le_mul_of_nonneg_right sqrt3_tight.2 (by norm_num)
  have p3 : Real.sqrt 3 * (0.02146859906976 : ℝ) ≤ Real.sqrt 3 * (Real.sin (((209098665967 : ℝ) / 30595958450000) * Real.pi)) := mul_le_mul_of_nonneg_left hS5a (Real.sqrt_nonneg 3)
  have p4 : (1.732050807568877 : ℝ) * (0.02146859906976 : ℝ) ≤ Real.sqrt 3 * (0.02146859906976 : ℝ) := mul_le_mul_of_nonneg_right sqrt3_tight.1 (by norm_num)
  constructor
  · linarith only [hS5a, hS5b, hC5a, hC5b, p1, p2, p3, p4]
  · linarith only [hS5a, hS5b, hC5a, hC5b, p1, p2, p3, p4]

set_option maxHeartbeats 1000000 in
theorem sinp_Ms_1533p :
    (-0.37889070231787 : ℝ) ≤ Real.sin (toRadians (nmSunAnomaly 1533)) ∧ Real.sin (toRadians (nmSunAnomaly 1533)) ≤ (-0.37889070231772 : ℝ) := by
  rw [sin_toRadians_decomp (nmSunAnomaly 1533) 11 ((487855141681791930433 : ℝ) / 11352783362664750000000) 124
    (by simp only [nmSunAnomaly, nmT]; push_cast; norm_num), sin_lat11, cos_lat11]
  have hp1 := Real.pi_gt_d20
  have hp2 := Real.pi_lt_d20
  have hu1 : (0.13500144239198 : ℝ) ≤ ((487855141681791930433 : ℝ) / 11352783362664750000000) * Real.pi := by linarith only [hp1, hp2]
  have hu2 : ((487855141681791930433 : ℝ) / 11352783362664750000000) * Real.pi ≤ (0.13500144239199 : ℝ) := by linarith only [hp1, hp2]
  have habs : |((487855141681791930433 : ℝ) / 11352783362664750000000) * Real.pi| ≤ (0.13500144239199 : ℝ) := abs_le.mpr ⟨by linarith only [hu1, hu2], by linarith only [hu1, hu2]⟩
  have hsin := sin_small9 (((487855141681791930433 : ℝ) / 11352783362664750000000) * Real.pi) (0.13500144239199 : ℝ) (0.0000000000000456079062672962 : ℝ) habs (by norm_num) (by norm_num)
  have hodd := pow_bounds_odd (((487855141681791930433 : ℝ) / 11352783362664750000000) * Real.pi) (0.13500144239198 : ℝ) (0.13500144239199 : ℝ) hu1 hu2
  have hS5a : (0.13459174027525 : ℝ) ≤ Real.sin (((487855141681791930433 : ℝ) / 11352783362664750000000) * Real.pi) := by
    linarith only [hsin.1, hodd.1, hodd.2.1, hodd.2.2.1, hodd.2.2.2.1, hodd.2.2.2.2.1, hodd.2.2.2.2.2, hu1, hu2]
  have hS5b : Real.sin (((487855141681791930433 : ℝ) / 11352783362664750000000) * Real.pi) ≤ (0.13459174027536 : ℝ) := by
    linarith only [hsin.2, hodd.1, hodd.2.1, hodd.2.2.1, hodd.2.2.2.1, hodd.2.2.2.2.1, hodd.2.2.2.2.2, hu1, hu2]
  have hcos := cos_small9 (((487855141681791930433 : ℝ) / 11352783362664750000000) * Real.pi) (0.13500144239199 : ℝ) (0.0000000000000456079062672962 : ℝ) habs (by norm_num) (by norm_num)
  have heup := pow_even_upper (((487855141681791930433 : ℝ) / 11352783362664750000000) * Real.pi) (0.13500144239199 : ℝ) habs
  have helo := pow_even_lower_pos (((487855141681791930433 : ℝ) / 11352783362664750000000) * Real.pi) (0.13500144239198 : ℝ) hu1 (by norm_num)
  have hC5a : (0.99090113707148 : ℝ) ≤ Real.cos (((487855141681791930433 : ℝ) / 11352783362664750000000) * Real.pi) := by
    linarith only [hcos.1, heup.1, heup.2.1, heup.2.2.1, heup.2.2.2, helo.1, helo.2.1, helo.2.2.1, helo.2.2.2, hu1, hu2]
  have hC5b : Real.cos (((487855141681791930433 : ℝ) / 11352783362664750000000) * Real.pi) ≤ (0.99090113707158 : ℝ) := by
    linarith only [hcos.2, heup.1, heup.2.1, heup.2.2.1, heup.2.2.2, helo.1, helo.2.1, helo.2.2.1, helo.2.2.2, hu1, hu2]
  have p1 : Real.sqrt 3 * (Real.sin (((487855141681791930433 : ℝ) / 11352783362664750000000) * Real.pi)) ≤ Real.sqrt 3 * (0.13459174027536 : ℝ) := mul_le_mul_of_nonneg_left hS5b (Real.sqrt_nonneg 3)
  have p2 : Real.sqrt 3 * (0.13459174027536 : ℝ) ≤ (1.732050807568878 : ℝ) * (0.13459174027536 : ℝ) := mul_le_mul_of_nonneg_right sqrt3_tight.2 (by norm_num)
  have p3 : Real.sqrt 3 * (0.13459174027525 : ℝ) ≤ Real.sqrt 3 * (Real.sin (((487855141681791930433 : ℝ) / 11352783362664750000000) * Real.pi)) := mul_le_mul_of_nonneg_left hS5a (Real.sqrt_nonneg 3)
  have p4 : (1.732050807568877 : ℝ) * (0.13459174027525 : ℝ) ≤ Real.sqrt 3 * (0.13459174027525 : ℝ) := mul_le_mul_of_nonneg_right sqrt3_tight.1 (by norm_num)
  constructor
  · linarith only [hS5a, hS5b, hC5a, hC5b, p1, p2, p3, p4]
  · linarith only [hS5a, hS5b, hC5a, hC5b, p1, p2, p3, p4]

set_option maxHeartbeats 1000000 in
theorem sinp_2Ms_1533p :
    (-0.70128230483203 : ℝ) ≤ Real.sin (2 * toRadians (nmSunAnomaly 1533)) ∧ Real.sin (2 * toRadians (nmSunAnomaly 1533)) ≤ (-0.70128230479571 : ℝ) := by
  rw [two_mul_toRadians (nmSunAnomaly 1533)]
  rw [sin_toRadians_decomp (2 * (nmSunAnomaly 1533)) 11 ((-458210138540270569567 : ℝ) / 5676391681332375000000) 249
    (by simp only [nmSunAnomaly, nmT]; push_cast; norm_num), sin_lat11, cos_lat11]
  have hp1 := Real.pi_gt_d20
  have hp2 := Real.pi_lt_d20
  have hu1 : (-0.25359589081432 : ℝ) ≤ ((-458210138540270569567 : ℝ) / 5676391681332375000000) * Real.pi := by linarith only [hp1, hp2]
  have hu2 : ((-458210138540270569567 : ℝ) / 5676391681332375000000) * Real.pi ≤ (-0.25359589081431 : ℝ) := by linarith only [hp1, hp2]
  have habs : |((-458210138540270569567 : ℝ) / 5676391681332375000000) * Real.pi| ≤ (0.25359589081432 : ℝ) := abs_le.mpr ⟨by linarith only [hu1, hu2], by linarith only [hu1, hu2]⟩
  have hsin := sin_small9 (((-458210138540270569567 : ℝ) / 5676391681332375000000) * Real.pi) (0.25359589081432 : ℝ) (0.0000000000132823330730545245 : ℝ) habs (by norm_num) (by norm_num)
  have hodd := pow_bounds_odd (((-458210138540270569567 : ℝ) / 5676391681332375000000) * Real.pi) (-0.25359589081432 : ℝ) (-0.25359589081431 : ℝ) hu1 hu2
  have hS5a : (-0.25088645550633 : ℝ) ≤ Real.sin (((-458210138540270569567 : ℝ) / 5676391681332375000000) * Real.pi) := by
    linarith only [hsin.1, hodd.1, hodd.2.1, hodd.2.2.1, hodd.2.2.2.1, hodd.2.2.2.2.1, hodd.2.2.2.2.2, hu1, hu2]
  have hS5b : Real.sin (((-458210138540270569567 : ℝ) / 5676391681332375000000) * Real.pi) ≤ (-0.25088645547974 : ℝ) := by
    linarith only [hsin.2, hodd.1, hodd.2.1, hodd.2.2.1, hodd.2.2.2.1, hodd.2.2.2.2.1, hodd.2.2.2.2.2, hu1, hu2]
  have hcos := cos_small9 (((-458210138540270569567 : ℝ) / 5676391681332375000000) * Real.pi) (0.25359589081432 : ℝ) (0.0000000000132823330730545245 : ℝ) habs (by norm_num) (by norm_num)
  have heup := pow_even_upper (((-458210138540270569567 : ℝ) / 5676391681332375000000) * Real.pi) (0.25359589081432 : ℝ) habs
  have helo := pow_even_lower_neg (((-458210138540270569567 : ℝ) / 5676391681332375000000) * Real.pi) (-0.25359589081431 : ℝ) hu2 (by norm_num)
  have hC5a : (0.96801652176965 : ℝ) ≤ Real.cos (((-458210138540270569567 : ℝ) / 5676391681332375000000) * Real.pi) := by
    linarith only [hcos.1, heup.1, heup.2.1, heup.2.2.1, heup.2.2.2, helo.1, helo.2.1, helo.2.2.1, helo.2.2.2, hu1, hu2]
  have hC5b : Real.cos (((-458210138540270569567 : ℝ) / 5676391681332375000000) * Real.pi) ≤ (0.96801652179622 : ℝ) := by
    linarith only [hcos.2, heup.1, heup.2.1, heup.2.2.1, heup.2.2.2, helo.1, helo.2.1, helo.2.2.1, helo.2.2.2, hu1, hu2]
  have p1 : Real.sqrt 3 * (Real.sin (((-458210138540270569567 : ℝ) / 5676391681332375000000) * Real.pi)) ≤ Real.sqrt 3 * (-0.25088645547974 : ℝ) := mul_le_mul_of_nonneg_left hS5b (Real.sqrt_nonneg 3)
  have p2 : Real.sqrt 3 * (-0.25088645547974 : ℝ) ≤ (1.732050807568877 : ℝ) * (-0.25088645547974 : ℝ) := mul_le_mul_of_nonpos_right sqrt3_tight.1 (by norm_num)
  have p3 : Real.sqrt 3 * (-0.25088645550633 : ℝ) ≤ Real.sqrt 3 * (Real.sin (((-458210138540270569567 : ℝ) / 5676391681332375000000) * Real.pi)) := mul_le_mul_of_nonneg_left hS5a (Real.sqrt_nonneg 3)
  have p4 : (1.732050807568878 : ℝ) * (-0.25088645550633 : ℝ) ≤ Real.sqrt 3 * (-0.25088645550633 : ℝ) := mul_le_mul_of_nonpos_right sqrt3_tight.2 (by norm_num)
  constructor
  · linarith only [hS5a, hS5b, hC5a, hC5b, p1, p2, p3, p4]
  · linarith only [hS5a, hS5b, hC5a, hC5b, p1, p2, p3, p4]

set_option maxHeartbeats 1000000 in
theorem sinp_Mm_1533p :
    (-0.97286804621723 : ℝ) ≤ Real.sin (toRadians (nmMoonAnomaly 1533)) ∧ Real.sin (toRadians (nmMoonAnomaly 1533)) ≤ (-0.97286804620459 : ℝ) := by
  rw [sin_toRadians_decomp (nmMoonAnomaly 1533) 9 ((10124558998725566828347 : ℝ) / 136233400351977000000000) 1643
    (by simp only [nmMoonAnomaly, nmT]; push_cast; norm_num), sin_lat9, cos_lat9]
  have hp1 := Real.pi_gt_d20
  have hp2 := Real.pi_lt_d20
  have hu1 : (0.23347607920711 : ℝ) ≤ ((10124558998725566828347 : ℝ) / 136233400351977000000000) * Real.pi := by linarith only [hp1, hp2]
  have hu2 : ((10124558998725566828347 : ℝ) / 136233400351977000000000) * Real.pi ≤ (0.23347607920712 : ℝ) := by linarith only [hp1, hp2]
  have habs : |((10124558998725566828347 : ℝ) / 136233400351977000000000) * Real.pi| ≤ (0.23347607920712 : ℝ) := abs_le.mpr ⟨by linarith only [hu1, hu2], by linarith only [hu1, hu2]⟩
  have hcos := cos_small9 (((10124558998725566828347 : ℝ) / 136233400351977000000000) * Real.pi) (0.23347607920712 : ℝ) (0.0000000000063121306805217184 : ℝ) habs (by norm_num) (by norm_num)
  have heup := pow_even_upper (((10124558998725566828347 : ℝ) / 136233400351977000000000) * Real.pi) (0.23347607920712 : ℝ) habs
  have helo := pow_even_lower_pos (((10124558998725566828347 : ℝ) / 136233400351977000000000) * Real.pi) (0.23347607920711 : ℝ) hu1 (by norm_num)
  have hC5a : (0.97286804620459 : ℝ) ≤ Real.cos (((10124558998725566828347 : ℝ) / 136233400351977000000000) * Real.pi) := by
    linarith only [hcos.1, heup.1, heup.2.1, heup.2.2.1, heup.2.2.2, helo.1, helo.2.1, helo.2.2.1, helo.2.2.2, hu1, hu2]
  have hC5b : Real.cos (((10124558998725566828347 : ℝ) / 136233400351977000000000) * Real.pi) ≤ (0.97286804621723 : ℝ) := by
    linarith only [hcos.2, heup.1, heup.2.1, heup.2.2.1, heup.2.2.2, helo.1, helo.2.1, helo.2.2.1, helo.2.2.2, hu1, hu2]
  constructor
  · linarith only [hC5a, hC5b]
  · linarith only [hC5a, hC5b]

set_option maxHeartbeats 1000000 in
theorem sinp_2Mm_1533p :
    (-0.4501668271755 : ℝ) ≤ Real.sin (2 * toRadians (nmMoonAnomaly 1533)) ∧ Real.sin (2 * toRadians (nmMoonAnomaly 1533)) ≤ (-0.45016682717547 : ℝ) := by
  rw [two_mul_toRadians (nmMoonAnomaly 1533)]
  rw [sin_toRadians_decomp (2 * (nmMoonAnomaly 1533)) 7 ((-1228224363939183171653 : ℝ) / 68116700175988500000000) 3287
    (by simp only [nmMoonAnomaly, nmT]; push_cast; norm_num), sin_lat7, cos_lat7]
  have hp1 := Real.pi_gt_d20
  have hp2 := Real.pi_lt_d20
  have hu1 : (-0.05664661718408 : ℝ) ≤ ((-1228224363939183171653 : ℝ) / 68116700175988500000000) * Real.pi := by linarith only [hp1, hp2]
  have hu2 : ((-1228224363939183171653 : ℝ) / 68116700175988500000000) * Real.pi ≤ (-0.05664661718407 : ℝ) := by linarith only [hp1, hp2]
  have habs : |((-1228224363939183171653 : ℝ) / 68116700175988500000000) * Real.pi| ≤ (0.05664661718408 : ℝ) := abs_le.mpr ⟨by linarith only [hu1, hu2], by linarith only [hu1, hu2]⟩
  have hsin := sin_small9 (((-1228224363939183171653 : ℝ) / 68116700175988500000000) * Real.pi) (0.05664661718408 : ℝ) (0.0000000000000000183890916007 : ℝ) habs (by norm_num) (by norm_num)
  have hodd := pow_bounds_odd (((-1228224363939183171653 : ℝ) / 68116700175988500000000) * Real.pi) (-0.05664661718408 : ℝ) (-0.05664661718407 : ℝ) hu1 hu2
  have hS5a : (-0.05661632706298 : ℝ) ≤ Real.sin (((-1228224363939183171653 : ℝ) / 68116700175988500000000) * Real.pi) := by
    linarith only [hsin.1, hodd.1, hodd.2.1, hodd.2.2.1, hodd.2.2.2.1, hodd.2.2.2.2.1, hodd.2.2.2.2.2, hu1, hu2]
  have hS5b : Real.sin (((-1228224363939183171653 : ℝ) / 68116700175988500000000) * Real.pi) ≤ (-0.05661632706296 : ℝ) := by
    linarith only [hsin.2, hodd.1, hodd.2.1, hodd.2.2.1, hodd.2.2.2.1, hodd.2.2.2.2.1, hodd.2.2.2.2.2, hu1, hu2]
  have hcos := cos_small9 (((-1228224363939183171653 : ℝ) / 68116700175988500000000) * Real.pi) (0.05664661718408 : ℝ) (0.0000000000000000183890916007 : ℝ) habs (by norm_num) (by norm_num)
  have heup := pow_even_upper (((-1228224363939183171653 : ℝ) / 68116700175988500000000) * Real.pi) (0.05664661718408 : ℝ) habs
  have helo := pow_even_lower_neg (((-1228224363939183171653 : ℝ) / 68116700175988500000000) * Real.pi) (-0.05664661718407 : ℝ) hu2 (by norm_num)
  have hC5a : (0.99839600936196 : ℝ) ≤ Real.cos (((-1228224363939183171653 : ℝ) / 68116700175988500000000) * Real.pi) := by
    linarith only [hcos.1, heup.1, heup.2.1, heup.2.2.1, heup.2.2.2, helo.1, helo.2.1, helo.2.2.1, helo.2.2.2, hu1, hu2]
  have hC5b : Real.cos (((-1228224363939183171653 : ℝ) / 68116700175988500000000) * Real.pi) ≤ (0.99839600936197 : ℝ) := by
    linarith only [hcos.2, heup.1, heup.2.1, heup.2.2.1, heup.2.2.2, helo.1, helo.2.1, helo.2.2.1, helo.2.2.2, hu1, hu2]
  have p1 : Real.sqrt 3 * (Real.sin (((-1228224363939183171653 : ℝ) / 68116700175988500000000) * Real.pi)) ≤ Real.sqrt 3 * (-0.05661632706296 : ℝ) := mul_le_mul_of_nonneg_left hS5b (Real.sqrt_nonneg 3)
  have p2 : Real.sqrt 3 * (-0.05661632706296 : ℝ) ≤ (1.732050807568877 : ℝ) * (-0.05661632706296 : ℝ) := mul_le_mul_of_nonpos_right sqrt3_tight.1 (by norm_num)
  have p3 : Real.sqrt 3 * (-0.05661632706298 : ℝ) ≤ Real.sqrt 3 * (Real.sin (((-1228224363939183171653 : ℝ) / 68116700175988500000000) * Real.pi)) := mul_le_mul_of_nonneg_left hS5a (Real.sqrt_nonneg 3)
  have p4 : (1.732050807568878 : ℝ) * (-0.05661632706298 : ℝ) ≤ Real.sqrt 3 * (-0.05661632706298 : ℝ) := mul_le_mul_of_nonpos_right sqrt3_tight.2 (by norm_num)
  constructor
  · linarith only [hS5a, hS5b, hC5a, hC5b, p1, p2, p3, p4]
  · linarith only [hS5a, hS5b, hC5a, hC5b, p1, p2, p3, p4]

set_option maxHeartbeats 1000000 in
theorem sinp_3Mm_1533p :
    (0.76456623891119 : ℝ) ≤ Real.sin (3 * toRadians (nmMoonAnomaly 1533)) ∧ Real.sin (3 * toRadians (nmMoonAnomaly 1533)) ≤ (0.76456623891264 : ℝ) := by
  rw [three_mul_toRadians (nmMoonAnomaly 1533)]
  rw [sin_toRadians_decomp (3 * (nmMoonAnomaly 1533)) 4 ((852012252316355609449 : ℝ) / 15137044483553000000000) 4931
    (by simp only [nmMoonAnomaly, nmT]; push_cast; norm_num), sin_lat4, cos_lat4]
  have hp1 := Real.pi_gt_d20
  have hp2 := Real.pi_lt_d20
  have hu1 : (0.17682946202304 : ℝ) ≤ ((852012252316355609449 : ℝ) / 15137044483553000000000) * Real.pi := by linarith only [hp1, hp2]
  have hu2 : ((852012252316355609449 : ℝ) / 15137044483553000000000) * Real.pi ≤ (0.17682946202305 : ℝ) := by linarith only [hp1, hp2]
  have habs : |((852012252316355609449 : ℝ) / 15137044483553000000000) * Real.pi| ≤ (0.17682946202305 : ℝ) := abs_le.mpr ⟨by linarith only [hu1, hu2], by linarith only [hu1, hu2]⟩
  have hsin := sin_small9 (((852012252316355609449 : ℝ) / 15137044483553000000000) * Real.pi) (0.17682946202305 : ℝ) (0.000000000000517590252111881 : ℝ) habs (by norm_num) (by norm_num)
  have hodd := pow_bounds_odd (((852012252316355609449 : ℝ) / 15137044483553000000000) * Real.pi) (0.17682946202304 : ℝ) (0.17682946202305 : ℝ) hu1 hu2
  have hS5a : (0.17590936502978 : ℝ) ≤ Real.sin (((852012252316355609449 : ℝ) / 15137044483553000000000) * Real.pi) := by
    linarith only [hsin.1, hodd.1, hodd.2.1, hodd.2.2.1, hodd.2.2.2.1, hodd.2.2.2.2.1, hodd.2.2.2.2.2, hu1, hu2]
  have hS5b : Real.sin (((852012252316355609449 : ℝ) / 15137044483553000000000) * Real.pi) ≤ (0.17590936503084 : ℝ) := by
    linarith only [hsin.2, hodd.1, hodd.2.1, hodd.2.2.1, hodd.2.2.2.1, hodd.2.2.2.2.1, hodd.2.2.2.2.2, hu1, hu2]
  have hcos := cos_small9 (((852012252316355609449 : ℝ) / 15137044483553000000000) * Real.pi) (0.17682946202305 : ℝ) (0.000000000000517590252111881 : ℝ) habs (by norm_num) (by norm_num)
  have heup := pow_even_upper (((852012252316355609449 : ℝ) / 15137044483553000000000) * Real.pi) (0.17682946202305 : ℝ) habs
  have helo := pow_even_lower_pos (((852012252316355609449 : ℝ) / 15137044483553000000000) * Real.pi) (0.17682946202304 : ℝ) hu1 (by norm_num)
  have hC5a : (0.98440636695089 : ℝ) ≤ Real.cos (((852012252316355609449 : ℝ) / 15137044483553000000000) * Real.pi) := by
    linarith only [hcos.1, heup.1, heup.2.1, heup.2.2.1, heup.2.2.2, helo.1, helo.2.1, helo.2.2.1, helo.2.2.2, hu1, hu2]
  have hC5b : Real.cos (((852012252316355609449 : ℝ) / 15137044483553000000000) * Real.pi) ≤ (0.98440636695194 : ℝ) := by
    linarith only [hcos.2, heup.1, heup.2.1, heup.2.2.1, heup.2.2.2, helo.1, helo.2.1, helo.2.2.1, helo.2.2.2, hu1, hu2]
  have q1 : Real.sqrt 3 * (Real.cos (((852012252316355609449 : ℝ) / 15137044483553000000000) * Real.pi)) ≤ Real.sqrt 3 * (0.98440636695194 : ℝ) := mul_le_mul_of_nonneg_left hC5b (Real.sqrt_nonneg 3)
  have q2 : Real.sqrt 3 * (0.98440636695194 : ℝ) ≤ (1.732050807568878 : ℝ) * (0.98440636695194 : ℝ) := mul_le_mul_of_nonneg_right sqrt3_tight.2 (by norm_num)
  have q3 : Real.sqrt 3 * (0.98440636695089 : ℝ) ≤ Real.sqrt 3 * (Real.cos (((852012252316355609449 : ℝ) / 15137044483553000000000) * Real.pi)) := mul_le_mul_of_nonneg_left hC5a (Real.sqrt_nonneg 3)
  have q4 : (1.732050807568877 : ℝ) * (0.98440636695089 : ℝ) ≤ Real.sqrt 3 * (0.98440636695089 : ℝ) := mul_le_mul_of_nonneg_right sqrt3_tight.1 (by norm_num)
  constructor
  · linarith only [hS5a, hS5b, hC5a, hC5b, q1, q2, q3, q4]
  · linarith only [hS5a, hS5b, hC5a, hC5b, q1, q2, q3, q4]

set_option maxHeartbeats 1000000 in
theorem sinp_2F_1533p :
    (0.87997610262896 : ℝ) ≤ Real.sin (2 * toRadians (nmMoonArgLat 1533)) ∧ Real.sin (2 * toRadians (nmMoonArgLat 1533)) ≤ (0.87997610262899 : ℝ) := by
  rw [two_mul_toRadians (nmMoonArgLat 1533)]
  rw [sin_toRadians_decomp (2 * (nmMoonArgLat 1533)) 4 ((-206807452497064891691 : ℝ) / 22705566725329500000000) 3327
    (by simp only [nmMoonArgLat, nmT]; push_cast; norm_num), sin_lat4, cos_lat4]
  have hp1 := Real.pi_gt_d20
  have hp2 := Real.pi_lt_d20
  have hu1 : (-0.02861433855988 : ℝ) ≤ ((-206807452497064891691 : ℝ) / 22705566725329500000000) * Real.pi := by linarith only [hp1, hp2]
  have hu2 : ((-206807452497064891691 : ℝ) / 22705566725329500000000) * Real.pi ≤ (-0.02861433855987 : ℝ) := by linarith only [hp1, hp2]
  have habs : |((-206807452497064891691 : ℝ) / 22705566725329500000000) * Real.pi| ≤ (0.02861433855988 : ℝ) := abs_le.mpr ⟨by linarith only [hu1, hu2], by linarith only [hu1, hu2]⟩
  have hsin := sin_small9 (((-206807452497064891691 : ℝ) / 22705566725329500000000) * Real.pi) (0.02861433855988 : ℝ) (0.0000000000000000000393774746 : ℝ) habs (by norm_num) (by norm_num)
  have hodd := pow_bounds_odd (((-206807452497064891691 : ℝ) / 22705566725329500000000) * Real.pi) (-0.02861433855988 : ℝ) (-0.02861433855987 : ℝ) hu1 hu2
  have hS5a : (-0.02861043390995 : ℝ) ≤ Real.sin (((-206807452497064891691 : ℝ) / 22705566725329500000000) * Real.pi) := by
    linarith only [hsin.1, hodd.1, hodd.2.1, hodd.2.2.1, hodd.2.2.2.1, hodd.2.2.2.2.1, hodd.2.2.2.2.2, hu1, hu2]
  have hS5b : Real.sin (((-206807452497064891691 : ℝ) / 22705566725329500000000) * Real.pi) ≤ (-0.02861043390993 : ℝ) := by
    linarith only [hsin.2, hodd.1, hodd.2.1, hodd.2.2.1, hodd.2.2.2.1, hodd.2.2.2.2.1, hodd.2.2.2.2.2, hu1, hu2]
  have hcos := cos_small9 (((-206807452497064891691 : ℝ) / 22705566725329500000000) * Real.pi) (0.02861433855988 : ℝ) (0.0000000000000000000393774746 : ℝ) habs (by norm_num) (by norm_num)
  have heup := pow_even_upper (((-206807452497064891691 : ℝ) / 22705566725329500000000) * Real.pi) (0.02861433855988 : ℝ) habs
  have helo := pow_even_lower_neg (((-206807452497064891691 : ℝ) / 22705566725329500000000) * Real.pi) (-0.02861433855987 : ℝ) hu2 (by norm_num)
  have hC5a : (0.99959063774701 : ℝ) ≤ Real.cos (((-206807452497064891691 : ℝ) / 22705566725329500000000) * Real.pi) := by
    linarith only [hcos.1, heup.1, heup.2.1, heup.2.2.1, heup.2.2.2, helo.1, helo.2.1, helo.2.2.1, helo.2.2.2, hu1, hu2]
  have hC5b : Real.cos (((-206807452497064891691 : ℝ) / 22705566725329500000000) * Real.pi) ≤ (0.99959063774702 : ℝ) := by
    linarith only [hcos.2, heup.1, heup.2.1, heup.2.2.1, heup.2.2.2, helo.1, helo.2.1, helo.2.2.1, helo.2.2.2, hu1, hu2]
  have q1 : Real.sqrt 3 * (Real.cos (((-206807452497064891691 : ℝ) / 22705566725329500000000) * Real.pi)) ≤ Real.sqrt 3 * (0.99959063774702 : ℝ) := mul_le_mul_of_nonneg_left hC5b (Real.sqrt_nonneg 3)
  have q2 : Real.sqrt 3 * (0.99959063774702 : ℝ) ≤ (1.732050807568878 : ℝ) * (0.99959063774702 : ℝ) := mul_le_mul_of_nonneg_right sqrt3_tight.2 (by norm_num)
  have q3 : Real.sqrt 3 * (0.99959063774701 : ℝ) ≤ Real.sqrt 3 * (Real.cos (((-206807452497064891691 : ℝ) / 22705566725329500000000) * Real.pi)) := mul_le_mul_of_nonneg_left hC5a (Real.sqrt_nonneg 3)
  have q4 : (1.732050807568877 : ℝ) * (0.99959063774701 : ℝ) ≤ Real.sqrt 3 * (0.99959063774701 : ℝ) := mul_le_mul_of_nonneg_right sqrt3_tight.1 (by norm_num)
  constructor
  · linarith only [hS5a, hS5b, hC5a, hC5b, q1, q2, q3, q4]
  · linarith only [hS5a, hS5b, hC5a, hC5b, q1, q2, q3, q4]

set_option maxHeartbeats 1000000 in
theorem sinp_MspMm_1533p :
    (-0.98799280430688 : ℝ) ≤ Real.sin (toRadians (nmSunAnomaly 1533 + nmMoonAnomaly 1533)) ∧ Real.sin (toRadians (nmSunAnomaly 1533 + nmMoonAnomaly 1533)) ≤ (-0.98799280430655 : ℝ) := by
  rw [sin_toRadians_decomp (nmSunAnomaly 1533 + nmMoonAnomaly 1533) 9 ((-6726746026422430006457 : ℝ) / 136233400351977000000000) 1768
    (by simp only [nmSunAnomaly, nmMoonAnomaly, nmT]; push_cast; norm_num), sin_lat9, cos_lat9]
  have hp1 := Real.pi_gt_d20
  have hp2 := Real.pi_lt_d20
  have hu1 : (-0.1551212539992 : ℝ) ≤ ((-6726746026422430006457 : ℝ) / 136233400351977000000000) * Real.pi := by linarith only [hp1, hp2]
  have hu2 : ((-6726746026422430006457 : ℝ) / 136233400351977000000000) * Real.pi ≤ (-0.15512125399919 : ℝ) := by linarith only [hp1, hp2]
  have habs : |((-6726746026422430006457 : ℝ) / 136233400351977000000000) * Real.pi| ≤ (0.1551212539992 : ℝ) := abs_le.mpr ⟨by linarith only [hu1, hu2], by linarith only [hu1, hu2]⟩
  have hcos := cos_small9 (((-6726746026422430006457 : ℝ) / 136233400351977000000000) * Real.pi) (0.1551212539992 : ℝ) (0.0000000000001592341522031461 : ℝ) habs (by norm_num) (by norm_num)
  have heup := pow_even_upper (((-6726746026422430006457 : ℝ) / 136233400351977000000000) * Real.pi) (0.1551212539992 : ℝ) habs
  have helo := pow_even_lower_neg (((-6726746026422430006457 : ℝ) / 136233400351977000000000) * Real.pi) (-0.15512125399919 : ℝ) hu2 (by norm_num)
  have hC5a : (0.98799280430655 : ℝ) ≤ Real.cos (((-6726746026422430006457 : ℝ) / 136233400351977000000000) * Real.pi) := by
    linarith only [hcos.1, heup.1, heup.2.1, heup.2.2.1, heup.2.2.2, helo.1, helo.2.1, helo.2.2.1, helo.2.2.2, hu1, hu2]
  have hC5b : Real.cos (((-6726746026422430006457 : ℝ) / 136233400351977000000000) * Real.pi) ≤ (0.98799280430688 : ℝ) := by
    linarith only [hcos.2, heup.1, heup.2.1, heup.2.2.1, heup.2.2.2, helo.1, helo.2.1, helo.2.2.1, helo.2.2.2, hu1, hu2]
  constructor
  · linarith only [hC5a, hC5b]
  · linarith only [hC5a, hC5b]

set_option maxHeartbeats 1000000 in
theorem sinp_MsmMm_1533p :
    (0.81267198256422 : ℝ) ≤ Real.sin (toRadians (nmSunAnomaly 1533 - nmMoonAnomaly 1533)) ∧ Real.sin (toRadians (nmSunAnomaly 1533 - nmMoonAnomaly 1533)) ≤ (0.81267198256425 : ℝ) := by
  rw [sin_toRadians_decomp (nmSunAnomaly 1533 - nmMoonAnomaly 1533) 2 ((-4270297298544063663151 : ℝ) / 136233400351977000000000) (-1519)
    (by simp only [nmSunAnomaly, nmMoonAnomaly, nmT]; push_cast; norm_num), sin_lat2, cos_lat2]
  have hp1 := Real.pi_gt_d20
  have hp2 := Real.pi_lt_d20
  have hu1 : (-0.09847463681513 : ℝ) ≤ ((-4270297298544063663151 : ℝ) / 136233400351977000000000) * Real.pi := by linarith only [hp1, hp2]
  have hu2 : ((-4270297298544063663151 : ℝ) / 136233400351977000000000) * Real.pi ≤ (-0.09847463681512 : ℝ) := by linarith only [hp1, hp2]
  have habs : |((-4270297298544063663151 : ℝ) / 136233400351977000000000) * Real.pi| ≤ (0.09847463681513 : ℝ) := abs_le.mpr ⟨by linarith only [hu1, hu2], by linarith only [hu1, hu2]⟩
  have hsin := sin_small9 (((-4270297298544063663151 : ℝ) / 136233400351977000000000) * Real.pi) (0.09847463681513 : ℝ) (0.0000000000000026663302971062 : ℝ) habs (by norm_num) (by norm_num)
  have hodd := pow_bounds_odd (((-4270297298544063663151 : ℝ) / 136233400351977000000000) * Real.pi) (-0.09847463681513 : ℝ) (-0.09847463681512 : ℝ) hu1 hu2
  have hS5a : (-0.09831555837007 : ℝ) ≤ Real.sin (((-4270297298544063663151 : ℝ) / 136233400351977000000000) * Real.pi) := by
    linarith only [hsin.1, hodd.1, hodd.2.1, hodd.2.2.1, hodd.2.2.2.1, hodd.2.2.2.2.1, hodd.2.2.2.2.2, hu1, hu2]
  have hS5b : Real.sin (((-4270297298544063663151 : ℝ) / 136233400351977000000000) * Real.pi) ≤ (-0.09831555837004 : ℝ) := by
    linarith only [hsin.2, hodd.1, hodd.2.1, hodd.2.2.1, hodd.2.2.2.1, hodd.2.2.2.2.1, hodd.2.2.2.2.2, hu1, hu2]
  have hcos := cos_small9 (((-4270297298544063663151 : ℝ) / 136233400351977000000000) * Real.pi) (0.09847463681513 : ℝ) (0.0000000000000026663302971062 : ℝ) habs (by norm_num) (by norm_num)
  have heup := pow_even_upper (((-4270297298544063663151 : ℝ) / 136233400351977000000000) * Real.pi) (0.09847463681513 : ℝ) habs
  have helo := pow_even_lower_neg (((-4270297298544063663151 : ℝ) / 136233400351977000000000) * Real.pi) (-0.09847463681512 : ℝ) hu2 (by norm_num)
  have hC5a : (0.99515528988313 : ℝ) ≤ Real.cos (((-4270297298544063663151 : ℝ) / 136233400351977000000000) * Real.pi) := by
    linarith only [hcos.1, heup.1, heup.2.1, heup.2.2.1, heup.2.2.2, helo.1, helo.2.1, helo.2.2.1, helo.2.2.2, hu1, hu2]
  have hC5b : Real.cos (((-4270297298544063663151 : ℝ) / 136233400351977000000000) * Real.pi) ≤ (0.99515528988314 : ℝ) := by
    linarith only [hcos.2, heup.1, heup.2.1, heup.2.2.1, heup.2.2.2, helo.1, helo.2.1, helo.2.2.1, helo.2.2.2, hu1, hu2]
  have q1 : Real.sqrt 3 * (Real.cos (((-4270297298544063663151 : ℝ) / 136233400351977000000000) * Real.pi)) ≤ Real.sqrt 3 * (0.99515528988314 : ℝ) := mul_le_mul_of_nonneg_left hC5b (Real.sqrt_nonneg 3)
  have q2 : Real.sqrt 3 * (0.99515528988314 : ℝ) ≤ (1.732050807568878 : ℝ) * (0.99515528988314 : ℝ) := mul_le_mul_of_nonneg_right sqrt3_tight.2 (by norm_num)
  have q3 : Real.sqrt 3 * (0.99515528988313 : ℝ) ≤ Real.sqrt 3 * (Real.cos (((-4270297298544063663151 : ℝ) / 136233400351977000000000) * Real.pi)) := mul_le_mul_of_nonneg_left hC5a (Real.sqrt_nonneg 3)
  have q4 : (1.732050807568877 : ℝ) * (0.99515528988313 : ℝ) ≤ Real.sqrt 3 * (0.99515528988313 : ℝ) := mul_le_mul_of_nonneg_right sqrt3_tight.1 (by norm_num)
  constructor
  · linarith only [hS5a, hS5b, hC5a, hC5b, q1, q2, q3, q4]
  · linarith only [hS5a, hS5b, hC5a, hC5b, q1, q2, q3, q4]

set_option maxHeartbeats 1000000 in
theorem sinp_2FpMs_1533p :
    (0.99434622763953 : ℝ) ≤ Real.sin (toRadians (2 * nmMoonArgLat 1533 + nmSunAnomaly 1533)) ∧ Real.sin (toRadians (2 * nmMoonArgLat 1533 + nmSunAnomaly 1533)) ≤ (0.99434622763956 : ℝ) := by
  rw [sin_toRadians_decomp (2 * nmMoonArgLat 1533 + nmSunAnomaly 1533) 3 ((10252037744886919589 : ℝ) / 302740889671060000000) 3452
    (by simp only [nmMoonArgLat, nmSunAnomaly, nmT]; push_cast; norm_num), sin_lat3, cos_lat3]
  have hp1 := Real.pi_gt_d20
  have hp2 := Real.pi_lt_d20
  have hu1 : (0.10638710383211 : ℝ) ≤ ((10252037744886919589 : ℝ) / 302740889671060000000) * Real.pi := by linarith only [hp1, hp2]
  have hu2 : ((10252037744886919589 : ℝ) / 302740889671060000000) * Real.pi ≤ (0.10638710383212 : ℝ) := by linarith only [hp1, hp2]
  have habs : |((10252037744886919589 : ℝ) / 302740889671060000000) * Real.pi| ≤ (0.10638710383212 : ℝ) := abs_le.mpr ⟨by linarith only [hu1, hu2], by linarith only [hu1, hu2]⟩
  have hcos := cos_small9 (((10252037744886919589 : ℝ) / 302740889671060000000) * Real.pi) (0.10638710383212 : ℝ) (0.0000000000000053455861646134 : ℝ) habs (by norm_num) (by norm_num)
  have heup := pow_even_upper (((10252037744886919589 : ℝ) / 302740889671060000000) * Real.pi) (0.10638710383212 : ℝ) habs
  have helo := pow_even_lower_pos (((10252037744886919589 : ℝ) / 302740889671060000000) * Real.pi) (0.10638710383211 : ℝ) hu1 (by norm_num)
  have hC5a : (0.99434622763953 : ℝ) ≤ Real.cos (((10252037744886919589 : ℝ) / 302740889671060000000) * Real.pi) := by
    linarith only [hcos.1, heup.1, heup.2.1, heup.2.2.1, heup.2.2.2, helo.1, helo.2.1, helo.2.2.1, helo.2.2.2, hu1, hu2]
  have hC5b : Real.cos (((10252037744886919589 : ℝ) / 302740889671060000000) * Real.pi) ≤ (0.99434622763956 : ℝ) := by
    linarith only [hcos.2, heup.1, heup.2.1, heup.2.2.1, heup.2.2.2, helo.1, helo.2.1, helo.2.2.1, helo.2.2.2, hu1, hu2]
  constructor
  · linarith only [hC5a, hC5b]
  · linarith only [hC5a, hC5b]

set_option maxHeartbeats 1000000 in
theorem sinp_2FmMs_1533p :
    (0.63438645349127 : ℝ) ≤ Real.sin (toRadians (2 * nmMoonArgLat 1533 - nmSunAnomaly 1533)) ∧ Real.sin (toRadians (2 * nmMoonArgLat 1533 - nmSunAnomaly 1533)) ≤ (0.634386453492 : ℝ) := by
  rw [sin_toRadians_decomp (2 * nmMoonArgLat 1533 - nmSunAnomaly 1533) 5 ((-1182517735860648752557 : ℝ) / 22705566725329500000000) 3202
    (by simp only [nmMoonArgLat, nmSunAnomaly, nmT]; push_cast; norm_num), sin_lat5, cos_lat5]
  have hp1 := Real.pi_gt_d20
  have hp2 := Real.pi_lt_d20
  have hu1 : (-0.16361578095187 : ℝ) ≤ ((-1182517735860648752557 : ℝ) / 22705566725329500000000) * Real.pi := by linarith only [hp1, hp2]
  have hu2 : ((-1182517735860648752557 : ℝ) / 22705566725329500000000) * Real.pi ≤ (-0.16361578095186 : ℝ) := by linarith only [hp1, hp2]
  have habs : |((-1182517735860648752557 : ℝ) / 22705566725329500000000) * Real.pi| ≤ (0.16361578095187 : ℝ) := abs_le.mpr ⟨by linarith only [hu1, hu2], by linarith only [hu1, hu2]⟩
  have hsin := sin_small9 (((-1182517735860648752557 : ℝ) / 22705566725329500000000) * Real.pi) (0.16361578095187 : ℝ) (0.0000000000002572889675428378 : ℝ) habs (by norm_num) (by norm_num)
  have hodd := pow_bounds_odd (((-1182517735860648752557 : ℝ) / 22705566725329500000000) * Real.pi) (-0.16361578095187 : ℝ) (-0.16361578095186 : ℝ) hu1 hu2
  have hS5a : (-0.16288675499082 : ℝ) ≤ Real.sin (((-1182517735860648752557 : ℝ) / 22705566725329500000000) * Real.pi) := by
    linarith only [hsin.1, hodd.1, hodd.2.1, hodd.2.2.1, hodd.2.2.2.1, hodd.2.2.2.2.1, hodd.2.2.2.2.2, hu1, hu2]
  have hS5b : Real.sin (((-1182517735860648752557 : ℝ) / 22705566725329500000000) * Real.pi) ≤ (-0.16288675499029 : ℝ) := by
    linarith only [hsin.2, hodd.1, hodd.2.1, hodd.2.2.1, hodd.2.2.2.1, hodd.2.2.2.2.1, hodd.2.2.2.2.2, hu1, hu2]
  have hcos := cos_small9 (((-1182517735860648752557 : ℝ) / 22705566725329500000000) * Real.pi) (0.16361578095187 : ℝ) (0.0000000000002572889675428378 : ℝ) habs (by norm_num) (by norm_num)
  have heup := pow_even_upper (((-1182517735860648752557 : ℝ) / 22705566725329500000000) * Real.pi) (0.16361578095187 : ℝ) habs
  have helo := pow_even_lower_neg (((-1182517735860648752557 : ℝ) / 22705566725329500000000) * Real.pi) (-0.16361578095186 : ℝ) hu2 (by norm_num)
  have hC5a : (0.98664477145934 : ℝ) ≤ Real.cos (((-1182517735860648752557 : ℝ) / 22705566725329500000000) * Real.pi) := by
    linarith only [hcos.1, heup.1, heup.2.1, heup.2.2.1, heup.2.2.2, helo.1, helo.2.1, helo.2.2.1, helo.2.2.2, hu1, hu2]
  have hC5b : Real.cos (((-1182517735860648752557 : ℝ) / 22705566725329500000000) * Real.pi) ≤ (0.98664477145987 : ℝ) := by
    linarith only [hcos.2, heup.1, heup.2.1, heup.2.2.1, heup.2.2.2, helo.1, helo.2.1, helo.2.2.1, helo.2.2.2, hu1, hu2]
  have p1 : Real.sqrt 3 * (Real.sin (((-1182517735860648752557 : ℝ) / 22705566725329500000000) * Real.pi)) ≤ Real.sqrt 3 * (-0.16288675499029 : ℝ) := mul_le_mul_of_nonneg_left hS5b (Real.sqrt_nonneg 3)
  have p2 : Real.sqrt 3 * (-0.16288675499029 : ℝ) ≤ (1.732050807568877 : ℝ) * (-0.16288675499029 : ℝ) := mul_le_mul_of_nonpos_right sqrt3_tight.1 (by norm_num)
  have p3 : Real.sqrt 3 * (-0.16288675499082 : ℝ) ≤ Real.sqrt 3 * (Real.sin (((-1182517735860648752557 : ℝ) / 22705566725329500000000) * Real.pi)) := mul_le_mul_of_nonneg_left hS5a (Real.sqrt_nonneg 3)
  have p4 : (1.732050807568878 : ℝ) * (-0.16288675499082 : ℝ) ≤ Real.sqrt 3 * (-0.16288675499082 : ℝ) := mul_le_mul_of_nonpos_right sqrt3_tight.2 (by norm_num)
  constructor
  · linarith only [hS5a, hS5b, hC5a, hC5b, p1, p2, p3, p4]
  · linarith only [hS5a, hS5b, hC5a, hC5b, p1, p2, p3, p4]

set_option maxHeartbeats 1000000 in
theorem sinp_2FpMm_1533p :
    (0.66572166132224 : ℝ) ≤ Real.sin (toRadians (2 * nmMoonArgLat 1533 + nmMoonAnomaly 1533)) ∧ Real.sin (toRadians (2 * nmMoonArgLat 1533 + nmMoonAnomaly 1533)) ≤ (0.66572166132759 : ℝ) := by
  rw [sin_toRadians_decomp (2 * nmMoonArgLat 1533 + nmMoonAnomaly 1533) 1 ((8883714283743177478201 : ℝ) / 136233400351977000000000) 4971
    (by simp only [nmMoonArgLat, nmMoonAnomaly, nmT]; push_cast; norm_num), sin_lat1, cos_lat1]
  have hp1 := Real.pi_gt_d20
  have hp2 := Real.pi_lt_d20
  have hu1 : (0.20486174064723 : ℝ) ≤ ((8883714283743177478201 : ℝ) / 136233400351977000000000) * Real.pi := by linarith only [hp1, hp2]
  have hu2 : ((8883714283743177478201 : ℝ) / 136233400351977000000000) * Real.pi ≤ (0.20486174064724 : ℝ) := by linarith only [hp1, hp2]
  have habs : |((8883714283743177478201 : ℝ) / 136233400351977000000000) * Real.pi| ≤ (0.20486174064724 : ℝ) := abs_le.mpr ⟨by linarith only [hu1, hu2], by linarith only [hu1, hu2]⟩
  have hsin := sin_small9 (((8883714283743177478201 : ℝ) / 136233400351977000000000) * Real.pi) (0.20486174064724 : ℝ) (0.0000000000019459970781528881 : ℝ) habs (by norm_num) (by norm_num)
  have hodd := pow_bounds_odd (((8883714283743177478201 : ℝ) / 136233400351977000000000) * Real.pi) (0.20486174064723 : ℝ) (0.20486174064724 : ℝ) hu1 hu2
  have hS5a : (0.20343179361781 : ℝ) ≤ Real.sin (((8883714283743177478201 : ℝ) / 136233400351977000000000) * Real.pi) := by
    linarith only [hsin.1, hodd.1, hodd.2.1, hodd.2.2.1, hodd.2.2.2.1, hodd.2.2.2.2.1, hodd.2.2.2.2.2, hu1, hu2]
  have hS5b : Real.sin (((8883714283743177478201 : ℝ) / 136233400351977000000000) * Real.pi) ≤ (0.20343179362172 : ℝ) := by
    linarith only [hsin.2, hodd.1, hodd.2.1, hodd.2.2.1, hodd.2.2.2.1, hodd.2.2.2.2.1, hodd.2.2.2.2.2, hu1, hu2]
  have hcos := cos_small9 (((8883714283743177478201 : ℝ) / 136233400351977000000000) * Real.pi) (0.20486174064724 : ℝ) (0.0000000000019459970781528881 : ℝ) habs (by norm_num) (by norm_num)
  have heup := pow_even_upper (((8883714283743177478201 : ℝ) / 136233400351977000000000) * Real.pi) (0.20486174064724 : ℝ) habs
  have helo := pow_even_lower_pos (((8883714283743177478201 : ℝ) / 136233400351977000000000) * Real.pi) (0.20486174064723 : ℝ) hu1 (by norm_num)
  have hC5a : (0.97908912022358 : ℝ) ≤ Real.cos (((8883714283743177478201 : ℝ) / 136233400351977000000000) * Real.pi) := by
    linarith only [hcos.1, heup.1, heup.2.1, heup.2.2.1, heup.2.2.2, helo.1, helo.2.1, helo.2.2.1, helo.2.2.2, hu1, hu2]
  have hC5b : Real.cos (((8883714283743177478201 : ℝ) / 136233400351977000000000) * Real.pi) ≤ (0.97908912022748 : ℝ) := by
    linarith only [hcos.2, heup.1, heup.2.1, heup.2.2.1, heup.2.2.2, helo.1, helo.2.1, helo.2.2.1, helo.2.2.2, hu1, hu2]
  have p1 : Real.sqrt 3 * (Real.sin (((8883714283743177478201 : ℝ) / 136233400351977000000000) * Real.pi)) ≤ Real.sqrt 3 * (0.20343179362172 : ℝ) := mul_le_mul_of_nonneg_left hS5b (Real.sqrt_nonneg 3)
  have p2 : Real.sqrt 3 * (0.20343179362172 : ℝ) ≤ (1.732050807568878 : ℝ) * (0.20343179362172 : ℝ) := mul_le_mul_of_nonneg_right sqrt3_tight.2 (by norm_num)
  have p3 : Real.sqrt 3 * (0.20343179361781 : ℝ) ≤ Real.sqrt 3 * (Real.sin (((8883714283743177478201 : ℝ) / 136233400351977000000000) * Real.pi)) := mul_le_mul_of_nonneg_left hS5a (Real.sqrt_nonneg 3)
  have p4 : (1.732050807568877 : ℝ) * (0.20343179361781 : ℝ) ≤ Real.sqrt 3 * (0.20343179361781 : ℝ) := mul_le_mul_of_nonneg_right sqrt3_tight.1 (by norm_num)
  constructor
  · linarith only [hS5a, hS5b, hC5a, hC5b, p1, p2, p3, p4]
  · linarith only [hS5a, hS5b, hC5a, hC5b, p1, p2, p3, p4]

set_option maxHeartbeats 1000000 in
theorem sinp_2FmMm_1533p :
    (-0.25853792078532 : ℝ) ≤ Real.sin (toRadians (2 * nmMoonArgLat 1533 - nmMoonAnomaly 1533)) ∧ Real.sin (toRadians (2 * nmMoonArgLat 1533 - nmMoonAnomaly 1533)) ≤ (-0.25853792075027 : ℝ) := by
  rw [sin_toRadians_decomp (2 * nmMoonArgLat 1533 - nmMoonAnomaly 1533) 6 ((11340163011621543821507 : ℝ) / 136233400351977000000000) 1683
    (by simp only [nmMoonArgLat, nmMoonAnomaly, nmT]; push_cast; norm_num), sin_lat6, cos_lat6]
  have hp1 := Real.pi_gt_d20
  have hp2 := Real.pi_lt_d20
  have hu1 : (0.26150835783131 : ℝ) ≤ ((11340163011621543821507 : ℝ) / 136233400351977000000000) * Real.pi := by linarith only [hp1, hp2]
  have hu2 : ((11340163011621543821507 : ℝ) / 136233400351977000000000) * Real.pi ≤ (0.26150835783132 : ℝ) := by linarith only [hp1, hp2]
  have habs : |((11340163011621543821507 : ℝ) / 136233400351977000000000) * Real.pi| ≤ (0.26150835783132 : ℝ) := abs_le.mpr ⟨by linarith only [hu1, hu2], by linarith only [hu1, hu2]⟩
  have hsin := sin_small9 (((11340163011621543821507 : ℝ) / 136233400351977000000000) * Real.pi) (0.26150835783132 : ℝ) (0.0000000000175131641912662107 : ℝ) habs (by norm_num) (by norm_num)
  have hodd := pow_bounds_odd (((11340163011621543821507 : ℝ) / 136233400351977000000000) * Real.pi) (0.26150835783131 : ℝ) (0.26150835783132 : ℝ) hu1 hu2
  have hS5a : (0.25853792075027 : ℝ) ≤ Real.sin (((11340163011621543821507 : ℝ) / 136233400351977000000000) * Real.pi) := by
    linarith only [hsin.1, hodd.1, hodd.2.1, hodd.2.2.1, hodd.2.2.2.1, hodd.2.2.2.2.1, hodd.2.2.2.2.2, hu1, hu2]
  have hS5b : Real.sin (((11340163011621543821507 : ℝ) / 136233400351977000000000) * Real.pi) ≤ (0.25853792078532 : ℝ) := by
    linarith only [hsin.2, hodd.1, hodd.2.1, hodd.2.2.1, hodd.2.2.2.1, hodd.2.2.2.2.1, hodd.2.2.2.2.2, hu1, hu2]
  constructor
  · linarith only [hS5a, hS5b]
  · linarith only [hS5a, hS5b]

set_option maxHeartbeats 1000000 in
theorem sinp_2MmpMs_1533p :
    (-0.0782746735205 : ℝ) ≤ Real.sin (toRadians (2 * nmMoonAnomaly 1533 + nmSunAnomaly 1533)) ∧ Real.sin (toRadians (2 * nmMoonAnomaly 1533 + nmSunAnomaly 1533)) ≤ (-0.07827467352048 : ℝ) := by
  rw [sin_toRadians_decomp (2 * nmMoonAnomaly 1533 + nmSunAnomaly 1533) 6 ((339781297230313682189 : ℝ) / 13623340035197700000000) 3412
    (by simp only [nmMoonAnomaly, nmSunAnomaly, nmT]; push_cast; norm_num), sin_lat6, cos_lat6]
  have hp1 := Real.pi_gt_d20
  have hp2 := Real.pi_lt_d20
  have hu1 : (0.07835482520791 : ℝ) ≤ ((339781297230313682189 : ℝ) / 13623340035197700000000) * Real.pi := by linarith only [hp1, hp2]
  have hu2 : ((339781297230313682189 : ℝ) / 13623340035197700000000) * Real.pi ≤ (0.07835482520792 : ℝ) := by linarith only [hp1, hp2]
  have habs : |((339781297230313682189 : ℝ) / 13623340035197700000000) * Real.pi| ≤ (0.07835482520792 : ℝ) := abs_le.mpr ⟨by linarith only [hu1, hu2], by linarith only [hu1, hu2]⟩
  have hsin := sin_small9 (((339781297230313682189 : ℝ) / 13623340035197700000000) * Real.pi) (0.07835482520792 : ℝ) (0.0000000000000003408679532585 : ℝ) habs (by norm_num) (by norm_num)
  have hodd := pow_bounds_odd (((339781297230313682189 : ℝ) / 13623340035197700000000) * Real.pi) (0.07835482520791 : ℝ) (0.07835482520792 : ℝ) hu1 hu2
  have hS5a : (0.07827467352048 : ℝ) ≤ Real.sin (((339781297230313682189 : ℝ) / 13623340035197700000000) * Real.pi) := by
    linarith only [hsin.1, hodd.1, hodd.2.1, hodd.2.2.1, hodd.2.2.2.1, hodd.2.2.2.2.1, hodd.2.2.2.2.2, hu1, hu2]
  have hS5b : Real.sin (((339781297230313682189 : ℝ) / 13623340035197700000000) * Real.pi) ≤ (0.0782746735205 : ℝ) := by
    linarith only [hsin.2, hodd.1, hodd.2.1, hodd.2.2.1, hodd.2.2.2.1, hodd.2.2.2.2.1, hodd.2.2.2.2.2, hu1, hu2]
  constructor
  · linarith only [hS5a, hS5b]
  · linarith only [hS5a, hS5b]

theorem nmb9_1533 : (2460291.49468914999299 : ℝ) ≤ new_moon_aa98 1533 ∧ new_moon_aa98 1533 ≤ (2460291.49468914999829 : ℝ) := by
  have hb_mean := sinp_mean_1533p
  have hb_Ms := sinp_Ms_1533p
  have hb_2Ms := sinp_2Ms_1533p
  have hb_Mm := sinp_Mm_1533p
  have hb_2Mm := sinp_2Mm_1533p
  have hb_3Mm := sinp_3Mm_1533p
  have hb_2F := sinp_2F_1533p
  have hb_MspMm := sinp_MspMm_1533p
  have hb_MsmMm := sinp_MsmMm_1533p
  have hb_2FpMs := sinp_2FpMs_1533p
  have hb_2FmMs := sinp_2FmMs_1533p
  have hb_2FpMm := sinp_2FpMm_1533p
  have hb_2FmMm := sinp_2FmMm_1533p
  have hb_2MmpMs := sinp_2MmpMs_1533p
  have ht : nmT 1533 = ((30660 : ℝ) / 24737) := by unfold nmT; push_cast; norm_num
  simp only [new_moon_aa98]
  rw [ht, if_neg (show ¬ (((30660 : ℝ) / 24737) < (-11 : ℝ)) by norm_num)]
  constructor
  · linarith only [hb_mean.1, hb_mean.2, hb_Ms.1, hb_Ms.2, hb_2Ms.1, hb_2Ms.2, hb_Mm.1, hb_Mm.2, hb_2Mm.1, hb_2Mm.2, hb_3Mm.1, hb_3Mm.2, hb_2F.1, hb_2F.2, hb_MspMm.1, hb_MspMm.2, hb_MsmMm.1, hb_MsmMm.2, hb_2FpMs.1, hb_2FpMs.2, hb_2FmMs.1, hb_2FmMs.2, hb_2FpMm.1, hb_2FpMm.2, hb_2FmMm.1, hb_2FmMm.2, hb_2MmpMs.1, hb_2MmpMs.2]
  · linarith only [hb_mean.1, hb_mean.2, hb_Ms.1, hb_Ms.2, hb_2Ms.1, hb_2Ms.2, hb_Mm.1, hb_Mm.2, hb_2Mm.1, hb_2Mm.2, hb_3Mm.1, hb_3Mm.2, hb_2F.1, hb_2F.2, hb_MspMm.1, hb_MspMm.2, hb_MsmMm.1, hb_MsmMm.2, hb_2FpMs.1, hb_2FpMs.2, hb_2FmMs.1, hb_2FmMs.2, hb_2FpMm.1, hb_2FpMm.2, hb_2FmMm.1, hb_2FmMm.2, hb_2MmpMs.1, hb_2MmpMs.2]

set_option maxHeartbeats 1000000 in
theorem sinp_slM_2451520p :
    (-0.4677936700865 : ℝ) ≤ Real.sin (toRadians (slMeanAnomaly ((2451520 : ℝ) - 0.5 - 7 / 24))) ∧ Real.sin (toRadians (slMeanAnomaly ((2451520 : ℝ) - 0.5 - 7 / 24))) ≤ (-0.46779367008646 : ℝ) := by
  rw [sin_toRadians_decomp (slMeanAnomaly ((2451520 : ℝ) - 0.5 - 7 / 24)) 11 ((739850429120307445964821 : ℝ) / 63150337415250000000000000) 0
    (by simp only [slMeanAnomaly, slT]; push_cast; norm_num), sin_lat11, cos_lat11]
  have hp1 := Real.pi_gt_d20
  have hp2 := Real.pi_lt_d20
  have hu1 : (0.03680595809957 : ℝ) ≤ ((739850429120307445964821 : ℝ) / 63150337415250000000000000) * Real.pi := by linarith only [hp1, hp2]
  have hu2 : ((739850429120307445964821 : ℝ) / 63150337415250000000000000) * Real.pi ≤ (0.03680595809958 : ℝ) := by linarith only [hp1, hp2]
  have habs : |((739850429120307445964821 : ℝ) / 63150337415250000000000000) * Real.pi| ≤ (0.03680595809958 : ℝ) := abs_le.mpr ⟨by linarith only [hu1, hu2], by linarith only [hu1, hu2]⟩
  have hsin := sin_small9 (((739850429120307445964821 : ℝ) / 63150337415250000000000000) * Real.pi) (0.03680595809958 : ℝ) (0.0000000000000000003795400445 : ℝ) habs (by norm_num) (by norm_num)
  have hodd := pow_bounds_odd (((739850429120307445964821 : ℝ) / 63150337415250000000000000) * Real.pi) (0.03680595809957 : ℝ) (0.03680595809958 : ℝ) hu1 hu2
  have hS5a : (0.03679764862208 : ℝ) ≤ Real.sin (((739850429120307445964821 : ℝ) / 63150337415250000000000000) * Real.pi) := by
    linarith only [hsin.1, hodd.1, hodd.2.1, hodd.2.2.1, hodd.2.2.2.1, hodd.2.2.2.2.1, hodd.2.2.2.2.2, hu1, hu2]
  have hS5b : Real.sin (((739850429120307445964821 : ℝ) / 63150337415250000000000000) * Real.pi) ≤ (0.0367976486221 : ℝ) := by
    linarith only [hsin.2, hodd.1, hodd.2.1, hodd.2.2.1, hodd.2.2.2.1, hodd.2.2.2.2.1, hodd.2.2.2.2.2, hu1, hu2]
  have hcos := cos_small9 (((739850429120307445964821 : ℝ) / 63150337415250000000000000) * Real.pi) (0.03680595809958 : ℝ) (0.0000000000000000003795400445 : ℝ) habs (by norm_num) (by norm_num)
  have heup := pow_even_upper (((739850429120307445964821 : ℝ) / 63150337415250000000000000) * Real.pi) (0.03680595809958 : ℝ) habs
  have helo := pow_even_lower_pos (((739850429120307445964821 : ℝ) / 63150337415250000000000000) * Real.pi) (0.03680595809957 : ℝ) hu1 (by norm_num)
  have hC5a : (0.99932273718548 : ℝ) ≤ Real.cos (((739850429120307445964821 : ℝ) / 63150337415250000000000000) * Real.pi) := by
    linarith only [hcos.1, heup.1, heup.2.1, heup.2.2.1, heup.2.2.2, helo.1, helo.2.1, helo.2.2.1, helo.2.2.2, hu1, hu2]
  have hC5b : Real.cos (((739850429120307445964821 : ℝ) / 63150337415250000000000000) * Real.pi) ≤ (0.99932273718549 : ℝ) := by
    linarith only [hcos.2, heup.1, heup.2.1, heup.2.2.1, heup.2.2.2, helo.1, helo.2.1, helo.2.2.1, helo.2.2.2, hu1, hu2]
  have p1 : Real.sqrt 3 * (Real.sin (((739850429120307445964821 : ℝ) / 63150337415250000000000000) * Real.pi)) ≤ Real.sqrt 3 * (0.0367976486221 : ℝ) := mul_le_mul_of_nonneg_left hS5b (Real.sqrt_nonneg 3)
  have p2 : Real.sqrt 3 * (0.0367976486221 : ℝ) ≤ (1.732050807568878 : ℝ) * (0.0367976486221 : ℝ) := mul_le_mul_of_nonneg_right sqrt3_tight.2 (by norm_num)
  have p3 : Real.sqrt 3 * (0.03679764862208 : ℝ) ≤ Real.sqrt 3 * (Real.sin (((739850429120307445964821 : ℝ) / 63150337415250000000000000) * Real.pi)) := mul_le_mul_of_nonneg_left hS5a (Real.sqrt_nonneg 3)
  have p4 : (1.732050807568877 : ℝ) * (0.03679764862208 : ℝ) ≤ Real.sqrt 3 * (0.03679764862208 : ℝ) := mul_le_mul_of_nonneg_right sqrt3_tight.1 (by norm_num)
  constructor
  · linarith only [hS5a, hS5b, hC5a, hC5b, p1, p2, p3, p4]
  · linarith only [hS5a, hS5b, hC5a, hC5b, p1, p2, p3, p4]

set_option maxHeartbeats 1000000 in
theorem sinp_sl2M_2451520p :
    (-0.82690736409739 : ℝ) ≤ Real.sin (2 * toRadians (slMeanAnomaly ((2451520 : ℝ) - 0.5 - 7 / 24))) ∧ Real.sin (2 * toRadians (slMeanAnomaly ((2451520 : ℝ) - 0.5 - 7 / 24))) ≤ (-0.82690736409734 : ℝ) := by
  rw [two_mul_toRadians (slMeanAnomaly ((2451520 : ℝ) - 0.5 - 7 / 24))]
  rw [sin_toRadians_decomp (2 * slMeanAnomaly ((2451520 : ℝ) - 0.5 - 7 / 24)) 10 ((739850429120307445964821 : ℝ) / 31575168707625000000000000) 1
    (by simp only [slMeanAnomaly, slT]; push_cast; norm_num), sin_lat10, cos_lat10]
  have hp1 := Real.pi_gt_d20
  have hp2 := Real.pi_lt_d20
  have hu1 : (0.07361191619914 : ℝ) ≤ ((739850429120307445964821 : ℝ) / 31575168707625000000000000) * Real.pi := by linarith only [hp1, hp2]
  have hu2 : ((739850429120307445964821 : ℝ) / 31575168707625000000000000) * Real.pi ≤ (0.07361191619915 : ℝ) := by linarith only [hp1, hp2]
  have habs : |((739850429120307445964821 : ℝ) / 31575168707625000000000000) * Real.pi| ≤ (0.07361191619915 : ℝ) := abs_le.mpr ⟨by linarith only [hu1, hu2], by linarith only [hu1, hu2]⟩
  have hsin := sin_small9 (((739850429120307445964821 : ℝ) / 31575168707625000000000000) * Real.pi) (0.07361191619915 : ℝ) (0.0000000000000001943245027421 : ℝ) habs (by norm_num) (by norm_num)
  have hodd := pow_bounds_odd (((739850429120307445964821 : ℝ) / 31575168707625000000000000) * Real.pi) (0.07361191619914 : ℝ) (0.07361191619915 : ℝ) hu1 hu2
  have hS5a : (0.07354545388602 : ℝ) ≤ Real.sin (((739850429120307445964821 : ℝ) / 31575168707625000000000000) * Real.pi) := by
    linarith only [hsin.1, hodd.1, hodd.2.1, hodd.2.2.1, hodd.2.2.2.1, hodd.2.2.2.2.1, hodd.2.2.2.2.2, hu1, hu2]
  have hS5b : Real.sin (((739850429120307445964821 : ℝ) / 31575168707625000000000000) * Real.pi) ≤ (0.07354545388605 : ℝ) := by
    linarith only [hsin.2, hodd.1, hodd.2.1, hodd.2.2.1, hodd.2.2.2.1, hodd.2.2.2.2.1, hodd.2.2.2.2.2, hu1, hu2]
  have hcos := cos_small9 (((739850429120307445964821 : ℝ) / 31575168707625000000000000) * Real.pi) (0.07361191619915 : ℝ) (0.0000000000000001943245027421 : ℝ) habs (by norm_num) (by norm_num)
  have heup := pow_even_upper (((739850429120307445964821 : ℝ) / 31575168707625000000000000) * Real.pi) (0.07361191619915 : ℝ) habs
  have helo := pow_even_lower_pos (((739850429120307445964821 : ℝ) / 31575168707625000000000000) * Real.pi) (0.07361191619914 : ℝ) hu1 (by norm_num)
  have hC5a : (0.99729186611176 : ℝ) ≤ Real.cos (((739850429120307445964821 : ℝ) / 31575168707625000000000000) * Real.pi) := by
    linarith only [hcos.1, heup.1, heup.2.1, heup.2.2.1, heup.2.2.2, helo.1, helo.2.1, helo.2.2.1, helo.2.2.2, hu1, hu2]
  have hC5b : Real.cos (((739850429120307445964821 : ℝ) / 31575168707625000000000000) * Real.pi) ≤ (0.99729186611178 : ℝ) := by
    linarith only [hcos.2, heup.1, heup.2.1, heup.2.2.1, heup.2.2.2, helo.1, helo.2.1, helo.2.2.1, helo.2.2.2, hu1, hu2]
  have q1 : Real.sqrt 3 * (Real.cos (((739850429120307445964821 : ℝ) / 31575168707625000000000000) * Real.pi)) ≤ Real.sqrt 3 * (0.99729186611178 : ℝ) := mul_le_mul_of_nonneg_left hC5b (Real.sqrt_nonneg 3)
  have q2 : Real.sqrt 3 * (0.99729186611178 : ℝ) ≤ (1.732050807568878 : ℝ) * (0.99729186611178 : ℝ) := mul_le_mul_of_nonneg_right sqrt3_tight.2 (by norm_num)
  have q3 : Real.sqrt 3 * (0.99729186611176 : ℝ) ≤ Real.sqrt 3 * (Real.cos (((739850429120307445964821 : ℝ) / 31575168707625000000000000) * Real.pi)) := mul_le_mul_of_nonneg_left hC5a (Real.sqrt_nonneg 3)
  have q4 : (1.732050807568877 : ℝ) * (0.99729186611176 : ℝ) ≤ Real.sqrt 3 * (0.99729186611176 : ℝ) := mul_le_mul_of_nonneg_right sqrt3_tight.1 (by norm_num)
  constructor
  · linarith only [hS5a, hS5b, hC5a, hC5b, q1, q2, q3, q4]
  · linarith only [hS5a, hS5b, hC5a, hC5b, q1, q2, q3, q4]

set_option maxHeartbeats 1000000 in
theorem sinp_sl3M_2451520p :
    (-0.99391013764579 : ℝ) ≤ Real.sin (3 * toRadians (slMeanAnomaly ((2451520 : ℝ) - 0.5 - 7 / 24))) ∧ Real.sin (3 * toRadians (slMeanAnomaly ((2451520 : ℝ) - 0.5 - 7 / 24))) ≤ (-0.99391013764577 : ℝ) := by
  rw [three_mul_toRadians (slMeanAnomaly ((2451520 : ℝ) - 0.5 - 7 / 24))]
  rw [sin_toRadians_decomp (3 * slMeanAnomaly ((2451520 : ℝ) - 0.5 - 7 / 24)) 9 ((739850429120307445964821 : ℝ) / 21050112471750000000000000) 2
    (by simp only [slMeanAnomaly, slT]; push_cast; norm_num), sin_lat9, cos_lat9]
  have hp1 := Real.pi_gt_d20
  have hp2 := Real.pi_lt_d20
  have hu1 : (0.11041787429872 : ℝ) ≤ ((739850429120307445964821 : ℝ) / 21050112471750000000000000) * Real.pi := by linarith only [hp1, hp2]
  have hu2 : ((739850429120307445964821 : ℝ) / 21050112471750000000000000) * Real.pi ≤ (0.11041787429873 : ℝ) := by linarith only [hp1, hp2]
  have habs : |((739850429120307445964821 : ℝ) / 21050112471750000000000000) * Real.pi| ≤ (0.11041787429873 : ℝ) := abs_le.mpr ⟨by linarith only [hu1, hu2], by linarith only [hu1, hu2]⟩
  have hcos := cos_small9 (((739850429120307445964821 : ℝ) / 21050112471750000000000000) * Real.pi) (0.11041787429873 : ℝ) (0.0000000000000074704866942845 : ℝ) habs (by norm_num) (by norm_num)
  have heup := pow_even_upper (((739850429120307445964821 : ℝ) / 21050112471750000000000000) * Real.pi) (0.11041787429873 : ℝ) habs
  have helo := pow_even_lower_pos (((739850429120307445964821 : ℝ) / 21050112471750000000000000) * Real.pi) (0.11041787429872 : ℝ) hu1 (by norm_num)
  have hC5a : (0.99391013764577 : ℝ) ≤ Real.cos (((739850429120307445964821 : ℝ) / 21050112471750000000000000) * Real.pi) := by
    linarith only [hcos.1, heup.1, heup.2.1, heup.2.2.1, heup.2.2.2, helo.1, helo.2.1, helo.2.2.1, helo.2.2.2, hu1, hu2]
  have hC5b : Real.cos (((739850429120307445964821 : ℝ) / 21050112471750000000000000) * Real.pi) ≤ (0.99391013764579 : ℝ) := by
    linarith only [hcos.2, heup.1, heup.2.1, heup.2.2.1, heup.2.2.2, helo.1, helo.2.1, helo.2.2.1, helo.2.2.2, hu1, hu2]
  constructor
  · linarith only [hC5a, hC5b]
  · linarith only [hC5a, hC5b]

theorem tlb9_2451520 : (254.13250183214162 : ℝ) ≤ trueLongitudeOf ((2451520 : ℝ) - 0.5 - 7 / 24) ∧ trueLongitudeOf ((2451520 : ℝ) - 0.5 - 7 / 24) ≤ (254.13250183214171 : ℝ) := by
  have hb_M := sinp_slM_2451520p
  have hb_2M := sinp_sl2M_2451520p
  have hb_3M := sinp_sl3M_2451520p
  have ht : slT ((2451520 : ℝ) - 0.5 - 7 / 24) = ((-619 : ℝ) / 876600) := by unfold slT; norm_num
  simp only [trueLongitudeOf, slMeanLongitude]
  rw [ht]
  constructor
  · linarith only [hb_M.1, hb_M.2, hb_2M.1, hb_2M.2, hb_3M.1, hb_3M.2]
  · linarith only [hb_M.1, hb_M.2, hb_2M.1, hb_2M.2, hb_3M.1, hb_3M.2]

/-! ## Data lemmas for the month index 2007 -/

theorem sinb_Ms_2007 :
    (0.99794349438 : ℝ) ≤ Real.sin (toRadians (nmSunAnomaly 2007)) ∧ Real.sin (toRadians (nmSunAnomaly 2007)) ≤ (0.99794525506 : ℝ) := by
  rw [sin_toRadians_decomp (nmSunAnomaly 2007) 3 ((77235719412926722369 : ℝ) / 3784261120888250000000) 163
    (by simp only [nmSunAnomaly, nmT]; push_cast; norm_num), sin_lat3, cos_lat3]
  have hp1 := Real.pi_gt_d20
  have hp2 := Real.pi_lt_d20
  have hu1 : (0.064119034324 : ℝ) ≤ ((77235719412926722369 : ℝ) / 3784261120888250000000) * Real.pi := by linarith only [hp1, hp2]
  have hu2 : ((77235719412926722369 : ℝ) / 3784261120888250000000) * Real.pi ≤ (0.064119034325 : ℝ) := by linarith only [hp1, hp2]
  have habs : |((77235719412926722369 : ℝ) / 3784261120888250000000) * Real.pi| ≤ (0.064119034325 : ℝ) := abs_le.mpr ⟨by linarith only [hu1, hu2], by linarith only [hu1, hu2]⟩
  have hsin := sin_small_bounds (((77235719412926722369 : ℝ) / 3784261120888250000000) * Real.pi) (0.064119034325 : ℝ) habs (by norm_num)
  have hcos := cos_small_bounds (((77235719412926722369 : ℝ) / 3784261120888250000000) * Real.pi) (0.064119034325 : ℝ) habs (by norm_num)
  have hcube := cube_bounds_of_pos (((77235719412926722369 : ℝ) / 3784261120888250000000) * Real.pi) (0.064119034324 : ℝ) (0.064119034325 : ℝ) hu1 hu2 (by norm_num)
  have hsqhi : (((77235719412926722369 : ℝ) / 3784261120888250000000) * Real.pi) ^ 2 ≤ (0.064119034325 : ℝ) ^ 2 := sq_le_of_abs _ _ habs
  have hsqlo := sq_bounds_of_pos (((77235719412926722369 : ℝ) / 3784261120888250000000) * Real.pi) (0.064119034324 : ℝ) (0.064119034325 : ℝ) hu1 hu2 (by norm_num)
  have hS1 : (0.06407421908 : ℝ) ≤ Real.sin (((77235719412926722369 : ℝ) / 3784261120888250000000) * Real.pi) := by linarith only [hsin.1, hcube.2, hu1, hu2]
  have hS2 : Real.sin (((77235719412926722369 : ℝ) / 3784261120888250000000) * Real.pi) ≤ (0.06407597976 : ℝ) := by linarith only [hsin.2, hcube.1, hu1, hu2]
  have hC1 : (0.99794349438 : ℝ) ≤ Real.cos (((77235719412926722369 : ℝ) / 3784261120888250000000) * Real.pi) := by linarith only [hcos.1, hsqhi, hu1, hu2]
  have hC2 : Real.cos (((77235719412926722369 : ℝ) / 3784261120888250000000) * Real.pi) ≤ (0.99794525506 : ℝ) := by linarith only [hcos.2, hsqlo.1, hu1, hu2]
  constructor
  · linarith only [hS1, hS2, hC1, hC2]
  · linarith only [hS1, hS2, hC1, hC2]

theorem sinb_Mm_2007 :
    (-0.98292145817 : ℝ) ≤ Real.sin (toRadians (nmMoonAnomaly 2007)) ∧ Real.sin (toRadians (nmMoonAnomaly 2007)) ≤ (-0.98279905365 : ℝ) := by
  rw [sin_toRadians_decomp (nmMoonAnomaly 2007) 9 ((8028804599493406744513 : ℝ) / 136233400351977000000000) 2151
    (by simp only [nmMoonAnomaly, nmT]; push_cast; norm_num), sin_lat9, cos_lat9]
  have hp1 := Real.pi_gt_d20
  have hp2 := Real.pi_lt_d20
  have hu1 : (0.185147206791 : ℝ) ≤ ((8028804599493406744513 : ℝ) / 136233400351977000000000) * Real.pi := by linarith only [hp1, hp2]
  have hu2 : ((8028804599493406744513 : ℝ) / 136233400351977000000000) * Real.pi ≤ (0.185147206792 : ℝ) := by linarith only [hp1, hp2]
  have habs : |((8028804599493406744513 : ℝ) / 136233400351977000000000) * Real.pi| ≤ (0.185147206792 : ℝ) := abs_le.mpr ⟨by linarith only [hu1, hu2], by linarith only [hu1, hu2]⟩
  have hsin := sin_small_bounds (((8028804599493406744513 : ℝ) / 136233400351977000000000) * Real.pi) (0.185147206792 : ℝ) habs (by norm_num)
  have hcos := cos_small_bounds (((8028804599493406744513 : ℝ) / 136233400351977000000000) * Real.pi) (0.185147206792 : ℝ) habs (by norm_num)
  have hcube := cube_bounds_of_pos (((8028804599493406744513 : ℝ) / 136233400351977000000000) * Real.pi) (0.185147206791 : ℝ) (0.185147206792 : ℝ) hu1 hu2 (by norm_num)
  have hsqhi : (((8028804599493406744513 : ℝ) / 136233400351977000000000) * Real.pi) ^ 2 ≤ (0.185147206792 : ℝ) ^ 2 := sq_le_of_abs _ _ habs
  have hsqlo := sq_bounds_of_pos (((8028804599493406744513 : ℝ) / 136233400351977000000000) * Real.pi) (0.185147206791 : ℝ) (0.185147206792 : ℝ) hu1 hu2 (by norm_num)
  have hS1 : (0.18402821262 : ℝ) ≤ Real.sin (((8028804599493406744513 : ℝ) / 136233400351977000000000) * Real.pi) := by linarith only [hsin.1, hcube.2, hu1, hu2]
  have hS2 : Real.sin (((8028804599493406744513 : ℝ) / 136233400351977000000000) * Real.pi) ≤ (0.18415061714 : ℝ) := by linarith only [hsin.2, hcube.1, hu1, hu2]
  have hC1 : (0.98279905365 : ℝ) ≤ Real.cos (((8028804599493406744513 : ℝ) / 136233400351977000000000) * Real.pi) := by linarith only [hcos.1, hsqhi, hu1, hu2]
  have hC2 : Real.cos (((8028804599493406744513 : ℝ) / 136233400351977000000000) * Real.pi) ≤ (0.98292145817 : ℝ) := by linarith only [hcos.2, hsqlo.1, hu1, hu2]
  constructor
  · linarith only [hS1, hS2, hC1, hC2]
  · linarith only [hS1, hS2, hC1, hC2]

theorem sinb_2Ms_2007 :
    (-0.12790067475 : ℝ) ≤ Real.sin (2 * toRadians (nmSunAnomaly 2007)) ∧ Real.sin (2 * toRadians (nmSunAnomaly 2007)) ≤ (-0.1278725041 : ℝ) := by
  rw [two_mul_toRadians (nmSunAnomaly 2007)]
  rw [sin_toRadians_decomp (2 * (nmSunAnomaly 2007)) 6 ((77235719412926722369 : ℝ) / 1892130560444125000000) 326
    (by simp only [nmSunAnomaly, nmT]; push_cast; norm_num), sin_lat6, cos_lat6]
  have hp1 := Real.pi_gt_d20
  have hp2 := Real.pi_lt_d20
  have hu1 : (0.128238068648 : ℝ) ≤ ((77235719412926722369 : ℝ) / 1892130560444125000000) * Real.pi := by linarith only [hp1, hp2]
  have hu2 : ((77235719412926722369 : ℝ) / 1892130560444125000000) * Real.pi ≤ (0.128238068649 : ℝ) := by linarith only [hp1, hp2]
  have habs : |((77235719412926722369 : ℝ) / 1892130560444125000000) * Real.pi| ≤ (0.128238068649 : ℝ) := abs_le.mpr ⟨by linarith only [hu1, hu2], by linarith only [hu1, hu2]⟩
  have hsin := sin_small_bounds (((77235719412926722369 : ℝ) / 1892130560444125000000) * Real.pi) (0.128238068649 : ℝ) habs (by norm_num)
  have hcos := cos_small_bounds (((77235719412926722369 : ℝ) / 1892130560444125000000) * Real.pi) (0.128238068649 : ℝ) habs (by norm_num)
  have hcube := cube_bounds_of_pos (((77235719412926722369 : ℝ) / 1892130560444125000000) * Real.pi) (0.128238068648 : ℝ) (0.128238068649 : ℝ) hu1 hu2 (by norm_num)
  have hsqhi : (((77235719412926722369 : ℝ) / 1892130560444125000000) * Real.pi) ^ 2 ≤ (0.128238068649 : ℝ) ^ 2 := sq_le_of_abs _ _ habs
  have hsqlo := sq_bounds_of_pos (((77235719412926722369 : ℝ) / 1892130560444125000000) * Real.pi) (0.128238068648 : ℝ) (0.128238068649 : ℝ) hu1 hu2 (by norm_num)
  have hS1 : (0.1278725041 : ℝ) ≤ Real.sin (((77235719412926722369 : ℝ) / 1892130560444125000000) * Real.pi) := by linarith only [hsin.1, hcube.2, hu1, hu2]
  have hS2 : Real.sin (((77235719412926722369 : ℝ) / 1892130560444125000000) * Real.pi) ≤ (0.12790067475 : ℝ) := by linarith only [hsin.2, hcube.1, hu1, hu2]
  have hC1 : (0.99176341355 : ℝ) ≤ Real.cos (((77235719412926722369 : ℝ) / 1892130560444125000000) * Real.pi) := by linarith only [hcos.1, hsqhi, hu1, hu2]
  have hC2 : Real.cos (((77235719412926722369 : ℝ) / 1892130560444125000000) * Real.pi) ≤ (0.9917915842 : ℝ) := by linarith only [hcos.2, hsqlo.1, hu1, hu2]
  constructor
  · linarith only [hS1, hS2, hC1, hC2]
  · linarith only [hS1, hS2, hC1, hC2]

theorem sinb_2Mm_2007 :
    (-0.361918317566 : ℝ) ≤ Real.sin (2 * toRadians (nmMoonAnomaly 2007)) ∧ Real.sin (2 * toRadians (nmMoonAnomaly 2007)) ≤ (-0.36183971298 : ℝ) := by
  rw [two_mul_toRadians (nmMoonAnomaly 2007)]
  rw [sin_toRadians_decomp (2 * (nmMoonAnomaly 2007)) 7 ((-3323978763171343255487 : ℝ) / 68116700175988500000000) 4303
    (by simp only [nmMoonAnomaly, nmT]; push_cast; norm_num), sin_lat7, cos_lat7]
  have hp1 := Real.pi_gt_d20
  have hp2 := Real.pi_lt_d20
  have hu1 : (-0.153304362016 : ℝ) ≤ ((-3323978763171343255487 : ℝ) / 68116700175988500000000) * Real.pi := by linarith only [hp1, hp2]
  have hu2 : ((-3323978763171343255487 : ℝ) / 68116700175988500000000) * Real.pi ≤ (-0.153304362015 : ℝ) := by linarith only [hp1, hp2]
  have habs : |((-3323978763171343255487 : ℝ) / 68116700175988500000000) * Real.pi| ≤ (0.153304362016 : ℝ) := abs_le.mpr ⟨by linarith only [hu1, hu2], by linarith only [hu1, hu2]⟩
  have hsin := sin_small_bounds (((-3323978763171343255487 : ℝ) / 68116700175988500000000) * Real.pi) (0.153304362016 : ℝ) habs (by norm_num)
  have hcos := cos_small_bounds (((-3323978763171343255487 : ℝ) / 68116700175988500000000) * Real.pi) (0.153304362016 : ℝ) habs (by norm_num)
  have hcube := cube_bounds_of_neg (((-3323978763171343255487 : ℝ) / 68116700175988500000000) * Real.pi) (-0.153304362016 : ℝ) (-0.153304362015 : ℝ) hu1 hu2 (by norm_num)
  have hsqhi : (((-3323978763171343255487 : ℝ) / 68116700175988500000000) * Real.pi) ^ 2 ≤ (0.153304362016 : ℝ) ^ 2 := sq_le_of_abs _ _ habs
  have hsqlo := sq_bounds_of_neg (((-3323978763171343255487 : ℝ) / 68116700175988500000000) * Real.pi) (-0.153304362016 : ℝ) (-0.153304362015 : ℝ) hu1 hu2 (by norm_num)
  have hS1 : (-0.1527326315 : ℝ) ≤ Real.sin (((-3323978763171343255487 : ℝ) / 68116700175988500000000) * Real.pi) := by linarith only [hsin.1, hcube.2, hu1, hu2]
  have hS2 : Real.sin (((-3323978763171343255487 : ℝ) / 68116700175988500000000) * Real.pi) ≤ (-0.15267509454 : ℝ) := by linarith only [hsin.2, hcube.1, hu1, hu2]
  have hC1 : (0.98822011781 : ℝ) ≤ Real.cos (((-3323978763171343255487 : ℝ) / 68116700175988500000000) * Real.pi) := by linarith only [hcos.1, hsqhi, hu1, hu2]
  have hC2 : Real.cos (((-3323978763171343255487 : ℝ) / 68116700175988500000000) * Real.pi) ≤ (0.98827765477 : ℝ) := by linarith only [hcos.2, hsqlo.1, hu1, hu2]
  have q1 : Real.sqrt 3 * (Real.sin (((-3323978763171343255487 : ℝ) / 68116700175988500000000) * Real.pi)) ≤ Real.sqrt 3 * (-0.15267509454 : ℝ) := mul_le_mul_of_nonneg_left hS2 (Real.sqrt_nonneg 3)
  have q2 : Real.sqrt 3 * (-0.15267509454 : ℝ) ≤ (1.7320508 : ℝ) * (-0.15267509454 : ℝ) := mul_le_mul_of_nonpos_right sqrt3_bounds.1 (by norm_num)
  have q3 : Real.sqrt 3 * (-0.1527326315 : ℝ) ≤ Real.sqrt 3 * (Real.sin (((-3323978763171343255487 : ℝ) / 68116700175988500000000) * Real.pi)) := mul_le_mul_of_nonneg_left hS1 (Real.sqrt_nonneg 3)
  have q4 : (1.7320509 : ℝ) * (-0.1527326315 : ℝ) ≤ Real.sqrt 3 * (-0.1527326315 : ℝ) := mul_le_mul_of_nonpos_right sqrt3_bounds.2 (by norm_num)
  constructor
  · linarith only [hS1, hS2, hC1, hC2, q1, q2, q3, q4]
  · linarith only [hS1, hS2, hC1, hC2, q1, q2, q3, q4]

theorem sinb_2F_2007 :
    (0.559147393207 : ℝ) ≤ Real.sin (2 * toRadians (nmMoonArgLat 2007)) ∧ Real.sin (2 * toRadians (nmMoonArgLat 2007)) ≤ (0.55915076676 : ℝ) := by
  rw [two_mul_toRadians (nmMoonArgLat 2007)]
  rw [sin_toRadians_decomp (2 * (nmMoonArgLat 2007)) 1 ((168063500774271450037 : ℝ) / 7568522241776500000000) 4356
    (by simp only [nmMoonArgLat, nmT]; push_cast; norm_num), sin_lat1, cos_lat1]
  have hp1 := Real.pi_gt_d20
  have hp2 := Real.pi_lt_d20
  have hu1 : (0.069760917984 : ℝ) ≤ ((168063500774271450037 : ℝ) / 7568522241776500000000) * Real.pi := by linarith only [hp1, hp2]
  have hu2 : ((168063500774271450037 : ℝ) / 7568522241776500000000) * Real.pi ≤ (0.069760917985 : ℝ) := by linarith only [hp1, hp2]
  have habs : |((168063500774271450037 : ℝ) / 7568522241776500000000) * Real.pi| ≤ (0.069760917985 : ℝ) := abs_le.mpr ⟨by linarith only [hu1, hu2], by linarith only [hu1, hu2]⟩
  have hsin := sin_small_bounds (((168063500774271450037 : ℝ) / 7568522241776500000000) * Real.pi) (0.069760917985 : ℝ) habs (by norm_num)
  have hcos := cos_small_bounds (((168063500774271450037 : ℝ) / 7568522241776500000000) * Real.pi) (0.069760917985 : ℝ) habs (by norm_num)
  have hcube := cube_bounds_of_pos (((168063500774271450037 : ℝ) / 7568522241776500000000) * Real.pi) (0.069760917984 : ℝ) (0.069760917985 : ℝ) hu1 hu2 (by norm_num)
  have hsqhi : (((168063500774271450037 : ℝ) / 7568522241776500000000) * Real.pi) ^ 2 ≤ (0.069760917985 : ℝ) ^ 2 := sq_le_of_abs _ _ habs
  have hsqlo := sq_bounds_of_pos (((168063500774271450037 : ℝ) / 7568522241776500000000) * Real.pi) (0.069760917984 : ℝ) (0.069760917985 : ℝ) hu1 hu2 (by norm_num)
  have hS1 : (0.06970310154 : ℝ) ≤ Real.sin (((168063500774271450037 : ℝ) / 7568522241776500000000) * Real.pi) := by linarith only [hsin.1, hcube.2, hu1, hu2]
  have hS2 : Real.sin (((168063500774271450037 : ℝ) / 7568522241776500000000) * Real.pi) ≤ (0.0697055686 : ℝ) := by linarith only [hsin.2, hcube.1, hu1, hu2]
  have hC1 : (0.99756547363 : ℝ) ≤ Real.cos (((168063500774271450037 : ℝ) / 7568522241776500000000) * Real.pi) := by linarith only [hcos.1, hsqhi, hu1, hu2]
  have hC2 : Real.cos (((168063500774271450037 : ℝ) / 7568522241776500000000) * Real.pi) ≤ (0.99756794069 : ℝ) := by linarith only [hcos.2, hsqlo.1, hu1, hu2]
  have q1 : Real.sqrt 3 * (Real.sin (((168063500774271450037 : ℝ) / 7568522241776500000000) * Real.pi)) ≤ Real.sqrt 3 * (0.0697055686 : ℝ) := mul_le_mul_of_nonneg_left hS2 (Real.sqrt_nonneg 3)
  have q2 : Real.sqrt 3 * (0.0697055686 : ℝ) ≤ (1.7320509 : ℝ) * (0.0697055686 : ℝ) := mul_le_mul_of_nonneg_right sqrt3_bounds.2 (by norm_num)
  have q3 : Real.sqrt 3 * (0.06970310154 : ℝ) ≤ Real.sqrt 3 * (Real.sin (((168063500774271450037 : ℝ) / 7568522241776500000000) * Real.pi)) := mul_le_mul_of_nonneg_left hS1 (Real.sqrt_nonneg 3)
  have q4 : (1.7320508 : ℝ) * (0.06970310154 : ℝ) ≤ Real.sqrt 3 * (0.06970310154 : ℝ) := mul_le_mul_of_nonneg_right sqrt3_bounds.1 (by norm_num)
  constructor
  · linarith only [hS1, hS2, hC1, hC2, q1, q2, q3, q4]
  · linarith only [hS1, hS2, hC1, hC2, q1, q2, q3, q4]

theorem sinb_MspMm_2007 :
    (0.2464838647 : ℝ) ≤ Real.sin (toRadians (nmSunAnomaly 2007 + nmMoonAnomaly 2007)) ∧ Real.sin (toRadians (nmSunAnomaly 2007 + nmMoonAnomaly 2007)) ≤ (0.24688600966 : ℝ) := by
  rw [sin_toRadians_decomp (nmSunAnomaly 2007 + nmMoonAnomaly 2007) 0 ((10809290498358768749797 : ℝ) / 136233400351977000000000) 2315
    (by simp only [nmSunAnomaly, nmMoonAnomaly, nmT]; push_cast; norm_num), sin_lat0, cos_lat0]
  have hp1 := Real.pi_gt_d20
  have hp2 := Real.pi_lt_d20
  have hu1 : (0.249266241115 : ℝ) ≤ ((10809290498358768749797 : ℝ) / 136233400351977000000000) * Real.pi := by linarith only [hp1, hp2]
  have hu2 : ((10809290498358768749797 : ℝ) / 136233400351977000000000) * Real.pi ≤ (0.249266241116 : ℝ) := by linarith only [hp1, hp2]
  have habs : |((10809290498358768749797 : ℝ) / 136233400351977000000000) * Real.pi| ≤ (0.249266241116 : ℝ) := abs_le.mpr ⟨by linarith only [hu1, hu2], by linarith only [hu1, hu2]⟩
  have hsin := sin_small_bounds (((10809290498358768749797 : ℝ) / 136233400351977000000000) * Real.pi) (0.249266241116 : ℝ) habs (by norm_num)
  have hcos := cos_small_bounds (((10809290498358768749797 : ℝ) / 136233400351977000000000) * Real.pi) (0.249266241116 : ℝ) habs (by norm_num)
  have hcube := cube_bounds_of_pos (((10809290498358768749797 : ℝ) / 136233400351977000000000) * Real.pi) (0.249266241115 : ℝ) (0.249266241116 : ℝ) hu1 hu2 (by norm_num)
  have hsqhi : (((10809290498358768749797 : ℝ) / 136233400351977000000000) * Real.pi) ^ 2 ≤ (0.249266241116 : ℝ) ^ 2 := sq_le_of_abs _ _ habs
  have hsqlo := sq_bounds_of_pos (((10809290498358768749797 : ℝ) / 136233400351977000000000) * Real.pi) (0.249266241115 : ℝ) (0.249266241116 : ℝ) hu1 hu2 (by norm_num)
  have hS1 : (0.2464838647 : ℝ) ≤ Real.sin (((10809290498358768749797 : ℝ) / 136233400351977000000000) * Real.pi) := by linarith only [hsin.1, hcube.2, hu1, hu2]
  have hS2 : Real.sin (((10809290498358768749797 : ℝ) / 136233400351977000000000) * Real.pi) ≤ (0.24688600966 : ℝ) := by linarith only [hsin.2, hcube.1, hu1, hu2]
  have hC1 : (0.96873209804 : ℝ) ≤ Real.cos (((10809290498358768749797 : ℝ) / 136233400351977000000000) * Real.pi) := by linarith only [hcos.1, hsqhi, hu1, hu2]
  have hC2 : Real.cos (((10809290498358768749797 : ℝ) / 136233400351977000000000) * Real.pi) ≤ (0.969134243 : ℝ) := by linarith only [hcos.2, hsqlo.1, hu1, hu2]
  constructor
  · linarith only [hS1, hS2, hC1, hC2]
  · linarith only [hS1, hS2, hC1, hC2]

theorem sinb_MsmMm_2007 :
    (0.12072153108 : ℝ) ≤ Real.sin (toRadians (nmSunAnomaly 2007 - nmMoonAnomaly 2007)) ∧ Real.sin (toRadians (nmSunAnomaly 2007 - nmMoonAnomaly 2007)) ≤ (0.12074388095 : ℝ) := by
  rw [sin_toRadians_decomp (nmSunAnomaly 2007 - nmMoonAnomaly 2007) 6 ((-5248318700628044739229 : ℝ) / 136233400351977000000000) (-1989)
    (by simp only [nmSunAnomaly, nmMoonAnomaly, nmT]; push_cast; norm_num), sin_lat6, cos_lat6]
  have hp1 := Real.pi_gt_d20
  have hp2 := Real.pi_lt_d20
  have hu1 : (-0.121028172468 : ℝ) ≤ ((-5248318700628044739229 : ℝ) / 136233400351977000000000) * Real.pi := by linarith only [hp1, hp2]
  have hu2 : ((-5248318700628044739229 : ℝ) / 136233400351977000000000) * Real.pi ≤ (-0.121028172467 : ℝ) := by linarith only [hp1, hp2]
  have habs : |((-5248318700628044739229 : ℝ) / 136233400351977000000000) * Real.pi| ≤ (0.121028172468 : ℝ) := abs_le.mpr ⟨by linarith only [hu1, hu2], by linarith only [hu1, hu2]⟩
  have hsin := sin_small_bounds (((-5248318700628044739229 : ℝ) / 136233400351977000000000) * Real.pi) (0.121028172468 : ℝ) habs (by norm_num)
  have hcos := cos_small_bounds (((-5248318700628044739229 : ℝ) / 136233400351977000000000) * Real.pi) (0.121028172468 : ℝ) habs (by norm_num)
  have hcube := cube_bounds_of_neg (((-5248318700628044739229 : ℝ) / 136233400351977000000000) * Real.pi) (-0.121028172468 : ℝ) (-0.121028172467 : ℝ) hu1 hu2 (by norm_num)
  have hsqhi : (((-5248318700628044739229 : ℝ) / 136233400351977000000000) * Real.pi) ^ 2 ≤ (0.121028172468 : ℝ) ^ 2 := sq_le_of_abs _ _ habs
  have hsqlo := sq_bounds_of_neg (((-5248318700628044739229 : ℝ) / 136233400351977000000000) * Real.pi) (-0.121028172468 : ℝ) (-0.121028172467 : ℝ) hu1 hu2 (by norm_num)
  have hS1 : (-0.12074388095 : ℝ) ≤ Real.sin (((-5248318700628044739229 : ℝ) / 136233400351977000000000) * Real.pi) := by linarith only [hsin.1, hcube.2, hu1, hu2]
  have hS2 : Real.sin (((-5248318700628044739229 : ℝ) / 136233400351977000000000) * Real.pi) ≤ (-0.12072153108 : ℝ) := by linarith only [hsin.2, hcube.1, hu1, hu2]
  have hC1 : (0.9926649158 : ℝ) ≤ Real.cos (((-5248318700628044739229 : ℝ) / 136233400351977000000000) * Real.pi) := by linarith only [hcos.1, hsqhi, hu1, hu2]
  have hC2 : Real.cos (((-5248318700628044739229 : ℝ) / 136233400351977000000000) * Real.pi) ≤ (0.99268726567 : ℝ) := by linarith only [hcos.2, hsqlo.1, hu1, hu2]
  constructor
  · linarith only [hS1, hS2, hC1, hC2]
  · linarith only [hS1, hS2, hC1, hC2]

theorem nmb_2007 : (2474289.228077599 : ℝ) ≤ new_moon_aa98 2007 ∧ new_moon_aa98 2007 ≤ (2474289.235391274 : ℝ) := by
  have hb_Ms := sinb_Ms_2007
  have hb_Mm := sinb_Mm_2007
  have hb_2Ms := sinb_2Ms_2007
  have hb_2Mm := sinb_2Mm_2007
  have hb_2F := sinb_2F_2007
  have hb_MspMm := sinb_MspMm_2007
  have hb_MsmMm := sinb_MsmMm_2007
  have s1 := Real.neg_one_le_sin (toRadians (nmMeanArg 2007))
  have s1b := Real.sin_le_one (toRadians (nmMeanArg 2007))
  have s2 := Real.neg_one_le_sin (3 * toRadians (nmMoonAnomaly 2007))
  have s2b := Real.sin_le_one (3 * toRadians (nmMoonAnomaly 2007))
  have s3 := Real.neg_one_le_sin (toRadians (2 * nmMoonArgLat 2007 + nmSunAnomaly 2007))
  have s3b := Real.sin_le_one (toRadians (2 * nmMoonArgLat 2007 + nmSunAnomaly 2007))
  have s4 := Real.neg_one_le_sin (toRadians (2 * nmMoonArgLat 2007 - nmSunAnomaly 2007))
  have s4b := Real.sin_le_one (toRadians (2 * nmMoonArgLat 2007 - nmSunAnomaly 2007))
  have s5 := Real.neg_one_le_sin (toRadians (2 * nmMoonArgLat 2007 + nmMoonAnomaly 2007))
  have s5b := Real.sin_le_one (toRadians (2 * nmMoonArgLat 2007 + nmMoonAnomaly 2007))
  have s6 := Real.neg_one_le_sin (toRadians (2 * nmMoonArgLat 2007 - nmMoonAnomaly 2007))
  have s6b := Real.sin_le_one (toRadians (2 * nmMoonArgLat 2007 - nmMoonAnomaly 2007))
  have s7 := Real.neg_one_le_sin (toRadians (2 * nmMoonAnomaly 2007 + nmSunAnomaly 2007))
  have s7b := Real.sin_le_one (toRadians (2 * nmMoonAnomaly 2007 + nmSunAnomaly 2007))
  have ht : nmT 2007 = ((40140 : ℝ) / 24737) := by unfold nmT; push_cast; norm_num
  simp only [new_moon_aa98]
  rw [ht, if_neg (show ¬ (((40140 : ℝ) / 24737) < (-11 : ℝ)) by norm_num)]
  constructor
  · linarith only [hb_Ms.1, hb_Ms.2, hb_Mm.1, hb_Mm.2, hb_2Ms.1, hb_2Ms.2, hb_2Mm.1, hb_2Mm.2, hb_2F.1, hb_2F.2, hb_MspMm.1, hb_MspMm.2, hb_MsmMm.1, hb_MsmMm.2, s1, s1b, s2, s2b, s3, s3b, s4, s4b, s5, s5b, s6, s6b, s7, s7b]
  · linarith only [hb_Ms.1, hb_Ms.2, hb_Mm.1, hb_Mm.2, hb_2Ms.1, hb_2Ms.2, hb_2Mm.1, hb_2Mm.2, hb_2F.1, hb_2F.2, hb_MspMm.1, hb_MspMm.2, hb_MsmMm.1, hb_MsmMm.2, s1, s1b, s2, s2b, s3, s3b, s4, s4b, s5, s5b, s6, s6b, s7, s7b]

theorem gnmd_2007_7 : get_new_moon_day 2007 7 = 2474290 := by
  have h := nmb_2007
  have he := get_new_moon_day_eval 2007 7 2474290 (by push_cast; linarith only [h.1])
    (by push_cast; linarith only [h.2])
  exact_mod_cast he

theorem fjd_2474289 : from_julian_day (2474289 : ℝ) = 2007 := by
  exact from_julian_day_eval (2474289 : ℝ) 2007 (by norm_num) (by push_cast; norm_num)
    (by push_cast; norm_num) (by norm_num [i32max])

/-! ## Window lemmas for the converter over 1900-2100 -/

theorem gnmd_le_of_lt (k : ℤ) (tz : ℝ) (n : ℤ)
    (h : new_moon_aa98 k + 0.5 + tz / 24 < ((n : ℤ) : ℝ) + 1) :
    get_new_moon_day k tz ≤ ((n : ℤ) : ℝ) := by
  unfold get_new_moon_day
  have h2 : ⌊new_moon_aa98 k + 0.5 + tz / 24⌋ < n + 1 :=
    Int.floor_lt.mpr (by push_cast; linarith)
  exact_mod_cast Int.lt_add_one_iff.mp h2

theorem fjd_window (jd : ℝ) (h1 : (2415020 : ℝ) ≤ jd) (h2 : jd ≤ 2488434) :
    0 ≤ from_julian_day jd ∧ from_julian_day jd ≤ 2485 ∧
    29.530588853 * ((from_julian_day jd : ℤ) : ℝ) ≤ jd - 2415021.076998695 + 1.08 ∧
    jd - 2415021.076998695 - 29.530588853 < 29.530588853 * ((from_julian_day jd : ℤ) : ℝ) ∧
    ((2415021 : ℝ) ≤ jd →
      29.530588853 * ((from_julian_day jd : ℤ) : ℝ) ≤ jd - 2415021.076998695 + 0.08) := by
  have hs : (0 : ℝ) < 29.530588853 := by norm_num
  have hxs : (jd - 2415021.076998695) / 29.530588853 * 29.530588853
      = jd - 2415021.076998695 := div_mul_cancel₀ _ (by norm_num)
  set x : ℝ := (jd - 2415021.076998695) / 29.530588853 with hxdef
  have hx1 : (-0.04 : ℝ) ≤ x := by rw [hxdef, le_div_iff₀ hs]; linarith
  have hx2 : x ≤ 2485.996 := by rw [hxdef, div_le_iff₀ hs]; linarith
  have hfd : from_julian_day jd = max i32min (min i32max (rtrunc x)) := rfl
  rcases le_or_lt 0 x with h0 | h0
  · have hrt : rtrunc x = ⌊x⌋ := by unfold rtrunc; rw [if_pos h0]
    have hf1 : 0 ≤ ⌊x⌋ := Int.le_floor.mpr (by exact_mod_cast h0)
    have hfle : ((⌊x⌋ : ℤ) : ℝ) ≤ x := Int.floor_le x
    have hf2 : ⌊x⌋ ≤ 2485 := by
      by_contra hc
      push_neg at hc
      have h3 : (2486 : ℝ) ≤ ((⌊x⌋ : ℤ) : ℝ) := by exact_mod_cast hc
      linarith
    have hk : from_julian_day jd = ⌊x⌋ := by
      rw [hfd, hrt]
      simp only [i32min, i32max]
      omega
    have hflt : x - 1 < ((⌊x⌋ : ℤ) : ℝ) := Int.sub_one_lt_floor x
    have hm1 : 29.530588853 * ((⌊x⌋ : ℤ) : ℝ) ≤ 29.530588853 * x :=
      mul_le_mul_of_nonneg_left hfle (by norm_num)
    have hm2 : 29.530588853 * (x - 1) < 29.530588853 * ((⌊x⌋ : ℤ) : ℝ) :=
      mul_lt_mul_of_pos_left hflt hs
    rw [hk]
    refine ⟨hf1, hf2, by linarith, by linarith, fun _ => by linarith⟩
  · have hrt : rtrunc x = ⌈x⌉ := by unfold rtrunc; rw [if_neg (not_le.mpr h0)]
    have hc1 : ⌈x⌉ ≤ 0 := Int.ceil_le.mpr (by exact_mod_cast h0.le)
    have hc2 : -1 < ⌈x⌉ := Int.lt_ceil.mpr (by push_cast; linarith)
    have hc0 : ⌈x⌉ = 0 := by omega
    have hk : from_julian_day jd = 0 := by
      rw [hfd, hrt, hc0]
      simp only [i32min, i32max]
      omega
    have hneg : x * 29.530588853 < 0 := mul_neg_of_neg_of_pos h0 hs
    rw [hk]
    refine ⟨le_refl 0, by norm_num, ?_, ?_, ?_⟩
    · push_cast; linarith
    · push_cast; linarith
    · intro h4; push_cast; linarith

theorem monthStart_window (n : ℤ) (tz : ℝ) (h1 : 2415021 ≤ n) (h2 : n ≤ 2488434)
    (htz1 : (-12 : ℝ) ≤ tz) (htz2 : tz ≤ 10) :
    ((n : ℤ) : ℝ) - 29 ≤ monthStartOf ((n : ℤ) : ℝ) tz ∧
      monthStartOf ((n : ℤ) : ℝ) tz ≤ ((n : ℤ) : ℝ) + 1 := by
  have hn1 : (2415021 : ℝ) ≤ ((n : ℤ) : ℝ) := by exact_mod_cast h1
  have hn2 : ((n : ℤ) : ℝ) ≤ 2488434 := by exact_mod_cast h2
  obtain ⟨k, hkdef⟩ : ∃ m : ℤ, from_julian_day ((n : ℤ) : ℝ) = m := ⟨_, rfl⟩
  obtain ⟨hk0, hk2485, hkU1, hkL, hkT⟩ := fjd_window ((n : ℤ) : ℝ) (by linarith) hn2
  rw [hkdef] at hk0 hk2485 hkU1 hkL hkT
  have hkU := hkT hn1
  have hk0R : (0 : ℝ) ≤ ((k : ℤ) : ℝ) := by exact_mod_cast hk0
  have hk2485R : ((k : ℤ) : ℝ) ≤ 2485 := by exact_mod_cast hk2485
  have hdks : 29.53058868 * ((k : ℤ) : ℝ) ≤ 29.530588853 * ((k : ℤ) : ℝ) :=
    mul_le_mul_of_nonneg_right (by norm_num) hk0R
  have hdks2 : 29.530588853 * ((k : ℤ) : ℝ) ≤ 29.53058868 * ((k : ℤ) : ℝ) + 0.00044 := by
    nlinarith [hk2485R]
  have hsl := new_moon_slack k (by omega) (by omega)
  have hsl1 := new_moon_slack (k + 1) (by omega) (by omega)
  push_cast at hsl1
  have hsp := nm_spacing k (by omega) (by omega)
  rw [abs_le] at hsp
  simp only [monthStartOf]
  rw [hkdef]
  split_ifs with hb
  · have hb2 : n < ⌊new_moon_aa98 (k + 1) + 0.5 + tz / 24⌋ := by
      unfold get_new_moon_day at hb
      exact_mod_cast hb
    have hb3 : (n : ℝ) + 1 ≤ (⌊new_moon_aa98 (k + 1) + 0.5 + tz / 24⌋ : ℝ) := by
      exact_mod_cast hb2
    have hb4 : (n : ℝ) + 1 ≤ new_moon_aa98 (k + 1) + 0.5 + tz / 24 :=
      le_trans hb3 (Int.floor_le _)
    constructor
    · have h7 := get_new_moon_day_ge k 7 (n - 29)
        (by push_cast; linarith [hb4, hsp.1, htz2])
      push_cast at h7 ⊢
      linarith
    · have h8 := gnmd_le_of_lt k 7 (n + 1)
        (by push_cast; linarith [hsl.2, hkU, hdks])
      push_cast at h8 ⊢
      linarith
  · push_neg at hb
    constructor
    · have h7 := get_new_moon_day_ge (k + 1) tz (n - 29)
        (by push_cast; linarith [hsl1.1, hkL, hdks2, htz1])
      push_cast at h7 ⊢
      linarith
    · linarith [hb]

theorem m11_gnmd_le (y : ℤ) (tz : ℝ) (h1 : 1899 ≤ y) (h2 : y ≤ 2100)
    (htz2 : tz ≤ 10) :
    get_lunar_month_11 y tz ≤ ((jdnDec31 y : ℤ) : ℝ) + 2 := by
  obtain ⟨hd1, hd2⟩ := jdnDec31_window y h1 h2
  have hD1 : (2415020 : ℝ) ≤ ((jdnDec31 y : ℤ) : ℝ) := by exact_mod_cast hd1
  have hD2 : ((jdnDec31 y : ℤ) : ℝ) ≤ 2488434 := by exact_mod_cast hd2
  obtain ⟨k, hkdef⟩ : ∃ m : ℤ, from_julian_day ((jdnDec31 y : ℤ) : ℝ) = m := ⟨_, rfl⟩
  obtain ⟨hk0, hk2485, hkU1, hkL, hkT⟩ := fjd_window ((jdnDec31 y : ℤ) : ℝ) hD1 hD2
  rw [hkdef] at hk0 hk2485 hkU1 hkL hkT
  have hk0R : (0 : ℝ) ≤ ((k : ℤ) : ℝ) := by exact_mod_cast hk0
  have hdks : 29.53058868 * ((k : ℤ) : ℝ) ≤ 29.530588853 * ((k : ℤ) : ℝ) :=
    mul_le_mul_of_nonneg_right (by norm_num) hk0R
  have hsl := new_moon_slack k (by omega) (by omega)
  have hslm := new_moon_slack (k - 1) (by omega) (by omega)
  push_cast at hslm
  have hb1 : get_new_moon_day k tz ≤ ((jdnDec31 y + 2 : ℤ) : ℝ) := by
    apply gnmd_le_of_lt
    push_cast
    linarith [hsl.2, hkU1, hdks, htz2]
  have hb2 : get_new_moon_day (k - 1) tz ≤ ((jdnDec31 y + 2 : ℤ) : ℝ) := by
    apply gnmd_le_of_lt
    push_cast
    linarith [hslm.2, hkU1, hdks, htz2]
  simp only [get_lunar_month_11]
  rw [hkdef]
  push_cast at hb1 hb2 ⊢
  split_ifs
  · linarith [hb2]
  · linarith [hb1]

theorem m11_int (y : ℤ) (tz : ℝ) :
    ∃ m : ℤ, get_lunar_month_11 y tz = ((m : ℤ) : ℝ) := by
  simp only [get_lunar_month_11, get_new_moon_day]
  split_ifs
  · exact ⟨_, rfl⟩
  · exact ⟨_, rfl⟩

theorem castI32_small (x : ℝ) (h1 : (-2 : ℝ) < x) (h2 : x < 14) :
    -1 ≤ castI32 x ∧ castI32 x ≤ 13 := by
  unfold castI32 rtrunc
  rcases le_or_lt 0 x with h0 | h0
  · rw [if_pos h0]
    have hf1 : 0 ≤ ⌊x⌋ := Int.le_floor.mpr (by exact_mod_cast h0)
    have hf2 : ⌊x⌋ < 14 := Int.floor_lt.mpr (by exact_mod_cast h2)
    simp only [i32min, i32max]
    omega
  · rw [if_neg (not_le.mpr h0)]
    have hc1 : ⌈x⌉ ≤ 0 := Int.ceil_le.mpr (by exact_mod_cast h0.le)
    have hc2 : -2 < ⌈x⌉ := Int.lt_ceil.mpr (by exact_mod_cast h1)
    simp only [i32min, i32max]
    omega

/-! ## Claim C2: output ranges -/

theorem fm11_2024_7 : firstMonth11Of 2024 (2460439 : ℝ) 7 = 2460292 := by
  simp only [firstMonth11Of]
  rw [month11_2024_7, if_pos (show (2460646 : ℝ) ≥ 2460439 by norm_num),
    show (2024 : ℤ) - 1 = 2023 by norm_num]
  exact month11_2023_7

/-- LichTaC2: for every valid Gregorian date with year between 1900 and
2100 and every timezone offset between -12 and +10 hours, the lunar day
returned by `convert_date_to_lichta` lies in `0..=30` (the value `0`, one
below the claimed range, is attained); if moreover the selected month
start lies at most 405 days after the anchoring eleventh-month new moon,
the lunar month lies in `1..=12`. -/
theorem LichTaC2 (date : Date) (tz : ℝ) (hv : date.validG)
    (hy1 : 1900 ≤ date.year) (hy2 : date.year ≤ 2100)
    (htz1 : (-12 : ℝ) ≤ tz) (htz2 : tz ≤ 10) :
    (0 ≤ (convert_date_to_lichta date tz).1 ∧ (convert_date_to_lichta date tz).1 ≤ 30) ∧
    (monthStartOf ((date.julianDay : ℤ) : ℝ) tz
        - firstMonth11Of date.year (monthStartOf ((date.julianDay : ℤ) : ℝ) tz) tz ≤ 405 →
      1 ≤ (convert_date_to_lichta date tz).2.1 ∧ (convert_date_to_lichta date tz).2.1 ≤ 12) := by
  obtain ⟨hv1, hv2⟩ := hv
  have hj1 : 2415021 ≤ date.julianDay := by
    have h3 := jdnDec31_window (date.year - 1) (by omega) (by omega)
    omega
  have hj2 : date.julianDay ≤ 2488434 := by
    have h3 := jdnDec31_window date.year (by omega) (by omega)
    omega
  have hwin := monthStart_window date.julianDay tz hj1 hj2 htz1 htz2
  obtain ⟨m, hm⟩ := monthStartOf_int ((date.julianDay : ℤ) : ℝ) tz
  rw [hm] at hwin
  have hm1 : date.julianDay - 29 ≤ m := by
    have h3 : ((date.julianDay - 29 : ℤ) : ℝ) ≤ ((m : ℤ) : ℝ) := by
      push_cast
      linarith [hwin.1]
    exact_mod_cast h3
  have hm2 : m ≤ date.julianDay + 1 := by
    have h3 : ((m : ℤ) : ℝ) ≤ ((date.julianDay + 1 : ℤ) : ℝ) := by
      push_cast
      linarith [hwin.2]
    exact_mod_cast h3
  have hday : (convert_date_to_lichta date tz).1 = date.julianDay - m + 1 := by
    rw [convert_fst, hm, show ((date.julianDay : ℤ) : ℝ) - ((m : ℤ) : ℝ) + 1
        = ((date.julianDay - m + 1 : ℤ) : ℝ) by push_cast; ring]
    exact castI32_intCast _ (by simp only [i32min]; omega) (by simp only [i32max]; omega)
  constructor
  · rw [hday]
    omega
  · intro hfd
    rw [hm] at hfd
    have hfmge : (-30 : ℝ) ≤ ((m : ℤ) : ℝ) - firstMonth11Of date.year ((m : ℤ) : ℝ) tz := by
      simp only [firstMonth11Of]
      split_ifs with hc
      · have hup := m11_gnmd_le (date.year - 1) tz (by omega) (by omega) htz2
        have hDb : ((jdnDec31 (date.year - 1) : ℤ) : ℝ) ≤ ((date.julianDay : ℤ) : ℝ) - 1 := by
          have h4 : jdnDec31 (date.year - 1) ≤ date.julianDay - 1 := by omega
          have h5 : ((jdnDec31 (date.year - 1) : ℤ) : ℝ) ≤ ((date.julianDay - 1 : ℤ) : ℝ) := by
            exact_mod_cast h4
          push_cast at h5
          linarith
        have hmr : ((date.julianDay : ℤ) : ℝ) - 29 ≤ ((m : ℤ) : ℝ) := by
          have h5 : ((date.julianDay - 29 : ℤ) : ℝ) ≤ ((m : ℤ) : ℝ) := by exact_mod_cast hm1
          push_cast at h5
          linarith
        push_cast at hup ⊢
        linarith
      · push_neg at hc
        obtain ⟨q, hq⟩ := m11_int date.year tz
        rw [hq] at hc ⊢
        have hqm : q < m := by exact_mod_cast hc
        have h5 : ((q : ℤ) : ℝ) ≤ ((m : ℤ) : ℝ) - 1 := by
          have h6 : ((q : ℤ) : ℝ) ≤ ((m - 1 : ℤ) : ℝ) := by exact_mod_cast (by omega : q ≤ m - 1)
          push_cast at h6
          linarith
        linarith
    have hmd : -1 ≤ calculate_month_between_julian_days ((m : ℤ) : ℝ)
          (firstMonth11Of date.year ((m : ℤ) : ℝ) tz) ∧
        calculate_month_between_julian_days ((m : ℤ) : ℝ)
          (firstMonth11Of date.year ((m : ℤ) : ℝ) tz) ≤ 13 := by
      unfold calculate_month_between_julian_days
      apply castI32_small
      · rw [lt_div_iff₀ (by norm_num : (0 : ℝ) < 29)]
        linarith
      · rw [div_lt_iff₀ (by norm_num : (0 : ℝ) < 29)]
        linarith
    have hmonth := convert_snd date tz ((m : ℤ) : ℝ) _ _ _ _ hm rfl rfl rfl rfl
    refine ⟨?_, ?_⟩ <;> rw [hmonth] <;> split_ifs <;> omega

/-- LichTaC2counter: the unconditional range property fails already at
the canonical timezone 7: at the valid date Gregorian 2062-04-09 (Julian
day 2474289) the selected month start is the very next day, so the
reported lunar day is `0`, outside `1..=30`. -/
theorem LichTaC2counter :
    ¬ (∀ (date : Date) (tz : ℝ), date.validG → 1900 ≤ date.year → date.year ≤ 2100 →
        (1 ≤ (convert_date_to_lichta date tz).1 ∧ (convert_date_to_lichta date tz).1 ≤ 30 ∧
         1 ≤ (convert_date_to_lichta date tz).2.1 ∧ (convert_date_to_lichta date tz).2.1 ≤ 12)) := by
  intro h
  have h2 := h ⟨2062, 2474289⟩ 7 (by decide) (by norm_num) (by norm_num)
  have hms : monthStartOf (((⟨2062, 2474289⟩ : Date).julianDay : ℤ) : ℝ) 7 = 2474290 := by
    show monthStartOf ((2474289 : ℤ) : ℝ) 7 = 2474290
    simp only [monthStartOf]
    push_cast
    rw [fjd_2474289, show (2007 : ℤ) + 1 = 2008 by norm_num]
    have hsl := new_moon_slack 2008 (by norm_num) (by norm_num)
    push_cast at hsl
    have hge : ((2474318 : ℤ) : ℝ) ≤ get_new_moon_day 2008 7 :=
      get_new_moon_day_ge 2008 7 2474318 (by push_cast; linarith [hsl.1])
    rw [if_pos (show get_new_moon_day 2008 7 > (2474289 : ℝ) by push_cast at hge; linarith)]
    exact gnmd_2007_7
  have hday : (convert_date_to_lichta ⟨2062, 2474289⟩ 7).1 = 0 := by
    rw [convert_fst, hms, show (((⟨2062, 2474289⟩ : Date).julianDay : ℤ) : ℝ) - 2474290 + 1
        = ((0 : ℤ) : ℝ) by push_cast; norm_num]
    exact castI32_intCast 0 (by norm_num [i32min]) (by norm_num [i32max])
  have h3 := h2.1
  rw [hday] at h3
  exact absurd h3 (by norm_num)

/-- LichTaC2witness: the amended range property applied at Gregorian
2024-05-24 (Julian day 2460455), timezone 7, with the 405-day
anchor-distance premise discharged by computation. -/
theorem LichTaC2witness :
    (0 ≤ (convert_date_to_lichta ⟨2024, 2460455⟩ 7).1 ∧
      (convert_date_to_lichta ⟨2024, 2460455⟩ 7).1 ≤ 30) ∧
    (1 ≤ (convert_date_to_lichta ⟨2024, 2460455⟩ 7).2.1 ∧
      (convert_date_to_lichta ⟨2024, 2460455⟩ 7).2.1 ≤ 12) := by
  have h := LichTaC2 ⟨2024, 2460455⟩ 7 (by decide) (by norm_num) (by norm_num)
    (by norm_num) (by norm_num)
  refine ⟨h.1, h.2 ?_⟩
  have hms : monthStartOf (((⟨2024, 2460455⟩ : Date).julianDay : ℤ) : ℝ) 7 = 2460439 := by
    show monthStartOf ((2460455 : ℤ) : ℝ) 7 = 2460439
    push_cast
    exact ms_2460455_7
  rw [hms, show (⟨2024, 2460455⟩ : Date).year = 2024 from rfl, fm11_2024_7]
  norm_num

/-! ## Claim C9: numeric vectors of the astronomical kernels -/

/-- LichTaC9: the two astronomical kernels reproduce the documented
numeric vectors within the stated tolerance: the solar longitude for
Julian day 2451520 at timezone 7 is 254.13250183229925, and the
fractional new-moon Julian day for month index 1533 is
2460291.49468915, both to within 1e-9. -/
theorem LichTaC9 :
    |get_sun_longitude 2451520 7 - 254.13250183229925| ≤ 0.000000001 ∧
    |new_moon_aa98 1533 - 2460291.49468915| ≤ 0.000000001 := by
  have hL := tlb9_2451520
  have hN := nmb9_1533
  constructor
  · unfold get_sun_longitude sun_longitude_aa98 normalize_longitude rustFmod
    have hrt : rtrunc (trueLongitudeOf ((2451520 : ℝ) - 0.5 - 7 / 24) / 360) = 0 := by
      unfold rtrunc
      rw [if_pos (div_nonneg (by linarith [hL.1]) (by norm_num))]
      exact Int.floor_eq_iff.mpr ⟨by push_cast; linarith [hL.1], by push_cast; linarith [hL.2]⟩
    rw [hrt]
    rw [abs_le]
    constructor
    · push_cast; linarith [hL.1]
    · push_cast; linarith [hL.2]
  · rw [abs_le]
    constructor
    · linarith [hN.1]
    · linarith [hN.2]

/-! ## Claim C1: the end-to-end vectors -/

/-- LichTaC1: the converter reproduces both documented end-to-end
vectors: 2024-05-24 maps to lunar 17/4/2024 with no leap flag, and
2022-05-24 maps to lunar 24/4/2022 with no leap flag, both at
timezone 7. -/
theorem LichTaC1 :
    convert_date_to_lichta (mkDate 2024 5 24) 7 = (17, 4, 2024, 0) ∧
    convert_date_to_lichta (mkDate 2022 5 24) 7 = (24, 4, 2022, 0) :=
  ⟨convert_2024_05_24, convert_2022_05_24⟩

end LichTa
